import Mathlib

/-!
UVC gadget controller (gst uvcsink): embedding and checked properties.

Shallow embedding of `uvc_impl.c`, `uvc_impl_gstreamer.c` and `uvc.c`.

Conventions of the embedding
* C `int` values are `Int`; unsigned machine integers are `Nat`, reduced
  modulo `2 ^ w` wherever the C code narrows or can wrap.  The 64-bit event
  counters (`data_no`, `qbuf_no`, `sink_data_no`, ...) are plain `Nat`: they
  grow by one per frame and cannot wrap in any feasible run.
* Arrays indexed by the endpoint number (`[UVC_DEV_MAX_NUM]`) are functions
  `Nat → _`, updated with `Function.update`.
* A function returns `none` when the C program does not return from it: a
  failed `assert`, a null dereference or an out-of-bounds read.
* The kernel is an input: the status, `errno` and output fields of every
  ioctl are arguments of the function that issues it.  The ioctls issued and
  the callbacks invoked are appended to the ghost field `calls`.
-/

namespace Uvc

/-! ## Constants -/

/-- Value of `EL2HLT` in `errno.h`. -/
def EL2HLT : Int := 51
/-- Value of `EAGAIN` in `errno.h`. -/
def EAGAIN : Int := 11
/-- Value of `EBUSY` in `errno.h`. -/
def EBUSY : Int := 16

def UVC_DEV_MAX_NUM : Nat := 32

def CONTROL_INTERFACE : Nat := 0
def STREAMING_INTERFACE : Nat := 1
def INTERFACE_NUM : Nat := 2
def ENTITY_INPUT_TERMINAL : Nat := 1
def ENTITY_PROCESSING_UNIT : Nat := 2

def ERR_CODE_CTRL_NO_ERROR : Int := 0x00
def ERR_CODE_CTRL_INVALID_UNIT : Int := 0x05
def ERR_CODE_CTRL_INVALID_CONTROL : Int := 0x06
def ERR_CODE_CTRL_INVALID_REQUEST : Int := 0x07

def GET_INFO_wLength : Int := 1
def GET_INFO_SUPPORT_GET : Nat := 1
def GET_INFO_SUPPORT_SET : Nat := 2
def GET_INFO_DEVICE_CONTROLED : Nat := 4

def FRAME_INTERVAL_30fps : Nat := 333333
def FRAME_INTERVAL_25fps : Nat := 400000
def FRAME_INTERVAL_20fps : Nat := 500000
def FRAME_INTERVAL_15fps : Nat := 666666
def FRAME_INTERVAL_10fps : Nat := 1000000
def FRAME_INTERVAL_5fps : Nat := 5000000
def FRAME_INTERVAL_1fps : Nat := 10000000

/-! Request codes, selectors and masks of `linux/usb/video.h`, `linux/usb/ch9.h`
and `linux/videodev2.h`. -/

def UVC_SET_CUR : Nat := 0x01
def UVC_GET_CUR : Nat := 0x81
def UVC_GET_MIN : Nat := 0x82
def UVC_GET_MAX : Nat := 0x83
def UVC_GET_RES : Nat := 0x84
def UVC_GET_LEN : Nat := 0x85
def UVC_GET_INFO : Nat := 0x86
def UVC_GET_DEF : Nat := 0x87

def UVC_VC_REQUEST_ERROR_CODE_CONTROL : Nat := 0x02
def UVC_CT_AE_MODE_CONTROL : Nat := 0x02
def UVC_PU_BRIGHTNESS_CONTROL : Nat := 0x02
def UVC_VS_PROBE_CONTROL : Nat := 0x01
def UVC_VS_COMMIT_CONTROL : Nat := 0x02
def UVC_VS_STREAM_ERROR_CODE_CONTROL : Nat := 0x06

def USB_RECIP_MASK : Nat := 0x1f
def USB_RECIP_INTERFACE : Nat := 0x01
def USB_TYPE_MASK : Nat := 0x60
def USB_TYPE_STANDARD : Nat := 0x00
def USB_TYPE_CLASS : Nat := 0x20

/-- Four character code `v4l2_fourcc(a, b, c, d)`. -/
def v4l2_fourcc (a b c d : Char) : Nat :=
  a.toNat + 256 * b.toNat + 65536 * c.toNat + 16777216 * d.toNat

def V4L2_PIX_FMT_NV12 : Nat := v4l2_fourcc 'N' 'V' '1' '2'
def V4L2_PIX_FMT_YUYV : Nat := v4l2_fourcc 'Y' 'U' 'Y' 'V'
def V4L2_PIX_FMT_MJPEG : Nat := v4l2_fourcc 'M' 'J' 'P' 'G'

def V4L2_BUF_TYPE_VIDEO_OUTPUT : Nat := 2
def V4L2_FIELD_NONE : Nat := 1
def V4L2_MEMORY_MMAP : Nat := 1
def V4L2_BUF_FLAG_QUEUED : Nat := 0x2
def V4L2_BUF_FLAG_DONE : Nat := 0x4

def TASK_FAILED : Nat := 0
def TASK_STOPPED : Nat := 1
def TASK_STOPPING : Nat := 2
def TASK_STARTED : Nat := 3
def TASK_STARTING : Nat := 4

/-! ## Data model -/

/-- The `struct uvc_streaming_control` of `linux/usb/video.h` (packed, 34 bytes). -/
@[ext]
structure uvc_streaming_control where
  bmHint : Nat
  bFormatIndex : Nat
  bFrameIndex : Nat
  dwFrameInterval : Nat
  wKeyFrameRate : Nat
  wPFrameRate : Nat
  wCompQuality : Nat
  wCompWindowSize : Nat
  wDelay : Nat
  dwMaxVideoFrameSize : Nat
  dwMaxPayloadTransferSize : Nat
  dwClockFrequency : Nat
  bmFramingInfo : Nat
  bPreferedVersion : Nat
  bMinVersion : Nat
  bMaxVersion : Nat
deriving DecidableEq, Repr

/-- The result of `memset(ctrl, 0, sizeof(*ctrl))`. -/
def uvc_streaming_control.zero : uvc_streaming_control :=
  ⟨0, 0, 0, 0, 0, 0, 0, 0, 0, 0, 0, 0, 0, 0, 0, 0⟩

/-- The value of `sizeof(struct uvc_streaming_control)`. -/
def sizeof_streaming_control : Nat := 34

def le16 (v : Nat) : List Nat := [v % 256, v / 256 % 256]

def le32 (v : Nat) : List Nat :=
  [v % 256, v / 256 % 256, v / 65536 % 256, v / 16777216 % 256]

/-- The 34 bytes of a streaming control in memory (little-endian host). -/
def uvc_streaming_control.bytes (c : uvc_streaming_control) : List Nat :=
  le16 c.bmHint ++ [c.bFormatIndex % 256, c.bFrameIndex % 256]
    ++ le32 c.dwFrameInterval
    ++ le16 c.wKeyFrameRate ++ le16 c.wPFrameRate ++ le16 c.wCompQuality
    ++ le16 c.wCompWindowSize ++ le16 c.wDelay
    ++ le32 c.dwMaxVideoFrameSize ++ le32 c.dwMaxPayloadTransferSize
    ++ le32 c.dwClockFrequency
    ++ [c.bmFramingInfo % 256, c.bPreferedVersion % 256, c.bMinVersion % 256,
        c.bMaxVersion % 256]

def rd8 (l : List Nat) (off : Nat) : Nat := l.getD off 0 % 256

def rd16 (l : List Nat) (off : Nat) : Nat := rd8 l off + 256 * rd8 l (off + 1)

def rd32 (l : List Nat) (off : Nat) : Nat :=
  rd8 l off + 256 * rd8 l (off + 1) + 65536 * rd8 l (off + 2) + 16777216 * rd8 l (off + 3)

/-- The streaming control whose memory holds the bytes `l`, zero beyond the
end of `l`: what `memset` followed by `memcpy(&ctrl, l, len)` leaves. -/
def uvc_streaming_control.of_bytes (l : List Nat) : uvc_streaming_control where
  bmHint := rd16 l 0
  bFormatIndex := rd8 l 2
  bFrameIndex := rd8 l 3
  dwFrameInterval := rd32 l 4
  wKeyFrameRate := rd16 l 8
  wPFrameRate := rd16 l 10
  wCompQuality := rd16 l 12
  wCompWindowSize := rd16 l 14
  wDelay := rd16 l 16
  dwMaxVideoFrameSize := rd32 l 18
  dwMaxPayloadTransferSize := rd32 l 22
  dwClockFrequency := rd32 l 26
  bmFramingInfo := rd8 l 30
  bPreferedVersion := rd8 l 31
  bMinVersion := rd8 l 32
  bMaxVersion := rd8 l 33

/-- The `struct uvc_request_data` of `linux/usb/g_uvc.h`: `length` and `data[60]`. -/
structure uvc_request_data where
  length : Int
  data : List Nat
deriving DecidableEq, Repr

/-- Sixty zero bytes: `data` after `memset(&resp, 0, sizeof(resp))`. -/
def zero_data : List Nat := List.replicate 60 0

/-- The `data[60]` array after a streaming control was written at its start. -/
def ctrl_data (c : uvc_streaming_control) : List Nat :=
  c.bytes ++ List.replicate 26 0

/-- The `struct usb_ctrlrequest` of `linux/usb/ch9.h`. -/
structure usb_ctrlrequest where
  bRequestType : Nat
  bRequest : Nat
  wValue : Nat
  wIndex : Nat
  wLength : Nat
deriving DecidableEq, Repr

structure uvc_frame_intervals_t where
  num : Int
  dwFrameInterval : List Nat
deriving DecidableEq, Repr

structure uvc_frame_info_t where
  wHeight : Nat
  wWidth : Nat
  intervals : uvc_frame_intervals_t
deriving DecidableEq, Repr

/-- A format; `frame` lists the entries before the terminating `NULL`. -/
structure uvc_format_info_t where
  name : String
  fcc : Nat
  frame : List uvc_frame_info_t
deriving DecidableEq, Repr

/-- The `dflt` and `curr` members of `uvc_format_config_t`. -/
structure uvc_selection where
  format_no : Int
  frame_no : Int
  interval_no : Int
deriving DecidableEq, Repr

/-- The format catalog; `format` lists the entries before the terminating `NULL`. -/
structure uvc_format_config_t where
  isoc_max_packet_size : Nat
  dflt : uvc_selection
  curr : uvc_selection
  format : List uvc_format_info_t
deriving DecidableEq, Repr

def frame_intervals : uvc_frame_intervals_t where
  num := 4
  dwFrameInterval :=
    [FRAME_INTERVAL_1fps, FRAME_INTERVAL_5fps, FRAME_INTERVAL_10fps, FRAME_INTERVAL_15fps,
     FRAME_INTERVAL_20fps, FRAME_INTERVAL_25fps, FRAME_INTERVAL_30fps]

def nv12_frames : List uvc_frame_info_t :=
  [{ wHeight := 1080, wWidth := 1920, intervals := frame_intervals }]

/-- The entries of `nv12_format.frame` before `NULL`: `&nv12_frames[0]`. -/
def nv12_format : uvc_format_info_t :=
  { name := "NV12", fcc := V4L2_PIX_FMT_NV12, frame := nv12_frames }

def yuyv_frames : List uvc_frame_info_t :=
  [{ wHeight := 1080, wWidth := 1920, intervals := frame_intervals }]

def yuyv_format : uvc_format_info_t :=
  { name := "YUYV", fcc := V4L2_PIX_FMT_YUYV, frame := yuyv_frames }

def mjpeg_frames : List uvc_frame_info_t :=
  [{ wHeight := 1080, wWidth := 1920, intervals := frame_intervals }]

def mjpeg_format : uvc_format_info_t :=
  { name := "MJPEG", fcc := V4L2_PIX_FMT_MJPEG, frame := mjpeg_frames }

/-- The static initialiser of the global `format_config`. -/
def format_config : uvc_format_config_t where
  isoc_max_packet_size := 1024
  dflt := { format_no := 0, frame_no := 0, interval_no := 0 }
  curr := { format_no := -1, frame_no := -1, interval_no := -1 }
  format := [nv12_format, yuyv_format, mjpeg_format]

/-- The `struct buffer_handle` of `v4l2.h`: mapped address (0 for null) and size. -/
structure buffer_handle where
  begin : Nat
  size : Nat
deriving DecidableEq, Repr

/-- The `struct uvc_device_impl_buf`; `handle` is `none` for a null pointer. -/
structure uvc_device_impl_buf where
  handle : Option (List buffer_handle)
  num : Int
  curr_no : Nat
  type : Nat
deriving DecidableEq, Repr

/-- Target of the pointer `video_streaming[no].curr` when it is not null. -/
inductive streaming_ref where
  | probe
  | commit
deriving DecidableEq, Repr

/-- The `struct uvc_device_impl_video_streaming`; `expected_len` is `data.expected_len`. -/
structure uvc_device_impl_video_streaming where
  probe : uvc_streaming_control
  commit : uvc_streaming_control
  curr : Option streaming_ref
  expected_len : Int
deriving DecidableEq, Repr

/-- Read through a non-null `curr` pointer. -/
def uvc_device_impl_video_streaming.deref (vs : uvc_device_impl_video_streaming) :
    streaming_ref → uvc_streaming_control
  | .probe => vs.probe
  | .commit => vs.commit

/-- Write through a non-null `curr` pointer. -/
def uvc_device_impl_video_streaming.store (vs : uvc_device_impl_video_streaming)
    (p : streaming_ref) (c : uvc_streaming_control) : uvc_device_impl_video_streaming :=
  match p with
  | .probe => { vs with probe := c }
  | .commit => { vs with commit := c }

structure uvc_device_impl_stats where
  qbuf_no : Nat
  dqbuf_no : Nat
  data_drop : Nat
  data_no : Nat
deriving DecidableEq, Repr

/-- The `struct uvc_device_impl`; `config` is the object the `config` pointer
refers to, the global `format_config`. -/
structure uvc_device_impl where
  buf : Nat → uvc_device_impl_buf
  config : uvc_format_config_t
  video_streaming : Nat → uvc_device_impl_video_streaming
  stats : Nat → uvc_device_impl_stats
  error_code_ctrl : Int

structure uvc_device_stats where
  sink_data_no : Nat
  sink_busy_no : Nat
  sink_drop_no : Nat
deriving DecidableEq, Repr

/-- The `struct v4l2_format` fields that `set_format` programs. -/
structure v4l2_format where
  type : Nat
  width : Nat
  height : Nat
  pixelformat : Nat
  field : Nat
  sizeimage : Nat
deriving DecidableEq, Repr

/-- The `struct v4l2_buffer` fields the data plane uses. -/
structure v4l2_buffer where
  index : Nat
  type : Nat
  memory : Nat
  flags : Nat
  bytesused : Nat
  tv_sec : Nat
  tv_usec : Nat
deriving DecidableEq, Repr

/-- The producer frame behind `uvc_user_data_t.data`, a `GstBuffer`: its byte
size, its presentation timestamp in nanoseconds, and whether
`gst_buffer_map` maps it for reading. -/
structure gst_buffer where
  size : Nat
  pts : Nat
  mappable : Bool := true
deriving DecidableEq, Repr

/-- The `uvc_user_data_t`; `data` is `none` for a null pointer. -/
structure uvc_user_data_t where
  data : Option gst_buffer
deriving DecidableEq, Repr

/-- Ghost record of what the controller asked of its environment. -/
inductive call where
  | SEND_RESPONSE (no : Nat) (data : uvc_request_data)
  | S_FMT (no : Nat) (fmt : v4l2_format)
  | QUERYBUF (no : Nat) (index : Nat)
  | DQBUF (no : Nat) (index : Nat)
  | QBUF (no : Nat) (buf : v4l2_buffer)
  | drop_data (no : Nat) (user_data : uvc_user_data_t)
deriving DecidableEq, Repr

/-- What the file system answers when a frame is dumped under `dbgpath`:
whether `fopen` opens the file and whether `fwrite` writes every byte. -/
structure debug_files where
  fopen : Bool := true
  fwrite : Bool := true
deriving DecidableEq, Repr

/-- The `uvc_device_t`: `sys_fd no` is `sys[no].fd`, `task_state` is
`task.state`, `priv` the object behind the `priv` pointer, `calls` the ghost
record of ioctls and callbacks, `dbgfiles` the ghost state of the file
system under `dbgpath`. -/
structure uvc_device_t where
  sys_fd : Nat → Int
  dbgpath : Option String
  task_state : Nat
  stats : Nat → uvc_device_stats
  priv : uvc_device_impl
  calls : List call
  dbgfiles : debug_files := {}

/-- Status and `errno` of one ioctl, chosen by the kernel.  `index` is the
buffer index a successful `VIDIOC_DQBUF` writes into its `v4l2_buffer`
argument; no other ioctl reads it. -/
structure ioctl_result where
  status : Int
  errno : Int
  index : Nat := 0
deriving DecidableEq, Repr

/-- Element `i` of a C array holding the entries `l`; `none` outside it. -/
def array_at {α : Type} (l : List α) (i : Int) : Option α :=
  if i < 0 then none else l[i.toNat]?

/-! ## Format catalog -/

def is_compressed (fcc : Nat) : Bool := V4L2_PIX_FMT_MJPEG == fcc

def calc_max_video_frame_size (format : uvc_format_info_t) (frame : uvc_frame_info_t) : Nat :=
  if V4L2_PIX_FMT_YUYV = format.fcc then
    let size := frame.wWidth * frame.wHeight % 2 ^ 32
    size * 2 % 2 ^ 32
  else if V4L2_PIX_FMT_NV12 = format.fcc then
    let size := frame.wWidth * frame.wHeight % 2 ^ 32
    (size + size / 2) % 2 ^ 32
  else if V4L2_PIX_FMT_MJPEG = format.fcc then
    frame.wWidth * frame.wHeight % 2 ^ 32
  else 0

/-! ## State updates

Each writes one member of the device and leaves the others as they are. -/

/-- Append `c` to the ghost record. -/
def uvc_device_t.emit (dev : uvc_device_t) (c : call) : uvc_device_t :=
  { dev with calls := dev.calls ++ [c] }

/-- Store `e` in `dev->priv->error_code_ctrl`. -/
def uvc_device_t.latch (dev : uvc_device_t) (e : Int) : uvc_device_t :=
  { dev with priv := { dev.priv with error_code_ctrl := e } }

/-- Replace `dev->priv->video_streaming[no]`. -/
def uvc_device_t.set_video_streaming (dev : uvc_device_t) (no : Nat)
    (vs : uvc_device_impl_video_streaming) : uvc_device_t :=
  { dev with priv := { dev.priv with
      video_streaming := Function.update dev.priv.video_streaming no vs } }

/-- Replace `dev->priv->config->curr`. -/
def uvc_device_t.set_selection (dev : uvc_device_t) (sel : uvc_selection) : uvc_device_t :=
  { dev with priv := { dev.priv with config := { dev.priv.config with curr := sel } } }

/-- Replace `dev->priv->stats[no]`. -/
def uvc_device_t.set_pump_stats (dev : uvc_device_t) (no : Nat)
    (st : uvc_device_impl_stats) : uvc_device_t :=
  { dev with priv := { dev.priv with stats := Function.update dev.priv.stats no st } }

/-- Replace `dev->priv->buf[no]`. -/
def uvc_device_t.set_buf (dev : uvc_device_t) (no : Nat) (ubuf : uvc_device_impl_buf) :
    uvc_device_t :=
  { dev with priv := { dev.priv with buf := Function.update dev.priv.buf no ubuf } }

/-- Replace `dev->stats[no]`. -/
def uvc_device_t.set_stats (dev : uvc_device_t) (no : Nat) (st : uvc_device_stats) :
    uvc_device_t :=
  { dev with stats := Function.update dev.stats no st }

/-- The device with its debug directory unset. -/
def uvc_device_t.quiet (dev : uvc_device_t) : uvc_device_t :=
  { dev with dbgpath := none }

/-! ## Control plane -/

/-- The reply `send_reply` substitutes for a null `data`: a stall. -/
def stall_data : uvc_request_data := { length := -EL2HLT, data := zero_data }

/-- The `send_reply` of `uvc_impl.c` up to the `UVCIOC_SEND_RESPONSE` ioctl,
whose status it returns.  The `log_hexdump` of the reply that follows the
ioctl is left out; it stays inside the reply and its text buffer for
`length` up to 60. -/
def send_reply (dev : uvc_device_t) (no : Nat) (data : Option uvc_request_data)
    (k : ioctl_result) : Option (Int × uvc_device_t) :=
  if no < UVC_DEV_MAX_NUM then
    some (k.status, dev.emit (call.SEND_RESPONSE no (data.getD stall_data)))
  else none

def stall_pipeline (dev : uvc_device_t) (no : Nat) (k : ioctl_result) :
    Option (Int × uvc_device_t) :=
  send_reply dev no none k

def set_format (dev : uvc_device_t) (no : Nat) (k : ioctl_result) :
    Option (Int × uvc_device_t) :=
  let cfg := dev.priv.config
  if no < UVC_DEV_MAX_NUM ∧ (dev.priv.video_streaming no).curr ≠ none
      ∧ cfg.curr.format_no ≠ -1 ∧ cfg.curr.frame_no ≠ -1 ∧ cfg.curr.interval_no ≠ -1 then
    match array_at cfg.format cfg.curr.format_no with
    | none => none
    | some format =>
      match array_at format.frame cfg.curr.frame_no with
      | none => none
      | some frame =>
        some (if k.status = 0 then 0 else -1,
          dev.emit (call.S_FMT no
            { type := V4L2_BUF_TYPE_VIDEO_OUTPUT
              width := frame.wWidth
              height := frame.wHeight
              pixelformat := format.fcc
              field := V4L2_FIELD_NONE
              sizeimage := calc_max_video_frame_size format frame }))
  else none

/-- The loop of `apply_streaming_control` over `intervals->dwFrameInterval`:
`arr` holds the entries from index `i` on, `num` is `intervals->num - i`.
Result `some (some i)` when entry `i` is the first equal to `v`, `some none`
when the loop ends without a match, `none` when it reads past the array. -/
def find_interval (v : Nat) : List Nat → Nat → Nat → Option (Option Nat)
  | _, 0, _ => some none
  | [], _ + 1, _ => none
  | x :: xs, n + 1, i => if x = v then some (some i) else find_interval v xs n (i + 1)

/-- Lines 929 to 987 of `apply_streaming_control`: the coerced destination
and selection, before `set_format` runs; `none` when an assertion fails or a
catalog read leaves its table.  A conditional assignment
`if (c) dst->f = src->f;` gives the field `if c then src.f else dst.f`. -/
def coerce_streaming_control (cfg : uvc_format_config_t) (dst src : uvc_streaming_control) :
    Option (uvc_streaming_control × uvc_selection) :=
  let format_num : Int := cfg.format.length
  let format_ok := src.bFormatIndex ≠ 0 ∧ format_num > (src.bFormatIndex : Int) - 1
  let format_no := if format_ok then (src.bFormatIndex : Int) - 1 else cfg.curr.format_no
  if format_no = -1 then none
  else
    match array_at cfg.format format_no with
    | none => none
    | some format =>
      let frame_num : Int := format.frame.length
      let frame_ok := src.bFrameIndex ≠ 0 ∧ frame_num > (src.bFrameIndex : Int) - 1
      let frame_no := if frame_ok then (src.bFrameIndex : Int) - 1 else cfg.curr.frame_no
      if frame_no = -1 then none
      else
        match array_at format.frame frame_no with
        | none => none
        | some frame =>
          let found :=
            if src.dwFrameInterval ≠ 0 then
              find_interval src.dwFrameInterval frame.intervals.dwFrameInterval
                frame.intervals.num.toNat 0
            else some none
          match found with
          | none => none
          | some hit =>
            some
              ({ bmHint := if dst.bmHint = 0 ∧ src.bmHint ≠ 0 then src.bmHint else dst.bmHint
                 bFormatIndex := if format_ok then src.bFormatIndex else dst.bFormatIndex
                 bFrameIndex := if frame_ok then src.bFrameIndex else dst.bFrameIndex
                 dwFrameInterval :=
                   if hit.isSome then src.dwFrameInterval else dst.dwFrameInterval
                 wKeyFrameRate :=
                   if dst.wKeyFrameRate = 0 ∧ src.wKeyFrameRate ≠ 0 then src.wKeyFrameRate
                   else dst.wKeyFrameRate
                 wPFrameRate := if dst.wPFrameRate = 0 then src.wPFrameRate else dst.wPFrameRate
                 wCompQuality :=
                   if dst.wCompQuality = 0 then src.wCompQuality else dst.wCompQuality
                 wCompWindowSize :=
                   if dst.wCompWindowSize = 0 then src.wCompWindowSize else dst.wCompWindowSize
                 wDelay := if dst.wDelay = 0 then src.wDelay else dst.wDelay
                 dwMaxVideoFrameSize :=
                   if dst.dwMaxVideoFrameSize = 0 then src.dwMaxVideoFrameSize
                   else calc_max_video_frame_size format frame
                 dwMaxPayloadTransferSize :=
                   if dst.dwMaxPayloadTransferSize = 0 then src.dwMaxPayloadTransferSize
                   else dst.dwMaxPayloadTransferSize
                 dwClockFrequency :=
                   if dst.dwClockFrequency = 0 then src.dwClockFrequency
                   else dst.dwClockFrequency
                 bmFramingInfo :=
                   if dst.bmFramingInfo = 0 then src.bmFramingInfo else dst.bmFramingInfo
                 bPreferedVersion :=
                   if dst.bPreferedVersion = 0 then src.bPreferedVersion
                   else dst.bPreferedVersion
                 bMinVersion := if dst.bMinVersion = 0 then src.bMinVersion else dst.bMinVersion
                 bMaxVersion := if dst.bMaxVersion = 0 then src.bMaxVersion else dst.bMaxVersion },
               { format_no := format_no
                 frame_no := frame_no
                 interval_no := match hit with
                   | some i => (i : Int)
                   | none => cfg.curr.interval_no })

def apply_streaming_control (dev : uvc_device_t) (no : Nat) (src : uvc_streaming_control)
    (k : ioctl_result) : Option (Int × uvc_device_t) :=
  let vs := dev.priv.video_streaming no
  match vs.curr with
  | none => none
  | some p =>
    match coerce_streaming_control dev.priv.config (vs.deref p) src with
    | none => none
    | some (dst, sel) =>
      set_format ((dev.set_selection sel).set_video_streaming no (vs.store p dst)) no k

def fill_streaming_control (dev : uvc_device_t) (format_no frame_no interval_no : Int) :
    Option uvc_streaming_control :=
  let cfg := dev.priv.config
  let format_num := cfg.format.length
  if 0 ≤ format_no ∧ 0 ≤ frame_no ∧ 0 ≤ interval_no
      ∧ 255 > format_num ∧ (format_num : Int) > format_no then
    match array_at cfg.format format_no with
    | none => none
    | some format =>
      let frame_num := format.frame.length
      if 255 > frame_num ∧ (frame_num : Int) > frame_no then
        match array_at format.frame frame_no with
        | none => none
        | some frame =>
          if frame.intervals.num > interval_no then
            match array_at frame.intervals.dwFrameInterval interval_no with
            | none => none
            | some interval =>
              some
                { bmHint := 1
                  bFormatIndex := (format_no + 1).toNat % 256
                  bFrameIndex := (frame_no + 1).toNat % 256
                  dwFrameInterval := interval
                  wKeyFrameRate := 0
                  wPFrameRate := 0
                  wCompQuality := 0
                  wCompWindowSize := 0
                  wDelay := 200
                  dwMaxVideoFrameSize := calc_max_video_frame_size format frame
                  dwMaxPayloadTransferSize := cfg.isoc_max_packet_size
                  dwClockFrequency := 0
                  bmFramingInfo := 0x03
                  bPreferedVersion := 1
                  bMinVersion := 1
                  bMaxVersion := 1 }
          else none
      else none
  else none

def min_streaming_control (dev : uvc_device_t) : Option uvc_streaming_control :=
  if dev.priv.config.format = [] then none
  else fill_streaming_control dev 0 0 0

def max_streaming_control (dev : uvc_device_t) : Option uvc_streaming_control :=
  let cfg := dev.priv.config
  if 255 > cfg.format.length then
    let format_num : Int := cfg.format.length
    let max_frame_num : Int :=
      cfg.format.foldl (fun m format => max (format.frame.length : Int) m) 0
    let max_intervals_num : Int :=
      cfg.format.foldl
        (fun m format => format.frame.foldl (fun m frame => max m frame.intervals.num) m) 0
    fill_streaming_control dev (format_num - 1) (max_frame_num - 1) (max_intervals_num - 1)
  else none

def default_streaming_control (dev : uvc_device_t) : Option uvc_streaming_control :=
  let cfg := dev.priv.config
  fill_streaming_control dev cfg.dflt.format_no cfg.dflt.frame_no cfg.dflt.interval_no

def handle_video_streaming_error_code (_dev : uvc_device_t) (_no : Nat)
    (_ctrl : usb_ctrlrequest) : Option (Int × uvc_device_t) :=
  none

/-- The reply of a handler that stalls: `length = -EL2HLT` over zeroed data. -/
def stall_reply : uvc_request_data := { length := -EL2HLT, data := zero_data }

/-- The `failed:` and `default:` arm of the switch in `handle_streaming_request`. -/
def streaming_request_failed (dev : uvc_device_t) (no : Nat) (k : ioctl_result) :
    Option (Int × uvc_device_t) :=
  send_reply (dev.latch ERR_CODE_CTRL_INVALID_REQUEST) no (some stall_reply) k

/-- Reply of full streaming-control length whose data starts with `c`. -/
def streaming_reply (c : uvc_streaming_control) : uvc_request_data :=
  { length := sizeof_streaming_control, data := ctrl_data c }

def handle_streaming_request (dev : uvc_device_t) (no : Nat) (req : usb_ctrlrequest)
    (k : ioctl_result) : Option (Int × uvc_device_t) :=
  let bRequest := req.bRequest % 256
  let cs := req.wValue / 256 % 256
  let vs := dev.priv.video_streaming no
  if bRequest = UVC_GET_CUR then
    match vs.curr with
    | none => streaming_request_failed dev no k
    | some p => send_reply dev no (some (streaming_reply (vs.deref p))) k
  else if bRequest = UVC_GET_MIN then
    match min_streaming_control dev with
    | none => none
    | some c => send_reply dev no (some (streaming_reply c)) k
  else if bRequest = UVC_GET_MAX then
    match max_streaming_control dev with
    | none => none
    | some c => send_reply dev no (some (streaming_reply c)) k
  else if bRequest = UVC_GET_DEF then
    match default_streaming_control dev with
    | none => none
    | some c => send_reply dev no (some (streaming_reply c)) k
  else if bRequest = UVC_GET_RES then
    send_reply dev no (some { length := sizeof_streaming_control, data := zero_data }) k
  else if bRequest = UVC_GET_LEN then
    send_reply dev no
      (some { length := 2, data := [0x00, sizeof_streaming_control] ++ List.replicate 58 0 }) k
  else if bRequest = UVC_GET_INFO then
    send_reply dev no
      (some { length := 1
              data := [GET_INFO_SUPPORT_GET ||| GET_INFO_SUPPORT_SET] ++ List.replicate 59 0 }) k
  else if bRequest = UVC_SET_CUR then
    if UVC_VS_PROBE_CONTROL = cs then
      send_reply
        (dev.set_video_streaming no
          { vs with curr := some streaming_ref.probe, expected_len := req.wLength })
        no (some { length := req.wLength, data := zero_data }) k
    else if UVC_VS_COMMIT_CONTROL = cs then
      send_reply
        (dev.set_video_streaming no
          { vs with curr := some streaming_ref.commit, expected_len := req.wLength })
        no (some { length := req.wLength, data := zero_data }) k
    else streaming_request_failed dev no k
  else streaming_request_failed dev no k

def handle_streaming_probe (dev : uvc_device_t) (no : Nat) (req : usb_ctrlrequest)
    (k : ioctl_result) : Option (Int × uvc_device_t) :=
  handle_streaming_request dev no req k

def handle_streaming_commit (dev : uvc_device_t) (no : Nat) (req : usb_ctrlrequest)
    (k : ioctl_result) : Option (Int × uvc_device_t) :=
  handle_streaming_request dev no req k

def handle_streaming (dev : uvc_device_t) (no : Nat) (ctrl : usb_ctrlrequest)
    (k : ioctl_result) : Option (Int × uvc_device_t) :=
  let cs := ctrl.wValue / 256 % 256
  if ctrl.wValue % 65536 &&& 0x00FF = 0 then
    if cs = UVC_VS_STREAM_ERROR_CODE_CONTROL then handle_video_streaming_error_code dev no ctrl
    else if cs = UVC_VS_PROBE_CONTROL then handle_streaming_probe dev no ctrl k
    else if cs = UVC_VS_COMMIT_CONTROL then handle_streaming_commit dev no ctrl k
    else stall_pipeline (dev.latch ERR_CODE_CTRL_INVALID_CONTROL) no k
  else none

/-- A one-byte reply: `data[0] = b`, the rest of `data` zero. -/
def byte_data (b : Nat) : List Nat := b :: List.replicate 59 0

def handle_IT_ctrl (dev : uvc_device_t) (no : Nat) (ctrl : usb_ctrlrequest)
    (k : ioctl_result) : Option (Int × uvc_device_t) :=
  let bRequest := ctrl.bRequest % 256
  let cs := ctrl.wValue / 256 % 256
  if UVC_CT_AE_MODE_CONTROL = cs then
    if bRequest = UVC_GET_CUR ∨ bRequest = UVC_GET_RES ∨ bRequest = UVC_GET_DEF then
      send_reply dev no (some { length := 1, data := byte_data 0x02 }) k
    else if bRequest = UVC_GET_INFO then
      send_reply dev no
        (some { length := GET_INFO_wLength, data := byte_data GET_INFO_DEVICE_CONTROLED }) k
    else send_reply (dev.latch ERR_CODE_CTRL_INVALID_REQUEST) no (some stall_reply) k
  else send_reply (dev.latch ERR_CODE_CTRL_INVALID_CONTROL) no (some stall_reply) k

def handle_PU_ctrl (dev : uvc_device_t) (no : Nat) (ctrl : usb_ctrlrequest)
    (k : ioctl_result) : Option (Int × uvc_device_t) :=
  let bRequest := ctrl.bRequest % 256
  let cs := ctrl.wValue / 256 % 256
  if UVC_PU_BRIGHTNESS_CONTROL = cs then
    if bRequest = UVC_GET_MIN then
      send_reply dev no (some { length := 2, data := byte_data 0 }) k
    else if bRequest = UVC_GET_MAX then
      send_reply dev no (some { length := 2, data := byte_data 255 }) k
    else if bRequest = UVC_GET_INFO then
      send_reply dev no
        (some { length := GET_INFO_wLength, data := byte_data GET_INFO_DEVICE_CONTROLED }) k
    else if bRequest = UVC_GET_CUR ∨ bRequest = UVC_GET_DEF then
      send_reply dev no (some { length := 2, data := byte_data 127 }) k
    else if bRequest = UVC_GET_RES then
      send_reply dev no (some { length := 2, data := byte_data 1 }) k
    else send_reply (dev.latch ERR_CODE_CTRL_INVALID_REQUEST) no (some stall_reply) k
  else send_reply (dev.latch ERR_CODE_CTRL_INVALID_CONTROL) no (some stall_reply) k

def handle_control (dev : uvc_device_t) (no : Nat) (ctrl : usb_ctrlrequest)
    (k : ioctl_result) : Option (Int × uvc_device_t) :=
  let cs := ctrl.wValue / 256 % 256
  let entity_id := ctrl.wIndex / 256 % 256
  if entity_id = 0 then
    if cs = UVC_VC_REQUEST_ERROR_CODE_CONTROL then
      send_reply dev no
        (some { length := 1, data := byte_data (dev.priv.error_code_ctrl % 256).toNat }) k
    else send_reply (dev.latch ERR_CODE_CTRL_INVALID_CONTROL) no (some stall_reply) k
  else if entity_id = ENTITY_INPUT_TERMINAL then handle_IT_ctrl dev no ctrl k
  else if entity_id = ENTITY_PROCESSING_UNIT then handle_PU_ctrl dev no ctrl k
  else send_reply (dev.latch ERR_CODE_CTRL_INVALID_UNIT) no (some stall_reply) k

def handle_standard_event (dev : uvc_device_t) (_no : Nat) : Option (Int × uvc_device_t) :=
  some (0, dev)

/-- The `interfaceNo` of `handle_class_event`: the low byte of `wIndex` less
`no * INTERFACE_NUM`, narrowed to `uint8_t`. -/
def interface_no (ctrl : usb_ctrlrequest) (no : Nat) : Nat :=
  ((((ctrl.wIndex % 65536 &&& 0x00FF : Nat) : Int) - ((no * INTERFACE_NUM : Nat) : Int)) % 256).toNat

def handle_class_event (dev : uvc_device_t) (no : Nat) (ctrl : usb_ctrlrequest)
    (k : ioctl_result) : Option (Int × uvc_device_t) :=
  let dev1 := dev.set_video_streaming no { dev.priv.video_streaming no with expected_len := 0 }
  if USB_RECIP_INTERFACE ≠ ctrl.bRequestType % 256 &&& USB_RECIP_MASK then
    stall_pipeline dev1 no k
  else
    let interfaceNo := interface_no ctrl no
    if interfaceNo = CONTROL_INTERFACE then handle_control dev1 no ctrl k
    else if interfaceNo = STREAMING_INTERFACE then handle_streaming dev1 no ctrl k
    else stall_pipeline (dev1.latch ERR_CODE_CTRL_INVALID_CONTROL) no k

/-- Handler of a `UVC_EVENT_SETUP` event carrying the request `ctrl`. -/
def handle_setup (dev : uvc_device_t) (no : Nat) (ctrl : usb_ctrlrequest)
    (k : ioctl_result) : Option (Int × uvc_device_t) :=
  let type := ctrl.bRequestType % 256 &&& USB_TYPE_MASK
  if type = USB_TYPE_STANDARD then handle_standard_event dev no
  else if type = USB_TYPE_CLASS then handle_class_event dev no ctrl k
  else stall_pipeline dev no k

/-- Handler of a `UVC_EVENT_DATA` event carrying the payload `data`. -/
def handle_data (dev : uvc_device_t) (no : Nat) (data : uvc_request_data)
    (k : ioctl_result) : Option (Int × uvc_device_t) :=
  let vs := dev.priv.video_streaming no
  match vs.curr with
  | none => none
  | some p =>
    if vs.expected_len ≠ 0 ∧ vs.expected_len = data.length
        ∧ (sizeof_streaming_control : Int) ≥ vs.expected_len then
      let ctrl := uvc_streaming_control.of_bytes (data.data.take data.length.toNat)
      if (vs.deref p).bytes = ctrl.bytes then some (0, dev)
      else apply_streaming_control dev no ctrl k
    else none

/-! ## Data plane -/

/-- The `dump_to_file` of `util.c` for the `size` bytes at address `data`
(0 for null): it asserts the address, the size, the opened file and the
written byte count. -/
def dump_to_file (data size : Nat) (files : debug_files) : Option Unit :=
  if data ≠ 0 ∧ size ≠ 0 then
    if files.fopen = true then
      if files.fwrite = true then some () else none
    else none
  else none

/-- Address of the bytes `gst_buffer_map` maps for the frame: null for an
empty frame. -/
def mapped_data (src : gst_buffer) : Nat := if src.size = 0 then 0 else 1

/-- The callback `uvc_device_drop_data`: without a debug directory it returns
at once; with one it maps the frame and dumps it to a file, and changes
nothing in the device.  The ghost record notes the call. -/
def uvc_device_drop_data (dev : uvc_device_t) (no : Nat) (user_data : uvc_user_data_t) :
    Option uvc_device_t :=
  match user_data.data with
  | none => none
  | some src =>
    match dev.dbgpath with
    | none => some (dev.emit (call.drop_data no user_data))
    | some _ =>
      if src.mappable = false then some (dev.emit (call.drop_data no user_data))
      else
        match dump_to_file (mapped_data src) src.size dev.dbgfiles with
        | none => none
        | some _ => some (dev.emit (call.drop_data no user_data))

/-- The `debug_data` of `uvc_impl_gstreamer.c`: without a debug directory it
returns at once, with one it reads the current format and frame and dumps
the `buf->bytesused` bytes at `data` to a file. -/
def debug_data (dev : uvc_device_t) (_no : Nat) (user_data : uvc_user_data_t)
    (buf : v4l2_buffer) (data : Nat) : Option Unit :=
  match user_data.data with
  | none => none
  | some _ =>
    match dev.dbgpath with
    | none => some ()
    | some _ =>
      match array_at dev.priv.config.format dev.priv.config.curr.format_no with
      | none => none
      | some format =>
        match array_at format.frame dev.priv.config.curr.frame_no with
        | none => none
        | some _ => dump_to_file data buf.bytesused dev.dbgfiles

/-- Byte count `gst_buffer_extract(src, 0, dst, size)` returns: the bytes of
the frame that fit in `size`. -/
def gst_buffer_extract (src : gst_buffer) (size : Nat) : Nat := min size src.size

def GST_SECOND : Nat := 1000000000

def uvc_device_fill_v4l2_buffer (dev : uvc_device_t) (no : Nat) (buf : v4l2_buffer)
    (dst : buffer_handle) (user_data : uvc_user_data_t) : Option (Int × v4l2_buffer) :=
  match user_data.data with
  | none => none
  | some src =>
    let buf1 : v4l2_buffer :=
      { index := buf.index
        type := buf.type
        memory := buf.memory
        flags := 0
        bytesused := gst_buffer_extract src dst.size % 2 ^ 32
        tv_sec := src.pts / GST_SECOND
        tv_usec := src.pts / 1000 % GST_SECOND }
    match debug_data dev no user_data buf1 dst.begin with
    | none => none
    | some _ => some (0, buf1)

def query_buf (dev : uvc_device_t) (no : Nat) (buf : v4l2_buffer) (k : ioctl_result)
    (flags : Nat) : Option (Int × uvc_device_t × v4l2_buffer) :=
  if no < UVC_DEV_MAX_NUM ∧ dev.sys_fd no ≠ -1 then
    if k.status = 0 then
      some (0, dev.emit (call.QUERYBUF no buf.index),
        { index := buf.index, type := buf.type, memory := buf.memory, flags := flags
          bytesused := buf.bytesused, tv_sec := buf.tv_sec, tv_usec := buf.tv_usec })
    else some (-1, dev.emit (call.QUERYBUF no buf.index), buf)
  else none

def dqbuf (dev : uvc_device_t) (no : Nat) (buf : v4l2_buffer) (k : ioctl_result) :
    Option (Int × uvc_device_t × v4l2_buffer) :=
  if no < UVC_DEV_MAX_NUM ∧ dev.sys_fd no ≠ -1 then
    if k.status = -1 ∧ k.errno = EAGAIN then some (0, dev.emit (call.DQBUF no buf.index), buf)
    else if k.status ≠ 0 then some (-1, dev.emit (call.DQBUF no buf.index), buf)
    else
      some (0, (dev.emit (call.DQBUF no buf.index)).set_pump_stats no
        { dev.priv.stats no with dqbuf_no := (dev.priv.stats no).dqbuf_no + 1 },
        { index := k.index, type := buf.type, memory := buf.memory, flags := buf.flags
          bytesused := buf.bytesused, tv_sec := buf.tv_sec, tv_usec := buf.tv_usec })
  else none

/-- The value `qbuf` leaves in `buf->bytesused`: the byte count of the fill
for a compressed format, `curr->dwMaxVideoFrameSize` otherwise; `none` when
`curr` is null. -/
def qbuf_bytesused (dev : uvc_device_t) (no : Nat) (format : uvc_format_info_t)
    (filled : Nat) : Option Nat :=
  if is_compressed format.fcc then some filled
  else
    match (dev.priv.video_streaming no).curr with
    | none => none
    | some p => some ((dev.priv.video_streaming no).deref p).dwMaxVideoFrameSize

def qbuf (dev : uvc_device_t) (no : Nat) (user_data : uvc_user_data_t) (buf : v4l2_buffer)
    (k : ioctl_result) : Option (Int × uvc_device_t) :=
  if no < UVC_DEV_MAX_NUM ∧ dev.sys_fd no ≠ -1 then
    match array_at dev.priv.config.format dev.priv.config.curr.format_no with
    | none => none
    | some format =>
      match (dev.priv.buf no).handle with
      | none => none
      | some handle =>
        match handle[buf.index]? with
        | none => none
        | some dst =>
          match uvc_device_fill_v4l2_buffer dev no buf dst user_data with
          | none => none
          | some (fill_status, buf1) =>
            if fill_status = -1 then some (-1, dev)
            else
              match qbuf_bytesused dev no format buf1.bytesused with
              | none => none
              | some n =>
                let queued : call := call.QBUF no
                  { index := buf1.index, type := buf1.type, memory := buf1.memory
                    flags := buf1.flags, bytesused := n
                    tv_sec := buf1.tv_sec, tv_usec := buf1.tv_usec }
                if k.status ≠ 0 ∧ k.errno = EAGAIN then some (1, dev.emit queued)
                else if k.status ≠ 0 then some (-1, dev.emit queued)
                else
                  some (0, (dev.emit queued).set_pump_stats no
                    { dev.priv.stats no with qbuf_no := (dev.priv.stats no).qbuf_no + 1 })
  else none

/-- The `drop:` label of `uvc_handle_data`. -/
def uvc_handle_data_drop (dev : uvc_device_t) (no : Nat) (user_data : uvc_user_data_t) :
    Option (Int × uvc_device_t) :=
  match uvc_device_drop_data dev no user_data with
  | none => none
  | some dev1 =>
    some (1, dev1.set_pump_stats no
      { dev1.priv.stats no with data_drop := (dev1.priv.stats no).data_drop + 1 })

/-- The part of `uvc_handle_data` from `qbuf` on. -/
def uvc_handle_data_queue (dev : uvc_device_t) (no : Nat) (user_data : uvc_user_data_t)
    (buf : v4l2_buffer) (kqb : ioctl_result) : Option (Int × uvc_device_t) :=
  match qbuf dev no user_data buf kqb with
  | none => none
  | some (status, dev1) =>
    if 0 < status then uvc_handle_data_drop dev1 no user_data
    else if status ≠ 0 then some (-1, dev1)
    else
      some (0, dev1.set_buf no
        { dev1.priv.buf no with curr_no := (dev1.priv.buf no).curr_no + 1 })

/-- The part of `uvc_handle_data` after a successful `query_buf`. -/
def uvc_handle_data_queried (dev : uvc_device_t) (no : Nat) (user_data : uvc_user_data_t)
    (buf : v4l2_buffer) (kdq kqb : ioctl_result) : Option (Int × uvc_device_t) :=
  if V4L2_BUF_FLAG_QUEUED &&& buf.flags ≠ 0 then uvc_handle_data_drop dev no user_data
  else
    match dqbuf dev no buf kdq with
    | none => none
    | some (status, dev1, buf1) =>
      if status ≠ 0 then some (-1, dev1)
      else uvc_handle_data_queue dev1 no user_data buf1 kqb

/-- The data plane entry point.  The kernel supplies `kq` and `flags` for
`VIDIOC_QUERYBUF`, `kdq` for `VIDIOC_DQBUF` and `kqb` for `VIDIOC_QBUF`. -/
def uvc_handle_data (dev : uvc_device_t) (no : Nat) (user_data : uvc_user_data_t)
    (kq : ioctl_result) (flags : Nat) (kdq kqb : ioctl_result) : Option (Int × uvc_device_t) :=
  if no < UVC_DEV_MAX_NUM ∧ user_data.data ≠ none then
    let ubuf := dev.priv.buf no
    let dev1 := dev.set_pump_stats no
      { dev.priv.stats no with data_no := (dev.priv.stats no).data_no + 1 }
    match ubuf.handle with
    | none => uvc_handle_data_drop dev1 no user_data
    | some _ =>
      let num := (ubuf.num % 2 ^ 64).toNat
      if num = 0 then none
      else
        match query_buf dev1 no
            { index := ubuf.curr_no % num % 2 ^ 32
              type := V4L2_BUF_TYPE_VIDEO_OUTPUT
              memory := V4L2_MEMORY_MMAP
              flags := 0, bytesused := 0, tv_sec := 0, tv_usec := 0 } kq flags with
        | none => none
        | some (status, dev2, buf) =>
          if status ≠ 0 then some (-1, dev2)
          else uvc_handle_data_queried dev2 no user_data buf kdq kqb
  else none

/-! ## Device coordinator -/

/-- The `drop:` label of `uvc_device_sink_data`, followed by `done:`. -/
def sink_data_drop (dev : uvc_device_t) (no : Nat) (status : Int) :
    Option (Int × uvc_device_t) :=
  if no < UVC_DEV_MAX_NUM then
    some (status, dev.set_stats no
      { dev.stats no with
        sink_drop_no := (dev.stats no).sink_drop_no + 1
        sink_data_no := (dev.stats no).sink_data_no + 1 })
  else none

/-- The `done:` label of `uvc_device_sink_data`. -/
def sink_data_done (dev : uvc_device_t) (no : Nat) (status : Int) :
    Option (Int × uvc_device_t) :=
  if no < UVC_DEV_MAX_NUM then
    some (status, dev.set_stats no
      { dev.stats no with sink_data_no := (dev.stats no).sink_data_no + 1 })
  else none

/-- The status `uvc_device_sink_data` holds when it unlocks the mutex, with
the device the data plane left. -/
def sink_data_locked (dev : uvc_device_t) (no : Nat) (user_data : uvc_user_data_t)
    (kq : ioctl_result) (flags : Nat) (kdq kqb : ioctl_result) : Option (Int × uvc_device_t) :=
  if TASK_FAILED = dev.task_state then some (-1, dev)
  else if TASK_STOPPED = dev.task_state then some (-1, dev)
  else if TASK_STOPPING = dev.task_state then some (-1, dev)
  else if TASK_STARTING = dev.task_state then some (1, dev)
  else if TASK_STARTED = dev.task_state then uvc_handle_data dev no user_data kq flags kdq kqb
  else some (0, dev)

/-- Producer entry point.  `trylock` is the value `pthread_mutex_trylock`
returns; the other inputs are those of `uvc_handle_data`. -/
def uvc_device_sink_data (dev : uvc_device_t) (no : Nat) (user_data : uvc_user_data_t)
    (trylock : Int) (kq : ioctl_result) (flags : Nat) (kdq kqb : ioctl_result) :
    Option (Int × uvc_device_t) :=
  if trylock = EBUSY then
    if no < UVC_DEV_MAX_NUM then
      sink_data_drop
        (dev.set_stats no { dev.stats no with sink_busy_no := (dev.stats no).sink_busy_no + 1 })
        no 0
    else none
  else if trylock ≠ 0 then some (-1, dev)
  else
    match sink_data_locked dev no user_data kq flags kdq kqb with
    | none => none
    | some (status, dev1) =>
      if status = 0 then sink_data_done dev1 no status
      else if 0 < status then sink_data_drop dev1 no 0
      else sink_data_drop dev1 no status

/-! ## Initial state -/

/-- The zero-filled `uvc_device_impl` that `calloc` returns, after
`uvc_device_open` pointed `config` at `format_config` and reset the error code. -/
def opened_impl : uvc_device_impl where
  buf := fun _ => { handle := none, num := 0, curr_no := 0, type := 0 }
  config := format_config
  video_streaming := fun _ =>
    { probe := uvc_streaming_control.zero, commit := uvc_streaming_control.zero
      curr := none, expected_len := 0 }
  stats := fun _ => { qbuf_no := 0, dqbuf_no := 0, data_drop := 0, data_no := 0 }
  error_code_ctrl := ERR_CODE_CTRL_NO_ERROR

/-- The device `uvc_device_create` hands out for a single path opened as `fd`,
once the event thread runs; the ghost record starts empty.  It is the first
device of the process: the static `format_config` that `config` points at
still holds its initial selection (-1, -1, -1). -/
def opened_device (fd : Int) : uvc_device_t where
  sys_fd := fun i => if i = 0 then fd else -1
  dbgpath := none
  task_state := TASK_STARTED
  stats := fun _ => { sink_data_no := 0, sink_busy_no := 0, sink_drop_no := 0 }
  priv := opened_impl
  calls := []

/-! ## Event runs and sample inputs -/

/-- One control-transfer event of endpoint `no`, as `uvc_handle_events`
dispatches it. -/
inductive control_event where
  | setup (ctrl : usb_ctrlrequest)
  | data (d : uvc_request_data)

def handle_control_event (dev : uvc_device_t) (no : Nat) (ev : control_event)
    (k : ioctl_result) : Option (Int × uvc_device_t) :=
  match ev with
  | .setup ctrl => handle_setup dev no ctrl k
  | .data d => handle_data dev no d k

/-- The event thread handling a list of control-transfer events, each with
its endpoint and the kernel's answer; `none` once a handler does not return
or returns a non-zero status, which ends the event loop. -/
def run_control_events (dev : uvc_device_t) :
    List (Nat × control_event × ioctl_result) → Option uvc_device_t
  | [] => some dev
  | (no, ev, k) :: rest =>
    match handle_control_event dev no ev k with
    | none => none
    | some (status, dev1) => if status = 0 then run_control_events dev1 rest else none

/-- The copy a SETUP request makes current on endpoint `no`: it is a class
request to the streaming interface of the endpoint, `SET_CUR` on the Probe or
the Commit selector. -/
def set_cur_target (no : Nat) (ctrl : usb_ctrlrequest) : Option streaming_ref :=
  if ctrl.bRequestType % 256 &&& USB_TYPE_MASK = USB_TYPE_CLASS
      ∧ ctrl.bRequestType % 256 &&& USB_RECIP_MASK = USB_RECIP_INTERFACE
      ∧ interface_no ctrl no = STREAMING_INTERFACE
      ∧ ctrl.wValue % 65536 &&& 0x00FF = 0
      ∧ ctrl.bRequest % 256 = UVC_SET_CUR then
    if ctrl.wValue / 256 % 256 = UVC_VS_PROBE_CONTROL then some streaming_ref.probe
    else if ctrl.wValue / 256 % 256 = UVC_VS_COMMIT_CONTROL then some streaming_ref.commit
    else none
  else none

/-- The copy addressed by the most recent `SET_CUR` among the events of
endpoint `no`, `start` when there is none. -/
def last_set_cur (no : Nat) (start : Option streaming_ref) :
    List (Nat × control_event × ioctl_result) → Option streaming_ref
  | [] => start
  | (n, control_event.setup ctrl, _) :: rest =>
    if n = no then
      match set_cur_target no ctrl with
      | some p => last_set_cur no (some p) rest
      | none => last_set_cur no start rest
    else last_set_cur no start rest
  | (_, control_event.data _, _) :: rest => last_set_cur no start rest

/-- A kernel answer of success. -/
def ioctl_ok : ioctl_result := { status := 0, errno := 0 }

/-- Host-to-device class request `SET_CUR` to the streaming interface of
endpoint 0, on selector `cs`, announcing `wLength` payload bytes. -/
def set_cur_request (cs wLength : Nat) : usb_ctrlrequest :=
  { bRequestType := 0x21, bRequest := UVC_SET_CUR, wValue := cs * 256, wIndex := 1,
    wLength := wLength }

/-- Device-to-host class request `GET_CUR` to the streaming interface of
endpoint 0, on selector `cs`. -/
def get_cur_request (cs : Nat) : usb_ctrlrequest :=
  { bRequestType := 0xA1, bRequest := UVC_GET_CUR, wValue := cs * 256, wIndex := 1,
    wLength := 34 }

/-- The opened device after the host issued `SET_CUR(Probe)` with `wLength = 26`. -/
def probing_device : uvc_device_t :=
  (run_control_events (opened_device 3)
    [(0, control_event.setup (set_cur_request UVC_VS_PROBE_CONTROL 26), ioctl_ok)]).getD
    (opened_device 3)

/-- The `uvc_request_data` of a `DATA` event carrying the first `wLength`
bytes of the streaming control `c`. -/
def data_event (c : uvc_streaming_control) (wLength : Nat) : uvc_request_data :=
  { length := wLength, data := c.bytes.take wLength ++ List.replicate (60 - wLength) 0 }

/-- Number of `VIDIOC_S_FMT` ioctls in a record of calls. -/
def count_S_FMT : List call → Nat
  | [] => 0
  | call.S_FMT _ _ :: rest => count_S_FMT rest + 1
  | _ :: rest => count_S_FMT rest

/-- The streaming control decoded from the reply of a `SEND_RESPONSE`. -/
def reply_control (c : call) : Option uvc_streaming_control :=
  match c with
  | call.SEND_RESPONSE _ data => some (uvc_streaming_control.of_bytes data.data)
  | _ => none

/-- The payload of the single-frame negotiation scenario: hint 1, format 1,
frame 1, `interval` and every other field zero. -/
def negotiation_payload (interval : Nat) : uvc_streaming_control :=
  { bmHint := 1, bFormatIndex := 1, bFrameIndex := 1, dwFrameInterval := interval
    wKeyFrameRate := 0, wPFrameRate := 0, wCompQuality := 0, wCompWindowSize := 0, wDelay := 0
    dwMaxVideoFrameSize := 0, dwMaxPayloadTransferSize := 0, dwClockFrequency := 0
    bmFramingInfo := 0, bPreferedVersion := 0, bMinVersion := 0, bMaxVersion := 0 }

/-- One `SET_CUR` exchange on endpoint 0: the SETUP event on selector `cs`
announcing `wLength` bytes, then the DATA event carrying `c`. -/
def set_cur_exchange (cs : Nat) (c : uvc_streaming_control) (wLength : Nat) :
    List (Nat × control_event × ioctl_result) :=
  [(0, control_event.setup (set_cur_request cs wLength), ioctl_ok),
   (0, control_event.data (data_event c wLength), ioctl_ok)]

/-- The opened device after a Probe exchange that selected format 1, frame 1
and the interval of 1 fps. -/
def negotiated_device : uvc_device_t :=
  (run_control_events (opened_device 3)
    (set_cur_exchange UVC_VS_PROBE_CONTROL (negotiation_payload FRAME_INTERVAL_1fps) 26)).getD
    (opened_device 3)

/-- A payload whose format index 9 is outside the catalog. -/
def foreign_format_payload : uvc_streaming_control :=
  { negotiation_payload FRAME_INTERVAL_1fps with bFormatIndex := 9 }

/-- The opened device after the SETUP event of `SET_CUR(Commit)`, `wLength = 26`. -/
def committing_device : uvc_device_t :=
  (run_control_events (opened_device 3)
    [(0, control_event.setup (set_cur_request UVC_VS_COMMIT_CONTROL 26), ioctl_ok)]).getD
    (opened_device 3)

/-- The opened device after a Commit exchange carrying the payload `c`. -/
def committed_device (c : uvc_streaming_control) : uvc_device_t :=
  (run_control_events (opened_device 3) (set_cur_exchange UVC_VS_COMMIT_CONTROL c 26)).getD
    (opened_device 3)

/-- What the data plane relies on once a buffer pool is allocated on
endpoint `no`: the gadget is open, the pool holds `num > 0` slots, and a
stream was negotiated (current format and frame in the catalog, a current
streaming control). -/
def data_plane_ready (dev : uvc_device_t) (no : Nat) : Prop :=
  ∀ handle, (dev.priv.buf no).handle = some handle →
    dev.sys_fd no ≠ -1
    ∧ 0 < (dev.priv.buf no).num ∧ (dev.priv.buf no).num = handle.length
    ∧ handle.length < 2 ^ 31
    ∧ (dev.priv.video_streaming no).curr ≠ none
    ∧ ∃ format frame,
        array_at dev.priv.config.format dev.priv.config.curr.format_no = some format
        ∧ array_at format.frame dev.priv.config.curr.frame_no = some frame

/-- The buffer `qbuf` hands to `VIDIOC_QBUF`: `buf` filled from the frame
`src` into the slot `dst`, with `bytesused` as `qbuf` leaves it while
`format` and the streaming control `c` are current. -/
def queued_buffer (buf : v4l2_buffer) (src : gst_buffer) (dst : buffer_handle)
    (format : uvc_format_info_t) (c : uvc_streaming_control) : v4l2_buffer :=
  { index := buf.index
    type := buf.type
    memory := buf.memory
    flags := 0
    bytesused :=
      if is_compressed format.fcc then gst_buffer_extract src dst.size % 2 ^ 32
      else c.dwMaxVideoFrameSize
    tv_sec := src.pts / GST_SECOND
    tv_usec := src.pts / 1000 % GST_SECOND }

/-- Result code the data-plane contract gives one `uvc_handle_data` call,
read off the contract in program order: `pool` says whether a buffer pool is
allocated, `kq`, `kdq` and `kqb` are what the kernel answers to
`VIDIOC_QUERYBUF`, `VIDIOC_DQBUF` and `VIDIOC_QBUF`, and `flags` are the
flags `VIDIOC_QUERYBUF` reports for the slot. -/
def contract_handle_data_result (pool : Bool) (kq : ioctl_result) (flags : Nat)
    (kdq kqb : ioctl_result) : Int :=
  if pool = false then 1
  else if kq.status ≠ 0 then -1
  else if V4L2_BUF_FLAG_QUEUED &&& flags ≠ 0 then 1
  else if kdq.status ≠ 0 ∧ ¬ (kdq.status = -1 ∧ kdq.errno = EAGAIN) then -1
  else if kqb.status ≠ 0 ∧ kqb.errno = EAGAIN then 1
  else if kqb.status ≠ 0 then -1
  else 0

/-- The device after a Commit exchange carrying the payload `c` and a
`STREAMON` event whose `acquire_bufs` mapped two slots of `size` bytes each
on endpoint 0. -/
def streaming_device (c : uvc_streaming_control) (size : Nat) : uvc_device_t :=
  (committed_device c).set_buf 0
    { handle := some [{ begin := size, size := size }, { begin := 2 * size, size := size }]
      num := 2
      curr_no := 0
      type := V4L2_MEMORY_MMAP }

/-- A frame of `size` bytes with presentation time 0, as the producer passes it. -/
def produced_frame (size : Nat) : uvc_user_data_t :=
  { data := some { size := size, pts := 0 } }

/-- The payload of a commit to format `format` (1-based), frame 1, 1 fps,
that carries the frame size `size`. -/
def sized_payload (format size : Nat) : uvc_streaming_control :=
  { negotiation_payload FRAME_INTERVAL_1fps with
    bFormatIndex := format, dwMaxVideoFrameSize := size }

/-! ## Producer runs -/

/-- One call of `uvc_device_sink_data` as the producer thread makes it:
the endpoint, the task state the event thread left, the frame, and what the
mutex and the kernel answer during the call. -/
structure sink_call where
  no : Nat
  state : Nat
  user_data : uvc_user_data_t
  trylock : Int
  kq : ioctl_result
  flags : Nat
  kdq : ioctl_result
  kqb : ioctl_result

/-- Store `state` in `dev->task.state`. -/
def uvc_device_t.set_task_state (dev : uvc_device_t) (state : Nat) : uvc_device_t :=
  { dev with task_state := state }

/-- The values `dev->task.state` is ever assigned. -/
def valid_task_state (state : Nat) : Prop :=
  state = TASK_FAILED ∨ state = TASK_STOPPED ∨ state = TASK_STOPPING
    ∨ state = TASK_STARTED ∨ state = TASK_STARTING

/-- Whether the call `c` on the device `dev` delivers its frame: the lock is
acquired, the task is started and the data plane accepts the frame. -/
def frame_delivered (dev : uvc_device_t) (c : sink_call) : Bool :=
  decide (c.trylock = 0) && decide (TASK_STARTED = dev.task_state)
    && ((uvc_handle_data dev c.no c.user_data c.kq c.flags c.kdq c.kqb).map Prod.fst == some 0)

/-- The producer thread making the calls of a list in order; the result is
the device after the last call with the number of frames delivered on
endpoint `no`, `none` when a call does not return. -/
def run_sink_data (dev : uvc_device_t) (no : Nat) : List sink_call → Option (uvc_device_t × Nat)
  | [] => some (dev, 0)
  | c :: rest =>
    match uvc_device_sink_data (dev.set_task_state c.state) c.no c.user_data c.trylock c.kq
        c.flags c.kdq c.kqb with
    | none => none
    | some (_, dev1) =>
      match run_sink_data dev1 no rest with
      | none => none
      | some (dev2, delivered) =>
        some (dev2,
          delivered + (if c.no = no ∧ frame_delivered (dev.set_task_state c.state) c then 1
            else 0))

/-- A call on endpoint 0 in task state `state` with a frame of 100000 bytes,
the try-lock answering `trylock` and every ioctl succeeding on a slot that is
not queued. -/
def sample_call (state : Nat) (trylock : Int) : sink_call :=
  { no := 0, state := state, user_data := produced_frame 100000, trylock := trylock
    kq := ioctl_ok, flags := 0, kdq := ioctl_ok, kqb := ioctl_ok }

/-- Three calls: one that finds the mutex busy, one the data plane accepts
and one made while the task is starting. -/
def sample_calls : List sink_call :=
  [sample_call TASK_STARTED EBUSY, sample_call TASK_STARTED 0, sample_call TASK_STARTING 0]

/-- The streaming NV12 device after the three calls of `sample_calls`. -/
def sample_run_device : uvc_device_t :=
  ((run_sink_data (streaming_device (sized_payload 1 3110400) 3110400) 0 sample_calls).getD
    (opened_device 3, 0)).1

/-- The `length` of the reply a recorded `UVCIOC_SEND_RESPONSE` carries. -/
def response_length (c : call) : Option Int :=
  match c with
  | call.SEND_RESPONSE _ data => some data.length
  | _ => none

/-- Class request `GET_MIN(Probe)` to interface 1 of endpoint 0 that names
entity 5 in the high byte of `wIndex`. -/
def foreign_entity_request : usb_ctrlrequest :=
  { bRequestType := 0xA1, bRequest := UVC_GET_MIN, wValue := UVC_VS_PROBE_CONTROL * 256
    wIndex := 0x0501, wLength := 34 }

/-- Class request `GET_CUR` to the control interface of endpoint 0 that
names entity 5 in the high byte of `wIndex`. -/
def foreign_unit_request : usb_ctrlrequest :=
  { bRequestType := 0xA1, bRequest := UVC_GET_CUR, wValue := 0x0200
    wIndex := 0x0500, wLength := 1 }

/-- A payload for format 1, frame 1 that asks for the second counted
interval and carries hint 5 and delay 7. -/
def hinted_payload : uvc_streaming_control :=
  { negotiation_payload FRAME_INTERVAL_5fps with bmHint := 5, wDelay := 7 }

/-- Standard request `GET_STATUS` addressed to the device. -/
def standard_request : usb_ctrlrequest :=
  { bRequestType := 0x80, bRequest := 0x00, wValue := 0, wIndex := 0, wLength := 2 }

/-- Class request `GET_CUR(Probe)` to interface 3, the streaming interface of
endpoint 1. -/
def second_endpoint_request : usb_ctrlrequest :=
  { bRequestType := 0xA1, bRequest := UVC_GET_CUR, wValue := UVC_VS_PROBE_CONTROL * 256
    wIndex := 3, wLength := 34 }

/-- Class request `GET_CUR` on the Request Error Code control: control
interface of endpoint 0, entity 0, selector `VC_REQUEST_ERROR_CODE_CONTROL`. -/
def error_code_request : usb_ctrlrequest :=
  { bRequestType := 0xA1, bRequest := UVC_GET_CUR
    wValue := UVC_VC_REQUEST_ERROR_CODE_CONTROL * 256, wIndex := 0x0000, wLength := 1 }

/-- Class request `GET_CUR` against entity 1 of the control interface of
endpoint 0 with the selector `0xFF`. -/
def unknown_selector_request : usb_ctrlrequest :=
  { bRequestType := 0xA1, bRequest := UVC_GET_CUR, wValue := 0xFF00, wIndex := 0x0100
    wLength := 1 }

/-- Class request `GET_MAX(Brightness)` to entity 2 of the control interface
of endpoint 0. -/
def brightness_max_request : usb_ctrlrequest :=
  { bRequestType := 0xA1, bRequest := UVC_GET_MAX
    wValue := UVC_PU_BRIGHTNESS_CONTROL * 256, wIndex := 0x0200, wLength := 2 }

/-- Class request `SET_CUR(Auto-Exposure Mode)` to entity 1 of the control
interface of endpoint 0. -/
def exposure_set_request : usb_ctrlrequest :=
  { bRequestType := 0x21, bRequest := UVC_SET_CUR
    wValue := UVC_CT_AE_MODE_CONTROL * 256, wIndex := 0x0100, wLength := 1 }

/-- Device-to-host class request `bRequest` to the streaming interface of
endpoint 0, on selector `cs`. -/
def get_request (bRequest cs : Nat) : usb_ctrlrequest :=
  { bRequestType := 0xA1, bRequest := bRequest, wValue := cs * 256, wIndex := 1, wLength := 34 }

/-- The buffer `uvc_handle_data` hands to `qbuf` once `dqbuf` returned 0:
`buf` as `VIDIOC_QUERYBUF` left it when nothing was dequeued (`EAGAIN`),
`buf` with the index of the dequeued slot when the kernel dequeued one. -/
def dequeued_buffer (buf : v4l2_buffer) (k : ioctl_result) : v4l2_buffer :=
  if k.status = 0 then
    { index := k.index, type := buf.type, memory := buf.memory, flags := buf.flags
      bytesused := buf.bytesused, tv_sec := buf.tv_sec, tv_usec := buf.tv_usec }
  else buf

/-- The index a successful `VIDIOC_DQBUF` reports names a slot of the pool of
endpoint `no`. -/
def dequeued_slot_valid (dev : uvc_device_t) (no : Nat) (k : ioctl_result) : Prop :=
  k.status = 0 → ∀ handle, (dev.priv.buf no).handle = some handle → k.index < handle.length

/-- The kernel's answer when nothing can be dequeued: status -1, `EAGAIN`. -/
def ioctl_again : ioctl_result := { status := -1, errno := EAGAIN }

/-- A successful `VIDIOC_DQBUF` that dequeued the slot `index`. -/
def dequeued (index : Nat) : ioctl_result := { status := 0, errno := 0, index := index }

/-! ## Buffer pool -/

/-- What the allocator and the kernel answer while a buffer pool is acquired
or released: `calloc` says whether the handle array is allocated, `reqbufs`
is the status of the `VIDIOC_REQBUFS` that requests the pool and `count` the
`param.count` it leaves, `querybuf i` and `length i` are the status and the
`buf.length` of `VIDIOC_QUERYBUF` for slot `i`, `mmap i` is the address
mapped for slot `i` (`none` for `MAP_FAILED`), `munmap i` the status of
unmapping slot `i`, `release` the status of the `VIDIOC_REQBUFS` with count 0. -/
structure buffer_kernel where
  calloc : Bool
  reqbufs : Int
  count : Nat
  querybuf : Nat → Int
  length : Nat → Nat
  mmap : Nat → Option Nat
  munmap : Nat → Int
  release : Int

/-- The loop of `unmap_bufs` from slot `i` on, with `failed` failures so
far; `fuel` is the number of slots left. -/
def unmap_bufs_from (munmap : Nat → Int) :
    Nat → Nat → Nat → List buffer_handle → Option (Nat × List buffer_handle)
  | 0, _, failed, handle => some (failed, handle)
  | fuel + 1, i, failed, handle =>
    match handle[i]? with
    | none => none
    | some h =>
      if h.begin = 0 then
        if h.size = 0 then unmap_bufs_from munmap fuel (i + 1) failed handle else none
      else if 0 < h.size then
        if munmap i ≠ 0 then unmap_bufs_from munmap fuel (i + 1) (failed + 1) handle
        else unmap_bufs_from munmap fuel (i + 1) failed (handle.set i { begin := 0, size := 0 })
      else none

/-- The `unmap_bufs` of `v4l2.c`: status and the handle array it leaves. -/
def unmap_bufs (handle : Option (List buffer_handle)) (num : Int) (munmap : Nat → Int) :
    Option (Int × Option (List buffer_handle)) :=
  match handle with
  | none => if 0 < num then none else some (0, none)
  | some l =>
    match unmap_bufs_from munmap num.toNat 0 0 l with
    | none => none
    | some (failed, l1) => some (if 0 = failed then 0 else -1, some l1)

/-- The `failed:` label of `map_bufs`. -/
def map_bufs_failed (handle : List buffer_handle) (num : Int) (k : buffer_kernel) :
    Option (Int × List buffer_handle) :=
  match unmap_bufs (some handle) num k.munmap with
  | some (status, some l) => some (status, l)
  | _ => none

/-- The loop of `map_bufs` from slot `i` on; `fuel` is the number of slots
left. -/
def map_bufs_from (num : Int) (k : buffer_kernel) :
    Nat → Nat → List buffer_handle → Option (Int × List buffer_handle)
  | 0, _, handle => some (0, handle)
  | fuel + 1, i, handle =>
    if k.querybuf i ≠ 0 then map_bufs_failed handle num k
    else
      match k.mmap i with
      | none => map_bufs_failed handle num k
      | some addr =>
        if i < handle.length then
          map_bufs_from num k fuel (i + 1) (handle.set i { begin := addr, size := k.length i })
        else none

def map_bufs (handle : List buffer_handle) (num : Int) (k : buffer_kernel) :
    Option (Int × List buffer_handle) :=
  map_bufs_from num k num.toNat 0 handle

/-- The `release_bufs_mmap` of `v4l2.c`: status, `*handle_ptr` and `*num_ptr`. -/
def release_bufs_mmap (_fd : Int) (handle : Option (List buffer_handle)) (num : Int)
    (k : buffer_kernel) : Option (Int × Option (List buffer_handle) × Int) :=
  if handle = none ∧ num = 0 then some (0, none, 0)
  else
    match unmap_bufs handle num k.munmap with
    | none => none
    | some _ => some (if k.release = -1 then -1 else 0, none, 0)

/-- Value of `(int)param.count` for the 32-bit `count`. -/
def int_of_u32 (count : Nat) : Int :=
  if count % 2 ^ 32 < 2 ^ 31 then ((count % 2 ^ 32 : Nat) : Int)
  else ((count % 2 ^ 32 : Nat) : Int) - 2 ^ 32

/-- The `acquire_bufs_mmap` of `v4l2.c`: status, `*handle_ptr` and `*num_ptr`. -/
def acquire_bufs_mmap (fd : Int) (handle : Option (List buffer_handle)) (num : Int)
    (k : buffer_kernel) : Option (Int × Option (List buffer_handle) × Int) :=
  if 0 < fd ∧ handle = none ∧ 0 < num then
    if k.calloc = false then some (-1, none, num)
    else
      let handle1 : List buffer_handle := List.replicate num.toNat { begin := 0, size := 0 }
      if k.reqbufs = -1 then release_bufs_mmap fd (some handle1) num k
      else if k.count % 2 ^ 32 = 0 then release_bufs_mmap fd (some handle1) num k
      else
        let num1 := if int_of_u32 k.count ≠ num then int_of_u32 k.count else num
        match map_bufs handle1 num1 k with
        | none => none
        | some (status, handle2) =>
          if status ≠ 0 then release_bufs_mmap fd none num1 k
          else some (0, some handle2, num1)
  else none

/-- The `acquire_bufs` of `uvc_impl.c`. -/
def acquire_bufs (dev : uvc_device_t) (no : Nat) (num : Int) (type : Nat) (k : buffer_kernel) :
    Option (Int × uvc_device_t) :=
  let buf := dev.priv.buf no
  if buf.handle = none ∧ buf.num = 0 ∧ 0 < num ∧ no < UVC_DEV_MAX_NUM then
    if V4L2_MEMORY_MMAP = type then
      match acquire_bufs_mmap (dev.sys_fd no) buf.handle num k with
      | none => none
      | some (status, handle1, num1) =>
        if status ≠ 0 then some (status, dev.set_buf no { buf with handle := handle1, num := num1 })
        else if handle1 ≠ none ∧ num1 = num then
          some (0, dev.set_buf no { buf with handle := handle1, num := num1, type := type })
        else none
    else some (-1, dev)
  else none

/-- The `release_bufs` of `uvc_impl.c`. -/
def release_bufs (dev : uvc_device_t) (no : Nat) (k : buffer_kernel) :
    Option (Int × uvc_device_t) :=
  let buf := dev.priv.buf no
  if no < UVC_DEV_MAX_NUM then
    if buf.handle = none ∧ buf.num = 0 then some (0, dev)
    else if buf.handle = none ∨ buf.num ≤ 0 then some (-1, dev)
    else if V4L2_MEMORY_MMAP = buf.type then
      match release_bufs_mmap (dev.sys_fd no) buf.handle buf.num k with
      | none => none
      | some (status, handle1, num1) =>
        some (status, dev.set_buf no { buf with handle := handle1, num := num1 })
    else some (-1, dev)
  else none

/-- Handler of a `UVC_EVENT_STREAMON` event; `streamon` is the status of
`VIDIOC_STREAMON`. -/
def handle_streamon (dev : uvc_device_t) (no : Nat) (k : buffer_kernel) (streamon : Int) :
    Option (Int × uvc_device_t) :=
  if no < UVC_DEV_MAX_NUM then
    match acquire_bufs dev no 2 V4L2_MEMORY_MMAP k with
    | none => none
    | some (status, dev1) =>
      if status ≠ 0 then some (-1, dev1)
      else if streamon ≠ 0 then some (-1, dev1)
      else some (0, dev1)
  else none

/-- Handler of a `UVC_EVENT_STREAMOFF` event; `streamoff` is the status of
`VIDIOC_STREAMOFF`. -/
def handle_streamoff (dev : uvc_device_t) (no : Nat) (streamoff : Int) (k : buffer_kernel) :
    Option (Int × uvc_device_t) :=
  if no < UVC_DEV_MAX_NUM then
    if streamoff ≠ 0 then some (-1, dev)
    else
      match release_bufs dev no k with
      | none => none
      | some (status, dev1) => if status ≠ 0 then some (-1, dev1) else some (0, dev1)
  else none

/-- A kernel that grants the two slots asked for, each of `size` bytes,
mapped at `size` and `2 * size`, and that fails nowhere. -/
def granting_kernel (size : Nat) : buffer_kernel :=
  { calloc := true, reqbufs := 0, count := 2
    querybuf := fun _ => 0, length := fun _ => size
    mmap := fun i => some (size * (i + 1)), munmap := fun _ => 0, release := 0 }

/-- One event of the streaming life of an endpoint: a `STREAMON` or
`STREAMOFF` event with what the kernel answers, or a producer frame handed
to `uvc_handle_data` with what the kernel answers. -/
inductive stream_event where
  | streamon (k : buffer_kernel) (status : Int)
  | streamoff (status : Int) (k : buffer_kernel)
  | frame (user_data : uvc_user_data_t) (kq : ioctl_result) (flags : Nat)
      (kdq kqb : ioctl_result)

def handle_stream_event (dev : uvc_device_t) (no : Nat) :
    stream_event → Option (Int × uvc_device_t)
  | .streamon k status => handle_streamon dev no k status
  | .streamoff status k => handle_streamoff dev no status k
  | .frame user_data kq flags kdq kqb => uvc_handle_data dev no user_data kq flags kdq kqb

/-- The device after the events of endpoint `no`, handled one after the
other whatever status each handler returns; `none` once a handler does not
return. -/
def run_stream_events (dev : uvc_device_t) (no : Nat) : List stream_event → Option uvc_device_t
  | [] => some dev
  | ev :: rest =>
    match handle_stream_event dev no ev with
    | none => none
    | some (_, dev1) => run_stream_events dev1 no rest

/-- Number of producer frames among the events. -/
def frame_count : List stream_event → Nat
  | [] => 0
  | .frame _ _ _ _ _ :: rest => frame_count rest + 1
  | _ :: rest => frame_count rest

/-- A frame of `size` bytes that the kernel lets through: the slot is not
queued, nothing is dequeued (`EAGAIN`), the buffer is queued. -/
def queued_frame (size : Nat) : stream_event :=
  stream_event.frame (produced_frame size) ioctl_ok 0 ioctl_again ioctl_ok

/-! ## Proxy connection -/

def UVC_CTRL_MEM_BUF_MAX_NUM : Nat := 2

structure uvc_connection_sys where
  fd : Int
deriving DecidableEq, Repr

/-- The `mem` member of `uvc_connection_t`; `addr` holds the
`UVC_CTRL_MEM_BUF_MAX_NUM` entries of the address table, 0 for null. -/
structure uvc_connection_mem where
  fd : Int
  curr_no : Nat
  drop_no : Nat
  num : Nat
  size : Nat
  addr : List Nat
deriving DecidableEq, Repr

/-- The `data` member of `uvc_ctrl_notify_t`, without the unused `addr`. -/
structure uvc_ctrl_notify_t where
  curr_no : Nat
  bytesused : Nat
  timestamp_us : Nat
deriving DecidableEq, Repr

/-- The `data.mem` member of `uvc_ctrl_reply_t` as the peer sent it; `fd` is
the descriptor received as ancillary data. -/
structure uvc_ctrl_reply_t where
  fd : Int
  num : Nat
  size : Nat
deriving DecidableEq, Repr

/-- The `uvc_connection_t`; `sent` is the ghost record of the notify
datagrams passed to `send`, oldest first. -/
structure uvc_connection_t where
  sys : uvc_connection_sys
  idx : Nat
  mem : uvc_connection_mem
  sent : List uvc_ctrl_notify_t
deriving DecidableEq, Repr

/-- What the kernel answers while the shared memory is mapped and unmapped:
`mmap i` is the address the `i`-th `mmap` of `memfd_mmap` returns (`none`
for `MAP_FAILED`), `munmap i` the status of unmapping entry `i`, `close` the
status of closing the memory descriptor. -/
structure connection_kernel where
  mmap : Nat → Option Nat
  munmap : Nat → Int
  close : Int

/-- The loop of `memfd_unmmap` from entry `i` on. -/
def memfd_unmmap_from (conn : uvc_connection_t) (k : connection_kernel) :
    Nat → Nat → Int × uvc_connection_t
  | 0, _ => (0, conn)
  | fuel + 1, i =>
    if i < UVC_CTRL_MEM_BUF_MAX_NUM then
      if conn.mem.addr.getD i 0 = 0 then memfd_unmmap_from conn k fuel (i + 1)
      else if k.munmap i = -1 then (-1, conn)
      else
        memfd_unmmap_from { conn with mem := { conn.mem with addr := conn.mem.addr.set i 0 } }
          k fuel (i + 1)
    else (0, conn)

def memfd_unmmap (conn : uvc_connection_t) (k : connection_kernel) : Int × uvc_connection_t :=
  memfd_unmmap_from conn k UVC_CTRL_MEM_BUF_MAX_NUM 0

/-- The loop of `memfd_mmap` from entry `i` on. -/
def memfd_mmap_from (conn : uvc_connection_t) (k : connection_kernel) :
    Nat → Nat → Int × uvc_connection_t
  | 0, _ => (0, conn)
  | fuel + 1, i =>
    if i < UVC_CTRL_MEM_BUF_MAX_NUM then
      match k.mmap i with
      | none => (-1, (memfd_unmmap conn k).2)
      | some addr =>
        memfd_mmap_from { conn with mem := { conn.mem with addr := conn.mem.addr.set i addr } }
          k fuel (i + 1)
    else (0, conn)

def memfd_mmap (conn : uvc_connection_t) (k : connection_kernel) :
    Option (Int × uvc_connection_t) :=
  if conn.mem.size ≠ 0 then some (memfd_mmap_from conn k UVC_CTRL_MEM_BUF_MAX_NUM 0) else none

def memfd_release (conn : uvc_connection_t) (k : connection_kernel) : Int × uvc_connection_t :=
  if conn.mem.fd = -1 then (0, conn)
  else
    let conn1 := (memfd_unmmap conn k).2
    if k.close = -1 then (-1, conn1)
    else (0, { conn1 with mem := { conn1.mem with fd := -1 } })

def memfd_acquire (conn : uvc_connection_t) (k : connection_kernel) :
    Option (Int × uvc_connection_t) :=
  if conn.mem.fd ≠ -1 then
    match memfd_mmap conn k with
    | none => none
    | some (status, conn1) =>
      if status = -1 then some (-1, (memfd_release conn1 k).2) else some (0, conn1)
  else none

def uvc_connection_mem_acquire (conn : uvc_connection_t) (k : connection_kernel) :
    Option (Int × uvc_connection_t) :=
  memfd_acquire conn k

/-- The `setup` of `uvc_connection.c`: `send_status` is what `send` returns
for the allocation request, `recv_status` what `recvmsg` returns, `rep` the
reply received. -/
def setup (conn : uvc_connection_t) (send_status recv_status : Int) (rep : uvc_ctrl_reply_t)
    (k : connection_kernel) : Option (Int × uvc_connection_t) :=
  if send_status = -1 then some (-1, conn)
  else if recv_status = -1 then some (-1, conn)
  else
    let conn1 : uvc_connection_t :=
      { conn with mem := { conn.mem with fd := rep.fd, num := rep.num % 256
                                         size := rep.size % 2 ^ 32 } }
    match uvc_connection_mem_acquire conn1 k with
    | none => none
    | some (status, conn2) => if status = -1 then some (-1, conn2) else some (0, conn2)

/-- Producer entry point of the proxy connection; `send_status` is what
`send` returns for the notify datagram. -/
def uvc_connection_sink_data (conn : uvc_connection_t) (user_data : uvc_user_data_t)
    (send_status : Int) : Option (Int × uvc_connection_t) :=
  if conn.sys.fd ≠ -1 then
    match user_data.data with
    | none => none
    | some src =>
      if conn.mem.num = 0 then none
      else
        match conn.mem.addr[conn.mem.curr_no % conn.mem.num]? with
        | none => none
        | some _dst =>
          let bytesused := gst_buffer_extract src conn.mem.size
          let notify : uvc_ctrl_notify_t :=
            { curr_no := conn.mem.curr_no, bytesused := bytesused
              timestamp_us := src.pts / 1000 }
          let conn1 : uvc_connection_t := { conn with sent := conn.sent ++ [notify] }
          if send_status ≠ -1 then
            some (0, { conn1 with
              mem := { conn1.mem with curr_no := (conn1.mem.curr_no + 1) % 2 ^ 64 } })
          else
            some (0, { conn1 with
              mem := { conn1.mem with drop_no := (conn1.mem.drop_no + 1) % 2 ^ 64 } })
  else none

/-- The connection `uvc_connection_create` holds before `setup`: zeroed by
`calloc`, the socket connected as `fd`, no memory descriptor. -/
def created_connection (fd : Int) (idx : Nat) : uvc_connection_t :=
  { sys := { fd := fd }, idx := idx
    mem := { fd := -1, curr_no := 0, drop_no := 0, num := 0, size := 0, addr := [0, 0] }
    sent := [] }

/-- A kernel that maps entry `i` at `4096 * (i + 1)` and never fails. -/
def mapping_kernel : connection_kernel :=
  { mmap := fun i => some (4096 * (i + 1)), munmap := fun _ => 0, close := 0 }

/-- The connection after `setup` received a reply announcing `num` slots of
4096 bytes behind descriptor 7. -/
def connected_connection (num : Nat) : uvc_connection_t :=
  ((setup (created_connection 5 0) 32 64 { fd := 7, num := num, size := 4096 }
    mapping_kernel).map (fun x => x.2)).getD (created_connection 5 0)

/-- The producer handing frames to `uvc_connection_sink_data` one after the
other, each with the status its `send` gets; `none` once a call does not
return. -/
def run_connection_sink_data (conn : uvc_connection_t) :
    List (uvc_user_data_t × Int) → Option uvc_connection_t
  | [] => some conn
  | (user_data, send_status) :: rest =>
    match uvc_connection_sink_data conn user_data send_status with
    | none => none
    | some (_, conn1) => run_connection_sink_data conn1 rest

/-! ## Device list -/

/-- Offset of `strchrnul(str, c)` from `str`: the position of the first `c`,
or of the terminator when there is none.  `str` holds the characters of the C
string; a NUL among them ends it. -/
def strchrnul (str : List Char) (c : Char) : Nat :=
  (str.takeWhile (fun x => x != c && x != Char.ofNat 0)).length

/-- The loop of `uvc_device_create` over `dev->sys` from index `i` on, with
`list` the rest of `UVC_DEVICE` and `path i` the value of `sys[i].path`
(`none` for null); `fuel` bounds the iterations left.  `strndup` is taken to
succeed. -/
def parse_device_list (fuel i : Nat) (list : List Char) (path : Nat → Option (List Char)) :
    Nat → Option (List Char) :=
  match fuel with
  | 0 => path
  | fuel + 1 =>
    if i < UVC_DEV_MAX_NUM then
      let curr := strchrnul list ','
      if curr = 0 then path
      else
        parse_device_list fuel (i + 1)
          (if list[curr]? = some ',' then list.drop (curr + 1) else list.drop curr)
          (fun j => if j = i then some (list.take curr) else path j)
    else path

/-- The `sys[i].path` entries `uvc_device_create` holds after parsing
`UVC_DEVICE = list`, all null before the loop; `none` when the assertion
`dev->sys[0].path` fails. -/
def uvc_device_create_paths (list : List Char) : Option (Nat → Option (List Char)) :=
  let path := parse_device_list UVC_DEV_MAX_NUM 0 list (fun _ => none)
  if path 0 = none then none else some path

/-- The paths joined by single commas. -/
def comma_list : List (List Char) → List Char
  | [] => []
  | [p] => p
  | p :: q :: rest => p ++ ',' :: comma_list (q :: rest)

/-- A device path: not empty, without a comma, without a NUL. -/
def device_path (p : List Char) : Prop :=
  p ≠ [] ∧ ',' ∉ p ∧ Char.ofNat 0 ∉ p

instance (p : List Char) : Decidable (device_path p) := by
  unfold device_path
  infer_instance

/-! ## The driver's account of queued buffers -/

/-- Number of `VIDIOC_DQBUF` ioctls of endpoint `no` in a record of calls. -/
def count_DQBUF (no : Nat) : List call → Nat
  | [] => 0
  | call.DQBUF n _ :: rest => (if n = no then 1 else 0) + count_DQBUF no rest
  | _ :: rest => count_DQBUF no rest

/-- Number of `VIDIOC_QBUF` ioctls of endpoint `no` in a record of calls. -/
def count_QBUF (no : Nat) : List call → Nat
  | [] => 0
  | call.QBUF n _ :: rest => (if n = no then 1 else 0) + count_QBUF no rest
  | _ :: rest => count_QBUF no rest

/-- The buffers of one endpoint as the driver accounts for them: `queued`
are those it holds, queued to it and not yet dequeued; `discarded` those it
held when a `VIDIOC_STREAMOFF` emptied its queue. -/
structure driver_queue where
  queued : Nat
  discarded : Nat
deriving DecidableEq, Repr

/-- Successful `VIDIOC_DQBUF` ioctls among the calls the event added to the
record: those made, when the kernel's answer `kdq` is success. -/
def dequeued_count (dev : uvc_device_t) (no : Nat) (kdq : ioctl_result) (dev1 : uvc_device_t) :
    Nat :=
  if kdq.status = 0 then count_DQBUF no (dev1.calls.drop dev.calls.length) else 0

/-- Successful `VIDIOC_QBUF` ioctls among the calls the event added to the
record. -/
def enqueued_count (dev : uvc_device_t) (no : Nat) (kqb : ioctl_result) (dev1 : uvc_device_t) :
    Nat :=
  if kqb.status = 0 then count_QBUF no (dev1.calls.drop dev.calls.length) else 0

/-- The driver's account after the event `ev` took the device from `dev` to
`dev1`: a successful `VIDIOC_STREAMOFF` discards what was queued, a frame
removes the buffers dequeued and adds those queued, `STREAMON` changes
nothing. -/
def driver_queue.after (q : driver_queue) (dev : uvc_device_t) (no : Nat) (ev : stream_event)
    (dev1 : uvc_device_t) : driver_queue :=
  match ev with
  | .streamon _ _ => q
  | .streamoff status _ =>
    if status = 0 then { queued := 0, discarded := q.discarded + q.queued } else q
  | .frame _ _ _ kdq kqb =>
    { queued := q.queued - dequeued_count dev no kdq dev1 + enqueued_count dev no kqb dev1
      discarded := q.discarded }

/-- The driver's account after the events of `run_stream_events`. -/
def driver_queue_run (dev : uvc_device_t) (no : Nat) (q : driver_queue) :
    List stream_event → driver_queue
  | [] => q
  | ev :: rest =>
    match handle_stream_event dev no ev with
    | none => q
    | some (_, dev1) => driver_queue_run dev1 no (q.after dev no ev dev1) rest

/-- The driver dequeues only buffers it holds: in every frame of the run the
successful `VIDIOC_DQBUF` ioctls do not exceed `queued`. -/
def driver_consistent (dev : uvc_device_t) (no : Nat) (q : driver_queue) :
    List stream_event → Bool
  | [] => true
  | ev :: rest =>
    match handle_stream_event dev no ev with
    | none => true
    | some (_, dev1) =>
      (match ev with
        | .frame _ _ _ kdq _ => decide (dequeued_count dev no kdq dev1 ≤ q.queued)
        | _ => true)
      && driver_consistent dev1 no (q.after dev no ev dev1) rest

/-- The opened device after a `STREAMON` event that acquired two slots of
`size` bytes, no Probe or Commit exchange having been made. -/
def streamon_device (size : Nat) : uvc_device_t :=
  ((handle_streamon (opened_device 3) 0 (granting_kernel size) 0).map Prod.snd).getD
    (opened_device 3)

/-! ## Projections of the state updates -/

@[simp] theorem emit_sys_fd (dev : uvc_device_t) (c : call) :
    (dev.emit c).sys_fd = dev.sys_fd := rfl

@[simp] theorem emit_dbgpath (dev : uvc_device_t) (c : call) :
    (dev.emit c).dbgpath = dev.dbgpath := rfl

@[simp] theorem emit_task_state (dev : uvc_device_t) (c : call) :
    (dev.emit c).task_state = dev.task_state := rfl

@[simp] theorem emit_stats (dev : uvc_device_t) (c : call) :
    (dev.emit c).stats = dev.stats := rfl

@[simp] theorem emit_calls (dev : uvc_device_t) (c : call) :
    (dev.emit c).calls = dev.calls ++ [c] := rfl

@[simp] theorem emit_priv_buf (dev : uvc_device_t) (c : call) :
    (dev.emit c).priv.buf = dev.priv.buf := rfl

@[simp] theorem emit_priv_config_format (dev : uvc_device_t) (c : call) :
    (dev.emit c).priv.config.format = dev.priv.config.format := rfl

@[simp] theorem emit_priv_config_dflt (dev : uvc_device_t) (c : call) :
    (dev.emit c).priv.config.dflt = dev.priv.config.dflt := rfl

@[simp] theorem emit_priv_config_isoc_max_packet_size (dev : uvc_device_t) (c : call) :
    (dev.emit c).priv.config.isoc_max_packet_size = dev.priv.config.isoc_max_packet_size := rfl

@[simp] theorem emit_priv_config_curr (dev : uvc_device_t) (c : call) :
    (dev.emit c).priv.config.curr = dev.priv.config.curr := rfl

@[simp] theorem emit_priv_video_streaming (dev : uvc_device_t) (c : call) :
    (dev.emit c).priv.video_streaming = dev.priv.video_streaming := rfl

@[simp] theorem emit_priv_stats (dev : uvc_device_t) (c : call) :
    (dev.emit c).priv.stats = dev.priv.stats := rfl

@[simp] theorem emit_priv_error_code_ctrl (dev : uvc_device_t) (c : call) :
    (dev.emit c).priv.error_code_ctrl = dev.priv.error_code_ctrl := rfl

@[simp] theorem latch_sys_fd (dev : uvc_device_t) (e : Int) :
    (dev.latch e).sys_fd = dev.sys_fd := rfl

@[simp] theorem latch_dbgpath (dev : uvc_device_t) (e : Int) :
    (dev.latch e).dbgpath = dev.dbgpath := rfl

@[simp] theorem latch_task_state (dev : uvc_device_t) (e : Int) :
    (dev.latch e).task_state = dev.task_state := rfl

@[simp] theorem latch_stats (dev : uvc_device_t) (e : Int) :
    (dev.latch e).stats = dev.stats := rfl

@[simp] theorem latch_calls (dev : uvc_device_t) (e : Int) :
    (dev.latch e).calls = dev.calls := rfl

@[simp] theorem latch_priv_buf (dev : uvc_device_t) (e : Int) :
    (dev.latch e).priv.buf = dev.priv.buf := rfl

@[simp] theorem latch_priv_config_format (dev : uvc_device_t) (e : Int) :
    (dev.latch e).priv.config.format = dev.priv.config.format := rfl

@[simp] theorem latch_priv_config_dflt (dev : uvc_device_t) (e : Int) :
    (dev.latch e).priv.config.dflt = dev.priv.config.dflt := rfl

@[simp] theorem latch_priv_config_isoc_max_packet_size (dev : uvc_device_t) (e : Int) :
    (dev.latch e).priv.config.isoc_max_packet_size = dev.priv.config.isoc_max_packet_size := rfl

@[simp] theorem latch_priv_config_curr (dev : uvc_device_t) (e : Int) :
    (dev.latch e).priv.config.curr = dev.priv.config.curr := rfl

@[simp] theorem latch_priv_video_streaming (dev : uvc_device_t) (e : Int) :
    (dev.latch e).priv.video_streaming = dev.priv.video_streaming := rfl

@[simp] theorem latch_priv_stats (dev : uvc_device_t) (e : Int) :
    (dev.latch e).priv.stats = dev.priv.stats := rfl

@[simp] theorem latch_priv_error_code_ctrl (dev : uvc_device_t) (e : Int) :
    (dev.latch e).priv.error_code_ctrl = e := rfl

@[simp] theorem set_video_streaming_sys_fd (dev : uvc_device_t) (no : Nat) (vs : uvc_device_impl_video_streaming) :
    (dev.set_video_streaming no vs).sys_fd = dev.sys_fd := rfl

@[simp] theorem set_video_streaming_dbgpath (dev : uvc_device_t) (no : Nat) (vs : uvc_device_impl_video_streaming) :
    (dev.set_video_streaming no vs).dbgpath = dev.dbgpath := rfl

@[simp] theorem set_video_streaming_task_state (dev : uvc_device_t) (no : Nat) (vs : uvc_device_impl_video_streaming) :
    (dev.set_video_streaming no vs).task_state = dev.task_state := rfl

@[simp] theorem set_video_streaming_stats (dev : uvc_device_t) (no : Nat) (vs : uvc_device_impl_video_streaming) :
    (dev.set_video_streaming no vs).stats = dev.stats := rfl

@[simp] theorem set_video_streaming_calls (dev : uvc_device_t) (no : Nat) (vs : uvc_device_impl_video_streaming) :
    (dev.set_video_streaming no vs).calls = dev.calls := rfl

@[simp] theorem set_video_streaming_priv_buf (dev : uvc_device_t) (no : Nat) (vs : uvc_device_impl_video_streaming) :
    (dev.set_video_streaming no vs).priv.buf = dev.priv.buf := rfl

@[simp] theorem set_video_streaming_priv_config_format (dev : uvc_device_t) (no : Nat) (vs : uvc_device_impl_video_streaming) :
    (dev.set_video_streaming no vs).priv.config.format = dev.priv.config.format := rfl

@[simp] theorem set_video_streaming_priv_config_dflt (dev : uvc_device_t) (no : Nat) (vs : uvc_device_impl_video_streaming) :
    (dev.set_video_streaming no vs).priv.config.dflt = dev.priv.config.dflt := rfl

@[simp] theorem set_video_streaming_priv_config_isoc_max_packet_size (dev : uvc_device_t) (no : Nat) (vs : uvc_device_impl_video_streaming) :
    (dev.set_video_streaming no vs).priv.config.isoc_max_packet_size = dev.priv.config.isoc_max_packet_size := rfl

@[simp] theorem set_video_streaming_priv_config_curr (dev : uvc_device_t) (no : Nat) (vs : uvc_device_impl_video_streaming) :
    (dev.set_video_streaming no vs).priv.config.curr = dev.priv.config.curr := rfl

@[simp] theorem set_video_streaming_priv_video_streaming (dev : uvc_device_t) (no : Nat) (vs : uvc_device_impl_video_streaming) :
    (dev.set_video_streaming no vs).priv.video_streaming = Function.update dev.priv.video_streaming no vs := rfl

@[simp] theorem set_video_streaming_priv_stats (dev : uvc_device_t) (no : Nat) (vs : uvc_device_impl_video_streaming) :
    (dev.set_video_streaming no vs).priv.stats = dev.priv.stats := rfl

@[simp] theorem set_video_streaming_priv_error_code_ctrl (dev : uvc_device_t) (no : Nat) (vs : uvc_device_impl_video_streaming) :
    (dev.set_video_streaming no vs).priv.error_code_ctrl = dev.priv.error_code_ctrl := rfl

@[simp] theorem set_selection_sys_fd (dev : uvc_device_t) (sel : uvc_selection) :
    (dev.set_selection sel).sys_fd = dev.sys_fd := rfl

@[simp] theorem set_selection_dbgpath (dev : uvc_device_t) (sel : uvc_selection) :
    (dev.set_selection sel).dbgpath = dev.dbgpath := rfl

@[simp] theorem set_selection_task_state (dev : uvc_device_t) (sel : uvc_selection) :
    (dev.set_selection sel).task_state = dev.task_state := rfl

@[simp] theorem set_selection_stats (dev : uvc_device_t) (sel : uvc_selection) :
    (dev.set_selection sel).stats = dev.stats := rfl

@[simp] theorem set_selection_calls (dev : uvc_device_t) (sel : uvc_selection) :
    (dev.set_selection sel).calls = dev.calls := rfl

@[simp] theorem set_selection_priv_buf (dev : uvc_device_t) (sel : uvc_selection) :
    (dev.set_selection sel).priv.buf = dev.priv.buf := rfl

@[simp] theorem set_selection_priv_config_format (dev : uvc_device_t) (sel : uvc_selection) :
    (dev.set_selection sel).priv.config.format = dev.priv.config.format := rfl

@[simp] theorem set_selection_priv_config_dflt (dev : uvc_device_t) (sel : uvc_selection) :
    (dev.set_selection sel).priv.config.dflt = dev.priv.config.dflt := rfl

@[simp] theorem set_selection_priv_config_isoc_max_packet_size (dev : uvc_device_t) (sel : uvc_selection) :
    (dev.set_selection sel).priv.config.isoc_max_packet_size = dev.priv.config.isoc_max_packet_size := rfl

@[simp] theorem set_selection_priv_config_curr (dev : uvc_device_t) (sel : uvc_selection) :
    (dev.set_selection sel).priv.config.curr = sel := rfl

@[simp] theorem set_selection_priv_video_streaming (dev : uvc_device_t) (sel : uvc_selection) :
    (dev.set_selection sel).priv.video_streaming = dev.priv.video_streaming := rfl

@[simp] theorem set_selection_priv_stats (dev : uvc_device_t) (sel : uvc_selection) :
    (dev.set_selection sel).priv.stats = dev.priv.stats := rfl

@[simp] theorem set_selection_priv_error_code_ctrl (dev : uvc_device_t) (sel : uvc_selection) :
    (dev.set_selection sel).priv.error_code_ctrl = dev.priv.error_code_ctrl := rfl

@[simp] theorem set_pump_stats_sys_fd (dev : uvc_device_t) (no : Nat) (st : uvc_device_impl_stats) :
    (dev.set_pump_stats no st).sys_fd = dev.sys_fd := rfl

@[simp] theorem set_pump_stats_dbgpath (dev : uvc_device_t) (no : Nat) (st : uvc_device_impl_stats) :
    (dev.set_pump_stats no st).dbgpath = dev.dbgpath := rfl

@[simp] theorem set_pump_stats_task_state (dev : uvc_device_t) (no : Nat) (st : uvc_device_impl_stats) :
    (dev.set_pump_stats no st).task_state = dev.task_state := rfl

@[simp] theorem set_pump_stats_stats (dev : uvc_device_t) (no : Nat) (st : uvc_device_impl_stats) :
    (dev.set_pump_stats no st).stats = dev.stats := rfl

@[simp] theorem set_pump_stats_calls (dev : uvc_device_t) (no : Nat) (st : uvc_device_impl_stats) :
    (dev.set_pump_stats no st).calls = dev.calls := rfl

@[simp] theorem set_pump_stats_priv_buf (dev : uvc_device_t) (no : Nat) (st : uvc_device_impl_stats) :
    (dev.set_pump_stats no st).priv.buf = dev.priv.buf := rfl

@[simp] theorem set_pump_stats_priv_config_format (dev : uvc_device_t) (no : Nat) (st : uvc_device_impl_stats) :
    (dev.set_pump_stats no st).priv.config.format = dev.priv.config.format := rfl

@[simp] theorem set_pump_stats_priv_config_dflt (dev : uvc_device_t) (no : Nat) (st : uvc_device_impl_stats) :
    (dev.set_pump_stats no st).priv.config.dflt = dev.priv.config.dflt := rfl

@[simp] theorem set_pump_stats_priv_config_isoc_max_packet_size (dev : uvc_device_t) (no : Nat) (st : uvc_device_impl_stats) :
    (dev.set_pump_stats no st).priv.config.isoc_max_packet_size = dev.priv.config.isoc_max_packet_size := rfl

@[simp] theorem set_pump_stats_priv_config_curr (dev : uvc_device_t) (no : Nat) (st : uvc_device_impl_stats) :
    (dev.set_pump_stats no st).priv.config.curr = dev.priv.config.curr := rfl

@[simp] theorem set_pump_stats_priv_video_streaming (dev : uvc_device_t) (no : Nat) (st : uvc_device_impl_stats) :
    (dev.set_pump_stats no st).priv.video_streaming = dev.priv.video_streaming := rfl

@[simp] theorem set_pump_stats_priv_stats (dev : uvc_device_t) (no : Nat) (st : uvc_device_impl_stats) :
    (dev.set_pump_stats no st).priv.stats = Function.update dev.priv.stats no st := rfl

@[simp] theorem set_pump_stats_priv_error_code_ctrl (dev : uvc_device_t) (no : Nat) (st : uvc_device_impl_stats) :
    (dev.set_pump_stats no st).priv.error_code_ctrl = dev.priv.error_code_ctrl := rfl

@[simp] theorem set_buf_sys_fd (dev : uvc_device_t) (no : Nat) (ubuf : uvc_device_impl_buf) :
    (dev.set_buf no ubuf).sys_fd = dev.sys_fd := rfl

@[simp] theorem set_buf_dbgpath (dev : uvc_device_t) (no : Nat) (ubuf : uvc_device_impl_buf) :
    (dev.set_buf no ubuf).dbgpath = dev.dbgpath := rfl

@[simp] theorem set_buf_task_state (dev : uvc_device_t) (no : Nat) (ubuf : uvc_device_impl_buf) :
    (dev.set_buf no ubuf).task_state = dev.task_state := rfl

@[simp] theorem set_buf_stats (dev : uvc_device_t) (no : Nat) (ubuf : uvc_device_impl_buf) :
    (dev.set_buf no ubuf).stats = dev.stats := rfl

@[simp] theorem set_buf_calls (dev : uvc_device_t) (no : Nat) (ubuf : uvc_device_impl_buf) :
    (dev.set_buf no ubuf).calls = dev.calls := rfl

@[simp] theorem set_buf_priv_buf (dev : uvc_device_t) (no : Nat) (ubuf : uvc_device_impl_buf) :
    (dev.set_buf no ubuf).priv.buf = Function.update dev.priv.buf no ubuf := rfl

@[simp] theorem set_buf_priv_config_format (dev : uvc_device_t) (no : Nat) (ubuf : uvc_device_impl_buf) :
    (dev.set_buf no ubuf).priv.config.format = dev.priv.config.format := rfl

@[simp] theorem set_buf_priv_config_dflt (dev : uvc_device_t) (no : Nat) (ubuf : uvc_device_impl_buf) :
    (dev.set_buf no ubuf).priv.config.dflt = dev.priv.config.dflt := rfl

@[simp] theorem set_buf_priv_config_isoc_max_packet_size (dev : uvc_device_t) (no : Nat) (ubuf : uvc_device_impl_buf) :
    (dev.set_buf no ubuf).priv.config.isoc_max_packet_size = dev.priv.config.isoc_max_packet_size := rfl

@[simp] theorem set_buf_priv_config_curr (dev : uvc_device_t) (no : Nat) (ubuf : uvc_device_impl_buf) :
    (dev.set_buf no ubuf).priv.config.curr = dev.priv.config.curr := rfl

@[simp] theorem set_buf_priv_video_streaming (dev : uvc_device_t) (no : Nat) (ubuf : uvc_device_impl_buf) :
    (dev.set_buf no ubuf).priv.video_streaming = dev.priv.video_streaming := rfl

@[simp] theorem set_buf_priv_stats (dev : uvc_device_t) (no : Nat) (ubuf : uvc_device_impl_buf) :
    (dev.set_buf no ubuf).priv.stats = dev.priv.stats := rfl

@[simp] theorem set_buf_priv_error_code_ctrl (dev : uvc_device_t) (no : Nat) (ubuf : uvc_device_impl_buf) :
    (dev.set_buf no ubuf).priv.error_code_ctrl = dev.priv.error_code_ctrl := rfl

@[simp] theorem set_stats_sys_fd (dev : uvc_device_t) (no : Nat) (st : uvc_device_stats) :
    (dev.set_stats no st).sys_fd = dev.sys_fd := rfl

@[simp] theorem set_stats_dbgpath (dev : uvc_device_t) (no : Nat) (st : uvc_device_stats) :
    (dev.set_stats no st).dbgpath = dev.dbgpath := rfl

@[simp] theorem set_stats_task_state (dev : uvc_device_t) (no : Nat) (st : uvc_device_stats) :
    (dev.set_stats no st).task_state = dev.task_state := rfl

@[simp] theorem set_stats_stats (dev : uvc_device_t) (no : Nat) (st : uvc_device_stats) :
    (dev.set_stats no st).stats = Function.update dev.stats no st := rfl

@[simp] theorem set_stats_calls (dev : uvc_device_t) (no : Nat) (st : uvc_device_stats) :
    (dev.set_stats no st).calls = dev.calls := rfl

@[simp] theorem set_stats_priv_buf (dev : uvc_device_t) (no : Nat) (st : uvc_device_stats) :
    (dev.set_stats no st).priv.buf = dev.priv.buf := rfl

@[simp] theorem set_stats_priv_config_format (dev : uvc_device_t) (no : Nat) (st : uvc_device_stats) :
    (dev.set_stats no st).priv.config.format = dev.priv.config.format := rfl

@[simp] theorem set_stats_priv_config_dflt (dev : uvc_device_t) (no : Nat) (st : uvc_device_stats) :
    (dev.set_stats no st).priv.config.dflt = dev.priv.config.dflt := rfl

@[simp] theorem set_stats_priv_config_isoc_max_packet_size (dev : uvc_device_t) (no : Nat) (st : uvc_device_stats) :
    (dev.set_stats no st).priv.config.isoc_max_packet_size = dev.priv.config.isoc_max_packet_size := rfl

@[simp] theorem set_stats_priv_config_curr (dev : uvc_device_t) (no : Nat) (st : uvc_device_stats) :
    (dev.set_stats no st).priv.config.curr = dev.priv.config.curr := rfl

@[simp] theorem set_stats_priv_video_streaming (dev : uvc_device_t) (no : Nat) (st : uvc_device_stats) :
    (dev.set_stats no st).priv.video_streaming = dev.priv.video_streaming := rfl

@[simp] theorem set_stats_priv_stats (dev : uvc_device_t) (no : Nat) (st : uvc_device_stats) :
    (dev.set_stats no st).priv.stats = dev.priv.stats := rfl

@[simp] theorem set_stats_priv_error_code_ctrl (dev : uvc_device_t) (no : Nat) (st : uvc_device_stats) :
    (dev.set_stats no st).priv.error_code_ctrl = dev.priv.error_code_ctrl := rfl

@[simp] theorem emit_dbgfiles (dev : uvc_device_t) (c : call) :
    (dev.emit c).dbgfiles = dev.dbgfiles := rfl

@[simp] theorem latch_dbgfiles (dev : uvc_device_t) (e : Int) :
    (dev.latch e).dbgfiles = dev.dbgfiles := rfl

@[simp] theorem set_video_streaming_dbgfiles (dev : uvc_device_t) (no : Nat) (vs : uvc_device_impl_video_streaming) :
    (dev.set_video_streaming no vs).dbgfiles = dev.dbgfiles := rfl

@[simp] theorem set_selection_dbgfiles (dev : uvc_device_t) (sel : uvc_selection) :
    (dev.set_selection sel).dbgfiles = dev.dbgfiles := rfl

@[simp] theorem set_pump_stats_dbgfiles (dev : uvc_device_t) (no : Nat) (st : uvc_device_impl_stats) :
    (dev.set_pump_stats no st).dbgfiles = dev.dbgfiles := rfl

@[simp] theorem set_buf_dbgfiles (dev : uvc_device_t) (no : Nat) (ubuf : uvc_device_impl_buf) :
    (dev.set_buf no ubuf).dbgfiles = dev.dbgfiles := rfl

@[simp] theorem set_stats_dbgfiles (dev : uvc_device_t) (no : Nat) (st : uvc_device_stats) :
    (dev.set_stats no st).dbgfiles = dev.dbgfiles := rfl

/-! ## Frame lemmas of the control plane -/

theorem send_reply_eq (dev : uvc_device_t) (no : Nat) (data : Option uvc_request_data)
    (k : ioctl_result) (h : no < UVC_DEV_MAX_NUM) :
    send_reply dev no data k =
      some (k.status, dev.emit (call.SEND_RESPONSE no (data.getD stall_data))) := by
  simp [send_reply, h]

theorem send_reply_inv (dev dev1 : uvc_device_t) (no : Nat) (data : Option uvc_request_data)
    (k : ioctl_result) (st : Int) (h : send_reply dev no data k = some (st, dev1)) :
    no < UVC_DEV_MAX_NUM ∧ st = k.status
      ∧ dev1 = dev.emit (call.SEND_RESPONSE no (data.getD stall_data)) := by
  unfold send_reply at h
  by_cases g : no < UVC_DEV_MAX_NUM
  · rw [if_pos g] at h
    simp only [Option.some.injEq, Prod.mk.injEq] at h
    exact ⟨g, h.1.symm, h.2.symm⟩
  · rw [if_neg g] at h; exact absurd h (by simp)

theorem send_reply_vs (dev dev1 : uvc_device_t) (no : Nat) (data : Option uvc_request_data)
    (k : ioctl_result) (st : Int) (h : send_reply dev no data k = some (st, dev1)) :
    dev1.priv.video_streaming = dev.priv.video_streaming := by
  rw [(send_reply_inv _ _ _ _ _ _ h).2.2]; rfl

theorem handle_IT_ctrl_vs (dev dev1 : uvc_device_t) (no : Nat) (ctrl : usb_ctrlrequest)
    (k : ioctl_result) (st : Int) (h : handle_IT_ctrl dev no ctrl k = some (st, dev1)) :
    dev1.priv.video_streaming = dev.priv.video_streaming := by
  unfold handle_IT_ctrl at h
  simp only at h
  split_ifs at h <;> simpa [uvc_device_t.latch] using send_reply_vs _ _ _ _ _ _ h

theorem handle_PU_ctrl_vs (dev dev1 : uvc_device_t) (no : Nat) (ctrl : usb_ctrlrequest)
    (k : ioctl_result) (st : Int) (h : handle_PU_ctrl dev no ctrl k = some (st, dev1)) :
    dev1.priv.video_streaming = dev.priv.video_streaming := by
  unfold handle_PU_ctrl at h
  simp only at h
  split_ifs at h <;> simpa [uvc_device_t.latch] using send_reply_vs _ _ _ _ _ _ h

theorem handle_control_vs (dev dev1 : uvc_device_t) (no : Nat) (ctrl : usb_ctrlrequest)
    (k : ioctl_result) (st : Int) (h : handle_control dev no ctrl k = some (st, dev1)) :
    dev1.priv.video_streaming = dev.priv.video_streaming := by
  unfold handle_control at h
  simp only at h
  split_ifs at h
  · simpa [uvc_device_t.latch] using send_reply_vs _ _ _ _ _ _ h
  · simpa [uvc_device_t.latch] using send_reply_vs _ _ _ _ _ _ h
  · exact handle_IT_ctrl_vs _ _ _ _ _ _ h
  · exact handle_PU_ctrl_vs _ _ _ _ _ _ h
  · simpa [uvc_device_t.latch] using send_reply_vs _ _ _ _ _ _ h

theorem handle_streaming_request_curr (dev dev1 : uvc_device_t) (no n : Nat)
    (req : usb_ctrlrequest) (k : ioctl_result) (st : Int)
    (h : handle_streaming_request dev no req k = some (st, dev1)) :
    (dev1.priv.video_streaming n).curr =
      if n = no ∧ req.bRequest % 256 = UVC_SET_CUR ∧ req.wValue / 256 % 256 = UVC_VS_PROBE_CONTROL
        then some streaming_ref.probe
      else if n = no ∧ req.bRequest % 256 = UVC_SET_CUR
          ∧ req.wValue / 256 % 256 = UVC_VS_COMMIT_CONTROL
        then some streaming_ref.commit
      else (dev.priv.video_streaming n).curr := by
  unfold handle_streaming_request at h
  simp only at h
  have hreply : ∀ (d : uvc_device_t) (r : Option uvc_request_data),
      send_reply d no r k = some (st, dev1) →
      (dev1.priv.video_streaming n).curr = (d.priv.video_streaming n).curr := fun d r hr => by
    rw [send_reply_vs _ _ _ _ _ _ hr]
  have hfail : streaming_request_failed dev no k = some (st, dev1) →
      (dev1.priv.video_streaming n).curr = (dev.priv.video_streaming n).curr := fun hr => by
    rw [hreply _ _ hr]; rfl
  by_cases g1 : req.bRequest % 256 = UVC_GET_CUR
  · rw [if_pos g1] at h
    have e : req.bRequest % 256 ≠ UVC_SET_CUR := by rw [g1]; decide
    simp only [e, false_and, and_false, if_false]
    cases hcur : (dev.priv.video_streaming no).curr with
    | none => rw [hcur] at h; exact hfail h
    | some p => rw [hcur] at h; exact hreply _ _ h
  rw [if_neg g1] at h
  by_cases g2 : req.bRequest % 256 = UVC_GET_MIN
  · rw [if_pos g2] at h
    have e : req.bRequest % 256 ≠ UVC_SET_CUR := by rw [g2]; decide
    simp only [e, false_and, and_false, if_false]
    cases hm : min_streaming_control dev with
    | none => rw [hm] at h; exact absurd h (by simp)
    | some c => rw [hm] at h; exact hreply _ _ h
  rw [if_neg g2] at h
  by_cases g3 : req.bRequest % 256 = UVC_GET_MAX
  · rw [if_pos g3] at h
    have e : req.bRequest % 256 ≠ UVC_SET_CUR := by rw [g3]; decide
    simp only [e, false_and, and_false, if_false]
    cases hm : max_streaming_control dev with
    | none => rw [hm] at h; exact absurd h (by simp)
    | some c => rw [hm] at h; exact hreply _ _ h
  rw [if_neg g3] at h
  by_cases g4 : req.bRequest % 256 = UVC_GET_DEF
  · rw [if_pos g4] at h
    have e : req.bRequest % 256 ≠ UVC_SET_CUR := by rw [g4]; decide
    simp only [e, false_and, and_false, if_false]
    cases hm : default_streaming_control dev with
    | none => rw [hm] at h; exact absurd h (by simp)
    | some c => rw [hm] at h; exact hreply _ _ h
  rw [if_neg g4] at h
  by_cases g5 : req.bRequest % 256 = UVC_GET_RES
  · rw [if_pos g5] at h
    have e : req.bRequest % 256 ≠ UVC_SET_CUR := by rw [g5]; decide
    simp only [e, false_and, and_false, if_false]
    exact hreply _ _ h
  rw [if_neg g5] at h
  by_cases g6 : req.bRequest % 256 = UVC_GET_LEN
  · rw [if_pos g6] at h
    have e : req.bRequest % 256 ≠ UVC_SET_CUR := by rw [g6]; decide
    simp only [e, false_and, and_false, if_false]
    exact hreply _ _ h
  rw [if_neg g6] at h
  by_cases g7 : req.bRequest % 256 = UVC_GET_INFO
  · rw [if_pos g7] at h
    have e : req.bRequest % 256 ≠ UVC_SET_CUR := by rw [g7]; decide
    simp only [e, false_and, and_false, if_false]
    exact hreply _ _ h
  rw [if_neg g7] at h
  by_cases g8 : req.bRequest % 256 = UVC_SET_CUR
  · rw [if_pos g8] at h
    by_cases g9 : UVC_VS_PROBE_CONTROL = req.wValue / 256 % 256
    · rw [if_pos g9] at h
      rw [hreply _ _ h]
      by_cases hn : n = no
      · simp [hn, g8, g9.symm, uvc_device_t.set_video_streaming]
      · simp [hn, uvc_device_t.set_video_streaming, Function.update_noteq hn]
    rw [if_neg g9] at h
    by_cases g10 : UVC_VS_COMMIT_CONTROL = req.wValue / 256 % 256
    · rw [if_pos g10] at h
      rw [hreply _ _ h]
      by_cases hn : n = no
      · have e : UVC_VS_COMMIT_CONTROL ≠ UVC_VS_PROBE_CONTROL := by decide
        simp [hn, g8, g10.symm, uvc_device_t.set_video_streaming, e]
      · simp [hn, uvc_device_t.set_video_streaming, Function.update_noteq hn]
    rw [if_neg g10] at h
    simp only [Ne.symm g9, Ne.symm g10, and_false, if_false]
    exact hfail h
  rw [if_neg g8] at h
  simp only [g8, false_and, and_false, if_false]
  exact hfail h

theorem handle_streaming_curr (dev dev1 : uvc_device_t) (no n : Nat)
    (ctrl : usb_ctrlrequest) (k : ioctl_result) (st : Int)
    (h : handle_streaming dev no ctrl k = some (st, dev1)) :
    ctrl.wValue % 65536 &&& 0x00FF = 0 ∧
    (dev1.priv.video_streaming n).curr =
      if n = no ∧ ctrl.bRequest % 256 = UVC_SET_CUR
          ∧ ctrl.wValue / 256 % 256 = UVC_VS_PROBE_CONTROL
        then some streaming_ref.probe
      else if n = no ∧ ctrl.bRequest % 256 = UVC_SET_CUR
          ∧ ctrl.wValue / 256 % 256 = UVC_VS_COMMIT_CONTROL
        then some streaming_ref.commit
      else (dev.priv.video_streaming n).curr := by
  unfold handle_streaming at h
  simp only at h
  by_cases g0 : ctrl.wValue % 65536 &&& 0x00FF = 0
  · rw [if_pos g0] at h
    refine ⟨g0, ?_⟩
    by_cases g1 : ctrl.wValue / 256 % 256 = UVC_VS_STREAM_ERROR_CODE_CONTROL
    · rw [if_pos g1] at h; exact absurd h (by simp [handle_video_streaming_error_code])
    rw [if_neg g1] at h
    by_cases g2 : ctrl.wValue / 256 % 256 = UVC_VS_PROBE_CONTROL
    · rw [if_pos g2] at h; exact handle_streaming_request_curr _ _ _ _ _ _ _ h
    rw [if_neg g2] at h
    by_cases g3 : ctrl.wValue / 256 % 256 = UVC_VS_COMMIT_CONTROL
    · rw [if_pos g3] at h; exact handle_streaming_request_curr _ _ _ _ _ _ _ h
    rw [if_neg g3] at h
    simp only [g2, g3, and_false, if_false]
    unfold stall_pipeline at h
    rw [send_reply_vs _ _ _ _ _ _ h]; rfl
  · rw [if_neg g0] at h; exact absurd h (by simp)

theorem handle_setup_curr (dev dev1 : uvc_device_t) (no n : Nat) (ctrl : usb_ctrlrequest)
    (k : ioctl_result) (st : Int) (h : handle_setup dev no ctrl k = some (st, dev1)) :
    (dev1.priv.video_streaming n).curr =
      if n = no then (set_cur_target no ctrl).orElse fun _ => (dev.priv.video_streaming n).curr
      else (dev.priv.video_streaming n).curr := by
  have hexp : ∀ m, ((dev.set_video_streaming no
      { dev.priv.video_streaming no with expected_len := 0 }).priv.video_streaming m).curr
      = (dev.priv.video_streaming m).curr := by
    intro m
    by_cases hm : m = no
    · simp [uvc_device_t.set_video_streaming, hm]
    · simp [uvc_device_t.set_video_streaming, Function.update_noteq hm]
  unfold handle_setup at h
  simp only at h
  unfold set_cur_target
  by_cases t1 : ctrl.bRequestType % 256 &&& USB_TYPE_MASK = USB_TYPE_STANDARD
  · rw [if_pos t1] at h
    have e : ctrl.bRequestType % 256 &&& USB_TYPE_MASK ≠ USB_TYPE_CLASS := by rw [t1]; decide
    simp only [handle_standard_event, Option.some.injEq, Prod.mk.injEq] at h
    rw [← h.2]
    simp [e]
  rw [if_neg t1] at h
  by_cases t2 : ctrl.bRequestType % 256 &&& USB_TYPE_MASK = USB_TYPE_CLASS
  · rw [if_pos t2] at h
    unfold handle_class_event at h
    simp only at h
    by_cases r1 : USB_RECIP_INTERFACE ≠ ctrl.bRequestType % 256 &&& USB_RECIP_MASK
    · rw [if_pos r1] at h
      unfold stall_pipeline at h
      rw [send_reply_vs _ _ _ _ _ _ h, hexp]
      simp [Ne.symm r1]
    rw [if_neg r1] at h
    have r1' : ctrl.bRequestType % 256 &&& USB_RECIP_MASK = USB_RECIP_INTERFACE := by
      by_contra hc; exact r1 (Ne.symm hc)
    by_cases i1 : interface_no ctrl no = CONTROL_INTERFACE
    · rw [if_pos i1] at h
      have e : interface_no ctrl no ≠ STREAMING_INTERFACE := by rw [i1]; decide
      rw [handle_control_vs _ _ _ _ _ _ h, hexp]
      simp [e]
    rw [if_neg i1] at h
    by_cases i2 : interface_no ctrl no = STREAMING_INTERFACE
    · rw [if_pos i2] at h
      obtain ⟨hw, hc⟩ := handle_streaming_curr _ _ _ n _ _ _ h
      rw [hc, hexp]
      by_cases hn : n = no
      · by_cases b : ctrl.bRequest % 256 = UVC_SET_CUR
        · by_cases c1 : ctrl.wValue / 256 % 256 = UVC_VS_PROBE_CONTROL
          · simp [hn, t2, r1', i2, hw, b, c1]
          · by_cases c2 : ctrl.wValue / 256 % 256 = UVC_VS_COMMIT_CONTROL
            · have e : UVC_VS_COMMIT_CONTROL ≠ UVC_VS_PROBE_CONTROL := by decide
              simp [hn, t2, r1', i2, hw, b, c2, e]
            · simp [hn, t2, r1', i2, hw, b, c1, c2]
        · simp [hn, b]
      · simp [hn]
    rw [if_neg i2] at h
    unfold stall_pipeline at h
    rw [send_reply_vs _ _ _ _ _ _ h]
    simp only [uvc_device_t.latch]
    rw [hexp]
    simp [i2]
  rw [if_neg t2] at h
  unfold stall_pipeline at h
  rw [send_reply_vs _ _ _ _ _ _ h]
  simp [t2]

theorem set_format_inv (dev dev1 : uvc_device_t) (no : Nat) (k : ioctl_result) (st : Int)
    (h : set_format dev no k = some (st, dev1)) :
    ∃ format frame,
      array_at dev.priv.config.format dev.priv.config.curr.format_no = some format
      ∧ array_at format.frame dev.priv.config.curr.frame_no = some frame
      ∧ dev.priv.config.curr.interval_no ≠ -1
      ∧ st = (if k.status = 0 then 0 else -1)
      ∧ dev1 = dev.emit (call.S_FMT no
          { type := V4L2_BUF_TYPE_VIDEO_OUTPUT
            width := frame.wWidth
            height := frame.wHeight
            pixelformat := format.fcc
            field := V4L2_FIELD_NONE
            sizeimage := calc_max_video_frame_size format frame }) := by
  unfold set_format at h
  simp only at h
  by_cases g : no < UVC_DEV_MAX_NUM ∧ (dev.priv.video_streaming no).curr ≠ none
      ∧ dev.priv.config.curr.format_no ≠ -1 ∧ dev.priv.config.curr.frame_no ≠ -1
      ∧ dev.priv.config.curr.interval_no ≠ -1
  · rw [if_pos g] at h
    cases hf : array_at dev.priv.config.format dev.priv.config.curr.format_no with
    | none => rw [hf] at h; exact absurd h (by simp)
    | some format =>
      rw [hf] at h
      simp only at h
      cases hr : array_at format.frame dev.priv.config.curr.frame_no with
      | none => rw [hr] at h; exact absurd h (by simp)
      | some frame =>
        rw [hr] at h
        simp only [Option.some.injEq, Prod.mk.injEq] at h
        exact ⟨format, frame, rfl, hr, g.2.2.2.2, h.1.symm, h.2.symm⟩
  · rw [if_neg g] at h; exact absurd h (by simp)

theorem set_format_vs (dev dev1 : uvc_device_t) (no : Nat) (k : ioctl_result) (st : Int)
    (h : set_format dev no k = some (st, dev1)) :
    dev1.priv = dev.priv := by
  obtain ⟨format, frame, -, -, -, -, h5⟩ := set_format_inv _ _ _ _ _ h
  rw [h5]; rfl

theorem store_curr (vs : uvc_device_impl_video_streaming) (p : streaming_ref)
    (c : uvc_streaming_control) : (vs.store p c).curr = vs.curr := by
  cases p <;> rfl

theorem apply_streaming_control_curr (dev dev1 : uvc_device_t) (no n : Nat)
    (src : uvc_streaming_control) (k : ioctl_result) (st : Int)
    (h : apply_streaming_control dev no src k = some (st, dev1)) :
    (dev1.priv.video_streaming n).curr = (dev.priv.video_streaming n).curr := by
  unfold apply_streaming_control at h
  simp only at h
  cases hcur : (dev.priv.video_streaming no).curr with
  | none => rw [hcur] at h; exact absurd h (by simp)
  | some p =>
    rw [hcur] at h
    simp only at h
    cases hco : coerce_streaming_control dev.priv.config
        ((dev.priv.video_streaming no).deref p) src with
    | none => rw [hco] at h; exact absurd h (by simp)
    | some r =>
      obtain ⟨dst, sel⟩ := r
      rw [hco] at h
      simp only at h
      rw [set_format_vs _ _ _ _ _ h]
      by_cases hn : n = no
      · subst hn; simp [store_curr, hcur]
      · simp [Function.update_noteq hn]

theorem handle_data_curr (dev dev1 : uvc_device_t) (no n : Nat) (data : uvc_request_data)
    (k : ioctl_result) (st : Int) (h : handle_data dev no data k = some (st, dev1)) :
    (dev1.priv.video_streaming n).curr = (dev.priv.video_streaming n).curr := by
  unfold handle_data at h
  simp only at h
  cases hcur : (dev.priv.video_streaming no).curr with
  | none => rw [hcur] at h; exact absurd h (by simp)
  | some p =>
    rw [hcur] at h
    simp only at h
    by_cases g : (dev.priv.video_streaming no).expected_len ≠ 0
        ∧ (dev.priv.video_streaming no).expected_len = data.length
        ∧ (sizeof_streaming_control : Int) ≥ (dev.priv.video_streaming no).expected_len
    · rw [if_pos g] at h
      by_cases e : ((dev.priv.video_streaming no).deref p).bytes
          = (uvc_streaming_control.of_bytes (data.data.take data.length.toNat)).bytes
      · rw [if_pos e] at h
        simp only [Option.some.injEq, Prod.mk.injEq] at h
        rw [← h.2]
      · rw [if_neg e] at h
        exact apply_streaming_control_curr _ _ _ _ _ _ _ h
    · rw [if_neg g] at h; exact absurd h (by simp)

theorem run_control_events_curr (no : Nat) (evs : List (Nat × control_event × ioctl_result)) :
    ∀ dev dev1 : uvc_device_t, run_control_events dev evs = some dev1 →
      (dev1.priv.video_streaming no).curr
        = last_set_cur no (dev.priv.video_streaming no).curr evs := by
  induction evs with
  | nil =>
    intro dev dev1 h
    simp only [run_control_events, Option.some.injEq] at h
    rw [← h]; rfl
  | cons e rest ih =>
    intro dev dev1 h
    obtain ⟨n, ev, k⟩ := e
    unfold run_control_events at h
    cases hh : handle_control_event dev n ev k with
    | none => rw [hh] at h; exact absurd h (by simp)
    | some r =>
      obtain ⟨status, dev2⟩ := r
      rw [hh] at h
      simp only at h
      by_cases hs : status = 0
      · rw [if_pos hs] at h
        rw [ih dev2 dev1 h]
        cases ev with
        | setup ctrl =>
          have hc := handle_setup_curr dev dev2 n no ctrl k status hh
          rw [hc]
          by_cases hn : n = no
          · subst hn
            simp only [last_set_cur, if_true]
            cases set_cur_target n ctrl <;> rfl
          · have hn' : ¬ no = n := fun e => hn e.symm
            simp [last_set_cur, hn, hn']
        | data d =>
          have hc := handle_data_curr dev dev2 n no d k status hh
          rw [hc]; rfl
      · rw [if_neg hs] at h; exact absurd h (by simp)

/-- C1. `GET_CUR` handled by `handle_streaming_request` on endpoint `no`,
after the event thread handled the control events `evs` starting from a
device on which no copy was current: when `evs` holds no accepted `SET_CUR`
for the endpoint the reply is a stall (length `-EL2HLT`); otherwise the reply
has length `sizeof(struct uvc_streaming_control)` and its data starts with the
bytes of the probe copy when the most recent accepted `SET_CUR` addressed
Probe, of the commit copy when it addressed Commit. -/
theorem get_cur_replies_most_recent_set_cur (dev0 dev : uvc_device_t)
    (evs : List (Nat × control_event × ioctl_result)) (no : Nat) (req : usb_ctrlrequest)
    (k : ioctl_result)
    (hno : no < UVC_DEV_MAX_NUM)
    (h0 : (dev0.priv.video_streaming no).curr = none)
    (hrun : run_control_events dev0 evs = some dev)
    (hreq : req.bRequest % 256 = UVC_GET_CUR) :
    handle_streaming_request dev no req k =
      match last_set_cur no none evs with
      | none =>
        some (k.status,
          (dev.latch ERR_CODE_CTRL_INVALID_REQUEST).emit
            (call.SEND_RESPONSE no { length := -EL2HLT, data := zero_data }))
      | some streaming_ref.probe =>
        some (k.status,
          dev.emit (call.SEND_RESPONSE no
            { length := 34
              data := (dev.priv.video_streaming no).probe.bytes ++ List.replicate 26 0 }))
      | some streaming_ref.commit =>
        some (k.status,
          dev.emit (call.SEND_RESPONSE no
            { length := 34
              data := (dev.priv.video_streaming no).commit.bytes ++ List.replicate 26 0 })) := by
  have hc := run_control_events_curr no evs dev0 dev hrun
  rw [h0] at hc
  unfold handle_streaming_request
  simp only
  rw [if_pos hreq, hc]
  cases last_set_cur no none evs with
  | none => simp [streaming_request_failed, send_reply_eq _ _ _ _ hno, stall_reply]
  | some p =>
    cases p <;>
      simp [send_reply_eq _ _ _ _ hno, streaming_reply, ctrl_data,
        uvc_device_impl_video_streaming.deref, sizeof_streaming_control]

theorem get_cur_replies_most_recent_set_cur_witness :
    handle_streaming_request probing_device 0 (get_cur_request UVC_VS_PROBE_CONTROL) ioctl_ok =
      some (0,
        probing_device.emit (call.SEND_RESPONSE 0
          { length := 34
            data := (probing_device.priv.video_streaming 0).probe.bytes
              ++ List.replicate 26 0 })) :=
  get_cur_replies_most_recent_set_cur (opened_device 3) probing_device
    [(0, control_event.setup (set_cur_request UVC_VS_PROBE_CONTROL 26), ioctl_ok)] 0
    (get_cur_request UVC_VS_PROBE_CONTROL) ioctl_ok (by decide) rfl rfl rfl

/-! ## Catalog reads and the coercion of a streaming control -/

theorem array_at_eq_some {α : Type} (l : List α) (i : Int) (x : α) :
    array_at l i = some x ↔ 0 ≤ i ∧ l[i.toNat]? = some x := by
  unfold array_at
  by_cases h : i < 0
  · have h2 : ¬ 0 ≤ i := by omega
    simp [h, h2]
  · have h2 : 0 ≤ i := by omega
    simp [h, h2]

theorem array_at_natCast {α : Type} (l : List α) (i : Nat) :
    array_at l (i : Int) = l[i]? := by
  simp [array_at]

theorem find_interval_eq (v : Nat) :
    ∀ (arr : List Nat) (n i : Nat), n ≤ arr.length →
      find_interval v arr n i =
        some (if v ∈ arr.take n then some (i + (arr.take n).indexOf v) else none) := by
  intro arr
  induction arr with
  | nil =>
    intro n i h
    have : n = 0 := by simpa using h
    subst this
    simp [find_interval]
  | cons x xs ih =>
    intro n i h
    cases n with
    | zero => simp [find_interval]
    | succ n =>
      have h' : n ≤ xs.length := by simpa using h
      by_cases hx : x = v
      · subst hx
        simp [find_interval, List.indexOf_cons_self]
      · have hx' : ¬ v = x := fun e => hx e.symm
        simp only [find_interval, if_neg hx, ih n (i + 1) h', List.take_succ_cons,
          List.mem_cons, hx', false_or]
        by_cases hm : v ∈ xs.take n
        · simp [hm, List.indexOf_cons_ne _ hx]; omega
        · simp [hm]

/-- Closed form of `coerce_streaming_control` once the catalog reads succeed:
`fno` and `rno` are the format and frame numbers after promotion, `format`
and `frame` the catalog entries they select. -/
theorem coerce_streaming_control_eq (cfg : uvc_format_config_t)
    (dst src : uvc_streaming_control) (format : uvc_format_info_t) (frame : uvc_frame_info_t)
    (fno rno : Int)
    (hf : (if src.bFormatIndex ≠ 0 ∧ (cfg.format.length : Int) > (src.bFormatIndex : Int) - 1
            then (src.bFormatIndex : Int) - 1 else cfg.curr.format_no) = fno)
    (hfno : fno ≠ -1) (hformat : array_at cfg.format fno = some format)
    (hr : (if src.bFrameIndex ≠ 0 ∧ (format.frame.length : Int) > (src.bFrameIndex : Int) - 1
            then (src.bFrameIndex : Int) - 1 else cfg.curr.frame_no) = rno)
    (hrno : rno ≠ -1) (hframe : array_at format.frame rno = some frame)
    (hnum : frame.intervals.num.toNat ≤ frame.intervals.dwFrameInterval.length) :
    coerce_streaming_control cfg dst src =
      some
        ({ bmHint := if dst.bmHint = 0 ∧ src.bmHint ≠ 0 then src.bmHint else dst.bmHint
           bFormatIndex :=
             if src.bFormatIndex ≠ 0 ∧ (cfg.format.length : Int) > (src.bFormatIndex : Int) - 1
             then src.bFormatIndex else dst.bFormatIndex
           bFrameIndex :=
             if src.bFrameIndex ≠ 0 ∧ (format.frame.length : Int) > (src.bFrameIndex : Int) - 1
             then src.bFrameIndex else dst.bFrameIndex
           dwFrameInterval :=
             if src.dwFrameInterval ≠ 0 ∧ src.dwFrameInterval ∈
                 frame.intervals.dwFrameInterval.take frame.intervals.num.toNat
             then src.dwFrameInterval else dst.dwFrameInterval
           wKeyFrameRate :=
             if dst.wKeyFrameRate = 0 ∧ src.wKeyFrameRate ≠ 0 then src.wKeyFrameRate
             else dst.wKeyFrameRate
           wPFrameRate := if dst.wPFrameRate = 0 then src.wPFrameRate else dst.wPFrameRate
           wCompQuality := if dst.wCompQuality = 0 then src.wCompQuality else dst.wCompQuality
           wCompWindowSize :=
             if dst.wCompWindowSize = 0 then src.wCompWindowSize else dst.wCompWindowSize
           wDelay := if dst.wDelay = 0 then src.wDelay else dst.wDelay
           dwMaxVideoFrameSize :=
             if dst.dwMaxVideoFrameSize = 0 then src.dwMaxVideoFrameSize
             else calc_max_video_frame_size format frame
           dwMaxPayloadTransferSize :=
             if dst.dwMaxPayloadTransferSize = 0 then src.dwMaxPayloadTransferSize
             else dst.dwMaxPayloadTransferSize
           dwClockFrequency :=
             if dst.dwClockFrequency = 0 then src.dwClockFrequency else dst.dwClockFrequency
           bmFramingInfo :=
             if dst.bmFramingInfo = 0 then src.bmFramingInfo else dst.bmFramingInfo
           bPreferedVersion :=
             if dst.bPreferedVersion = 0 then src.bPreferedVersion else dst.bPreferedVersion
           bMinVersion := if dst.bMinVersion = 0 then src.bMinVersion else dst.bMinVersion
           bMaxVersion := if dst.bMaxVersion = 0 then src.bMaxVersion else dst.bMaxVersion },
         { format_no := fno
           frame_no := rno
           interval_no :=
              if src.dwFrameInterval ≠ 0 ∧ src.dwFrameInterval ∈
                  frame.intervals.dwFrameInterval.take frame.intervals.num.toNat
              then (((frame.intervals.dwFrameInterval.take frame.intervals.num.toNat).indexOf
                      src.dwFrameInterval : Nat) : Int)
              else cfg.curr.interval_no }) := by
  unfold coerce_streaming_control
  simp only [hf, if_neg hfno, hformat, hr, if_neg hrno, hframe,
    find_interval_eq _ _ _ 0 hnum, Nat.zero_add]
  by_cases hv : src.dwFrameInterval = 0
  · simp [hv]
  · by_cases hm : src.dwFrameInterval ∈
        frame.intervals.dwFrameInterval.take frame.intervals.num.toNat
    · simp [hv, hm]
    · simp [hv, hm]

theorem deref_store (vs : uvc_device_impl_video_streaming) (p : streaming_ref)
    (c : uvc_streaming_control) : (vs.store p c).deref p = c := by
  cases p <;> rfl

theorem set_format_eq (dev : uvc_device_t) (no : Nat) (k : ioctl_result)
    (format : uvc_format_info_t) (frame : uvc_frame_info_t)
    (hno : no < UVC_DEV_MAX_NUM) (hcur : (dev.priv.video_streaming no).curr ≠ none)
    (h1 : dev.priv.config.curr.format_no ≠ -1) (h2 : dev.priv.config.curr.frame_no ≠ -1)
    (h3 : dev.priv.config.curr.interval_no ≠ -1)
    (hformat : array_at dev.priv.config.format dev.priv.config.curr.format_no = some format)
    (hframe : array_at format.frame dev.priv.config.curr.frame_no = some frame) :
    set_format dev no k =
      some (if k.status = 0 then 0 else -1,
        dev.emit (call.S_FMT no
          { type := V4L2_BUF_TYPE_VIDEO_OUTPUT
            width := frame.wWidth
            height := frame.wHeight
            pixelformat := format.fcc
            field := V4L2_FIELD_NONE
            sizeimage := calc_max_video_frame_size format frame })) := by
  unfold set_format
  simp only [hformat, hframe]
  rw [if_pos ⟨hno, hcur, h1, h2, h3⟩]

/-- Every valid format number of the static catalog selects a format with the
single 1920x1080 frame. -/
theorem format_config_format_at (i : Int) (h0 : 0 ≤ i) (h3 : i < 3) :
    ∃ format, array_at format_config.format i = some format ∧ format.frame = nv12_frames := by
  have hi : i = 0 ∨ i = 1 ∨ i = 2 := by omega
  rcases hi with rfl | rfl | rfl
  · exact ⟨nv12_format, rfl, rfl⟩
  · exact ⟨yuyv_format, rfl, rfl⟩
  · exact ⟨mjpeg_format, rfl, rfl⟩

theorem array_at_lt {α : Type} (l : List α) (i : Int) (x : α) (h : array_at l i = some x) :
    0 ≤ i ∧ i < l.length := by
  rw [array_at_eq_some] at h
  obtain ⟨h0, h1⟩ := h
  have := (List.getElem?_eq_some.mp h1).1
  omega
/-- What `apply_streaming_control` promotes on the static catalog, for every
host payload `src` and every prior state whose format and frame numbers
select catalog entries.  The coercion yields a destination `dst` and a
selection `sel`, which the device holds whenever the call returns (and it
returns when `sel` has an interval).  A non-zero `bFormatIndex` not above the
number of formats is promoted and sets `format_no = bFormatIndex - 1`; a
non-zero `bFrameIndex` not above the frame count of the format then current
is promoted likewise; a non-zero `dwFrameInterval` found among the first
`intervals->num` entries of the current frame's interval table is promoted
and `interval_no` is its position; in every other case field and index keep
their prior values.  The format and frame numbers stay valid catalog indices,
and the interval number keeps its prior value or is a valid position. -/
theorem apply_streaming_control_promotes_catalog_values
    (dev : uvc_device_t) (no : Nat) (src : uvc_streaming_control) (k : ioctl_result)
    (p : streaming_ref)
    (hno : no < UVC_DEV_MAX_NUM)
    (hcat : dev.priv.config.format = format_config.format)
    (hcur : (dev.priv.video_streaming no).curr = some p)
    (hsel : ∃ format frame,
      array_at dev.priv.config.format dev.priv.config.curr.format_no = some format
      ∧ array_at format.frame dev.priv.config.curr.frame_no = some frame) :
    ∃ dst sel format frame,
      coerce_streaming_control dev.priv.config ((dev.priv.video_streaming no).deref p) src
        = some (dst, sel)
      ∧ (∀ st dev1, apply_streaming_control dev no src k = some (st, dev1) →
          (dev1.priv.video_streaming no).deref p = dst ∧ dev1.priv.config.curr = sel)
      ∧ (sel.interval_no ≠ -1 → (apply_streaming_control dev no src k).isSome)
      ∧ (if src.bFormatIndex ≠ 0 ∧ src.bFormatIndex ≤ dev.priv.config.format.length
          then dst.bFormatIndex = src.bFormatIndex
            ∧ sel.format_no = (src.bFormatIndex : Int) - 1
          else dst.bFormatIndex = ((dev.priv.video_streaming no).deref p).bFormatIndex
            ∧ sel.format_no = dev.priv.config.curr.format_no)
      ∧ array_at dev.priv.config.format sel.format_no = some format
      ∧ (if src.bFrameIndex ≠ 0 ∧ src.bFrameIndex ≤ format.frame.length
          then dst.bFrameIndex = src.bFrameIndex ∧ sel.frame_no = (src.bFrameIndex : Int) - 1
          else dst.bFrameIndex = ((dev.priv.video_streaming no).deref p).bFrameIndex
            ∧ sel.frame_no = dev.priv.config.curr.frame_no)
      ∧ array_at format.frame sel.frame_no = some frame
      ∧ (if src.dwFrameInterval ≠ 0 ∧ src.dwFrameInterval ∈
              frame.intervals.dwFrameInterval.take frame.intervals.num.toNat
          then dst.dwFrameInterval = src.dwFrameInterval
            ∧ sel.interval_no =
                (((frame.intervals.dwFrameInterval.take frame.intervals.num.toNat).indexOf
                    src.dwFrameInterval : Nat) : Int)
          else dst.dwFrameInterval = ((dev.priv.video_streaming no).deref p).dwFrameInterval
            ∧ sel.interval_no = dev.priv.config.curr.interval_no)
      ∧ (sel.interval_no = dev.priv.config.curr.interval_no
          ∨ (0 ≤ sel.interval_no ∧ sel.interval_no < frame.intervals.num)) := by
  obtain ⟨format0, frame0, hf0, hr0⟩ := hsel
  have hlen : dev.priv.config.format.length = 3 := by rw [hcat]; rfl
  -- the prior format and frame numbers
  have hp0 := array_at_lt _ _ _ hf0
  rw [hlen] at hp0
  have hfr0 : format0.frame = nv12_frames := by
    obtain ⟨f, hf, hfr⟩ := format_config_format_at _ hp0.1 hp0.2
    rw [hcat] at hf0
    rw [hf0] at hf
    rw [Option.some.inj hf]; exact hfr
  have hq0 := array_at_lt _ _ _ hr0
  rw [hfr0] at hq0
  have hq0' : dev.priv.config.curr.frame_no = 0 := by
    have : (nv12_frames.length : Int) = 1 := rfl
    omega
  -- the format number after promotion
  obtain ⟨fno, hfno⟩ : ∃ fno, (if src.bFormatIndex ≠ 0
      ∧ (dev.priv.config.format.length : Int) > (src.bFormatIndex : Int) - 1
      then (src.bFormatIndex : Int) - 1 else dev.priv.config.curr.format_no) = fno := ⟨_, rfl⟩
  have hfrange : 0 ≤ fno ∧ fno < 3 := by
    rw [← hfno, hlen]
    split_ifs with h
    · omega
    · exact hp0
  obtain ⟨format, hformat, hframes⟩ := format_config_format_at _ hfrange.1 hfrange.2
  rw [← hcat] at hformat
  -- the frame number after promotion
  have hflen : (format.frame.length : Int) = 1 := by rw [hframes]; rfl
  have hrno : (if src.bFrameIndex ≠ 0
      ∧ (format.frame.length : Int) > (src.bFrameIndex : Int) - 1
      then (src.bFrameIndex : Int) - 1 else dev.priv.config.curr.frame_no) = 0 := by
    rw [hflen]
    split_ifs with h
    · omega
    · exact hq0'
  have hframe : array_at format.frame 0 = some
      { wHeight := 1080, wWidth := 1920, intervals := frame_intervals } := by
    rw [hframes]; rfl
  have hco := coerce_streaming_control_eq dev.priv.config
    ((dev.priv.video_streaming no).deref p) src format _ fno 0 hfno (by omega) hformat hrno
    (by decide) hframe (by decide)
  refine ⟨_, _, format, _, hco, ?_, ?_, ?_, hformat, ?_, hframe, ?_, ?_⟩
  · -- what the device holds when the call returns
    intro st dev1 h
    unfold apply_streaming_control at h
    simp only [hcur, hco] at h
    rw [set_format_vs _ _ _ _ _ h]
    simp [deref_store]
  · -- the call returns once an interval is selected
    intro hi
    unfold apply_streaming_control
    simp only [hcur, hco]
    rw [set_format_eq _ no k format
      { wHeight := 1080, wWidth := 1920, intervals := frame_intervals } hno]
    · rfl
    · simp [store_curr, hcur]
    · simp only [set_video_streaming_priv_config_curr, set_selection_priv_config_curr]
      omega
    · simp
    · simpa using hi
    · simpa using hformat
    · simpa using hframe
  · -- format
    have e : (src.bFormatIndex ≠ 0 ∧ src.bFormatIndex ≤ dev.priv.config.format.length) ↔
        (src.bFormatIndex ≠ 0
          ∧ (dev.priv.config.format.length : Int) > (src.bFormatIndex : Int) - 1) := by
      constructor <;> rintro ⟨h1, h2⟩ <;> exact ⟨h1, by omega⟩
    by_cases hc : src.bFormatIndex ≠ 0
        ∧ (dev.priv.config.format.length : Int) > (src.bFormatIndex : Int) - 1
    · rw [if_pos (e.mpr hc)]
      rw [if_pos hc] at hfno
      exact ⟨if_pos hc, hfno.symm⟩
    · rw [if_neg (fun h => hc (e.mp h))]
      rw [if_neg hc] at hfno
      exact ⟨if_neg hc, hfno.symm⟩
  · -- frame
    have e : (src.bFrameIndex ≠ 0 ∧ src.bFrameIndex ≤ format.frame.length) ↔
        (src.bFrameIndex ≠ 0
          ∧ (format.frame.length : Int) > (src.bFrameIndex : Int) - 1) := by
      constructor <;> rintro ⟨h1, h2⟩ <;> exact ⟨h1, by omega⟩
    by_cases hc : src.bFrameIndex ≠ 0
        ∧ (format.frame.length : Int) > (src.bFrameIndex : Int) - 1
    · rw [if_pos (e.mpr hc)]
      rw [if_pos hc] at hrno
      exact ⟨if_pos hc, hrno.symm⟩
    · rw [if_neg (fun h => hc (e.mp h))]
      rw [if_neg hc] at hrno
      exact ⟨if_neg hc, hrno.symm⟩
  · -- interval
    by_cases hc : src.dwFrameInterval ≠ 0 ∧ src.dwFrameInterval ∈
        frame_intervals.dwFrameInterval.take frame_intervals.num.toNat
    · rw [if_pos hc]; exact ⟨if_pos hc, if_pos hc⟩
    · rw [if_neg hc]; exact ⟨if_neg hc, if_neg hc⟩
  · -- the interval number stays put or is a position of the list
    by_cases hc : src.dwFrameInterval ≠ 0 ∧ src.dwFrameInterval ∈
        frame_intervals.dwFrameInterval.take frame_intervals.num.toNat
    · right
      simp only [if_pos hc]
      have hlt := List.indexOf_lt_length.mpr hc.2
      have hl : (frame_intervals.dwFrameInterval.take frame_intervals.num.toNat).length = 4 := rfl
      have hn : frame_intervals.num = 4 := rfl
      rw [hl] at hlt
      omega
    · left
      simp only [if_neg hc]

/-- C2: after a Probe negotiation at 1 fps the selection is (0, 0, 0) on
NV12.  The payload asking for 333333, the 30 fps entry listed in the interval
table of the current frame, is applied without being promoted: the search
stops after the `intervals->num = 4` counted entries, the probe copy keeps
10000000 and `interval_no` keeps 0. -/
theorem listed_interval_not_promoted :
    FRAME_INTERVAL_30fps ∈ frame_intervals.dwFrameInterval
    ∧ array_at negotiated_device.priv.config.format
        negotiated_device.priv.config.curr.format_no = some nv12_format
    ∧ negotiated_device.priv.config.curr = { format_no := 0, frame_no := 0, interval_no := 0 }
    ∧ (negotiated_device.priv.video_streaming 0).curr = some streaming_ref.probe
    ∧ (apply_streaming_control negotiated_device 0 (negotiation_payload FRAME_INTERVAL_30fps)
        ioctl_ok).map
        (fun x => (x.1, (x.2.priv.video_streaming 0).probe.dwFrameInterval,
          x.2.priv.config.curr.interval_no))
      = some (0, FRAME_INTERVAL_1fps, 0) :=
  ⟨by decide, rfl, by decide, by decide, by decide⟩

theorem apply_streaming_control_promotes_catalog_values_witness :
    ∃ dst sel format frame,
      coerce_streaming_control negotiated_device.priv.config
          ((negotiated_device.priv.video_streaming 0).deref streaming_ref.probe)
              (negotiation_payload FRAME_INTERVAL_5fps)
        = some (dst, sel)
      ∧ (∀ st dev1, apply_streaming_control negotiated_device 0 (negotiation_payload
          FRAME_INTERVAL_5fps) ioctl_ok = some (st, dev1) →
          (dev1.priv.video_streaming 0).deref streaming_ref.probe = dst ∧ dev1.priv.config.curr =
              sel)
      ∧ (sel.interval_no ≠ -1 → (apply_streaming_control negotiated_device 0 (negotiation_payload
          FRAME_INTERVAL_5fps) ioctl_ok).isSome)
      ∧ (if (negotiation_payload FRAME_INTERVAL_5fps).bFormatIndex ≠ 0 ∧ (negotiation_payload
          FRAME_INTERVAL_5fps).bFormatIndex ≤ negotiated_device.priv.config.format.length
          then dst.bFormatIndex = (negotiation_payload FRAME_INTERVAL_5fps).bFormatIndex
            ∧ sel.format_no = ((negotiation_payload FRAME_INTERVAL_5fps).bFormatIndex : Int) - 1
          else dst.bFormatIndex = ((negotiated_device.priv.video_streaming 0).deref
              streaming_ref.probe).bFormatIndex
            ∧ sel.format_no = negotiated_device.priv.config.curr.format_no)
      ∧ array_at negotiated_device.priv.config.format sel.format_no = some format
      ∧ (if (negotiation_payload FRAME_INTERVAL_5fps).bFrameIndex ≠ 0 ∧ (negotiation_payload
          FRAME_INTERVAL_5fps).bFrameIndex ≤ format.frame.length
          then dst.bFrameIndex = (negotiation_payload FRAME_INTERVAL_5fps).bFrameIndex ∧
              sel.frame_no = ((negotiation_payload FRAME_INTERVAL_5fps).bFrameIndex : Int) - 1
          else dst.bFrameIndex = ((negotiated_device.priv.video_streaming 0).deref
              streaming_ref.probe).bFrameIndex
            ∧ sel.frame_no = negotiated_device.priv.config.curr.frame_no)
      ∧ array_at format.frame sel.frame_no = some frame
      ∧ (if (negotiation_payload FRAME_INTERVAL_5fps).dwFrameInterval ≠ 0 ∧ (negotiation_payload
          FRAME_INTERVAL_5fps).dwFrameInterval ∈
              frame.intervals.dwFrameInterval.take frame.intervals.num.toNat
          then dst.dwFrameInterval = (negotiation_payload FRAME_INTERVAL_5fps).dwFrameInterval
            ∧ sel.interval_no =
                (((frame.intervals.dwFrameInterval.take frame.intervals.num.toNat).indexOf
                    (negotiation_payload FRAME_INTERVAL_5fps).dwFrameInterval : Nat) : Int)
          else dst.dwFrameInterval = ((negotiated_device.priv.video_streaming 0).deref
              streaming_ref.probe).dwFrameInterval
            ∧ sel.interval_no = negotiated_device.priv.config.curr.interval_no)
      ∧ (sel.interval_no = negotiated_device.priv.config.curr.interval_no
          ∨ (0 ≤ sel.interval_no ∧ sel.interval_no < frame.intervals.num)) :=
  apply_streaming_control_promotes_catalog_values negotiated_device 0
    (negotiation_payload FRAME_INTERVAL_5fps) ioctl_ok streaming_ref.probe (by decide) rfl rfl
    ⟨nv12_format, { wHeight := 1080, wWidth := 1920, intervals := frame_intervals }, rfl, rfl⟩

/-! ## The Probe/Commit exchange -/

theorem apply_streaming_control_inv (dev dev1 : uvc_device_t) (no : Nat)
    (src : uvc_streaming_control) (k : ioctl_result) (st : Int)
    (h : apply_streaming_control dev no src k = some (st, dev1)) :
    ∃ p dst sel fmt,
      (dev.priv.video_streaming no).curr = some p
      ∧ coerce_streaming_control dev.priv.config ((dev.priv.video_streaming no).deref p) src
          = some (dst, sel)
      ∧ st = (if k.status = 0 then 0 else -1)
      ∧ dev1 = (((dev.set_selection sel).set_video_streaming no
          ((dev.priv.video_streaming no).store p dst)).emit (call.S_FMT no fmt)) := by
  unfold apply_streaming_control at h
  simp only at h
  cases hcur : (dev.priv.video_streaming no).curr with
  | none => rw [hcur] at h; exact absurd h (by simp)
  | some p =>
    rw [hcur] at h
    simp only at h
    cases hco : coerce_streaming_control dev.priv.config
        ((dev.priv.video_streaming no).deref p) src with
    | none => rw [hco] at h; exact absurd h (by simp)
    | some r =>
      obtain ⟨dst, sel⟩ := r
      rw [hco] at h
      simp only at h
      obtain ⟨format, frame, -, -, -, h4, h5⟩ := set_format_inv _ _ _ _ _ h
      exact ⟨p, dst, sel, _, rfl, hco, h4, h5⟩

theorem handle_data_inv (dev dev1 : uvc_device_t) (no : Nat) (data : uvc_request_data)
    (k : ioctl_result) (st : Int) (h : handle_data dev no data k = some (st, dev1)) :
    ∃ p, (dev.priv.video_streaming no).curr = some p
      ∧ (dev.priv.video_streaming no).expected_len ≠ 0
      ∧ (dev.priv.video_streaming no).expected_len = data.length
      ∧ (sizeof_streaming_control : Int) ≥ (dev.priv.video_streaming no).expected_len
      ∧ (((dev.priv.video_streaming no).deref p).bytes
            = (uvc_streaming_control.of_bytes (data.data.take data.length.toNat)).bytes
          → st = 0 ∧ dev1 = dev)
      ∧ (((dev.priv.video_streaming no).deref p).bytes
            ≠ (uvc_streaming_control.of_bytes (data.data.take data.length.toNat)).bytes
          → apply_streaming_control dev no
              (uvc_streaming_control.of_bytes (data.data.take data.length.toNat)) k
              = some (st, dev1)) := by
  unfold handle_data at h
  simp only at h
  cases hcur : (dev.priv.video_streaming no).curr with
  | none => rw [hcur] at h; exact absurd h (by simp)
  | some p =>
    rw [hcur] at h
    simp only at h
    by_cases g : (dev.priv.video_streaming no).expected_len ≠ 0
        ∧ (dev.priv.video_streaming no).expected_len = data.length
        ∧ (sizeof_streaming_control : Int) ≥ (dev.priv.video_streaming no).expected_len
    · rw [if_pos g] at h
      refine ⟨p, rfl, g.1, g.2.1, g.2.2, ?_, ?_⟩
      · intro e
        rw [if_pos e] at h
        simp only [Option.some.injEq, Prod.mk.injEq] at h
        exact ⟨h.1.symm, h.2.symm⟩
      · intro e
        rw [if_neg e] at h
        exact h
    · rw [if_neg g] at h; exact absurd h (by simp)

/-- A `SET_CUR` on Probe or Commit that reaches the streaming handler makes
the addressed copy current, records `wLength` and replies with that length. -/
theorem handle_setup_set_cur (dev : uvc_device_t) (no : Nat) (ctrl : usb_ctrlrequest)
    (k : ioctl_result) (p : streaming_ref) (hno : no < UVC_DEV_MAX_NUM)
    (h : set_cur_target no ctrl = some p) :
    handle_setup dev no ctrl k =
      some (k.status,
        ((dev.set_video_streaming no
            { dev.priv.video_streaming no with expected_len := 0 }).set_video_streaming no
            { probe := (dev.priv.video_streaming no).probe
              commit := (dev.priv.video_streaming no).commit
              curr := some p
              expected_len := ctrl.wLength }).emit
          (call.SEND_RESPONSE no { length := ctrl.wLength, data := zero_data })) := by
  unfold set_cur_target at h
  by_cases g : ctrl.bRequestType % 256 &&& USB_TYPE_MASK = USB_TYPE_CLASS
      ∧ ctrl.bRequestType % 256 &&& USB_RECIP_MASK = USB_RECIP_INTERFACE
      ∧ interface_no ctrl no = STREAMING_INTERFACE
      ∧ ctrl.wValue % 65536 &&& 0x00FF = 0
      ∧ ctrl.bRequest % 256 = UVC_SET_CUR
  · rw [if_pos g] at h
    obtain ⟨g1, g2, g3, g4, g5⟩ := g
    have t1 : ¬ ctrl.bRequestType % 256 &&& USB_TYPE_MASK = USB_TYPE_STANDARD := by
      rw [g1]; decide
    have i1 : ¬ interface_no ctrl no = CONTROL_INTERFACE := by rw [g3]; decide
    have b1 : ¬ UVC_SET_CUR = UVC_GET_CUR := by decide
    have b2 : ¬ UVC_SET_CUR = UVC_GET_MIN := by decide
    have b3 : ¬ UVC_SET_CUR = UVC_GET_MAX := by decide
    have b4 : ¬ UVC_SET_CUR = UVC_GET_DEF := by decide
    have b5 : ¬ UVC_SET_CUR = UVC_GET_RES := by decide
    have b6 : ¬ UVC_SET_CUR = UVC_GET_LEN := by decide
    have b7 : ¬ UVC_SET_CUR = UVC_GET_INFO := by decide
    have c0 : ¬ UVC_VS_PROBE_CONTROL = UVC_VS_STREAM_ERROR_CODE_CONTROL := by decide
    have c1 : ¬ UVC_VS_COMMIT_CONTROL = UVC_VS_STREAM_ERROR_CODE_CONTROL := by decide
    have c2 : ¬ UVC_VS_COMMIT_CONTROL = UVC_VS_PROBE_CONTROL := by decide
    have t0 : ¬ USB_TYPE_CLASS = USB_TYPE_STANDARD := by decide
    have i0 : ¬ STREAMING_INTERFACE = CONTROL_INTERFACE := by decide
    have r0 : ¬ USB_RECIP_INTERFACE ≠ USB_RECIP_INTERFACE := by decide
    unfold handle_setup handle_class_event handle_streaming handle_streaming_probe
      handle_streaming_commit handle_streaming_request
    simp only [g1, g2, g3, g4, g5, t0, i0, b1, b2, b3, b4, b5, b6, b7, if_true, if_false,
      ne_eq, not_true_eq_false]
    by_cases hp : ctrl.wValue / 256 % 256 = UVC_VS_PROBE_CONTROL
    · rw [if_pos hp] at h
      simp only [hp, c0, if_true, if_false]
      rw [send_reply_eq _ _ _ _ hno]
      simp only [← Option.some.inj h, Option.getD_some]
      congr 3
      simp [uvc_device_t.set_video_streaming]
    · rw [if_neg hp] at h
      by_cases hc : ctrl.wValue / 256 % 256 = UVC_VS_COMMIT_CONTROL
      · rw [if_pos hc] at h
        simp only [hc, c1, c2, if_true, if_false]
        have c3 : ¬ UVC_VS_PROBE_CONTROL = UVC_VS_COMMIT_CONTROL := by decide
        simp only [c3, if_false]
        rw [send_reply_eq _ _ _ _ hno]
        simp only [← Option.some.inj h, Option.getD_some]
        congr 3
        simp [uvc_device_t.set_video_streaming]
      · rw [if_neg hc] at h; exact absurd h (by simp)
  · rw [if_neg g] at h; exact absurd h (by simp)

theorem count_S_FMT_append_list (l m : List call) :
    count_S_FMT (l ++ m) = count_S_FMT l + count_S_FMT m := by
  induction l with
  | nil => simp [count_S_FMT]
  | cons x xs ih =>
    cases x <;> simp [count_S_FMT, ih]
    omega

/-- C3, the code at the scenario.  On the opened device `SET_CUR(Probe)` with
`wLength = 26` is answered with length 26.  The DATA event with the scenario
payload does not return: 333333 is not among the four intervals the list
counts, the interval number stays -1 and the assertion of `set_format`
fails; the coerced probe copy holds `dwMaxVideoFrameSize = 0` and
`dwMaxPayloadTransferSize = 0`.  With the counted interval 10000000 the
exchange completes and `GET_CUR(Probe)` returns both sizes as zero. -/
theorem single_frame_negotiation_evaluated :
    (handle_setup (opened_device 3) 0 (set_cur_request UVC_VS_PROBE_CONTROL 26) ioctl_ok).map
        (fun r => (r.1, r.2.calls))
      = some (0, [call.SEND_RESPONSE 0 { length := 26, data := zero_data }])
    ∧ (handle_setup (opened_device 3) 0 (set_cur_request UVC_VS_PROBE_CONTROL 26) ioctl_ok).map
        (fun r => ((r.2.priv.video_streaming 0).curr, (r.2.priv.video_streaming 0).probe))
      = some (some streaming_ref.probe, uvc_streaming_control.zero)
    ∧ run_control_events (opened_device 3)
        (set_cur_exchange UVC_VS_PROBE_CONTROL (negotiation_payload FRAME_INTERVAL_30fps) 26)
      = none
    ∧ (coerce_streaming_control format_config uvc_streaming_control.zero
          (negotiation_payload FRAME_INTERVAL_30fps)).map
        (fun r => (r.1.dwMaxVideoFrameSize, r.1.dwMaxPayloadTransferSize, r.2.interval_no))
      = some (0, 0, -1)
    ∧ (run_control_events (opened_device 3)
          (set_cur_exchange UVC_VS_PROBE_CONTROL (negotiation_payload FRAME_INTERVAL_1fps) 26
            ++ [(0, control_event.setup (get_cur_request UVC_VS_PROBE_CONTROL), ioctl_ok)])).map
        (fun d => (d.calls.getLast?.bind reply_control).map
          (fun c => (c.dwMaxVideoFrameSize, c.dwMaxPayloadTransferSize)))
      = some (some (0, 0)) := by
  refine ⟨by decide, by decide, rfl, by decide, by decide⟩

/-- C4, counterexample.  Two successive `SET_CUR(Commit)` exchanges with
byte-identical payloads: on the opened device an all-zero payload equals the
commit copy both times, and no `S_FMT` is issued; after a Probe negotiation a
payload with format index 9 is never adopted, the second DATA event differs
from the commit copy again and a second `S_FMT` is issued. -/
theorem identical_commits_not_one_S_FMT :
    (run_control_events (opened_device 3)
        (set_cur_exchange UVC_VS_COMMIT_CONTROL uvc_streaming_control.zero 26
          ++ set_cur_exchange UVC_VS_COMMIT_CONTROL uvc_streaming_control.zero 26)).map
        (fun d => count_S_FMT d.calls)
      = some 0
    ∧ (run_control_events negotiated_device
        (set_cur_exchange UVC_VS_COMMIT_CONTROL foreign_format_payload 26
          ++ set_cur_exchange UVC_VS_COMMIT_CONTROL foreign_format_payload 26)).map
        (fun d => count_S_FMT d.calls)
      = some (count_S_FMT negotiated_device.calls + 2) := by
  refine ⟨by decide, by decide⟩

/-- C4, amended.  Two successive `SET_CUR(Commit)` exchanges with
byte-identical payloads, where the first DATA event finds the payload
different from the commit copy and the first exchange leaves the commit copy
byte-wise equal to the payload: the second SETUP is answered, the second DATA
event is a no-op that returns 0 and changes no state, and the four events
issue exactly one `S_FMT`. -/
theorem identical_commits_one_S_FMT_when_adopted
    (dev d1 d2 : uvc_device_t) (no : Nat) (ctrl : usb_ctrlrequest) (data : uvc_request_data)
    (k1 k2 k3 k4 : ioctl_result) (s1 s2 : Int)
    (hno : no < UVC_DEV_MAX_NUM)
    (hctrl : set_cur_target no ctrl = some streaming_ref.commit)
    (h1 : handle_setup dev no ctrl k1 = some (s1, d1))
    (h2 : handle_data d1 no data k2 = some (s2, d2))
    (hdiff : (d1.priv.video_streaming no).commit.bytes
      ≠ (uvc_streaming_control.of_bytes (data.data.take data.length.toNat)).bytes)
    (hadopt : (d2.priv.video_streaming no).commit.bytes
      = (uvc_streaming_control.of_bytes (data.data.take data.length.toNat)).bytes) :
    ∃ d3, handle_setup d2 no ctrl k3 = some (k3.status, d3)
      ∧ handle_data d3 no data k4 = some (0, d3)
      ∧ count_S_FMT d3.calls = count_S_FMT dev.calls + 1 := by
  rw [handle_setup_set_cur dev no ctrl k1 _ hno hctrl] at h1
  simp only [Option.some.injEq, Prod.mk.injEq] at h1
  obtain ⟨-, hd1⟩ := h1
  obtain ⟨p, hp, ha1, ha2, ha3, -, hne⟩ := handle_data_inv _ _ _ _ _ _ h2
  have hcur1 : (d1.priv.video_streaming no).curr = some streaming_ref.commit := by
    rw [← hd1]; simp
  have hlen1 : (d1.priv.video_streaming no).expected_len = ctrl.wLength := by
    rw [← hd1]; simp
  rw [hcur1] at hp
  have hp' : p = streaming_ref.commit := (Option.some.inj hp).symm
  subst hp'
  have happ := hne hdiff
  obtain ⟨p2, dst, sel, fmt, hq, -, -, hd2⟩ := apply_streaming_control_inv _ _ _ _ _ _ happ
  refine ⟨_, handle_setup_set_cur d2 no ctrl k3 _ hno hctrl, ?_, ?_⟩
  · unfold handle_data
    simp only [emit_priv_video_streaming, set_video_streaming_priv_video_streaming,
      Function.update_same]
    rw [hlen1] at ha1 ha2 ha3
    rw [if_pos ⟨ha1, ha2, ha3⟩]
    have : (uvc_device_impl_video_streaming.deref
        { probe := (d2.priv.video_streaming no).probe
          commit := (d2.priv.video_streaming no).commit
          curr := some streaming_ref.commit
          expected_len := (ctrl.wLength : Int) } streaming_ref.commit).bytes
        = (uvc_streaming_control.of_bytes (data.data.take data.length.toNat)).bytes := hadopt
    rw [if_pos this]
  · simp only [emit_calls, set_video_streaming_calls]
    rw [hd2]
    simp only [emit_calls, set_video_streaming_calls, set_selection_calls]
    rw [← hd1]
    simp only [emit_calls, set_video_streaming_calls]
    simp [count_S_FMT_append_list, count_S_FMT]

theorem identical_commits_one_S_FMT_when_adopted_witness :
    ∃ d3,
      handle_setup (committed_device (negotiation_payload FRAME_INTERVAL_1fps)) 0
          (set_cur_request UVC_VS_COMMIT_CONTROL 26) ioctl_ok
        = some (ioctl_ok.status, d3)
      ∧ handle_data d3 0 (data_event (negotiation_payload FRAME_INTERVAL_1fps) 26) ioctl_ok
        = some (0, d3)
      ∧ count_S_FMT d3.calls = count_S_FMT (opened_device 3).calls + 1 :=
  identical_commits_one_S_FMT_when_adopted (opened_device 3) committing_device
    (committed_device (negotiation_payload FRAME_INTERVAL_1fps))
    0 (set_cur_request UVC_VS_COMMIT_CONTROL 26)
    (data_event (negotiation_payload FRAME_INTERVAL_1fps) 26)
    ioctl_ok ioctl_ok ioctl_ok ioctl_ok 0 0 (by decide) (by decide) rfl rfl (by decide)
    (by decide)

/-- A drop callback that returns has only noted the call. -/
theorem uvc_device_drop_data_returned (dev : uvc_device_t) (no : Nat)
    (user_data : uvc_user_data_t) (d : uvc_device_t)
    (h : uvc_device_drop_data dev no user_data = some d) :
    d = dev.emit (call.drop_data no user_data) := by
  unfold uvc_device_drop_data at h
  split at h
  · cases h
  · split at h
    · cases h; rfl
    · split at h
      · cases h; rfl
      · split at h
        · cases h
        · cases h; rfl

/-- A drop path that returns gives 1 and has counted one drop. -/
theorem uvc_handle_data_drop_returned (dev : uvc_device_t) (no : Nat)
    (user_data : uvc_user_data_t) (r : Int) (d : uvc_device_t)
    (h : uvc_handle_data_drop dev no user_data = some (r, d)) :
    r = 1 ∧ d = (dev.emit (call.drop_data no user_data)).set_pump_stats no
        { dev.priv.stats no with data_drop := (dev.priv.stats no).data_drop + 1 } := by
  unfold uvc_handle_data_drop at h
  cases hd : uvc_device_drop_data dev no user_data with
  | none => rw [hd] at h; cases h
  | some d1 =>
    rw [hd] at h
    have e := uvc_device_drop_data_returned dev no user_data d1 hd
    subst e
    cases h
    exact ⟨rfl, rfl⟩

theorem uvc_handle_data_drop_eq (dev : uvc_device_t) (no : Nat) (user_data : uvc_user_data_t)
    (h : user_data.data ≠ none) (hdbg : dev.dbgpath = none) :
    uvc_handle_data_drop dev no user_data =
      some (1, (dev.emit (call.drop_data no user_data)).set_pump_stats no
        { dev.priv.stats no with data_drop := (dev.priv.stats no).data_drop + 1 }) := by
  unfold uvc_handle_data_drop uvc_device_drop_data
  cases hd : user_data.data with
  | none => exact absurd hd h
  | some src =>
    simp only [hdbg]
    rfl

theorem qbuf_eq (dev : uvc_device_t) (no : Nat) (user_data : uvc_user_data_t)
    (buf : v4l2_buffer) (k : ioctl_result) (src : gst_buffer) (format : uvc_format_info_t)
    (frame : uvc_frame_info_t) (handle : List buffer_handle) (dst : buffer_handle)
    (p : streaming_ref)
    (hno : no < UVC_DEV_MAX_NUM) (hfd : dev.sys_fd no ≠ -1)
    (hsrc : user_data.data = some src)
    (hformat : array_at dev.priv.config.format dev.priv.config.curr.format_no = some format)
    (_hframe : array_at format.frame dev.priv.config.curr.frame_no = some frame)
    (hpool : (dev.priv.buf no).handle = some handle)
    (hdst : handle[buf.index]? = some dst)
    (hcur : (dev.priv.video_streaming no).curr = some p) (hdbg : dev.dbgpath = none) :
    qbuf dev no user_data buf k =
      some (if k.status ≠ 0 ∧ k.errno = EAGAIN then 1 else if k.status ≠ 0 then -1 else 0,
        if k.status ≠ 0 then
          dev.emit (call.QBUF no
            (queued_buffer buf src dst format
              ((dev.priv.video_streaming no).deref p)))
        else
          (dev.emit (call.QBUF no
            (queued_buffer buf src dst format
              ((dev.priv.video_streaming no).deref p)))).set_pump_stats no
            { dev.priv.stats no with qbuf_no := (dev.priv.stats no).qbuf_no + 1 }) := by
  have hdd : ∀ b data, debug_data dev no user_data b data = some () := by
    intro b data
    unfold debug_data
    simp only [hsrc, hdbg]
  unfold qbuf queued_buffer
  rw [if_pos ⟨hno, hfd⟩]
  simp only [hformat, hpool, hdst, uvc_device_fill_v4l2_buffer, hsrc, hdd, qbuf_bytesused, hcur]
  have e : ¬ ((0 : Int) = -1) := by decide
  rw [if_neg e]
  by_cases hc : is_compressed format.fcc = true
  · simp only [hc, if_true]
    by_cases h1 : k.status ≠ 0 ∧ k.errno = EAGAIN
    · simp [h1]
    · by_cases h2 : k.status ≠ 0
      · have h3 : ¬ k.errno = EAGAIN := fun e => h1 ⟨h2, e⟩
        simp [h2, h3]
      · simp [h2]
  · simp only [hc, if_false]
    by_cases h1 : k.status ≠ 0 ∧ k.errno = EAGAIN
    · simp [h1]
    · by_cases h2 : k.status ≠ 0
      · have h3 : ¬ k.errno = EAGAIN := fun e => h1 ⟨h2, e⟩
        simp [h2, h3]
      · simp [h2]
/-- Closed form of the part of `uvc_handle_data` from `qbuf` on, once the
catalog, pool and streaming-control reads succeed. -/
theorem uvc_handle_data_queue_eq (dev : uvc_device_t) (no : Nat) (user_data : uvc_user_data_t)
    (buf : v4l2_buffer) (k : ioctl_result) (src : gst_buffer) (format : uvc_format_info_t)
    (frame : uvc_frame_info_t) (handle : List buffer_handle) (dst : buffer_handle)
    (p : streaming_ref)
    (hno : no < UVC_DEV_MAX_NUM) (hfd : dev.sys_fd no ≠ -1)
    (hsrc : user_data.data = some src)
    (hformat : array_at dev.priv.config.format dev.priv.config.curr.format_no = some format)
    (hframe : array_at format.frame dev.priv.config.curr.frame_no = some frame)
    (hpool : (dev.priv.buf no).handle = some handle)
    (hdst : handle[buf.index]? = some dst)
    (hcur : (dev.priv.video_streaming no).curr = some p) (hdbg : dev.dbgpath = none) :
    uvc_handle_data_queue dev no user_data buf k =
      some
        (if k.status ≠ 0 ∧ k.errno = EAGAIN then
          (1, ((dev.emit (call.QBUF no (queued_buffer buf src dst format
                ((dev.priv.video_streaming no).deref p)))).emit
              (call.drop_data no user_data)).set_pump_stats no
            { dev.priv.stats no with data_drop := (dev.priv.stats no).data_drop + 1 })
        else if k.status ≠ 0 then
          (-1, dev.emit (call.QBUF no (queued_buffer buf src dst format
                ((dev.priv.video_streaming no).deref p))))
        else
          (0, ((dev.emit (call.QBUF no (queued_buffer buf src dst format
                ((dev.priv.video_streaming no).deref p)))).set_pump_stats no
              { dev.priv.stats no with qbuf_no := (dev.priv.stats no).qbuf_no + 1 }).set_buf no
            { dev.priv.buf no with curr_no := (dev.priv.buf no).curr_no + 1 })) := by
  have hud : user_data.data ≠ none := by rw [hsrc]; simp
  unfold uvc_handle_data_queue
  rw [qbuf_eq dev no user_data buf k src format frame handle dst p hno hfd hsrc hformat hframe
    hpool hdst hcur hdbg]
  by_cases h1 : k.status ≠ 0 ∧ k.errno = EAGAIN
  · simp only [h1, h1.1, if_true, and_self, ne_eq, not_false_eq_true]
    rw [if_pos (by decide : (0 : Int) < 1), uvc_handle_data_drop_eq _ _ _ hud (by simpa using hdbg)]
    rfl
  · by_cases h2 : k.status ≠ 0
    · have h3 : ¬ k.errno = EAGAIN := fun e => h1 ⟨h2, e⟩
      simp only [h2, h3, and_false, if_true, if_false, ne_eq, not_false_eq_true]
      rw [if_neg (by decide : ¬ (0 : Int) < -1), if_pos (by decide : ¬ (-1 : Int) = 0)]
    · have h2' : k.status = 0 := not_not.mp h2
      simp only [h2', ne_eq, not_true_eq_false, false_and, if_false]
      rfl
theorem uvc_handle_data_queried_eq (dev : uvc_device_t) (no : Nat) (user_data : uvc_user_data_t)
    (buf : v4l2_buffer) (kdq kqb : ioctl_result)
    (hno : no < UVC_DEV_MAX_NUM) (hfd : dev.sys_fd no ≠ -1) :
    uvc_handle_data_queried dev no user_data buf kdq kqb =
      if V4L2_BUF_FLAG_QUEUED &&& buf.flags ≠ 0 then uvc_handle_data_drop dev no user_data
      else if kdq.status = -1 ∧ kdq.errno = EAGAIN then
        uvc_handle_data_queue (dev.emit (call.DQBUF no buf.index)) no user_data
          (dequeued_buffer buf kdq) kqb
      else if kdq.status ≠ 0 then some (-1, dev.emit (call.DQBUF no buf.index))
      else
        uvc_handle_data_queue
          ((dev.emit (call.DQBUF no buf.index)).set_pump_stats no
            { dev.priv.stats no with dqbuf_no := (dev.priv.stats no).dqbuf_no + 1 })
          no user_data (dequeued_buffer buf kdq) kqb := by
  have hd : dqbuf dev no buf kdq =
      if kdq.status = -1 ∧ kdq.errno = EAGAIN then
        some (0, dev.emit (call.DQBUF no buf.index), buf)
      else if kdq.status ≠ 0 then some (-1, dev.emit (call.DQBUF no buf.index), buf)
      else
        some (0, (dev.emit (call.DQBUF no buf.index)).set_pump_stats no
          { dev.priv.stats no with dqbuf_no := (dev.priv.stats no).dqbuf_no + 1 },
          { index := kdq.index, type := buf.type, memory := buf.memory, flags := buf.flags
            bytesused := buf.bytesused, tv_sec := buf.tv_sec, tv_usec := buf.tv_usec }) := by
    unfold dqbuf
    rw [if_pos (show no < UVC_DEV_MAX_NUM ∧ dev.sys_fd no ≠ -1 from ⟨hno, hfd⟩)]
  unfold uvc_handle_data_queried
  rw [hd]
  by_cases hq : V4L2_BUF_FLAG_QUEUED &&& buf.flags ≠ 0
  · rw [if_pos hq, if_pos hq]
  · rw [if_neg hq, if_neg hq]
    by_cases h1 : kdq.status = -1 ∧ kdq.errno = EAGAIN
    · have hb : dequeued_buffer buf kdq = buf := by
        unfold dequeued_buffer
        rw [if_neg (by rw [h1.1]; decide)]
      rw [if_pos h1, if_pos h1, hb]
      rfl
    · rw [if_neg h1, if_neg h1]
      by_cases h2 : kdq.status ≠ 0
      · rw [if_pos h2, if_pos h2]
        rfl
      · have hb : dequeued_buffer buf kdq =
            { index := kdq.index, type := buf.type, memory := buf.memory, flags := buf.flags
              bytesused := buf.bytesused, tv_sec := buf.tv_sec, tv_usec := buf.tv_usec } := by
          unfold dequeued_buffer
          rw [if_pos (not_not.mp h2)]
        rw [if_neg h2, if_neg h2, hb]
        rfl

theorem uvc_handle_data_eq (dev : uvc_device_t) (no : Nat) (user_data : uvc_user_data_t)
    (kq : ioctl_result) (flags : Nat) (kdq kqb : ioctl_result) (handle : List buffer_handle)
    (hno : no < UVC_DEV_MAX_NUM) (hfd : dev.sys_fd no ≠ -1)
    (hsrc : user_data.data ≠ none)
    (hpool : (dev.priv.buf no).handle = some handle)
    (hnum : (dev.priv.buf no).num = handle.length) (hpos : 0 < handle.length)
    (hlen : handle.length < 2 ^ 31) :
    uvc_handle_data dev no user_data kq flags kdq kqb =
      if kq.status ≠ 0 then
        some (-1, (dev.set_pump_stats no
            { dev.priv.stats no with data_no := (dev.priv.stats no).data_no + 1 }).emit
          (call.QUERYBUF no ((dev.priv.buf no).curr_no % handle.length)))
      else
        uvc_handle_data_queried
          ((dev.set_pump_stats no
            { dev.priv.stats no with data_no := (dev.priv.stats no).data_no + 1 }).emit
          (call.QUERYBUF no ((dev.priv.buf no).curr_no % handle.length)))
          no user_data
          { index := (dev.priv.buf no).curr_no % handle.length
            type := V4L2_BUF_TYPE_VIDEO_OUTPUT
            memory := V4L2_MEMORY_MMAP
            flags := flags, bytesused := 0, tv_sec := 0, tv_usec := 0 } kdq kqb := by
  have hn : ((dev.priv.buf no).num % 2 ^ 64).toNat = handle.length := by
    rw [hnum]
    omega
  have hi : (dev.priv.buf no).curr_no % handle.length % 2 ^ 32
      = (dev.priv.buf no).curr_no % handle.length := by
    have := Nat.mod_lt (dev.priv.buf no).curr_no hpos
    omega
  have hz : ¬ handle.length = 0 := by omega
  unfold uvc_handle_data query_buf
  rw [if_pos ⟨hno, hsrc⟩]
  simp only [hpool, hn, hi, if_neg hz, set_pump_stats_sys_fd]
  rw [if_pos ⟨hno, hfd⟩]
  by_cases h : kq.status = 0
  · simp only [h, if_true, ne_eq, not_true_eq_false, if_false]
  · simp only [h, if_false, ne_eq, not_false_eq_true, if_true]
    rw [if_pos (by decide : ¬ (-1 : Int) = 0)]
theorem uvc_handle_data_queue_effect (dev : uvc_device_t) (no : Nat)
    (user_data : uvc_user_data_t) (buf : v4l2_buffer) (k : ioctl_result) (src : gst_buffer)
    (format : uvc_format_info_t) (frame : uvc_frame_info_t) (handle : List buffer_handle)
    (dst : buffer_handle) (p : streaming_ref)
    (hno : no < UVC_DEV_MAX_NUM) (hfd : dev.sys_fd no ≠ -1)
    (hsrc : user_data.data = some src)
    (hformat : array_at dev.priv.config.format dev.priv.config.curr.format_no = some format)
    (hframe : array_at format.frame dev.priv.config.curr.frame_no = some frame)
    (hpool : (dev.priv.buf no).handle = some handle)
    (hdst : handle[buf.index]? = some dst)
    (hcur : (dev.priv.video_streaming no).curr = some p) (hdbg : dev.dbgpath = none) :
    ∃ r dev1, uvc_handle_data_queue dev no user_data buf k = some (r, dev1)
      ∧ r = (if k.status ≠ 0 ∧ k.errno = EAGAIN then 1 else if k.status ≠ 0 then -1 else 0)
      ∧ (dev1.priv.stats no).data_no = (dev.priv.stats no).data_no
      ∧ (dev1.priv.stats no).data_drop
          = (dev.priv.stats no).data_drop + (if r = 1 then 1 else 0)
      ∧ (dev1.priv.stats no).qbuf_no = (dev.priv.stats no).qbuf_no + (if r = 0 then 1 else 0)
      ∧ (dev1.priv.buf no).curr_no = (dev.priv.buf no).curr_no + (if r = 0 then 1 else 0)
      ∧ dev1.calls = dev.calls ++
          call.QBUF no (queued_buffer buf src dst format ((dev.priv.video_streaming no).deref p))
            :: (if r = 1 then [call.drop_data no user_data] else []) := by
  rw [uvc_handle_data_queue_eq dev no user_data buf k src format frame handle dst p hno hfd hsrc
    hformat hframe hpool hdst hcur hdbg]
  by_cases h1 : k.status ≠ 0 ∧ k.errno = EAGAIN
  · rw [if_pos h1, if_pos h1]
    refine ⟨_, _, rfl, rfl, ?_⟩
    simp [uvc_device_t.set_pump_stats, uvc_device_t.set_buf, uvc_device_t.emit]
  · rw [if_neg h1, if_neg h1]
    by_cases h2 : k.status ≠ 0
    · rw [if_pos h2, if_pos h2]
      refine ⟨_, _, rfl, rfl, ?_⟩
      simp [uvc_device_t.set_pump_stats, uvc_device_t.set_buf, uvc_device_t.emit]
    · rw [if_neg h2, if_neg h2]
      refine ⟨_, _, rfl, rfl, ?_⟩
      simp [uvc_device_t.set_pump_stats, uvc_device_t.set_buf, uvc_device_t.emit]
theorem uvc_handle_data_queried_effect (dev : uvc_device_t) (no : Nat)
    (user_data : uvc_user_data_t) (buf : v4l2_buffer) (kdq kqb : ioctl_result)
    (src : gst_buffer) (format : uvc_format_info_t) (frame : uvc_frame_info_t)
    (handle : List buffer_handle) (dst : buffer_handle) (p : streaming_ref)
    (hno : no < UVC_DEV_MAX_NUM) (hfd : dev.sys_fd no ≠ -1)
    (hsrc : user_data.data = some src)
    (hformat : array_at dev.priv.config.format dev.priv.config.curr.format_no = some format)
    (hframe : array_at format.frame dev.priv.config.curr.frame_no = some frame)
    (hpool : (dev.priv.buf no).handle = some handle)
    (hdst : handle[(dequeued_buffer buf kdq).index]? = some dst)
    (hcur : (dev.priv.video_streaming no).curr = some p) (hdbg : dev.dbgpath = none) :
    ∃ r dev1 extra, uvc_handle_data_queried dev no user_data buf kdq kqb = some (r, dev1)
      ∧ r = (if V4L2_BUF_FLAG_QUEUED &&& buf.flags ≠ 0 then 1
          else if kdq.status ≠ 0 ∧ ¬ (kdq.status = -1 ∧ kdq.errno = EAGAIN) then -1
          else if kqb.status ≠ 0 ∧ kqb.errno = EAGAIN then 1
          else if kqb.status ≠ 0 then -1
          else 0)
      ∧ (dev1.priv.stats no).data_no = (dev.priv.stats no).data_no
      ∧ (dev1.priv.stats no).data_drop
          = (dev.priv.stats no).data_drop + (if r = 1 then 1 else 0)
      ∧ (dev1.priv.stats no).qbuf_no = (dev.priv.stats no).qbuf_no + (if r = 0 then 1 else 0)
      ∧ (dev1.priv.buf no).curr_no = (dev.priv.buf no).curr_no + (if r = 0 then 1 else 0)
      ∧ dev1.calls = dev.calls ++ extra
      ∧ (call.drop_data no user_data ∈ extra ↔ r = 1)
      ∧ (∀ n b, call.QBUF n b ∈ extra →
          n = no ∧ b = queued_buffer (dequeued_buffer buf kdq) src dst format ((dev.priv.video_streaming no).deref p))
      ∧ (r = 0 → call.QBUF no
          (queued_buffer (dequeued_buffer buf kdq) src dst format ((dev.priv.video_streaming no).deref p)) ∈ extra)
      ∧ (∀ n i, call.QUERYBUF n i ∉ extra) := by
  have hud : user_data.data ≠ none := by rw [hsrc]; simp
  rw [uvc_handle_data_queried_eq _ _ _ _ _ _ hno hfd]
  by_cases h2 : V4L2_BUF_FLAG_QUEUED &&& buf.flags ≠ 0
  · rw [if_pos h2, if_pos h2, uvc_handle_data_drop_eq _ _ _ hud hdbg]
    refine ⟨_, _, [call.drop_data no user_data], rfl, rfl, ?_⟩
    simp [uvc_device_t.set_pump_stats, uvc_device_t.emit]
  · rw [if_neg h2, if_neg h2]
    by_cases h3 : kdq.status = -1 ∧ kdq.errno = EAGAIN
    · rw [if_pos h3, if_neg (fun h => h.2 h3)]
      obtain ⟨r, dev1, hq, hr, e1, e2, e3, e4, e5⟩ := uvc_handle_data_queue_effect
        (dev.emit (call.DQBUF no buf.index)) no user_data (dequeued_buffer buf kdq) kqb src format frame handle dst p
        hno (by simpa using hfd) hsrc (by simpa using hformat) (by simpa using hframe)
        (by simpa using hpool) hdst (by simpa using hcur) (by simpa using hdbg)
      rw [hq]
      simp only [emit_priv_stats, emit_priv_buf, emit_calls, emit_priv_video_streaming] at e1 e2 e3 e4 e5
      refine ⟨r, dev1, call.DQBUF no buf.index :: call.QBUF no (queued_buffer (dequeued_buffer buf kdq) src dst format
        ((dev.priv.video_streaming no).deref p))
          :: (if r = 1 then [call.drop_data no user_data] else []), rfl, hr, e1, e2, e3, e4, ?_,
          ?_, ?_, ?_, ?_⟩
      · rw [e5]; simp
      · by_cases hr1 : r = 1 <;> simp [hr1]
      · intro n b hb
        by_cases hr1 : r = 1 <;> simp [hr1] at hb <;> exact hb
      · intro _; simp
      · intro n i
        by_cases hr1 : r = 1 <;> simp [hr1]
    · rw [if_neg h3]
      by_cases h4 : kdq.status ≠ 0
      · rw [if_pos h4, if_pos ⟨h4, h3⟩]
        refine ⟨_, _, [call.DQBUF no buf.index], rfl, rfl, ?_⟩
        simp [uvc_device_t.set_pump_stats, uvc_device_t.emit]
      · rw [if_neg h4, if_neg (fun h => h4 h.1)]
        obtain ⟨r, dev1, hq, hr, e1, e2, e3, e4, e5⟩ := uvc_handle_data_queue_effect
          ((dev.emit (call.DQBUF no buf.index)).set_pump_stats no
            { dev.priv.stats no with dqbuf_no := (dev.priv.stats no).dqbuf_no + 1 })
          no user_data (dequeued_buffer buf kdq) kqb src format frame handle dst p
          hno (by simpa using hfd) hsrc (by simpa using hformat) (by simpa using hframe)
          (by simpa using hpool) hdst (by simpa using hcur) (by simpa using hdbg)
        rw [hq]
        simp only [emit_priv_stats, emit_priv_buf, emit_calls, emit_priv_video_streaming,
          set_pump_stats_priv_stats, set_pump_stats_priv_buf, set_pump_stats_calls,
          set_pump_stats_priv_video_streaming, Function.update_same] at e1 e2 e3 e4 e5
        refine ⟨r, dev1, call.DQBUF no buf.index :: call.QBUF no (queued_buffer (dequeued_buffer buf kdq) src dst format
          ((dev.priv.video_streaming no).deref p))
            :: (if r = 1 then [call.drop_data no user_data] else []), rfl, hr, e1, e2, e3, e4, ?_,
            ?_, ?_, ?_, ?_⟩
        · rw [e5]; simp
        · by_cases hr1 : r = 1 <;> simp [hr1]
        · intro n b hb
          by_cases hr1 : r = 1 <;> simp [hr1] at hb <;> exact hb
        · intro _; simp
        · intro n i
          by_cases hr1 : r = 1 <;> simp [hr1]

theorem uvc_handle_data_effect (dev : uvc_device_t) (no : Nat)
    (user_data : uvc_user_data_t) (kq : ioctl_result) (flags : Nat) (kdq kqb : ioctl_result)
    (src : gst_buffer)
    (hno : no < UVC_DEV_MAX_NUM) (hs : user_data.data = some src)
    (hready : data_plane_ready dev no) (hdq : dequeued_slot_valid dev no kdq)
    (hdbg : dev.dbgpath = none) :
    ∃ r dev1 extra, uvc_handle_data dev no user_data kq flags kdq kqb = some (r, dev1)
      ∧ r = contract_handle_data_result (dev.priv.buf no).handle.isSome kq flags kdq kqb
      ∧ (dev1.priv.stats no).data_no = (dev.priv.stats no).data_no + 1
      ∧ (dev1.priv.stats no).data_drop
          = (dev.priv.stats no).data_drop + (if r = 1 then 1 else 0)
      ∧ (dev1.priv.stats no).qbuf_no = (dev.priv.stats no).qbuf_no + (if r = 0 then 1 else 0)
      ∧ (dev1.priv.buf no).curr_no = (dev.priv.buf no).curr_no + (if r = 0 then 1 else 0)
      ∧ dev1.calls = dev.calls ++ extra
      ∧ (call.drop_data no user_data ∈ extra ↔ r = 1)
      ∧ (∀ n b, call.QBUF n b ∈ extra → n = no ∧ ∃ handle dst format p,
          (dev.priv.buf no).handle = some handle
          ∧ b.index = (if kdq.status = 0 then kdq.index
              else (dev.priv.buf no).curr_no % handle.length)
          ∧ handle[b.index]? = some dst
          ∧ array_at dev.priv.config.format dev.priv.config.curr.format_no = some format
          ∧ (dev.priv.video_streaming no).curr = some p
          ∧ b.bytesused =
              if is_compressed format.fcc then gst_buffer_extract src dst.size % 2 ^ 32
              else ((dev.priv.video_streaming no).deref p).dwMaxVideoFrameSize)
      ∧ (r = 0 → ∃ b, call.QBUF no b ∈ extra)
      ∧ (∀ n i, call.QUERYBUF n i ∈ extra → n = no ∧ ∃ handle,
          (dev.priv.buf no).handle = some handle
          ∧ i = (dev.priv.buf no).curr_no % handle.length)
      ∧ (∀ handle, (dev.priv.buf no).handle = some handle →
          call.QUERYBUF no ((dev.priv.buf no).curr_no % handle.length) ∈ extra) := by
  have hsrc : user_data.data ≠ none := by rw [hs]; simp
  cases hp : (dev.priv.buf no).handle with
  | none =>
    unfold uvc_handle_data
    rw [if_pos ⟨hno, hsrc⟩]
    simp only [hp]
    rw [uvc_handle_data_drop_eq _ _ _ hsrc (by simpa using hdbg)]
    refine ⟨_, _, [call.drop_data no user_data], rfl, ?_⟩
    simp [contract_handle_data_result, uvc_device_t.set_pump_stats, uvc_device_t.emit]
  | some handle =>
    obtain ⟨hfd, hpos, hnum, hlen, hcur, format, frame, hformat, hframe⟩ := hready handle hp
    have hpos' : 0 < handle.length := by omega
    cases hc : (dev.priv.video_streaming no).curr with
    | none => exact absurd hc hcur
    | some p =>
    have hlt : (dev.priv.buf no).curr_no % handle.length < handle.length := Nat.mod_lt _ hpos'
    have hix : (dequeued_buffer
        { index := (dev.priv.buf no).curr_no % handle.length
          type := V4L2_BUF_TYPE_VIDEO_OUTPUT
          memory := V4L2_MEMORY_MMAP
          flags := flags, bytesused := 0, tv_sec := 0, tv_usec := 0 } kdq).index
        = (if kdq.status = 0 then kdq.index
            else (dev.priv.buf no).curr_no % handle.length) := by
      unfold dequeued_buffer
      by_cases h0 : kdq.status = 0
      · rw [if_pos h0, if_pos h0]
      · rw [if_neg h0, if_neg h0]
    have hilt : (if kdq.status = 0 then kdq.index
        else (dev.priv.buf no).curr_no % handle.length) < handle.length := by
      by_cases h0 : kdq.status = 0
      · rw [if_pos h0]
        exact hdq h0 handle hp
      · rw [if_neg h0]
        exact hlt
    obtain ⟨dst, hdst⟩ : ∃ dst, handle[(if kdq.status = 0 then kdq.index
        else (dev.priv.buf no).curr_no % handle.length)]? = some dst :=
      ⟨_, List.getElem?_eq_getElem hilt⟩
    rw [uvc_handle_data_eq dev no user_data kq flags kdq kqb handle hno hfd hsrc hp hnum hpos'
      hlen]
    by_cases h1 : kq.status ≠ 0
    · rw [if_pos h1]
      refine ⟨_, _, [call.QUERYBUF no ((dev.priv.buf no).curr_no % handle.length)], rfl, ?_⟩
      simp [contract_handle_data_result, uvc_device_t.set_pump_stats, uvc_device_t.emit, h1]
    · rw [if_neg h1]
      obtain ⟨r, dev1, extra, hq, hr, e1, e2, e3, e4, e5, e6, e7, e8, e9⟩ :=
        uvc_handle_data_queried_effect
          ((dev.set_pump_stats no
            { dev.priv.stats no with data_no := (dev.priv.stats no).data_no + 1 }).emit
            (call.QUERYBUF no ((dev.priv.buf no).curr_no % handle.length)))
          no user_data
          { index := (dev.priv.buf no).curr_no % handle.length
            type := V4L2_BUF_TYPE_VIDEO_OUTPUT
            memory := V4L2_MEMORY_MMAP
            flags := flags, bytesused := 0, tv_sec := 0, tv_usec := 0 }
          kdq kqb src format frame handle dst p hno (by simpa using hfd) hs
          (by simpa using hformat) (by simpa using hframe) (by simpa using hp)
          (by rw [hix]; exact hdst) (by simpa using hc) (by simpa using hdbg)
      rw [hq]
      simp only [emit_priv_stats, emit_priv_buf, emit_calls, emit_priv_video_streaming,
        set_pump_stats_priv_stats, set_pump_stats_priv_buf, set_pump_stats_calls,
        set_pump_stats_priv_video_streaming, Function.update_same] at e1 e2 e3 e4 e5 e7 e8
      refine ⟨r, dev1, call.QUERYBUF no ((dev.priv.buf no).curr_no % handle.length) :: extra,
        rfl, ?_, e1, e2, e3, e4, ?_, ?_, ?_, ?_, ?_, ?_⟩
      · rw [hr]
        simp [contract_handle_data_result, not_not.mp h1]
      · rw [e5]; simp
      · simp [e6]
      · intro n b hb
        simp only [List.mem_cons, reduceCtorEq, false_or] at hb
        obtain ⟨hn, hb'⟩ := e7 n b hb
        have hbi : b.index = (if kdq.status = 0 then kdq.index
            else (dev.priv.buf no).curr_no % handle.length) := by
          rw [hb', ← hix]
          rfl
        refine ⟨hn, handle, dst, format, p, rfl, hbi, by rw [hbi]; exact hdst, hformat, rfl, ?_⟩
        rw [hb']
        rfl
      · intro h0
        exact ⟨_, List.mem_cons_of_mem _ (e8 h0)⟩
      · intro n i hm
        rcases List.mem_cons.mp hm with hm | hm
        · cases hm
          exact ⟨rfl, handle, rfl, rfl⟩
        · exact absurd hm (e9 n i)
      · intro handle1 h1
        cases h1
        exact List.mem_cons_self _ _

theorem debug_data_quiet (dev : uvc_device_t) (no : Nat) (user_data : uvc_user_data_t)
    (buf : v4l2_buffer) (data : Nat) (h : debug_data dev no user_data buf data = some ()) :
    debug_data dev.quiet no user_data buf data = some () := by
  unfold debug_data at h ⊢
  cases hd : user_data.data with
  | none => rw [hd] at h; cases h
  | some src => rfl

theorem uvc_device_fill_v4l2_buffer_quiet (dev : uvc_device_t) (no : Nat) (buf : v4l2_buffer)
    (dst : buffer_handle) (user_data : uvc_user_data_t) (x : Int × v4l2_buffer)
    (h : uvc_device_fill_v4l2_buffer dev no buf dst user_data = some x) :
    uvc_device_fill_v4l2_buffer dev.quiet no buf dst user_data = some x := by
  unfold uvc_device_fill_v4l2_buffer at h ⊢
  cases hd : user_data.data with
  | none => rw [hd] at h; cases h
  | some src =>
    rw [hd] at h
    simp only [] at h ⊢
    split at h
    · cases h
    · rename_i u hdd
      cases u
      rw [debug_data_quiet dev no user_data _ _ hdd]
      exact h

theorem qbuf_quiet (dev : uvc_device_t) (no : Nat) (user_data : uvc_user_data_t)
    (buf : v4l2_buffer) (k : ioctl_result) (r : Int) (d : uvc_device_t)
    (h : qbuf dev no user_data buf k = some (r, d)) :
    qbuf dev.quiet no user_data buf k = some (r, d.quiet) := by
  unfold qbuf at h ⊢
  split at h
  · rename_i hc
    rw [if_pos (show no < UVC_DEV_MAX_NUM ∧ dev.quiet.sys_fd no ≠ -1 from hc)]
    split at h
    · cases h
    · rename_i format hf
      have hf2 : array_at dev.quiet.priv.config.format dev.quiet.priv.config.curr.format_no
          = some format := hf
      simp only [hf2]
      split at h
      · cases h
      · rename_i handle hh
        have hh2 : (dev.quiet.priv.buf no).handle = some handle := hh
        simp only [hh2]
        split at h
        · cases h
        · rename_i dst hdst
          split at h
          · cases h
          · rename_i fs buf1 hfill
            simp only [uvc_device_fill_v4l2_buffer_quiet dev no buf dst user_data _ hfill]
            split at h
            · rename_i c1
              cases h
              rw [if_pos c1]
            · rename_i c1
              rw [if_neg c1]
              split at h
              · cases h
              · rename_i n hn
                have hn2 : qbuf_bytesused dev.quiet no format buf1.bytesused = some n := hn
                simp only [hn2]
                split at h
                · rename_i c2
                  cases h
                  rw [if_pos c2]
                  rfl
                · rename_i c2
                  rw [if_neg c2]
                  split at h
                  · rename_i c3
                    cases h
                    rw [if_pos c3]
                    rfl
                  · rename_i c3
                    cases h
                    rw [if_neg c3]
                    rfl
  · cases h

theorem uvc_handle_data_drop_quiet (dev : uvc_device_t) (no : Nat)
    (user_data : uvc_user_data_t) (r : Int) (d : uvc_device_t)
    (h : uvc_handle_data_drop dev no user_data = some (r, d)) :
    uvc_handle_data_drop dev.quiet no user_data = some (r, d.quiet) := by
  obtain ⟨e1, e2⟩ := uvc_handle_data_drop_returned dev no user_data r d h
  have hsrc : user_data.data ≠ none := by
    intro hn
    unfold uvc_handle_data_drop uvc_device_drop_data at h
    rw [hn] at h
    cases h
  rw [uvc_handle_data_drop_eq dev.quiet no user_data hsrc rfl, e1, e2]
  rfl

theorem uvc_handle_data_queue_quiet (dev : uvc_device_t) (no : Nat)
    (user_data : uvc_user_data_t) (buf : v4l2_buffer) (k : ioctl_result) (r : Int)
    (d : uvc_device_t) (h : uvc_handle_data_queue dev no user_data buf k = some (r, d)) :
    uvc_handle_data_queue dev.quiet no user_data buf k = some (r, d.quiet) := by
  unfold uvc_handle_data_queue at h ⊢
  cases hq : qbuf dev no user_data buf k with
  | none => rw [hq] at h; cases h
  | some x =>
    obtain ⟨st, d1⟩ := x
    rw [hq] at h
    rw [qbuf_quiet dev no user_data buf k st d1 hq]
    simp only [] at h ⊢
    split at h
    · rename_i c1
      rw [if_pos c1]
      exact uvc_handle_data_drop_quiet d1 no user_data r d h
    · rename_i c1
      rw [if_neg c1]
      split at h
      · rename_i c2
        cases h
        rw [if_pos c2]
      · rename_i c2
        cases h
        rw [if_neg c2]
        rfl

theorem dqbuf_quiet (dev : uvc_device_t) (no : Nat) (buf : v4l2_buffer) (k : ioctl_result)
    (r : Int) (d : uvc_device_t) (b : v4l2_buffer)
    (h : dqbuf dev no buf k = some (r, d, b)) :
    dqbuf dev.quiet no buf k = some (r, d.quiet, b) := by
  unfold dqbuf at h ⊢
  split at h
  · rename_i hc
    rw [if_pos (show no < UVC_DEV_MAX_NUM ∧ dev.quiet.sys_fd no ≠ -1 from hc)]
    split at h
    · rename_i c1
      cases h
      rw [if_pos c1]
      rfl
    · rename_i c1
      rw [if_neg c1]
      split at h
      · rename_i c2
        cases h
        rw [if_pos c2]
        rfl
      · rename_i c2
        cases h
        rw [if_neg c2]
        rfl
  · cases h

theorem uvc_handle_data_queried_quiet (dev : uvc_device_t) (no : Nat)
    (user_data : uvc_user_data_t) (buf : v4l2_buffer) (kdq kqb : ioctl_result) (r : Int)
    (d : uvc_device_t)
    (h : uvc_handle_data_queried dev no user_data buf kdq kqb = some (r, d)) :
    uvc_handle_data_queried dev.quiet no user_data buf kdq kqb = some (r, d.quiet) := by
  unfold uvc_handle_data_queried at h ⊢
  split at h
  · rename_i c1
    rw [if_pos c1]
    exact uvc_handle_data_drop_quiet dev no user_data r d h
  · rename_i c1
    rw [if_neg c1]
    cases hq : dqbuf dev no buf kdq with
    | none => rw [hq] at h; cases h
    | some x =>
      obtain ⟨st, d1, b1⟩ := x
      rw [hq] at h
      rw [dqbuf_quiet dev no buf kdq st d1 b1 hq]
      simp only [] at h ⊢
      split at h
      · rename_i c2
        cases h
        rw [if_pos c2]
      · rename_i c2
        rw [if_neg c2]
        exact uvc_handle_data_queue_quiet d1 no user_data b1 kqb r d h

theorem query_buf_quiet (dev : uvc_device_t) (no : Nat) (buf : v4l2_buffer) (k : ioctl_result)
    (flags : Nat) (r : Int) (d : uvc_device_t) (b : v4l2_buffer)
    (h : query_buf dev no buf k flags = some (r, d, b)) :
    query_buf dev.quiet no buf k flags = some (r, d.quiet, b) := by
  unfold query_buf at h ⊢
  split at h
  · rename_i hc
    rw [if_pos (show no < UVC_DEV_MAX_NUM ∧ dev.quiet.sys_fd no ≠ -1 from hc)]
    split at h
    · rename_i c1
      cases h
      rw [if_pos c1]
      rfl
    · rename_i c1
      cases h
      rw [if_neg c1]
      rfl
  · cases h

/-- The debug dump has no part in what `uvc_handle_data` does: a call that
returns gives the same result, and the same device up to `dbgpath`, as the
call made without a debug directory. -/
theorem uvc_handle_data_quiet (dev : uvc_device_t) (no : Nat) (user_data : uvc_user_data_t)
    (kq : ioctl_result) (flags : Nat) (kdq kqb : ioctl_result) (r : Int) (d : uvc_device_t)
    (h : uvc_handle_data dev no user_data kq flags kdq kqb = some (r, d)) :
    uvc_handle_data dev.quiet no user_data kq flags kdq kqb = some (r, d.quiet) := by
  unfold uvc_handle_data at h ⊢
  split at h
  · rename_i hc
    rw [if_pos hc]
    simp only [] at h ⊢
    cases hp : (dev.priv.buf no).handle with
    | none =>
      rw [hp] at h
      have hp2 : (dev.quiet.priv.buf no).handle = none := hp
      simp only [hp2]
      simp only [] at h
      exact uvc_handle_data_drop_quiet _ no user_data r d h
    | some handle =>
      rw [hp] at h
      have hp2 : (dev.quiet.priv.buf no).handle = some handle := hp
      simp only [hp2]
      simp only [] at h
      split at h
      · cases h
      · rename_i c1
        have c2 : ¬ ((dev.quiet.priv.buf no).num % 2 ^ 64).toNat = 0 := c1
        rw [if_neg c2]
        cases hq : query_buf
            (dev.set_pump_stats no
              { dev.priv.stats no with data_no := (dev.priv.stats no).data_no + 1 }) no
            { index := (dev.priv.buf no).curr_no % ((dev.priv.buf no).num % 2 ^ 64).toNat
                % 2 ^ 32
              type := V4L2_BUF_TYPE_VIDEO_OUTPUT
              memory := V4L2_MEMORY_MMAP
              flags := 0, bytesused := 0, tv_sec := 0, tv_usec := 0 } kq flags with
        | none => rw [hq] at h; cases h
        | some x =>
          obtain ⟨st, d2, b⟩ := x
          rw [hq] at h
          have hq2 := query_buf_quiet _ _ _ _ _ _ _ _ hq
          have hq3 : query_buf
              (dev.quiet.set_pump_stats no
                { dev.quiet.priv.stats no with
                  data_no := (dev.quiet.priv.stats no).data_no + 1 }) no
              { index := (dev.quiet.priv.buf no).curr_no
                    % ((dev.quiet.priv.buf no).num % 2 ^ 64).toNat % 2 ^ 32
                type := V4L2_BUF_TYPE_VIDEO_OUTPUT
                memory := V4L2_MEMORY_MMAP
                flags := 0, bytesused := 0, tv_sec := 0, tv_usec := 0 } kq flags
              = some (st, d2.quiet, b) := hq2
          rw [hq3]
          simp only [] at h ⊢
          split at h
          · rename_i c3
            cases h
            rw [if_pos c3]
          · rename_i c3
            rw [if_neg c3]
            exact uvc_handle_data_queried_quiet d2 no user_data b kdq kqb r d h
  · cases h

/-- What a returning call of `uvc_handle_data` has done on a ready data
plane, whether or not a debug directory is set. -/
theorem uvc_handle_data_effect_returned (dev : uvc_device_t) (no : Nat)
    (user_data : uvc_user_data_t) (kq : ioctl_result) (flags : Nat) (kdq kqb : ioctl_result)
    (src : gst_buffer)
    (hno : no < UVC_DEV_MAX_NUM) (hs : user_data.data = some src)
    (hready : data_plane_ready dev no) (hdq : dequeued_slot_valid dev no kdq)
    (r : Int) (dev1 : uvc_device_t)
    (h : uvc_handle_data dev no user_data kq flags kdq kqb = some (r, dev1)) :
    ∃ extra,
      r = contract_handle_data_result (dev.priv.buf no).handle.isSome kq flags kdq kqb
      ∧ (dev1.priv.stats no).data_no = (dev.priv.stats no).data_no + 1
      ∧ (dev1.priv.stats no).data_drop
          = (dev.priv.stats no).data_drop + (if r = 1 then 1 else 0)
      ∧ (dev1.priv.stats no).qbuf_no = (dev.priv.stats no).qbuf_no + (if r = 0 then 1 else 0)
      ∧ (dev1.priv.buf no).curr_no = (dev.priv.buf no).curr_no + (if r = 0 then 1 else 0)
      ∧ dev1.calls = dev.calls ++ extra
      ∧ (call.drop_data no user_data ∈ extra ↔ r = 1)
      ∧ (∀ n b, call.QBUF n b ∈ extra → n = no ∧ ∃ handle dst format p,
          (dev.priv.buf no).handle = some handle
          ∧ b.index = (if kdq.status = 0 then kdq.index
              else (dev.priv.buf no).curr_no % handle.length)
          ∧ handle[b.index]? = some dst
          ∧ array_at dev.priv.config.format dev.priv.config.curr.format_no = some format
          ∧ (dev.priv.video_streaming no).curr = some p
          ∧ b.bytesused =
              if is_compressed format.fcc then gst_buffer_extract src dst.size % 2 ^ 32
              else ((dev.priv.video_streaming no).deref p).dwMaxVideoFrameSize)
      ∧ (r = 0 → ∃ b, call.QBUF no b ∈ extra)
      ∧ (∀ n i, call.QUERYBUF n i ∈ extra → n = no ∧ ∃ handle,
          (dev.priv.buf no).handle = some handle
          ∧ i = (dev.priv.buf no).curr_no % handle.length)
      ∧ (∀ handle, (dev.priv.buf no).handle = some handle →
          call.QUERYBUF no ((dev.priv.buf no).curr_no % handle.length) ∈ extra) := by
  obtain ⟨r1, d1, extra, h1, rest⟩ :=
    uvc_handle_data_effect dev.quiet no user_data kq flags kdq kqb src hno hs hready hdq rfl
  rw [uvc_handle_data_quiet dev no user_data kq flags kdq kqb r dev1 h] at h1
  cases h1
  exact ⟨extra, rest⟩

theorem data_plane_ready_of (dev : uvc_device_t) (no : Nat) (handle : List buffer_handle)
    (format : uvc_format_info_t) (frame : uvc_frame_info_t)
    (hp : (dev.priv.buf no).handle = some handle) (hfd : dev.sys_fd no ≠ -1)
    (hnum : (dev.priv.buf no).num = handle.length) (hpos : 0 < handle.length)
    (hlen : handle.length < 2 ^ 31) (hcur : (dev.priv.video_streaming no).curr ≠ none)
    (hformat : array_at dev.priv.config.format dev.priv.config.curr.format_no = some format)
    (hframe : array_at format.frame dev.priv.config.curr.frame_no = some frame) :
    data_plane_ready dev no := by
  intro handle1 h1
  rw [hp] at h1
  cases h1
  refine ⟨hfd, ?_, hnum, hlen, hcur, format, frame, hformat, hframe⟩
  rw [hnum]
  exact_mod_cast hpos

theorem dequeued_slot_valid_of (dev : uvc_device_t) (no : Nat) (k : ioctl_result)
    (handle : List buffer_handle) (hp : (dev.priv.buf no).handle = some handle)
    (h : k.index < handle.length) : dequeued_slot_valid dev no k := by
  intro _ handle1 h1
  rw [hp] at h1
  cases h1
  exact h

theorem streaming_nv12_slot_valid :
    dequeued_slot_valid (streaming_device (sized_payload 1 3110400) 3110400) 0 ioctl_ok :=
  dequeued_slot_valid_of _ 0 ioctl_ok
    [{ begin := 3110400, size := 3110400 }, { begin := 6220800, size := 3110400 }] rfl (by decide)

theorem streaming_nv12_ready :
    data_plane_ready (streaming_device (sized_payload 1 3110400) 3110400) 0 :=
  data_plane_ready_of _ 0 [{ begin := 3110400, size := 3110400 }, { begin := 6220800, size := 3110400 }]
    nv12_format  { wHeight := 1080, wWidth := 1920, intervals := frame_intervals }
    rfl (by decide) rfl (by decide) (by decide) (by decide) rfl rfl

/-- Result codes on a ready data plane: for a valid endpoint, a non-null
frame, no debug directory, a device whose pool, when allocated, belongs to an
opened endpoint with a negotiated stream, and a kernel whose `VIDIOC_DQBUF`
reports a slot of the pool, `uvc_handle_data` returns; its result is the
code of the contract (1, -1 or 0); `data_no` grows by one; `data_drop` grows
by one and `drop` is called exactly when the result is 1; and `curr_no` and
`qbuf_no` each grow by one exactly when the result is 0. -/
theorem uvc_handle_data_result_codes (dev : uvc_device_t) (no : Nat)
    (user_data : uvc_user_data_t) (kq : ioctl_result) (flags : Nat) (kdq kqb : ioctl_result)
    (hno : no < UVC_DEV_MAX_NUM) (hsrc : user_data.data ≠ none)
    (hready : data_plane_ready dev no) (hdq : dequeued_slot_valid dev no kdq)
    (hdbg : dev.dbgpath = none) :
    ∃ r dev1 extra, uvc_handle_data dev no user_data kq flags kdq kqb = some (r, dev1)
      ∧ r = contract_handle_data_result (dev.priv.buf no).handle.isSome kq flags kdq kqb
      ∧ (r = 1 ∨ r = -1 ∨ r = 0)
      ∧ (dev1.priv.stats no).data_no = (dev.priv.stats no).data_no + 1
      ∧ (dev1.priv.stats no).data_drop
          = (dev.priv.stats no).data_drop + (if r = 1 then 1 else 0)
      ∧ dev1.calls = dev.calls ++ extra
      ∧ (call.drop_data no user_data ∈ extra ↔ r = 1)
      ∧ (dev1.priv.buf no).curr_no = (dev.priv.buf no).curr_no + (if r = 0 then 1 else 0)
      ∧ (dev1.priv.stats no).qbuf_no
          = (dev.priv.stats no).qbuf_no + (if r = 0 then 1 else 0) := by
  cases hs : user_data.data with
  | none => exact absurd hs hsrc
  | some src =>
    obtain ⟨r, dev1, extra, h, hr, e1, e2, e3, e4, e5, e6, _, _⟩ :=
      uvc_handle_data_effect dev no user_data kq flags kdq kqb src hno hs hready hdq hdbg
    refine ⟨r, dev1, extra, h, hr, ?_, e1, e2, e5, e6, e4, e3⟩
    rw [hr]
    unfold contract_handle_data_result
    by_cases c1 : (dev.priv.buf no).handle.isSome = false
    · rw [if_pos c1]; simp
    · rw [if_neg c1]
      by_cases c2 : kq.status ≠ 0
      · rw [if_pos c2]; simp
      · rw [if_neg c2]
        by_cases c3 : V4L2_BUF_FLAG_QUEUED &&& flags ≠ 0
        · rw [if_pos c3]; simp
        · rw [if_neg c3]
          by_cases c4 : kdq.status ≠ 0 ∧ ¬ (kdq.status = -1 ∧ kdq.errno = EAGAIN)
          · rw [if_pos c4]; simp
          · rw [if_neg c4]
            by_cases c5 : kqb.status ≠ 0 ∧ kqb.errno = EAGAIN
            · rw [if_pos c5]; simp
            · rw [if_neg c5]
              by_cases c6 : kqb.status ≠ 0
              · rw [if_pos c6]; simp
              · rw [if_neg c6]; simp

theorem uvc_handle_data_result_codes_witness :
    (0 < UVC_DEV_MAX_NUM ∧ (produced_frame 100000).data ≠ none
      ∧ data_plane_ready (streaming_device (sized_payload 1 3110400) 3110400) 0
      ∧ dequeued_slot_valid (streaming_device (sized_payload 1 3110400) 3110400) 0 ioctl_ok)
    ∧ ∃ r dev1 extra,
      uvc_handle_data (streaming_device (sized_payload 1 3110400) 3110400) 0
        (produced_frame 100000) ioctl_ok 0 ioctl_ok ioctl_ok = some (r, dev1)
      ∧ r = contract_handle_data_result
          ((streaming_device (sized_payload 1 3110400) 3110400).priv.buf 0).handle.isSome
          ioctl_ok 0 ioctl_ok ioctl_ok
      ∧ (r = 1 ∨ r = -1 ∨ r = 0)
      ∧ (dev1.priv.stats 0).data_no
          = ((streaming_device (sized_payload 1 3110400) 3110400).priv.stats 0).data_no + 1
      ∧ (dev1.priv.stats 0).data_drop
          = ((streaming_device (sized_payload 1 3110400) 3110400).priv.stats 0).data_drop
            + (if r = 1 then 1 else 0)
      ∧ dev1.calls = (streaming_device (sized_payload 1 3110400) 3110400).calls ++ extra
      ∧ (call.drop_data 0 (produced_frame 100000) ∈ extra ↔ r = 1)
      ∧ (dev1.priv.buf 0).curr_no
          = ((streaming_device (sized_payload 1 3110400) 3110400).priv.buf 0).curr_no
            + (if r = 0 then 1 else 0)
      ∧ (dev1.priv.stats 0).qbuf_no
          = ((streaming_device (sized_payload 1 3110400) 3110400).priv.stats 0).qbuf_no
            + (if r = 0 then 1 else 0) :=
  ⟨⟨by decide, by simp [produced_frame], streaming_nv12_ready, streaming_nv12_slot_valid⟩,
    uvc_handle_data_result_codes _ 0 _ ioctl_ok 0 ioctl_ok ioctl_ok (by decide)
      (by simp [produced_frame]) streaming_nv12_ready streaming_nv12_slot_valid rfl⟩

/-- C5 counterexample: a Commit exchange that selects NV12 1920x1080 with a
payload whose `dwMaxVideoFrameSize` is zero returns normally, the catalog
frame size is 3110400, and the frame of 100000 bytes the producer then
pushes is queued with `bytesused = 0`. -/
theorem uncompressed_commit_queues_zero_bytes :
    (run_control_events (opened_device 3)
      (set_cur_exchange UVC_VS_COMMIT_CONTROL (negotiation_payload FRAME_INTERVAL_1fps)
        26)).isSome = true
    ∧ array_at (streaming_device (negotiation_payload FRAME_INTERVAL_1fps) 3110400).priv.config.format
        (streaming_device (negotiation_payload FRAME_INTERVAL_1fps)
          3110400).priv.config.curr.format_no = some nv12_format
    ∧ calc_max_video_frame_size nv12_format
        { wHeight := 1080, wWidth := 1920, intervals := frame_intervals } = 3110400
    ∧ (uvc_handle_data (streaming_device (negotiation_payload FRAME_INTERVAL_1fps) 3110400) 0
        (produced_frame 100000) ioctl_ok 0 ioctl_ok ioctl_ok).map
        (fun x => (x.1, x.2.calls.drop
          (streaming_device (negotiation_payload FRAME_INTERVAL_1fps) 3110400).calls.length))
      = some (0, [call.QUERYBUF 0 0, call.DQBUF 0 0,
          call.QBUF 0 { index := 0, type := V4L2_BUF_TYPE_VIDEO_OUTPUT
                        memory := V4L2_MEMORY_MMAP, flags := 0, bytesused := 0
                        tv_sec := 0, tv_usec := 0 }]) :=
  ⟨rfl, rfl, by decide, rfl⟩

/-- C5 amended: while an uncompressed format is current, on a ready data
plane and with a kernel whose `VIDIOC_DQBUF` reports a slot of the pool,
every call of `uvc_handle_data` that returns has queued only buffers that
carry as `bytesused` the `dwMaxVideoFrameSize` field of the current streaming
control, whatever the size of the frame the producer passed, and an accepted
frame has queued a buffer; with no debug directory set the call returns. -/
theorem uncompressed_queue_carries_negotiated_size (dev : uvc_device_t) (no : Nat)
    (user_data : uvc_user_data_t) (kq : ioctl_result) (flags : Nat) (kdq kqb : ioctl_result)
    (src : gst_buffer) (format : uvc_format_info_t) (p : streaming_ref)
    (hno : no < UVC_DEV_MAX_NUM) (hs : user_data.data = some src)
    (hready : data_plane_ready dev no) (hdq : dequeued_slot_valid dev no kdq)
    (hformat : array_at dev.priv.config.format dev.priv.config.curr.format_no = some format)
    (hunc : is_compressed format.fcc = false)
    (hcur : (dev.priv.video_streaming no).curr = some p) :
    (dev.dbgpath = none →
        ∃ r dev1, uvc_handle_data dev no user_data kq flags kdq kqb = some (r, dev1))
    ∧ ∀ r dev1, uvc_handle_data dev no user_data kq flags kdq kqb = some (r, dev1) →
        ∃ extra, dev1.calls = dev.calls ++ extra
          ∧ (∀ n b, call.QBUF n b ∈ extra →
              n = no
              ∧ b.bytesused = ((dev.priv.video_streaming no).deref p).dwMaxVideoFrameSize)
          ∧ (r = 0 → ∃ b, call.QBUF no b ∈ extra) := by
  refine ⟨?_, ?_⟩
  · intro hdbg
    obtain ⟨r, dev1, _, h, _⟩ :=
      uvc_handle_data_effect dev no user_data kq flags kdq kqb src hno hs hready hdq hdbg
    exact ⟨r, dev1, h⟩
  · intro r dev1 h
    obtain ⟨extra, _, _, _, _, _, e5, _, e7, e8, _, _⟩ :=
      uvc_handle_data_effect_returned dev no user_data kq flags kdq kqb src hno hs hready hdq
        r dev1 h
    refine ⟨extra, e5, ?_, e8⟩
    intro n b hb
    obtain ⟨hn, handle, dst, format1, p1, _, _, _, hf1, hp1, hbytes⟩ := e7 n b hb
    rw [hformat] at hf1
    rw [hcur] at hp1
    cases hf1
    cases hp1
    rw [hunc] at hbytes
    exact ⟨hn, hbytes⟩

theorem uncompressed_queue_carries_negotiated_size_witness :
    ∃ r dev1 extra,
      uvc_handle_data (streaming_device (sized_payload 1 3110400) 3110400) 0
        (produced_frame 100000) ioctl_ok 0 ioctl_ok ioctl_ok = some (r, dev1)
      ∧ dev1.calls = (streaming_device (sized_payload 1 3110400) 3110400).calls ++ extra
      ∧ (∀ n b, call.QBUF n b ∈ extra → n = 0 ∧ b.bytesused = 3110400)
      ∧ (r = 0 → ∃ b, call.QBUF 0 b ∈ extra) :=
  match (uncompressed_queue_carries_negotiated_size
      (streaming_device (sized_payload 1 3110400) 3110400) 0 (produced_frame 100000)
      ioctl_ok 0 ioctl_ok ioctl_ok { size := 100000, pts := 0 } nv12_format
      streaming_ref.commit (by decide) rfl streaming_nv12_ready streaming_nv12_slot_valid rfl
      (by decide) rfl).1 rfl with
  | ⟨r, dev1, h⟩ =>
    match (uncompressed_queue_carries_negotiated_size
        (streaming_device (sized_payload 1 3110400) 3110400) 0 (produced_frame 100000)
        ioctl_ok 0 ioctl_ok ioctl_ok { size := 100000, pts := 0 } nv12_format
        streaming_ref.commit (by decide) rfl streaming_nv12_ready streaming_nv12_slot_valid
        rfl (by decide) rfl).2 r dev1 h with
    | ⟨extra, a, b, c⟩ => ⟨r, dev1, extra, h, a, b, c⟩

theorem streaming_mjpeg_slot_valid :
    dequeued_slot_valid (streaming_device (sized_payload 3 2073600) 2076672) 0 ioctl_ok :=
  dequeued_slot_valid_of _ 0 ioctl_ok
    [{ begin := 2076672, size := 2076672 }, { begin := 4153344, size := 2076672 }] rfl (by decide)

theorem streaming_mjpeg_ready :
    data_plane_ready (streaming_device (sized_payload 3 2073600) 2076672) 0 :=
  data_plane_ready_of _ 0 [{ begin := 2076672, size := 2076672 }, { begin := 4153344, size := 2076672 }]
    mjpeg_format  { wHeight := 1080, wWidth := 1920, intervals := frame_intervals }
    rfl (by decide) rfl (by decide) (by decide) (by decide) rfl rfl

/-- C6 counterexample: after a Commit exchange that selects MJPEG 1920x1080
with a payload whose `dwMaxVideoFrameSize` is zero, the committed control
holds size 0 and a frame of 1000 bytes is queued with `bytesused = 1000`;
after a commit that carried the catalog size 2073600, with slots of 2076672
bytes, a frame of 2076672 bytes is queued with `bytesused = 2076672`. -/
theorem mjpeg_queue_exceeds_negotiated_size :
    (run_control_events (opened_device 3)
      (set_cur_exchange UVC_VS_COMMIT_CONTROL (sized_payload 3 0) 26)).isSome = true
    ∧ array_at (streaming_device (sized_payload 3 0) 2073600).priv.config.format
        (streaming_device (sized_payload 3 0) 2073600).priv.config.curr.format_no
        = some mjpeg_format
    ∧ ((streaming_device (sized_payload 3 0) 2073600).priv.video_streaming 0).curr
        = some streaming_ref.commit
    ∧ ((streaming_device (sized_payload 3 0) 2073600).priv.video_streaming
        0).commit.dwMaxVideoFrameSize = 0
    ∧ (uvc_handle_data (streaming_device (sized_payload 3 0) 2073600) 0
        (produced_frame 1000) ioctl_ok 0 ioctl_ok ioctl_ok).map
        (fun x => (x.1, x.2.calls.drop
          (streaming_device (sized_payload 3 0) 2073600).calls.length))
      = some (0, [call.QUERYBUF 0 0, call.DQBUF 0 0,
          call.QBUF 0 { index := 0, type := V4L2_BUF_TYPE_VIDEO_OUTPUT
                        memory := V4L2_MEMORY_MMAP, flags := 0, bytesused := 1000
                        tv_sec := 0, tv_usec := 0 }])
    ∧ ((streaming_device (sized_payload 3 2073600) 2076672).priv.video_streaming
        0).commit.dwMaxVideoFrameSize = 2073600
    ∧ (uvc_handle_data (streaming_device (sized_payload 3 2073600) 2076672) 0
        (produced_frame 2076672) ioctl_ok 0 ioctl_ok ioctl_ok).map
        (fun x => (x.1, x.2.calls.drop
          (streaming_device (sized_payload 3 2073600) 2076672).calls.length))
      = some (0, [call.QUERYBUF 0 0, call.DQBUF 0 0,
          call.QBUF 0 { index := 0, type := V4L2_BUF_TYPE_VIDEO_OUTPUT
                        memory := V4L2_MEMORY_MMAP, flags := 0, bytesused := 2076672
                        tv_sec := 0, tv_usec := 0 }]) :=
  ⟨rfl, rfl, rfl, rfl, rfl, rfl, rfl⟩

/-- C6 amended: while a compressed format (MJPEG) is current, on a ready
data plane and with a kernel whose `VIDIOC_DQBUF` reports a slot of the pool,
every call of `uvc_handle_data` that returns has queued only buffers that
carry as `bytesused` the byte count of the fill, truncated to 32 bits: the
smaller of the frame size and the size of the slot being filled, the slot
the queued buffer names.  It is at most the slot size and at most the frame
size, and equals the fill's byte count when the frame is shorter than 2^32
bytes; an accepted frame has queued a buffer; with no debug directory set
the call returns. -/
theorem mjpeg_queue_carries_extract_length (dev : uvc_device_t) (no : Nat)
    (user_data : uvc_user_data_t) (kq : ioctl_result) (flags : Nat) (kdq kqb : ioctl_result)
    (src : gst_buffer) (format : uvc_format_info_t)
    (hno : no < UVC_DEV_MAX_NUM) (hs : user_data.data = some src)
    (hready : data_plane_ready dev no) (hdq : dequeued_slot_valid dev no kdq)
    (hformat : array_at dev.priv.config.format dev.priv.config.curr.format_no = some format)
    (hcomp : is_compressed format.fcc = true) :
    (dev.dbgpath = none →
        ∃ r dev1, uvc_handle_data dev no user_data kq flags kdq kqb = some (r, dev1))
    ∧ ∀ r dev1, uvc_handle_data dev no user_data kq flags kdq kqb = some (r, dev1) →
        ∃ extra, dev1.calls = dev.calls ++ extra
          ∧ (∀ n b, call.QBUF n b ∈ extra → n = no ∧ ∃ handle dst,
              (dev.priv.buf no).handle = some handle
              ∧ handle[b.index]? = some dst
              ∧ b.bytesused = gst_buffer_extract src dst.size % 2 ^ 32
              ∧ b.bytesused ≤ dst.size ∧ b.bytesused ≤ src.size
              ∧ (src.size < 2 ^ 32 → b.bytesused = min dst.size src.size))
          ∧ (r = 0 → ∃ b, call.QBUF no b ∈ extra) := by
  refine ⟨?_, ?_⟩
  · intro hdbg
    obtain ⟨r, dev1, _, h, _⟩ :=
      uvc_handle_data_effect dev no user_data kq flags kdq kqb src hno hs hready hdq hdbg
    exact ⟨r, dev1, h⟩
  · intro r dev1 h
    obtain ⟨extra, _, _, _, _, _, e5, _, e7, e8, _, _⟩ :=
      uvc_handle_data_effect_returned dev no user_data kq flags kdq kqb src hno hs hready hdq
        r dev1 h
    refine ⟨extra, e5, ?_, e8⟩
    intro n b hb
    obtain ⟨hn, handle, dst, format1, p1, hp, _, hdst, hf1, _, hbytes⟩ := e7 n b hb
    rw [hformat] at hf1
    cases hf1
    rw [if_pos hcomp] at hbytes
    have hle : gst_buffer_extract src dst.size % 2 ^ 32 ≤ gst_buffer_extract src dst.size :=
      Nat.mod_le _ _
    have h1 : gst_buffer_extract src dst.size ≤ dst.size := Nat.min_le_left _ _
    have h2 : gst_buffer_extract src dst.size ≤ src.size := Nat.min_le_right _ _
    refine ⟨hn, handle, dst, hp, hdst, hbytes, by omega, by omega, ?_⟩
    intro hlt
    rw [hbytes]
    exact Nat.mod_eq_of_lt (by omega)

theorem mjpeg_queue_carries_extract_length_witness :
    ∃ r dev1 extra,
      uvc_handle_data (streaming_device (sized_payload 3 2073600) 2076672) 0
        (produced_frame 1000) ioctl_ok 0 ioctl_ok ioctl_ok = some (r, dev1)
      ∧ dev1.calls = (streaming_device (sized_payload 3 2073600) 2076672).calls ++ extra
      ∧ (∀ n b, call.QBUF n b ∈ extra → n = 0 ∧ ∃ handle dst,
          ((streaming_device (sized_payload 3 2073600) 2076672).priv.buf 0).handle = some handle
          ∧ handle[b.index]? = some dst
          ∧ b.bytesused = gst_buffer_extract { size := 1000, pts := 0 } dst.size % 2 ^ 32
          ∧ b.bytesused ≤ dst.size ∧ b.bytesused ≤ 1000
          ∧ ((1000 : Nat) < 2 ^ 32 → b.bytesused = min dst.size 1000))
      ∧ (r = 0 → ∃ b, call.QBUF 0 b ∈ extra) :=
  match (mjpeg_queue_carries_extract_length
      (streaming_device (sized_payload 3 2073600) 2076672) 0 (produced_frame 1000)
      ioctl_ok 0 ioctl_ok ioctl_ok { size := 1000, pts := 0 } mjpeg_format
      (by decide) rfl streaming_mjpeg_ready streaming_mjpeg_slot_valid rfl (by decide)).1
      rfl with
  | ⟨r, dev1, h⟩ =>
    match (mjpeg_queue_carries_extract_length
        (streaming_device (sized_payload 3 2073600) 2076672) 0 (produced_frame 1000)
        ioctl_ok 0 ioctl_ok ioctl_ok { size := 1000, pts := 0 } mjpeg_format
        (by decide) rfl streaming_mjpeg_ready streaming_mjpeg_slot_valid rfl (by decide)).2
        r dev1 h with
    | ⟨extra, a, b, c⟩ => ⟨r, dev1, extra, h, a, b, c⟩

/-- C7: on the opened device a `STREAMON` event acquires the pool of two
slots before any commit.  For the first frame that follows, with kernel
answers for which the contract gives 0 (`VIDIOC_QUERYBUF` succeeds without
the QUEUED flag, `VIDIOC_DQBUF` answers `EAGAIN`, `VIDIOC_QBUF` succeeds),
`uvc_handle_data` does not return: `qbuf` reads the catalog at
`format_no = -1`.  In the same state a failing `VIDIOC_QUERYBUF` gives -1
with `data_no` one higher, as the contract says. -/
theorem uvc_handle_data_before_commit_evaluated :
    (handle_streamon (opened_device 3) 0 (granting_kernel 3110400) 0).map (fun x => x.1)
      = some 0
    ∧ ((streamon_device 3110400).priv.buf 0).handle.isSome = true
    ∧ (streamon_device 3110400).sys_fd 0 = 3
    ∧ (produced_frame 100000).data ≠ none
    ∧ contract_handle_data_result true ioctl_ok 0 ioctl_again ioctl_ok = 0
    ∧ uvc_handle_data (streamon_device 3110400) 0 (produced_frame 100000)
        ioctl_ok 0 ioctl_again ioctl_ok = none
    ∧ contract_handle_data_result true { status := -1, errno := 5 } 0 ioctl_again ioctl_ok = -1
    ∧ (uvc_handle_data (streamon_device 3110400) 0 (produced_frame 100000)
        { status := -1, errno := 5 } 0 ioctl_again ioctl_ok).map
        (fun x => (x.1, (x.2.priv.stats 0).data_no, (x.2.priv.stats 0).qbuf_no,
          (x.2.priv.buf 0).curr_no))
      = some (-1, 1, 0, 0) :=
  ⟨rfl, rfl, rfl, by simp [produced_frame], by decide, rfl, by decide, rfl⟩

theorem sink_data_drop_eq (dev : uvc_device_t) (no : Nat) (status : Int)
    (hno : no < UVC_DEV_MAX_NUM) :
    sink_data_drop dev no status =
      some (status, dev.set_stats no
        { dev.stats no with
          sink_drop_no := (dev.stats no).sink_drop_no + 1
          sink_data_no := (dev.stats no).sink_data_no + 1 }) := by
  unfold sink_data_drop
  rw [if_pos hno]

theorem sink_data_done_eq (dev : uvc_device_t) (no : Nat) (status : Int)
    (hno : no < UVC_DEV_MAX_NUM) :
    sink_data_done dev no status =
      some (status, dev.set_stats no
        { dev.stats no with sink_data_no := (dev.stats no).sink_data_no + 1 }) := by
  unfold sink_data_done
  rw [if_pos hno]

theorem uvc_device_sink_data_locked_eq (dev : uvc_device_t) (no : Nat)
    (user_data : uvc_user_data_t) (kq : ioctl_result) (flags : Nat) (kdq kqb : ioctl_result)
    (status : Int) (dev1 : uvc_device_t) (hno : no < UVC_DEV_MAX_NUM)
    (h : sink_data_locked dev no user_data kq flags kdq kqb = some (status, dev1)) :
    uvc_device_sink_data dev no user_data 0 kq flags kdq kqb =
      some (if status = 0 then
          (0, dev1.set_stats no
            { dev1.stats no with sink_data_no := (dev1.stats no).sink_data_no + 1 })
        else
          (if 0 < status then 0 else status, dev1.set_stats no
            { dev1.stats no with
              sink_drop_no := (dev1.stats no).sink_drop_no + 1
              sink_data_no := (dev1.stats no).sink_data_no + 1 })) := by
  unfold uvc_device_sink_data
  rw [if_neg (by decide : ¬ (0 : Int) = EBUSY), if_neg (by decide : ¬ (0 : Int) ≠ 0), h]
  simp only []
  by_cases h0 : status = 0
  · rw [if_pos h0, if_pos h0, sink_data_done_eq _ _ _ hno, h0]
  · rw [if_neg h0, if_neg h0]
    by_cases h1 : 0 < status
    · rw [if_pos h1, if_pos h1, sink_data_drop_eq _ _ _ hno]
    · rw [if_neg h1, if_neg h1, sink_data_drop_eq _ _ _ hno]
theorem contract_handle_data_result_cases (pool : Bool) (kq : ioctl_result) (flags : Nat)
    (kdq kqb : ioctl_result) :
    contract_handle_data_result pool kq flags kdq kqb = 0
      ∨ contract_handle_data_result pool kq flags kdq kqb = 1
      ∨ contract_handle_data_result pool kq flags kdq kqb = -1 := by
  unfold contract_handle_data_result
  by_cases c1 : pool = false
  · rw [if_pos c1]; simp
  · rw [if_neg c1]
    by_cases c2 : kq.status ≠ 0
    · rw [if_pos c2]; simp
    · rw [if_neg c2]
      by_cases c3 : V4L2_BUF_FLAG_QUEUED &&& flags ≠ 0
      · rw [if_pos c3]; simp
      · rw [if_neg c3]
        by_cases c4 : kdq.status ≠ 0 ∧ ¬ (kdq.status = -1 ∧ kdq.errno = EAGAIN)
        · rw [if_pos c4]; simp
        · rw [if_neg c4]
          by_cases c5 : kqb.status ≠ 0 ∧ kqb.errno = EAGAIN
          · rw [if_pos c5]; simp
          · rw [if_neg c5]
            by_cases c6 : kqb.status ≠ 0
            · rw [if_pos c6]; simp
            · rw [if_neg c6]; simp

theorem uvc_handle_data_drop_result (dev : uvc_device_t) (no : Nat)
    (user_data : uvc_user_data_t) (r : Int) (d : uvc_device_t)
    (h : uvc_handle_data_drop dev no user_data = some (r, d)) : r = 1 := by
  unfold uvc_handle_data_drop at h
  split at h
  · cases h
  · cases h
    rfl

theorem qbuf_result (dev : uvc_device_t) (no : Nat) (user_data : uvc_user_data_t)
    (buf : v4l2_buffer) (k : ioctl_result) (r : Int) (d : uvc_device_t)
    (h : qbuf dev no user_data buf k = some (r, d)) : r = 0 ∨ r = 1 ∨ r = -1 := by
  unfold qbuf at h
  split at h
  · split at h
    · cases h
    · split at h
      · cases h
      · split at h
        · cases h
        · split at h
          · cases h
          · split at h
            · cases h; simp
            · split at h
              · cases h
              · split at h
                · cases h; simp
                · split at h
                  · cases h; simp
                  · cases h; simp
  · cases h

theorem uvc_handle_data_queue_result (dev : uvc_device_t) (no : Nat)
    (user_data : uvc_user_data_t) (buf : v4l2_buffer) (k : ioctl_result) (r : Int)
    (d : uvc_device_t) (h : uvc_handle_data_queue dev no user_data buf k = some (r, d)) :
    r = 0 ∨ r = 1 ∨ r = -1 := by
  unfold uvc_handle_data_queue at h
  split at h
  · cases h
  · split at h
    · exact Or.inr (Or.inl (uvc_handle_data_drop_result _ _ _ _ _ h))
    · split at h
      · cases h; simp
      · cases h; simp

theorem uvc_handle_data_queried_result (dev : uvc_device_t) (no : Nat)
    (user_data : uvc_user_data_t) (buf : v4l2_buffer) (kdq kqb : ioctl_result) (r : Int)
    (d : uvc_device_t)
    (h : uvc_handle_data_queried dev no user_data buf kdq kqb = some (r, d)) :
    r = 0 ∨ r = 1 ∨ r = -1 := by
  unfold uvc_handle_data_queried at h
  split at h
  · exact Or.inr (Or.inl (uvc_handle_data_drop_result _ _ _ _ _ h))
  · split at h
    · cases h
    · split at h
      · cases h; simp
      · exact uvc_handle_data_queue_result _ _ _ _ _ _ _ h

/-- Whatever the state of the device, a call of `uvc_handle_data` that
returns gives 0, 1 or -1. -/
theorem uvc_handle_data_result (dev : uvc_device_t) (no : Nat) (user_data : uvc_user_data_t)
    (kq : ioctl_result) (flags : Nat) (kdq kqb : ioctl_result) (r : Int) (d : uvc_device_t)
    (h : uvc_handle_data dev no user_data kq flags kdq kqb = some (r, d)) :
    r = 0 ∨ r = 1 ∨ r = -1 := by
  unfold uvc_handle_data at h
  split at h
  · simp only [] at h
    split at h
    · exact Or.inr (Or.inl (uvc_handle_data_drop_result _ _ _ _ _ h))
    · split at h
      · cases h
      · split at h
        · cases h
        · split at h
          · cases h; simp
          · exact uvc_handle_data_queried_result _ _ _ _ _ _ _ _ h
  · cases h

/-- C8: for a valid endpoint, `uvc_device_sink_data` (a) on a busy try-lock
returns 0 with `sink_busy_no`, `sink_drop_no` and `sink_data_no` each one
higher and neither the private state nor the record of calls touched;
with the lock held it (b) returns -1 in state FAILED, STOPPED or STOPPING,
(c) returns 0 with `sink_drop_no` one higher in state STARTING, and (d) in
state STARTED, whatever the frame and the state of the data plane, whenever
`uvc_handle_data` returns it returns 0, 1 or -1, and `uvc_device_sink_data`
then returns 0 when that was 0 or 1 and -1 when it was -1, while a call of
`uvc_handle_data` that does not return leaves `uvc_device_sink_data` without
a return; and (e) no call returns 1. -/
theorem uvc_device_sink_data_admission (dev : uvc_device_t) (no : Nat)
    (user_data : uvc_user_data_t) (trylock : Int) (kq : ioctl_result) (flags : Nat)
    (kdq kqb : ioctl_result) (hno : no < UVC_DEV_MAX_NUM) :
    (trylock = EBUSY →
        ∃ dev1, uvc_device_sink_data dev no user_data trylock kq flags kdq kqb = some (0, dev1)
          ∧ (dev1.stats no).sink_busy_no = (dev.stats no).sink_busy_no + 1
          ∧ (dev1.stats no).sink_drop_no = (dev.stats no).sink_drop_no + 1
          ∧ (dev1.stats no).sink_data_no = (dev.stats no).sink_data_no + 1
          ∧ dev1.priv = dev.priv ∧ dev1.calls = dev.calls)
    ∧ (trylock = 0 →
        dev.task_state = TASK_FAILED ∨ dev.task_state = TASK_STOPPED
          ∨ dev.task_state = TASK_STOPPING →
        ∃ dev1, uvc_device_sink_data dev no user_data trylock kq flags kdq kqb = some (-1, dev1)
          ∧ dev1.priv = dev.priv ∧ dev1.calls = dev.calls)
    ∧ (trylock = 0 → dev.task_state = TASK_STARTING →
        ∃ dev1, uvc_device_sink_data dev no user_data trylock kq flags kdq kqb = some (0, dev1)
          ∧ (dev1.stats no).sink_drop_no = (dev.stats no).sink_drop_no + 1
          ∧ (dev1.stats no).sink_data_no = (dev.stats no).sink_data_no + 1
          ∧ (dev1.stats no).sink_busy_no = (dev.stats no).sink_busy_no
          ∧ dev1.priv = dev.priv ∧ dev1.calls = dev.calls)
    ∧ (trylock = 0 → dev.task_state = TASK_STARTED →
        (∀ r d, uvc_handle_data dev no user_data kq flags kdq kqb = some (r, d) →
          ∃ s dev1,
            uvc_device_sink_data dev no user_data trylock kq flags kdq kqb = some (s, dev1)
            ∧ (r = 0 ∨ r = 1 ∨ r = -1)
            ∧ (r = 0 ∨ r = 1 → s = 0) ∧ (r = -1 → s = -1))
        ∧ (uvc_handle_data dev no user_data kq flags kdq kqb = none →
            uvc_device_sink_data dev no user_data trylock kq flags kdq kqb = none))
    ∧ (∀ s dev1,
        uvc_device_sink_data dev no user_data trylock kq flags kdq kqb = some (s, dev1) →
        s ≠ 1) := by
  have t01 : TASK_FAILED ≠ TASK_STOPPED := by decide
  have t02 : TASK_FAILED ≠ TASK_STOPPING := by decide
  have t03 : TASK_FAILED ≠ TASK_STARTING := by decide
  have t04 : TASK_FAILED ≠ TASK_STARTED := by decide
  have t12 : TASK_STOPPED ≠ TASK_STOPPING := by decide
  have t13 : TASK_STOPPED ≠ TASK_STARTING := by decide
  have t14 : TASK_STOPPED ≠ TASK_STARTED := by decide
  have t23 : TASK_STOPPING ≠ TASK_STARTING := by decide
  have t24 : TASK_STOPPING ≠ TASK_STARTED := by decide
  have t34 : TASK_STARTING ≠ TASK_STARTED := by decide
  refine ⟨?_, ?_, ?_, ?_, ?_⟩
  · intro hb
    subst hb
    unfold uvc_device_sink_data
    rw [if_pos rfl, if_pos hno, sink_data_drop_eq _ _ _ hno]
    refine ⟨_, rfl, ?_⟩
    simp [uvc_device_t.set_stats]
  · intro h0 hst
    subst h0
    have hl : sink_data_locked dev no user_data kq flags kdq kqb = some (-1, dev) := by
      unfold sink_data_locked
      rcases hst with h | h | h
      · rw [if_pos h.symm]
      · rw [h, if_neg t01, if_pos rfl]
      · rw [h, if_neg t02, if_neg t12, if_pos rfl]
    rw [uvc_device_sink_data_locked_eq dev no user_data kq flags kdq kqb _ _ hno hl]
    refine ⟨_, rfl, ?_⟩
    simp [uvc_device_t.set_stats]
  · intro h0 hst
    subst h0
    have hl : sink_data_locked dev no user_data kq flags kdq kqb = some (1, dev) := by
      unfold sink_data_locked
      rw [hst, if_neg t03, if_neg t13, if_neg t23, if_pos rfl]
    rw [uvc_device_sink_data_locked_eq dev no user_data kq flags kdq kqb _ _ hno hl]
    refine ⟨_, rfl, ?_⟩
    simp [uvc_device_t.set_stats]
  · intro h0 hst
    subst h0
    have hlk : sink_data_locked dev no user_data kq flags kdq kqb
        = uvc_handle_data dev no user_data kq flags kdq kqb := by
      unfold sink_data_locked
      rw [hst, if_neg t04, if_neg t14, if_neg t24, if_neg t34, if_pos rfl]
    refine ⟨?_, ?_⟩
    · intro r d h
      have hl : sink_data_locked dev no user_data kq flags kdq kqb = some (r, d) := by
        rw [hlk, h]
      have hr3 : r = 0 ∨ r = 1 ∨ r = -1 :=
        uvc_handle_data_result dev no user_data kq flags kdq kqb r d h
      rw [uvc_device_sink_data_locked_eq dev no user_data kq flags kdq kqb _ _ hno hl]
      rcases hr3 with e | e | e
      · subst e
        exact ⟨0, _, rfl, Or.inl rfl, fun _ => rfl, fun c => absurd c (by decide)⟩
      · subst e
        exact ⟨0, _, rfl, Or.inr (Or.inl rfl), fun _ => rfl, fun c => absurd c (by decide)⟩
      · subst e
        exact ⟨-1, _, rfl, Or.inr (Or.inr rfl),
          fun c => c.elim (fun c => absurd c (by decide)) (fun c => absurd c (by decide)),
          fun _ => rfl⟩
    · intro h
      unfold uvc_device_sink_data
      rw [if_neg (by decide : ¬ (0 : Int) = EBUSY), if_neg (by decide : ¬ (0 : Int) ≠ 0), hlk, h]
  · intro s dev1 h hs1
    subst hs1
    by_cases hb : trylock = EBUSY
    · subst hb
      unfold uvc_device_sink_data at h
      rw [if_pos rfl, if_pos hno, sink_data_drop_eq _ _ _ hno] at h
      cases h
    · by_cases h0 : trylock ≠ 0
      · unfold uvc_device_sink_data at h
        rw [if_neg hb, if_pos h0] at h
        cases h
      · have h0' : trylock = 0 := not_not.mp h0
        subst h0'
        cases hl : sink_data_locked dev no user_data kq flags kdq kqb with
        | none =>
          unfold uvc_device_sink_data at h
          rw [if_neg hb, if_neg h0, hl] at h
          cases h
        | some x =>
          obtain ⟨st, d1⟩ := x
          rw [uvc_device_sink_data_locked_eq dev no user_data kq flags kdq kqb _ _ hno hl] at h
          by_cases e0 : st = 0
          · rw [if_pos e0] at h
            cases h
          · rw [if_neg e0] at h
            by_cases e1 : 0 < st
            · rw [if_pos e1] at h
              cases h
            · rw [if_neg e1] at h
              simp only [Option.some.injEq, Prod.mk.injEq] at h
              omega
theorem uvc_device_sink_data_admission_witness :
    (∃ dev1,
      uvc_device_sink_data (streaming_device (sized_payload 1 3110400) 3110400) 0
        (produced_frame 100000) EBUSY ioctl_ok 0 ioctl_ok ioctl_ok = some (0, dev1)
      ∧ (dev1.stats 0).sink_busy_no
          = ((streaming_device (sized_payload 1 3110400) 3110400).stats 0).sink_busy_no + 1
      ∧ (dev1.stats 0).sink_drop_no
          = ((streaming_device (sized_payload 1 3110400) 3110400).stats 0).sink_drop_no + 1
      ∧ (dev1.stats 0).sink_data_no
          = ((streaming_device (sized_payload 1 3110400) 3110400).stats 0).sink_data_no + 1
      ∧ dev1.priv = (streaming_device (sized_payload 1 3110400) 3110400).priv
      ∧ dev1.calls = (streaming_device (sized_payload 1 3110400) 3110400).calls)
    ∧ (uvc_handle_data (streaming_device (sized_payload 1 3110400) 3110400) 0
        (produced_frame 100000) ioctl_ok 0 ioctl_ok ioctl_ok).map (fun x => x.1) = some 0
    ∧ ∃ s dev1,
      uvc_device_sink_data (streaming_device (sized_payload 1 3110400) 3110400) 0
        (produced_frame 100000) 0 ioctl_ok 0 ioctl_ok ioctl_ok = some (s, dev1)
      ∧ ((0 : Int) = 0 ∨ (0 : Int) = 1 ∨ (0 : Int) = -1)
      ∧ ((0 : Int) = 0 ∨ (0 : Int) = 1 → s = 0) ∧ ((0 : Int) = -1 → s = -1) :=
  ⟨(uvc_device_sink_data_admission (streaming_device (sized_payload 1 3110400) 3110400) 0
      (produced_frame 100000) EBUSY ioctl_ok 0 ioctl_ok ioctl_ok (by decide)).1 rfl,
   rfl,
   ((uvc_device_sink_data_admission (streaming_device (sized_payload 1 3110400) 3110400) 0
      (produced_frame 100000) 0 ioctl_ok 0 ioctl_ok ioctl_ok (by decide)).2.2.2.1 rfl rfl).1 0
      (((uvc_handle_data (streaming_device (sized_payload 1 3110400) 3110400) 0
        (produced_frame 100000) ioctl_ok 0 ioctl_ok ioctl_ok).map Prod.snd).getD
        (opened_device 3)) rfl⟩

theorem uvc_handle_data_drop_stats (dev : uvc_device_t) (no : Nat) (user_data : uvc_user_data_t)
    (r : Int) (d : uvc_device_t) (h : uvc_handle_data_drop dev no user_data = some (r, d)) :
    d.stats = dev.stats := by
  rw [(uvc_handle_data_drop_returned dev no user_data r d h).2]
  rfl

theorem qbuf_stats (dev : uvc_device_t) (no : Nat) (user_data : uvc_user_data_t)
    (buf : v4l2_buffer) (k : ioctl_result) (r : Int) (d : uvc_device_t)
    (h : qbuf dev no user_data buf k = some (r, d)) : d.stats = dev.stats := by
  unfold qbuf at h
  split at h
  · split at h
    · cases h
    · split at h
      · cases h
      · split at h
        · cases h
        · split at h
          · cases h
          · split at h
            · cases h; rfl
            · split at h
              · cases h
              · split at h
                · cases h; rfl
                · split at h
                  · cases h; rfl
                  · cases h; rfl
  · cases h

theorem uvc_handle_data_queue_stats (dev : uvc_device_t) (no : Nat)
    (user_data : uvc_user_data_t) (buf : v4l2_buffer) (k : ioctl_result) (r : Int)
    (d : uvc_device_t) (h : uvc_handle_data_queue dev no user_data buf k = some (r, d)) :
    d.stats = dev.stats := by
  unfold uvc_handle_data_queue at h
  cases hq : qbuf dev no user_data buf k with
  | none => rw [hq] at h; cases h
  | some x =>
    obtain ⟨st, d1⟩ := x
    have e1 := qbuf_stats dev no user_data buf k st d1 hq
    rw [hq] at h
    simp only [] at h
    by_cases c1 : 0 < st
    · rw [if_pos c1] at h
      rw [uvc_handle_data_drop_stats d1 no user_data r d h, e1]
    · rw [if_neg c1] at h
      by_cases c2 : st ≠ 0
      · rw [if_pos c2] at h
        cases h
        exact e1
      · rw [if_neg c2] at h
        cases h
        exact e1

theorem dqbuf_stats (dev : uvc_device_t) (no : Nat) (buf : v4l2_buffer) (k : ioctl_result)
    (r : Int) (d : uvc_device_t) (b : v4l2_buffer)
    (h : dqbuf dev no buf k = some (r, d, b)) : d.stats = dev.stats := by
  unfold dqbuf at h
  split at h
  · split at h
    · cases h; rfl
    · split at h
      · cases h; rfl
      · cases h; rfl
  · cases h

theorem uvc_handle_data_queried_stats (dev : uvc_device_t) (no : Nat)
    (user_data : uvc_user_data_t) (buf : v4l2_buffer) (kdq kqb : ioctl_result) (r : Int)
    (d : uvc_device_t)
    (h : uvc_handle_data_queried dev no user_data buf kdq kqb = some (r, d)) :
    d.stats = dev.stats := by
  unfold uvc_handle_data_queried at h
  by_cases c0 : V4L2_BUF_FLAG_QUEUED &&& buf.flags ≠ 0
  · rw [if_pos c0] at h
    exact uvc_handle_data_drop_stats dev no user_data r d h
  · rw [if_neg c0] at h
    cases hq : dqbuf dev no buf kdq with
    | none => rw [hq] at h; cases h
    | some x =>
      obtain ⟨st, d1, b1⟩ := x
      have e1 := dqbuf_stats dev no buf kdq st d1 b1 hq
      rw [hq] at h
      simp only [] at h
      by_cases c2 : st ≠ 0
      · rw [if_pos c2] at h
        cases h
        exact e1
      · rw [if_neg c2] at h
        rw [uvc_handle_data_queue_stats d1 no user_data b1 kqb r d h, e1]

theorem query_buf_stats (dev : uvc_device_t) (no : Nat) (buf : v4l2_buffer) (k : ioctl_result)
    (flags : Nat) (r : Int) (d : uvc_device_t) (b : v4l2_buffer)
    (h : query_buf dev no buf k flags = some (r, d, b)) : d.stats = dev.stats := by
  unfold query_buf at h
  split at h
  · split at h
    · cases h; rfl
    · cases h; rfl
  · cases h

theorem uvc_handle_data_stats (dev : uvc_device_t) (no : Nat) (user_data : uvc_user_data_t)
    (kq : ioctl_result) (flags : Nat) (kdq kqb : ioctl_result) (r : Int) (d : uvc_device_t)
    (h : uvc_handle_data dev no user_data kq flags kdq kqb = some (r, d)) :
    d.stats = dev.stats := by
  unfold uvc_handle_data at h
  split at h
  · simp only [] at h
    split at h
    · rw [uvc_handle_data_drop_stats _ no user_data r d h]
      rfl
    · split at h
      · cases h
      · split at h
        · cases h
        · rename_i st d2 b hq
          have e1 := query_buf_stats _ _ _ _ _ _ _ _ hq
          split at h
          · cases h
            exact e1
          · rw [uvc_handle_data_queried_stats d2 no user_data b kdq kqb r d h, e1]
            rfl
  · cases h
theorem sink_data_locked_stats (dev : uvc_device_t) (no : Nat) (user_data : uvc_user_data_t)
    (kq : ioctl_result) (flags : Nat) (kdq kqb : ioctl_result) (st : Int) (d1 : uvc_device_t)
    (hv : valid_task_state dev.task_state)
    (h : sink_data_locked dev no user_data kq flags kdq kqb = some (st, d1)) :
    d1.stats = dev.stats
      ∧ (st = 0 ↔ (TASK_STARTED = dev.task_state
          ∧ (uvc_handle_data dev no user_data kq flags kdq kqb).map Prod.fst = some 0)) := by
  have t01 : TASK_FAILED ≠ TASK_STOPPED := by decide
  have t02 : TASK_FAILED ≠ TASK_STOPPING := by decide
  have t03 : TASK_FAILED ≠ TASK_STARTING := by decide
  have t04 : TASK_FAILED ≠ TASK_STARTED := by decide
  have t12 : TASK_STOPPED ≠ TASK_STOPPING := by decide
  have t13 : TASK_STOPPED ≠ TASK_STARTING := by decide
  have t14 : TASK_STOPPED ≠ TASK_STARTED := by decide
  have t23 : TASK_STOPPING ≠ TASK_STARTING := by decide
  have t24 : TASK_STOPPING ≠ TASK_STARTED := by decide
  have t34 : TASK_STARTING ≠ TASK_STARTED := by decide
  unfold sink_data_locked at h
  rcases hv with e | e | e | e | e
  · rw [e, if_pos rfl] at h
    cases h
    rw [e]
    exact ⟨rfl, by simp [t04.symm]⟩
  · rw [e, if_neg t01, if_pos rfl] at h
    cases h
    rw [e]
    exact ⟨rfl, by simp [t14.symm]⟩
  · rw [e, if_neg t02, if_neg t12, if_pos rfl] at h
    cases h
    rw [e]
    exact ⟨rfl, by simp [t24.symm]⟩
  · rw [e, if_neg t04, if_neg t14, if_neg t24, if_neg t34, if_pos rfl] at h
    rw [e, h]
    exact ⟨uvc_handle_data_stats dev no user_data kq flags kdq kqb st d1 h, by simp⟩
  · rw [e, if_neg t03, if_neg t13, if_neg t23, if_pos rfl] at h
    cases h
    rw [e]
    exact ⟨rfl, by simp [t34.symm]⟩

theorem uvc_device_sink_data_step (dev : uvc_device_t) (no : Nat) (c : sink_call) (s : Int)
    (dev1 : uvc_device_t) (hv : valid_task_state dev.task_state)
    (h : uvc_device_sink_data dev c.no c.user_data c.trylock c.kq c.flags c.kdq c.kqb
      = some (s, dev1)) :
    (dev1.stats no).sink_data_no + (dev.stats no).sink_drop_no
        = (dev.stats no).sink_data_no + (dev1.stats no).sink_drop_no
          + (if c.no = no ∧ frame_delivered dev c then 1 else 0)
      ∧ (dev1.stats no).sink_busy_no + (dev.stats no).sink_drop_no
        ≤ (dev.stats no).sink_busy_no + (dev1.stats no).sink_drop_no := by
  by_cases hb : c.trylock = EBUSY
  · have hd : frame_delivered dev c = false := by
      unfold frame_delivered
      rw [hb]
      rfl
    unfold uvc_device_sink_data at h
    by_cases hn : c.no < UVC_DEV_MAX_NUM
    · rw [if_pos hb, if_pos hn, sink_data_drop_eq _ _ _ hn] at h
      cases h
      by_cases e : c.no = no
      · subst e
        simp [uvc_device_t.set_stats, hd]
        omega
      · have e' : no ≠ c.no := fun x => e x.symm
        simp [uvc_device_t.set_stats, e, Function.update_noteq e']
    · rw [if_pos hb, if_neg hn] at h
      cases h
  · by_cases h0 : c.trylock ≠ 0
    · have hd : frame_delivered dev c = false := by
        unfold frame_delivered
        simp [h0]
      unfold uvc_device_sink_data at h
      rw [if_neg hb, if_pos h0] at h
      cases h
      simp [hd]
    · have h0' : c.trylock = 0 := not_not.mp h0
      cases hl : sink_data_locked dev c.no c.user_data c.kq c.flags c.kdq c.kqb with
      | none =>
        unfold uvc_device_sink_data at h
        rw [if_neg hb, if_neg h0, hl] at h
        cases h
      | some x =>
        obtain ⟨st, d1⟩ := x
        by_cases hn : c.no < UVC_DEV_MAX_NUM
        · obtain ⟨e1, e2⟩ := sink_data_locked_stats dev c.no c.user_data c.kq c.flags c.kdq
            c.kqb st d1 hv hl
          have hd : frame_delivered dev c = decide (st = 0) := by
            unfold frame_delivered
            by_cases e0 : st = 0
            · obtain ⟨a, b⟩ := e2.mp e0
              simp [h0', a, b, e0]
            · have : ¬ (TASK_STARTED = dev.task_state
                  ∧ (uvc_handle_data dev c.no c.user_data c.kq c.flags c.kdq c.kqb).map Prod.fst
                    = some 0) := fun x => e0 (e2.mpr x)
              simp only [e0, decide_False]
              by_cases a : TASK_STARTED = dev.task_state
              · have b : ¬ (uvc_handle_data dev c.no c.user_data c.kq c.flags c.kdq c.kqb).map
                    Prod.fst = some 0 := fun x => this ⟨a, x⟩
                simp [b]
              · simp [a]
          rw [h0'] at h
          rw [uvc_device_sink_data_locked_eq dev c.no c.user_data c.kq c.flags c.kdq c.kqb _ _
            hn hl] at h
          by_cases e0 : st = 0
          · rw [if_pos e0] at h
            cases h
            by_cases e : c.no = no
            · subst e
              simp [uvc_device_t.set_stats, hd, e0, e1]
              omega
            · have e' : no ≠ c.no := fun x => e x.symm
              simp [uvc_device_t.set_stats, e, Function.update_noteq e', e1]
          · rw [if_neg e0] at h
            cases h
            by_cases e : c.no = no
            · subst e
              simp [uvc_device_t.set_stats, hd, e0, e1]
              omega
            · have e' : no ≠ c.no := fun x => e x.symm
              simp [uvc_device_t.set_stats, e, Function.update_noteq e', e1]
        · exfalso
          unfold uvc_device_sink_data at h
          rw [if_neg hb, if_neg h0, hl] at h
          simp only [sink_data_done, sink_data_drop, if_neg hn] at h
          by_cases e0 : st = 0
          · rw [if_pos e0] at h
            cases h
          · rw [if_neg e0] at h
            by_cases e1 : 0 < st
            · rw [if_pos e1] at h
              cases h
            · rw [if_neg e1] at h
              cases h
/-- C9 counterexample: one call that finds the mutex busy, made on a freshly
opened device, leaves `sink_data_no = 1`, `sink_busy_no = 1`,
`sink_drop_no = 1` with no frame delivered, so `sink_data_no` differs from
`sink_busy_no + sink_drop_no + delivered`. -/
theorem busy_call_counted_twice :
    ∃ dev1 delivered,
      run_sink_data (opened_device 3) 0 [sample_call TASK_STARTED EBUSY]
        = some (dev1, delivered)
      ∧ (dev1.stats 0).sink_data_no = 1 ∧ (dev1.stats 0).sink_busy_no = 1
      ∧ (dev1.stats 0).sink_drop_no = 1 ∧ delivered = 0
      ∧ (dev1.stats 0).sink_data_no
        ≠ (dev1.stats 0).sink_busy_no + (dev1.stats 0).sink_drop_no + delivered :=
  ⟨_, _, rfl, rfl, rfl, rfl, rfl, by decide⟩

/-- C9 amended: over every sequence of `uvc_device_sink_data` calls that
return, each made in one of the five task states, the growth of
`sink_data_no` on an endpoint equals the growth of `sink_drop_no` plus the
number of frames delivered there, and `sink_busy_no` grows by no more than
`sink_drop_no` does: busy calls are already counted among the drops. -/
theorem sink_data_drop_accounting (steps : List sink_call) (dev : uvc_device_t) (no : Nat)
    (dev1 : uvc_device_t) (delivered : Nat)
    (hvalid : ∀ c ∈ steps, valid_task_state c.state)
    (hrun : run_sink_data dev no steps = some (dev1, delivered)) :
    (dev1.stats no).sink_data_no + (dev.stats no).sink_drop_no
        = (dev.stats no).sink_data_no + (dev1.stats no).sink_drop_no + delivered
      ∧ (dev1.stats no).sink_busy_no + (dev.stats no).sink_drop_no
        ≤ (dev.stats no).sink_busy_no + (dev1.stats no).sink_drop_no := by
  induction steps generalizing dev dev1 delivered with
  | nil =>
    unfold run_sink_data at hrun
    cases hrun
    exact ⟨rfl, le_refl _⟩
  | cons c rest ih =>
    unfold run_sink_data at hrun
    cases hc : uvc_device_sink_data (dev.set_task_state c.state) c.no c.user_data c.trylock c.kq
        c.flags c.kdq c.kqb with
    | none => rw [hc] at hrun; cases hrun
    | some x =>
      obtain ⟨s, d1⟩ := x
      rw [hc] at hrun
      simp only [] at hrun
      cases hr : run_sink_data d1 no rest with
      | none => rw [hr] at hrun; cases hrun
      | some y =>
        obtain ⟨d2, n⟩ := y
        rw [hr] at hrun
        simp only [Option.some.injEq, Prod.mk.injEq] at hrun
        obtain ⟨e1, e2⟩ := hrun
        subst e1
        obtain ⟨a1, a2⟩ := ih d1 d2 n (fun c hc => hvalid c (List.mem_cons_of_mem _ hc)) hr
        obtain ⟨b1, b2⟩ := uvc_device_sink_data_step (dev.set_task_state c.state) no c s d1
          (hvalid c (List.mem_cons_self _ _)) hc
        have e3 : (dev.set_task_state c.state).stats = dev.stats := rfl
        rw [e3] at b1 b2
        refine ⟨?_, ?_⟩
        · rw [← e2]
          omega
        · omega

theorem sink_data_drop_accounting_witness :
    (∀ c ∈ sample_calls, valid_task_state c.state)
    ∧ run_sink_data (streaming_device (sized_payload 1 3110400) 3110400) 0 sample_calls
        = some (sample_run_device, 1)
    ∧ (sample_run_device.stats 0).sink_data_no = 3
    ∧ (sample_run_device.stats 0).sink_drop_no = 2
    ∧ (sample_run_device.stats 0).sink_busy_no = 1
    ∧ ((sample_run_device.stats 0).sink_data_no
          + ((streaming_device (sized_payload 1 3110400) 3110400).stats 0).sink_drop_no
        = ((streaming_device (sized_payload 1 3110400) 3110400).stats 0).sink_data_no
          + (sample_run_device.stats 0).sink_drop_no + 1
      ∧ (sample_run_device.stats 0).sink_busy_no
          + ((streaming_device (sized_payload 1 3110400) 3110400).stats 0).sink_drop_no
        ≤ ((streaming_device (sized_payload 1 3110400) 3110400).stats 0).sink_busy_no
          + (sample_run_device.stats 0).sink_drop_no) :=
  have hv : ∀ c ∈ sample_calls, valid_task_state c.state := by
    intro c hc
    simp only [sample_calls, List.mem_cons, List.mem_singleton, List.not_mem_nil, or_false] at hc
    rcases hc with e | e | e
    · rw [e]; exact Or.inr (Or.inr (Or.inr (Or.inl rfl)))
    · rw [e]; exact Or.inr (Or.inr (Or.inr (Or.inl rfl)))
    · rw [e]; exact Or.inr (Or.inr (Or.inr (Or.inr rfl)))
  ⟨hv, rfl, rfl, rfl, rfl,
    sink_data_drop_accounting sample_calls _ 0 sample_run_device 1 hv rfl⟩

/-- C10 counterexample: the class request `GET_MIN(Probe)` with recipient
INTERFACE, sent to the streaming interface with entity id 5 in the high byte
of `wIndex`, is answered with a reply of 34 bytes and leaves the error code
at `NO_ERROR`: no stall, nothing latched. -/
theorem foreign_entity_on_streaming_interface_answered :
    foreign_entity_request.wIndex / 256 % 256 = 5
    ∧ foreign_entity_request.bRequestType % 256 &&& USB_TYPE_MASK = USB_TYPE_CLASS
    ∧ foreign_entity_request.bRequestType % 256 &&& USB_RECIP_MASK = USB_RECIP_INTERFACE
    ∧ (handle_setup (opened_device 3) 0 foreign_entity_request ioctl_ok).map
        (fun x => (x.1, x.2.calls.map response_length, x.2.priv.error_code_ctrl))
      = some (0, [some 34], ERR_CODE_CTRL_NO_ERROR) :=
  ⟨by decide, by decide, by decide, by decide⟩

/-- C10 amended: for a class request on a valid endpoint,
(a) a recipient other than INTERFACE is answered with a stall
(`SEND_RESPONSE` of length `-EL2HLT`) and the latched error code keeps its
value; (b) on the control interface an entity id other than 0, 1 and 2 is
answered with a stall and latches `INVALID_UNIT` (0x05); (c) an interface
that is neither control nor streaming is answered with a stall and latches
`INVALID_CONTROL` (0x06), whatever the entity id. -/
theorem class_request_stalls (dev : uvc_device_t) (no : Nat) (ctrl : usb_ctrlrequest)
    (k : ioctl_result) (hno : no < UVC_DEV_MAX_NUM)
    (hclass : ctrl.bRequestType % 256 &&& USB_TYPE_MASK = USB_TYPE_CLASS) :
    (ctrl.bRequestType % 256 &&& USB_RECIP_MASK ≠ USB_RECIP_INTERFACE →
        ∃ dev1, handle_setup dev no ctrl k = some (k.status, dev1)
          ∧ dev1.calls = dev.calls
              ++ [call.SEND_RESPONSE no { length := -EL2HLT, data := zero_data }]
          ∧ dev1.priv.error_code_ctrl = dev.priv.error_code_ctrl)
    ∧ (ctrl.bRequestType % 256 &&& USB_RECIP_MASK = USB_RECIP_INTERFACE →
        interface_no ctrl no = CONTROL_INTERFACE →
        ctrl.wIndex / 256 % 256 ≠ 0 → ctrl.wIndex / 256 % 256 ≠ ENTITY_INPUT_TERMINAL →
        ctrl.wIndex / 256 % 256 ≠ ENTITY_PROCESSING_UNIT →
        ∃ dev1, handle_setup dev no ctrl k = some (k.status, dev1)
          ∧ dev1.calls = dev.calls
              ++ [call.SEND_RESPONSE no { length := -EL2HLT, data := zero_data }]
          ∧ dev1.priv.error_code_ctrl = ERR_CODE_CTRL_INVALID_UNIT)
    ∧ (ctrl.bRequestType % 256 &&& USB_RECIP_MASK = USB_RECIP_INTERFACE →
        interface_no ctrl no ≠ CONTROL_INTERFACE →
        interface_no ctrl no ≠ STREAMING_INTERFACE →
        ∃ dev1, handle_setup dev no ctrl k = some (k.status, dev1)
          ∧ dev1.calls = dev.calls
              ++ [call.SEND_RESPONSE no { length := -EL2HLT, data := zero_data }]
          ∧ dev1.priv.error_code_ctrl = ERR_CODE_CTRL_INVALID_CONTROL) := by
  have c0 : USB_TYPE_CLASS ≠ USB_TYPE_STANDARD := by decide
  have hs : handle_setup dev no ctrl k = handle_class_event dev no ctrl k := by
    unfold handle_setup
    simp only [hclass]
    rw [if_neg c0, if_pos trivial]
  rw [hs]
  unfold handle_class_event
  refine ⟨?_, ?_, ?_⟩
  · intro hr
    rw [if_pos (fun e => hr e.symm)]
    unfold stall_pipeline send_reply
    rw [if_pos hno]
    exact ⟨_, rfl, rfl, rfl⟩
  · intro hr hi e0 e1 e2
    rw [if_neg (fun e => e hr.symm)]
    simp only [hi, if_true]
    unfold handle_control
    simp only [e0, e1, e2, if_false]
    unfold send_reply
    rw [if_pos hno]
    exact ⟨_, rfl, rfl, rfl⟩
  · intro hr h0 h1
    rw [if_neg (fun e => e hr.symm)]
    simp only [h0, h1, if_false]
    unfold stall_pipeline send_reply
    rw [if_pos hno]
    exact ⟨_, rfl, rfl, rfl⟩

theorem class_request_stalls_witness :
    ∃ dev1, handle_setup (opened_device 3) 0 foreign_unit_request ioctl_ok
        = some (ioctl_ok.status, dev1)
      ∧ dev1.calls = (opened_device 3).calls
          ++ [call.SEND_RESPONSE 0 { length := -EL2HLT, data := zero_data }]
      ∧ dev1.priv.error_code_ctrl = ERR_CODE_CTRL_INVALID_UNIT :=
  (class_request_stalls (opened_device 3) 0 foreign_unit_request ioctl_ok (by decide)
    (by decide)).2.1 (by decide) (by decide) (by decide) (by decide) (by decide)

theorem interface_no_eq (ctrl : usb_ctrlrequest) (no : Nat) (hno : no < UVC_DEV_MAX_NUM)
    (i : Nat) (hi : i < 194) :
    interface_no ctrl no = i
      ↔ ((ctrl.wIndex % 65536 &&& 0x00FF : Nat) : Int) - 2 * (no : Int) = (i : Int) := by
  have hle : ctrl.wIndex % 65536 &&& 0x00FF ≤ 0x00FF := Nat.and_le_right
  unfold interface_no
  unfold UVC_DEV_MAX_NUM at hno
  unfold INTERFACE_NUM
  generalize ctrl.wIndex % 65536 &&& 0x00FF = low at hle ⊢
  push_cast
  omega

theorem handle_setup_class (dev : uvc_device_t) (no : Nat) (ctrl : usb_ctrlrequest)
    (k : ioctl_result)
    (hclass : ctrl.bRequestType % 256 &&& USB_TYPE_MASK = USB_TYPE_CLASS) :
    handle_setup dev no ctrl k = handle_class_event dev no ctrl k := by
  have c0 : USB_TYPE_CLASS ≠ USB_TYPE_STANDARD := by decide
  unfold handle_setup
  simp only [hclass]
  rw [if_neg c0, if_pos trivial]

theorem handle_setup_control (dev : uvc_device_t) (no : Nat) (ctrl : usb_ctrlrequest)
    (k : ioctl_result)
    (hclass : ctrl.bRequestType % 256 &&& USB_TYPE_MASK = USB_TYPE_CLASS)
    (hrecip : ctrl.bRequestType % 256 &&& USB_RECIP_MASK = USB_RECIP_INTERFACE)
    (hiface : interface_no ctrl no = CONTROL_INTERFACE) :
    handle_setup dev no ctrl k =
      handle_control
        (dev.set_video_streaming no { dev.priv.video_streaming no with expected_len := 0 })
        no ctrl k := by
  rw [handle_setup_class dev no ctrl k hclass]
  unfold handle_class_event
  rw [if_neg (fun e => e hrecip.symm)]
  simp only [hiface, if_true]

theorem handle_setup_streaming (dev : uvc_device_t) (no : Nat) (ctrl : usb_ctrlrequest)
    (k : ioctl_result)
    (hclass : ctrl.bRequestType % 256 &&& USB_TYPE_MASK = USB_TYPE_CLASS)
    (hrecip : ctrl.bRequestType % 256 &&& USB_RECIP_MASK = USB_RECIP_INTERFACE)
    (hiface : interface_no ctrl no = STREAMING_INTERFACE) :
    handle_setup dev no ctrl k =
      handle_streaming
        (dev.set_video_streaming no { dev.priv.video_streaming no with expected_len := 0 })
        no ctrl k := by
  have i0 : STREAMING_INTERFACE ≠ CONTROL_INTERFACE := by decide
  rw [handle_setup_class dev no ctrl k hclass]
  unfold handle_class_event
  rw [if_neg (fun e => e hrecip.symm)]
  simp only [hiface, if_neg i0, if_true]
/-- C12: SETUP routing on a valid endpoint `no`.  A STANDARD request returns
0 and sends no reply; a request that is neither STANDARD nor CLASS is
stalled; a CLASS request whose recipient is not INTERFACE is stalled; a
CLASS request to an interface is routed by `(wIndex & 0xFF) - 2 * no`: 0
goes to `handle_control`, 1 to `handle_streaming`, every other value is
stalled (and latches `INVALID_CONTROL`).  The class paths first reset the
expected length of the data stage. -/
theorem handle_setup_routing (dev : uvc_device_t) (no : Nat) (ctrl : usb_ctrlrequest)
    (k : ioctl_result) (hno : no < UVC_DEV_MAX_NUM) :
    (ctrl.bRequestType % 256 &&& USB_TYPE_MASK = USB_TYPE_STANDARD →
        handle_setup dev no ctrl k = some (0, dev))
    ∧ (ctrl.bRequestType % 256 &&& USB_TYPE_MASK ≠ USB_TYPE_STANDARD →
        ctrl.bRequestType % 256 &&& USB_TYPE_MASK ≠ USB_TYPE_CLASS →
        handle_setup dev no ctrl k =
          some (k.status,
            dev.emit (call.SEND_RESPONSE no { length := -EL2HLT, data := zero_data })))
    ∧ (ctrl.bRequestType % 256 &&& USB_TYPE_MASK = USB_TYPE_CLASS →
        ctrl.bRequestType % 256 &&& USB_RECIP_MASK ≠ USB_RECIP_INTERFACE →
        handle_setup dev no ctrl k =
          some (k.status,
            (dev.set_video_streaming no
              { dev.priv.video_streaming no with expected_len := 0 }).emit
              (call.SEND_RESPONSE no { length := -EL2HLT, data := zero_data })))
    ∧ (ctrl.bRequestType % 256 &&& USB_TYPE_MASK = USB_TYPE_CLASS →
        ctrl.bRequestType % 256 &&& USB_RECIP_MASK = USB_RECIP_INTERFACE →
        (((ctrl.wIndex % 65536 &&& 0x00FF : Nat) : Int) - 2 * (no : Int) = 0 →
          handle_setup dev no ctrl k =
            handle_control
              (dev.set_video_streaming no
                { dev.priv.video_streaming no with expected_len := 0 }) no ctrl k)
        ∧ (((ctrl.wIndex % 65536 &&& 0x00FF : Nat) : Int) - 2 * (no : Int) = 1 →
          handle_setup dev no ctrl k =
            handle_streaming
              (dev.set_video_streaming no
                { dev.priv.video_streaming no with expected_len := 0 }) no ctrl k)
        ∧ (((ctrl.wIndex % 65536 &&& 0x00FF : Nat) : Int) - 2 * (no : Int) ≠ 0 →
          ((ctrl.wIndex % 65536 &&& 0x00FF : Nat) : Int) - 2 * (no : Int) ≠ 1 →
          handle_setup dev no ctrl k =
            some (k.status,
              ((dev.set_video_streaming no
                { dev.priv.video_streaming no with expected_len := 0 }).latch
                ERR_CODE_CTRL_INVALID_CONTROL).emit
                (call.SEND_RESPONSE no { length := -EL2HLT, data := zero_data })))) := by
  have h0 := interface_no_eq ctrl no hno 0 (by decide)
  have h1 := interface_no_eq ctrl no hno 1 (by decide)
  refine ⟨?_, ?_, ?_, ?_⟩
  · intro hs
    unfold handle_setup handle_standard_event
    simp only [hs, if_true]
  · intro hs hc
    unfold handle_setup
    simp only [hs, hc, if_false]
    unfold stall_pipeline
    rw [send_reply_eq _ _ _ _ hno]
    rfl
  · intro hc hr
    rw [handle_setup_class dev no ctrl k hc]
    unfold handle_class_event
    rw [if_pos (fun e => hr e.symm)]
    unfold stall_pipeline
    rw [send_reply_eq _ _ _ _ hno]
    rfl
  · intro hc hr
    refine ⟨?_, ?_, ?_⟩
    · intro hv
      exact handle_setup_control dev no ctrl k hc hr (h0.mpr hv)
    · intro hv
      exact handle_setup_streaming dev no ctrl k hc hr (h1.mpr hv)
    · intro hv0 hv1
      have i0 : ¬ interface_no ctrl no = CONTROL_INTERFACE := fun e => hv0 (h0.mp e)
      have i1 : ¬ interface_no ctrl no = STREAMING_INTERFACE := fun e => hv1 (h1.mp e)
      rw [handle_setup_class dev no ctrl k hc]
      unfold handle_class_event
      rw [if_neg (fun e => e hr.symm)]
      simp only [i0, i1, if_false]
      unfold stall_pipeline
      rw [send_reply_eq _ _ _ _ hno]
      rfl
theorem handle_setup_routing_witness :
    handle_setup (opened_device 3) 1 standard_request ioctl_ok = some (0, opened_device 3)
    ∧ handle_setup (opened_device 3) 1 second_endpoint_request ioctl_ok =
        handle_streaming
          ((opened_device 3).set_video_streaming 1
            { (opened_device 3).priv.video_streaming 1 with expected_len := 0 })
          1 second_endpoint_request ioctl_ok :=
  ⟨(handle_setup_routing (opened_device 3) 1 standard_request ioctl_ok (by decide)).1
      (by decide),
   ((handle_setup_routing (opened_device 3) 1 second_endpoint_request ioctl_ok
      (by decide)).2.2.2 (by decide) (by decide)).2.1 (by decide)⟩

/-- C11: on a valid endpoint, a class request to the control interface with
entity 0 and the error-code selector is answered with length 1 and one byte,
the low byte of the latched error code, which stays latched; the opened
device holds `NO_ERROR`; and after a class request against entity 1 with a
selector other than Auto-Exposure Mode (such as 0xFF) was stalled with
`INVALID_CONTROL` latched, the next such read returns the byte 0x06. -/
theorem request_error_code_read (dev : uvc_device_t) (no : Nat) (ctrl : usb_ctrlrequest)
    (k : ioctl_result) (hno : no < UVC_DEV_MAX_NUM)
    (hclass : ctrl.bRequestType % 256 &&& USB_TYPE_MASK = USB_TYPE_CLASS)
    (hrecip : ctrl.bRequestType % 256 &&& USB_RECIP_MASK = USB_RECIP_INTERFACE)
    (hiface : interface_no ctrl no = CONTROL_INTERFACE)
    (hent : ctrl.wIndex / 256 % 256 = 0)
    (hcs : ctrl.wValue / 256 % 256 = UVC_VC_REQUEST_ERROR_CODE_CONTROL) :
    (∃ dev1, handle_setup dev no ctrl k = some (k.status, dev1)
        ∧ dev1.calls = dev.calls ++
            [call.SEND_RESPONSE no
              { length := 1, data := byte_data (dev.priv.error_code_ctrl % 256).toNat }]
        ∧ dev1.priv.error_code_ctrl = dev.priv.error_code_ctrl)
    ∧ (∀ fd, (opened_device fd).priv.error_code_ctrl = ERR_CODE_CTRL_NO_ERROR)
    ∧ (∀ (bad : usb_ctrlrequest) (k1 : ioctl_result),
        bad.bRequestType % 256 &&& USB_TYPE_MASK = USB_TYPE_CLASS →
        bad.bRequestType % 256 &&& USB_RECIP_MASK = USB_RECIP_INTERFACE →
        interface_no bad no = CONTROL_INTERFACE →
        bad.wIndex / 256 % 256 = ENTITY_INPUT_TERMINAL →
        bad.wValue / 256 % 256 ≠ UVC_CT_AE_MODE_CONTROL →
        ∃ d1 d2, handle_setup dev no bad k1 = some (k1.status, d1)
          ∧ d1.calls = dev.calls ++
              [call.SEND_RESPONSE no { length := -EL2HLT, data := zero_data }]
          ∧ d1.priv.error_code_ctrl = ERR_CODE_CTRL_INVALID_CONTROL
          ∧ handle_setup d1 no ctrl k = some (k.status, d2)
          ∧ d2.calls = d1.calls ++
              [call.SEND_RESPONSE no { length := 1, data := byte_data 0x06 }]) := by
  have read : ∀ d : uvc_device_t, handle_setup d no ctrl k =
      some (k.status,
        (d.set_video_streaming no { d.priv.video_streaming no with expected_len := 0 }).emit
          (call.SEND_RESPONSE no
            { length := 1, data := byte_data (d.priv.error_code_ctrl % 256).toNat })) := by
    intro d
    rw [handle_setup_control d no ctrl k hclass hrecip hiface]
    unfold handle_control
    simp only [hent, hcs, if_true]
    rw [send_reply_eq _ _ _ _ hno]
    rfl
  refine ⟨⟨_, read dev, rfl, rfl⟩, fun _ => rfl, ?_⟩
  intro bad k1 bclass brecip biface bent bcs
  have e1 : ¬ ENTITY_INPUT_TERMINAL = 0 := by decide
  have hbad : handle_setup dev no bad k1 =
      some (k1.status,
        ((dev.set_video_streaming no
          { dev.priv.video_streaming no with expected_len := 0 }).latch
          ERR_CODE_CTRL_INVALID_CONTROL).emit
          (call.SEND_RESPONSE no { length := -EL2HLT, data := zero_data })) := by
    rw [handle_setup_control dev no bad k1 bclass brecip biface]
    unfold handle_control
    simp only [bent, if_neg e1, if_true]
    unfold handle_IT_ctrl
    rw [if_neg (fun e => bcs e.symm)]
    rw [send_reply_eq _ _ _ _ hno]
    rfl
  exact ⟨_, _, hbad, rfl, rfl, read _, rfl⟩

theorem request_error_code_read_witness :
    (∃ dev1, handle_setup (opened_device 3) 0 error_code_request ioctl_ok
          = some (ioctl_ok.status, dev1)
        ∧ dev1.calls = (opened_device 3).calls ++
            [call.SEND_RESPONSE 0 { length := 1, data := byte_data 0x00 }]
        ∧ dev1.priv.error_code_ctrl = (opened_device 3).priv.error_code_ctrl)
    ∧ ∃ d1 d2, handle_setup (opened_device 3) 0 unknown_selector_request ioctl_ok
          = some (ioctl_ok.status, d1)
        ∧ d1.calls = (opened_device 3).calls ++
            [call.SEND_RESPONSE 0 { length := -EL2HLT, data := zero_data }]
        ∧ d1.priv.error_code_ctrl = ERR_CODE_CTRL_INVALID_CONTROL
        ∧ handle_setup d1 0 error_code_request ioctl_ok = some (ioctl_ok.status, d2)
        ∧ d2.calls = d1.calls ++
            [call.SEND_RESPONSE 0 { length := 1, data := byte_data 0x06 }] :=
  ⟨(request_error_code_read (opened_device 3) 0 error_code_request ioctl_ok (by decide)
      (by decide) (by decide) (by decide) (by decide) (by decide)).1,
   (request_error_code_read (opened_device 3) 0 error_code_request ioctl_ok (by decide)
      (by decide) (by decide) (by decide) (by decide) (by decide)).2.2
      unknown_selector_request ioctl_ok (by decide) (by decide) (by decide) (by decide)
      (by decide)⟩

theorem min_streaming_control_static (dev : uvc_device_t)
    (hfmt : dev.priv.config.format = format_config.format)
    (hisoc : dev.priv.config.isoc_max_packet_size = format_config.isoc_max_packet_size) :
    min_streaming_control dev = some
      { bmHint := 1, bFormatIndex := 1, bFrameIndex := 1, dwFrameInterval := 10000000
        wKeyFrameRate := 0, wPFrameRate := 0, wCompQuality := 0, wCompWindowSize := 0
        wDelay := 200, dwMaxVideoFrameSize := 3110400, dwMaxPayloadTransferSize := 1024
        dwClockFrequency := 0, bmFramingInfo := 0x03, bPreferedVersion := 1
        bMinVersion := 1, bMaxVersion := 1 } := by
  unfold min_streaming_control fill_streaming_control
  simp only [hfmt, hisoc]
  rfl

theorem default_streaming_control_static (dev : uvc_device_t)
    (hfmt : dev.priv.config.format = format_config.format)
    (hdflt : dev.priv.config.dflt = format_config.dflt)
    (hisoc : dev.priv.config.isoc_max_packet_size = format_config.isoc_max_packet_size) :
    default_streaming_control dev = some
      { bmHint := 1, bFormatIndex := 1, bFrameIndex := 1, dwFrameInterval := 10000000
        wKeyFrameRate := 0, wPFrameRate := 0, wCompQuality := 0, wCompWindowSize := 0
        wDelay := 200, dwMaxVideoFrameSize := 3110400, dwMaxPayloadTransferSize := 1024
        dwClockFrequency := 0, bmFramingInfo := 0x03, bPreferedVersion := 1
        bMinVersion := 1, bMaxVersion := 1 } := by
  unfold default_streaming_control fill_streaming_control
  simp only [hfmt, hdflt, hisoc]
  rfl

theorem max_streaming_control_static (dev : uvc_device_t)
    (hfmt : dev.priv.config.format = format_config.format)
    (hisoc : dev.priv.config.isoc_max_packet_size = format_config.isoc_max_packet_size) :
    max_streaming_control dev = some
      { bmHint := 1, bFormatIndex := 3, bFrameIndex := 1, dwFrameInterval := 666666
        wKeyFrameRate := 0, wPFrameRate := 0, wCompQuality := 0, wCompWindowSize := 0
        wDelay := 200, dwMaxVideoFrameSize := 2073600, dwMaxPayloadTransferSize := 1024
        dwClockFrequency := 0, bmFramingInfo := 0x03, bPreferedVersion := 1
        bMinVersion := 1, bMaxVersion := 1 } := by
  unfold max_streaming_control fill_streaming_control
  simp only [hfmt, hisoc]
  rfl

theorem handle_setup_streaming_request (dev : uvc_device_t) (no : Nat)
    (ctrl : usb_ctrlrequest) (k : ioctl_result)
    (hclass : ctrl.bRequestType % 256 &&& USB_TYPE_MASK = USB_TYPE_CLASS)
    (hrecip : ctrl.bRequestType % 256 &&& USB_RECIP_MASK = USB_RECIP_INTERFACE)
    (hiface : interface_no ctrl no = STREAMING_INTERFACE)
    (hlow : ctrl.wValue % 65536 &&& 0x00FF = 0)
    (hcs : ctrl.wValue / 256 % 256 = UVC_VS_PROBE_CONTROL
      ∨ ctrl.wValue / 256 % 256 = UVC_VS_COMMIT_CONTROL) :
    handle_setup dev no ctrl k =
      handle_streaming_request
        (dev.set_video_streaming no { dev.priv.video_streaming no with expected_len := 0 })
        no ctrl k := by
  have c0 : ¬ UVC_VS_PROBE_CONTROL = UVC_VS_STREAM_ERROR_CODE_CONTROL := by decide
  have c1 : ¬ UVC_VS_COMMIT_CONTROL = UVC_VS_STREAM_ERROR_CODE_CONTROL := by decide
  have c2 : ¬ UVC_VS_COMMIT_CONTROL = UVC_VS_PROBE_CONTROL := by decide
  rw [handle_setup_streaming dev no ctrl k hclass hrecip hiface]
  unfold handle_streaming handle_streaming_probe handle_streaming_commit
  rw [if_pos hlow]
  rcases hcs with h | h
  · simp only [h, if_neg c0, if_true]
  · simp only [h, if_neg c1, if_neg c2, if_true]
/-- C13: on a valid endpoint of a device that uses the static catalog, a
class request `GET_MIN` or `GET_DEF` on the Probe or the Commit selector of
the streaming interface is answered with 34 bytes, the streaming control
with `bmHint = 1`, `bFormatIndex = 1`, `bFrameIndex = 1`,
`dwFrameInterval = 10000000` (the first interval of the first frame of the
first format), `wDelay = 200`, `dwMaxVideoFrameSize = 3110400`,
`dwMaxPayloadTransferSize = 1024`, `bmFramingInfo = 0x03`, the three
versions 1 and every other field zero. -/
theorem get_min_and_get_def_reply (dev : uvc_device_t) (no : Nat) (ctrl : usb_ctrlrequest)
    (k : ioctl_result) (hno : no < UVC_DEV_MAX_NUM)
    (hclass : ctrl.bRequestType % 256 &&& USB_TYPE_MASK = USB_TYPE_CLASS)
    (hrecip : ctrl.bRequestType % 256 &&& USB_RECIP_MASK = USB_RECIP_INTERFACE)
    (hiface : interface_no ctrl no = STREAMING_INTERFACE)
    (hlow : ctrl.wValue % 65536 &&& 0x00FF = 0)
    (hcs : ctrl.wValue / 256 % 256 = UVC_VS_PROBE_CONTROL
      ∨ ctrl.wValue / 256 % 256 = UVC_VS_COMMIT_CONTROL)
    (hfmt : dev.priv.config.format = format_config.format)
    (hdflt : dev.priv.config.dflt = format_config.dflt)
    (hisoc : dev.priv.config.isoc_max_packet_size = format_config.isoc_max_packet_size)
    (hreq : ctrl.bRequest % 256 = UVC_GET_MIN ∨ ctrl.bRequest % 256 = UVC_GET_DEF) :
    handle_setup dev no ctrl k =
      some (k.status,
        (dev.set_video_streaming no
          { dev.priv.video_streaming no with expected_len := 0 }).emit
          (call.SEND_RESPONSE no
            { length := 34
              data := uvc_streaming_control.bytes
                  { bmHint := 1, bFormatIndex := 1, bFrameIndex := 1
                    dwFrameInterval := 10000000
                    wKeyFrameRate := 0, wPFrameRate := 0, wCompQuality := 0
                    wCompWindowSize := 0, wDelay := 200
                    dwMaxVideoFrameSize := 3110400, dwMaxPayloadTransferSize := 1024
                    dwClockFrequency := 0, bmFramingInfo := 0x03, bPreferedVersion := 1
                    bMinVersion := 1, bMaxVersion := 1 }
                ++ List.replicate 26 0 }))
    ∧ (array_at frame_intervals.dwFrameInterval 0 = some 10000000
      ∧ calc_max_video_frame_size nv12_format
          { wHeight := 1080, wWidth := 1920, intervals := frame_intervals } = 3110400) := by
  have b1 : ¬ UVC_GET_MIN = UVC_GET_CUR := by decide
  have b2 : ¬ UVC_GET_DEF = UVC_GET_CUR := by decide
  have b3 : ¬ UVC_GET_DEF = UVC_GET_MIN := by decide
  have b4 : ¬ UVC_GET_DEF = UVC_GET_MAX := by decide
  refine ⟨?_, by decide, by decide⟩
  rw [handle_setup_streaming_request dev no ctrl k hclass hrecip hiface hlow hcs]
  unfold handle_streaming_request
  rcases hreq with h | h
  · simp only [h, if_neg b1, if_true]
    rw [min_streaming_control_static _ (by simpa using hfmt) (by simpa using hisoc)]
    simp only []
    rw [send_reply_eq _ _ _ _ hno]
    rfl
  · simp only [h, if_neg b2, if_neg b3, if_neg b4, if_true]
    rw [default_streaming_control_static _ (by simpa using hfmt) (by simpa using hdflt)
      (by simpa using hisoc)]
    simp only []
    rw [send_reply_eq _ _ _ _ hno]
    rfl

theorem get_min_and_get_def_reply_witness :
    handle_setup negotiated_device 0 (get_request UVC_GET_DEF UVC_VS_COMMIT_CONTROL) ioctl_ok =
      some (ioctl_ok.status,
        (negotiated_device.set_video_streaming 0
          { negotiated_device.priv.video_streaming 0 with expected_len := 0 }).emit
          (call.SEND_RESPONSE 0
            { length := 34
              data := uvc_streaming_control.bytes
                  { bmHint := 1, bFormatIndex := 1, bFrameIndex := 1
                    dwFrameInterval := 10000000
                    wKeyFrameRate := 0, wPFrameRate := 0, wCompQuality := 0
                    wCompWindowSize := 0, wDelay := 200
                    dwMaxVideoFrameSize := 3110400, dwMaxPayloadTransferSize := 1024
                    dwClockFrequency := 0, bmFramingInfo := 0x03, bPreferedVersion := 1
                    bMinVersion := 1, bMaxVersion := 1 }
                ++ List.replicate 26 0 })) :=
  (get_min_and_get_def_reply negotiated_device 0 (get_request UVC_GET_DEF UVC_VS_COMMIT_CONTROL)
    ioctl_ok (by decide) (by decide) (by decide) (by decide) (by decide) (by decide) rfl rfl
    rfl (by decide)).1

/-- C14: on the opened device `GET_MAX(Probe)` is answered with
`bFormatIndex = 3`, `bFrameIndex = 1` and `dwFrameInterval = 666666`, the
fourth entry of the interval list (the interval count `intervals->num` is 4),
while the list holds seven entries and its last entry is 333333. -/
theorem get_max_interval_not_last_listed :
    (handle_setup (opened_device 3) 0 (get_request UVC_GET_MAX UVC_VS_PROBE_CONTROL)
        ioctl_ok).map
        (fun x => (x.2.calls.getLast?.bind reply_control).map
          (fun c => (c.bFormatIndex, c.bFrameIndex, c.dwFrameInterval)))
      = some (some (3, 1, 666666))
    ∧ frame_intervals.dwFrameInterval.getLast? = some 333333 :=
  ⟨by decide, by decide⟩

/-- Replies to `GET_MAX` and `GET_MIN`: on a valid endpoint of a device that
uses the static catalog, `GET_MAX` on the Probe or the Commit selector is answered with the
streaming control built for the last format, the largest frame count and
the largest interval count: `bFormatIndex = 3` (the number of formats),
`bFrameIndex = 1` (the largest frame count) and `dwFrameInterval = 666666`,
the entry at the 1-based position 4, the largest counted `intervals->num`;
`GET_MIN` is answered with `bFormatIndex = 1`, `bFrameIndex = 1` and
`dwFrameInterval = 10000000`, entry 0 of the list. -/
theorem get_max_and_get_min_bounds (dev : uvc_device_t) (no : Nat) (ctrl : usb_ctrlrequest)
    (k : ioctl_result) (hno : no < UVC_DEV_MAX_NUM)
    (hclass : ctrl.bRequestType % 256 &&& USB_TYPE_MASK = USB_TYPE_CLASS)
    (hrecip : ctrl.bRequestType % 256 &&& USB_RECIP_MASK = USB_RECIP_INTERFACE)
    (hiface : interface_no ctrl no = STREAMING_INTERFACE)
    (hlow : ctrl.wValue % 65536 &&& 0x00FF = 0)
    (hcs : ctrl.wValue / 256 % 256 = UVC_VS_PROBE_CONTROL
      ∨ ctrl.wValue / 256 % 256 = UVC_VS_COMMIT_CONTROL)
    (hfmt : dev.priv.config.format = format_config.format)
    (hisoc : dev.priv.config.isoc_max_packet_size = format_config.isoc_max_packet_size) :
    (ctrl.bRequest % 256 = UVC_GET_MAX →
        ∃ dev1 c, handle_setup dev no ctrl k = some (k.status, dev1)
          ∧ dev1.calls = dev.calls ++
              [call.SEND_RESPONSE no { length := 34, data := c.bytes ++ List.replicate 26 0 }]
          ∧ max_streaming_control dev = some c
          ∧ c.bFormatIndex = 3 ∧ c.bFormatIndex = dev.priv.config.format.length
          ∧ c.bFrameIndex = 1 ∧ c.dwFrameInterval = 666666
          ∧ array_at frame_intervals.dwFrameInterval (frame_intervals.num - 1)
              = some c.dwFrameInterval)
    ∧ (ctrl.bRequest % 256 = UVC_GET_MIN →
        ∃ dev1 c, handle_setup dev no ctrl k = some (k.status, dev1)
          ∧ dev1.calls = dev.calls ++
              [call.SEND_RESPONSE no { length := 34, data := c.bytes ++ List.replicate 26 0 }]
          ∧ min_streaming_control dev = some c
          ∧ c.bFormatIndex = 1 ∧ c.bFrameIndex = 1 ∧ c.dwFrameInterval = 10000000
          ∧ array_at frame_intervals.dwFrameInterval 0 = some c.dwFrameInterval) := by
  have b1 : ¬ UVC_GET_MIN = UVC_GET_CUR := by decide
  have b2 : ¬ UVC_GET_MAX = UVC_GET_CUR := by decide
  have b3 : ¬ UVC_GET_MAX = UVC_GET_MIN := by decide
  have hlen : dev.priv.config.format.length = 3 := by rw [hfmt]; rfl
  rw [handle_setup_streaming_request dev no ctrl k hclass hrecip hiface hlow hcs]
  unfold handle_streaming_request
  refine ⟨?_, ?_⟩
  · intro h
    simp only [h, if_neg b2, if_neg b3, if_true]
    rw [max_streaming_control_static _ (by simpa using hfmt) (by simpa using hisoc)]
    simp only []
    rw [send_reply_eq _ _ _ _ hno]
    exact ⟨_, _, rfl, rfl, max_streaming_control_static dev hfmt hisoc, rfl, hlen.symm, rfl, rfl,
      by decide⟩
  · intro h
    simp only [h, if_neg b1, if_true]
    rw [min_streaming_control_static _ (by simpa using hfmt) (by simpa using hisoc)]
    simp only []
    rw [send_reply_eq _ _ _ _ hno]
    exact ⟨_, _, rfl, rfl, min_streaming_control_static dev hfmt hisoc, rfl, rfl, rfl,
      by decide⟩

theorem get_max_and_get_min_bounds_witness :
    ∃ dev1 c, handle_setup negotiated_device 0 (get_request UVC_GET_MAX UVC_VS_COMMIT_CONTROL)
          ioctl_ok = some (ioctl_ok.status, dev1)
      ∧ dev1.calls = negotiated_device.calls ++
          [call.SEND_RESPONSE 0 { length := 34, data := c.bytes ++ List.replicate 26 0 }]
      ∧ max_streaming_control negotiated_device = some c
      ∧ c.bFormatIndex = 3 ∧ c.bFormatIndex = negotiated_device.priv.config.format.length
      ∧ c.bFrameIndex = 1 ∧ c.dwFrameInterval = 666666
      ∧ array_at frame_intervals.dwFrameInterval (frame_intervals.num - 1)
          = some c.dwFrameInterval :=
  (get_max_and_get_min_bounds negotiated_device 0 (get_request UVC_GET_MAX UVC_VS_COMMIT_CONTROL)
    ioctl_ok (by decide) (by decide) (by decide) (by decide) (by decide) (by decide) rfl
    rfl).1 (by decide)

/-- C15: for a frame of width `W` and height `H` with `2 * W * H < 2 ^ 32`,
`calc_max_video_frame_size` is `W * H * 2` for YUYV, `W * H + W * H / 2`,
which is `W * H * 3 / 2`, for NV12, `W * H` for MJPEG, and 0 for every other
FourCC. -/
theorem calc_max_video_frame_size_values (format : uvc_format_info_t)
    (frame : uvc_frame_info_t) (h : 2 * (frame.wWidth * frame.wHeight) < 2 ^ 32) :
    (format.fcc = V4L2_PIX_FMT_YUYV →
        calc_max_video_frame_size format frame = frame.wWidth * frame.wHeight * 2)
    ∧ (format.fcc = V4L2_PIX_FMT_NV12 →
        calc_max_video_frame_size format frame
            = frame.wWidth * frame.wHeight + frame.wWidth * frame.wHeight / 2
          ∧ calc_max_video_frame_size format frame = frame.wWidth * frame.wHeight * 3 / 2)
    ∧ (format.fcc = V4L2_PIX_FMT_MJPEG →
        calc_max_video_frame_size format frame = frame.wWidth * frame.wHeight)
    ∧ (format.fcc ≠ V4L2_PIX_FMT_YUYV → format.fcc ≠ V4L2_PIX_FMT_NV12 →
        format.fcc ≠ V4L2_PIX_FMT_MJPEG →
        calc_max_video_frame_size format frame = 0) := by
  have n1 : ¬ V4L2_PIX_FMT_YUYV = V4L2_PIX_FMT_NV12 := by decide
  have n2 : ¬ V4L2_PIX_FMT_YUYV = V4L2_PIX_FMT_MJPEG := by decide
  have n3 : ¬ V4L2_PIX_FMT_NV12 = V4L2_PIX_FMT_MJPEG := by decide
  unfold calc_max_video_frame_size
  generalize frame.wWidth * frame.wHeight = n at h
  refine ⟨?_, ?_, ?_, ?_⟩
  · intro e
    rw [e, if_pos rfl]
    simp only []
    omega
  · intro e
    rw [e, if_neg n1, if_pos rfl]
    simp only []
    have hn : n % 2 ^ 32 = n := Nat.mod_eq_of_lt (by omega)
    have hm : (n + n / 2) % 2 ^ 32 = n + n / 2 := Nat.mod_eq_of_lt (by omega)
    rw [hn, hm]
    refine ⟨rfl, ?_⟩
    omega
  · intro e
    rw [e, if_neg n2, if_neg n3, if_pos rfl]
    omega
  · intro e1 e2 e3
    rw [if_neg (fun e => e1 e.symm), if_neg (fun e => e2 e.symm), if_neg (fun e => e3 e.symm)]

theorem calc_max_video_frame_size_values_witness :
    calc_max_video_frame_size nv12_format
        { wHeight := 1080, wWidth := 1920, intervals := frame_intervals } = 1920 * 1080 * 3 / 2
    ∧ calc_max_video_frame_size yuyv_format
        { wHeight := 1080, wWidth := 1920, intervals := frame_intervals } = 1920 * 1080 * 2 :=
  ⟨((calc_max_video_frame_size_values nv12_format
      { wHeight := 1080, wWidth := 1920, intervals := frame_intervals } (by decide)).2.1
      rfl).2,
   (calc_max_video_frame_size_values yuyv_format
      { wHeight := 1080, wWidth := 1920, intervals := frame_intervals } (by decide)).1 rfl⟩

/-- C16, the catalog as compiled.  Three formats NV12, YUYV, MJPEG in that
order, each with the single frame 1920x1080, all frames sharing one interval
list.  The list holds seven values, but its second value is 5000000 where
`10000000 / 5` is 2000000, and its count `num` is 4: the loop over the
counted entries does not find the entries for 20, 25 and 30 fps. -/
theorem format_catalog_evaluated :
    format_config.format.map
        (fun f => (f.name, f.fcc, f.frame.map (fun r => (r.wWidth, r.wHeight))))
      = [("NV12", V4L2_PIX_FMT_NV12, [(1920, 1080)]),
         ("YUYV", V4L2_PIX_FMT_YUYV, [(1920, 1080)]),
         ("MJPEG", V4L2_PIX_FMT_MJPEG, [(1920, 1080)])]
    ∧ format_config.format.map (fun f => f.frame.map (fun r => r.intervals))
      = [[frame_intervals], [frame_intervals], [frame_intervals]]
    ∧ frame_intervals.dwFrameInterval
      = [10000000, 5000000, 1000000, 666666, 500000, 400000, 333333]
    ∧ [1, 5, 10, 15, 20, 25, 30].map (fun fps => 10000000 / fps)
      = [10000000, 2000000, 1000000, 666666, 500000, 400000, 333333]
    ∧ frame_intervals.num = 4
    ∧ [500000, 400000, 333333].map
        (fun v => find_interval v frame_intervals.dwFrameInterval frame_intervals.num.toNat 0)
      = [some none, some none, some none] :=
  ⟨rfl, rfl, rfl, rfl, rfl, rfl⟩

/-- What a completed coercion tells: the selection it leaves names a catalog
format and frame, and every field that is not negotiated against the catalog
is copied from the source when the destination held zero. -/
theorem coerce_streaming_control_inv (cfg : uvc_format_config_t)
    (dst0 src dst : uvc_streaming_control) (sel : uvc_selection)
    (h : coerce_streaming_control cfg dst0 src = some (dst, sel)) :
    ∃ format frame,
      sel.format_no ≠ -1 ∧ array_at cfg.format sel.format_no = some format
      ∧ sel.frame_no ≠ -1 ∧ array_at format.frame sel.frame_no = some frame
      ∧ dst.bmHint = (if dst0.bmHint = 0 ∧ src.bmHint ≠ 0 then src.bmHint else dst0.bmHint)
      ∧ dst.wKeyFrameRate
          = (if dst0.wKeyFrameRate = 0 ∧ src.wKeyFrameRate ≠ 0 then src.wKeyFrameRate
            else dst0.wKeyFrameRate)
      ∧ dst.wPFrameRate = (if dst0.wPFrameRate = 0 then src.wPFrameRate else dst0.wPFrameRate)
      ∧ dst.wCompQuality
          = (if dst0.wCompQuality = 0 then src.wCompQuality else dst0.wCompQuality)
      ∧ dst.wCompWindowSize
          = (if dst0.wCompWindowSize = 0 then src.wCompWindowSize else dst0.wCompWindowSize)
      ∧ dst.wDelay = (if dst0.wDelay = 0 then src.wDelay else dst0.wDelay)
      ∧ dst.dwMaxVideoFrameSize
          = (if dst0.dwMaxVideoFrameSize = 0 then src.dwMaxVideoFrameSize
            else calc_max_video_frame_size format frame)
      ∧ dst.dwMaxPayloadTransferSize
          = (if dst0.dwMaxPayloadTransferSize = 0 then src.dwMaxPayloadTransferSize
            else dst0.dwMaxPayloadTransferSize)
      ∧ dst.dwClockFrequency
          = (if dst0.dwClockFrequency = 0 then src.dwClockFrequency else dst0.dwClockFrequency)
      ∧ dst.bmFramingInfo
          = (if dst0.bmFramingInfo = 0 then src.bmFramingInfo else dst0.bmFramingInfo)
      ∧ dst.bPreferedVersion
          = (if dst0.bPreferedVersion = 0 then src.bPreferedVersion else dst0.bPreferedVersion)
      ∧ dst.bMinVersion = (if dst0.bMinVersion = 0 then src.bMinVersion else dst0.bMinVersion)
      ∧ dst.bMaxVersion
          = (if dst0.bMaxVersion = 0 then src.bMaxVersion else dst0.bMaxVersion) := by
  obtain ⟨fno, hf⟩ : ∃ fno, (if src.bFormatIndex ≠ 0
      ∧ (cfg.format.length : Int) > (src.bFormatIndex : Int) - 1
      then (src.bFormatIndex : Int) - 1 else cfg.curr.format_no) = fno := ⟨_, rfl⟩
  unfold coerce_streaming_control at h
  simp only [hf] at h
  by_cases hfno : fno = -1
  · rw [if_pos hfno] at h
    cases h
  · rw [if_neg hfno] at h
    cases hformat : array_at cfg.format fno with
    | none => rw [hformat] at h; cases h
    | some format =>
      rw [hformat] at h
      simp only [] at h
      obtain ⟨rno, hr⟩ : ∃ rno, (if src.bFrameIndex ≠ 0
          ∧ (format.frame.length : Int) > (src.bFrameIndex : Int) - 1
          then (src.bFrameIndex : Int) - 1 else cfg.curr.frame_no) = rno := ⟨_, rfl⟩
      simp only [hr] at h
      by_cases hrno : rno = -1
      · rw [if_pos hrno] at h
        cases h
      · rw [if_neg hrno] at h
        cases hframe : array_at format.frame rno with
        | none => rw [hframe] at h; cases h
        | some frame =>
          rw [hframe] at h
          simp only [] at h
          cases hfound : (if src.dwFrameInterval ≠ 0 then
              find_interval src.dwFrameInterval frame.intervals.dwFrameInterval
                frame.intervals.num.toNat 0
            else some none) with
          | none => rw [hfound] at h; cases h
          | some hit =>
            rw [hfound] at h
            simp only [Option.some.injEq, Prod.mk.injEq] at h
            obtain ⟨h1, h2⟩ := h
            subst h1
            subst h2
            exact ⟨format, frame, hfno, hformat, hrno, hframe, rfl, rfl, rfl, rfl, rfl, rfl, rfl,
              rfl, rfl, rfl, rfl, rfl, rfl⟩
/-- Closed form of `apply_streaming_control` once the coercion completes
with a selected interval: the device holds the coerced control and selection
and one `S_FMT` for the selected format and frame was issued. -/
theorem apply_streaming_control_of_coerce (dev : uvc_device_t) (no : Nat)
    (src : uvc_streaming_control) (k : ioctl_result) (p : streaming_ref)
    (dst : uvc_streaming_control) (sel : uvc_selection)
    (hno : no < UVC_DEV_MAX_NUM) (hcur : (dev.priv.video_streaming no).curr = some p)
    (hco : coerce_streaming_control dev.priv.config ((dev.priv.video_streaming no).deref p) src
      = some (dst, sel))
    (hint : sel.interval_no ≠ -1) :
    ∃ format frame,
      array_at dev.priv.config.format sel.format_no = some format
      ∧ array_at format.frame sel.frame_no = some frame
      ∧ apply_streaming_control dev no src k =
        some (if k.status = 0 then 0 else -1,
          ((dev.set_selection sel).set_video_streaming no
            ((dev.priv.video_streaming no).store p dst)).emit
            (call.S_FMT no
              { type := V4L2_BUF_TYPE_VIDEO_OUTPUT
                width := frame.wWidth
                height := frame.wHeight
                pixelformat := format.fcc
                field := V4L2_FIELD_NONE
                sizeimage := calc_max_video_frame_size format frame })) := by
  obtain ⟨format, frame, h1, hformat, h2, hframe, -⟩ :=
    coerce_streaming_control_inv _ _ _ _ _ hco
  refine ⟨format, frame, hformat, hframe, ?_⟩
  unfold apply_streaming_control
  simp only [hcur, hco]
  exact set_format_eq _ no k format frame hno
    (by simp [store_curr, hcur]) (by simpa using h1) (by simpa using h2) (by simpa using hint)
    (by simpa using hformat) (by simpa using hframe)
/-- C17: whenever the coercion of `apply_streaming_control` completes with a
selected interval, which is when the call returns, the call returns and for
each of `bmHint`, `wKeyFrameRate`, `wPFrameRate`, `wCompQuality`,
`wCompWindowSize`, `wDelay`, `dwClockFrequency`, `bmFramingInfo`,
`bPreferedVersion`, `bMinVersion` and `bMaxVersion` the current control holds
the source field if its field was zero before the call and its previous
value if that was non-zero. -/
theorem apply_streaming_control_copies_unset_fields (dev : uvc_device_t) (no : Nat)
    (src : uvc_streaming_control) (k : ioctl_result) (p : streaming_ref)
    (dst : uvc_streaming_control) (sel : uvc_selection)
    (hno : no < UVC_DEV_MAX_NUM) (hcur : (dev.priv.video_streaming no).curr = some p)
    (hco : coerce_streaming_control dev.priv.config ((dev.priv.video_streaming no).deref p) src
      = some (dst, sel))
    (hint : sel.interval_no ≠ -1) :
    ∃ dev1, apply_streaming_control dev no src k = some (if k.status = 0 then 0 else -1, dev1)
      ∧ (((dev.priv.video_streaming no).deref p).bmHint = 0 →
          ((dev1.priv.video_streaming no).deref p).bmHint = src.bmHint)
      ∧ (((dev.priv.video_streaming no).deref p).bmHint ≠ 0 →
          ((dev1.priv.video_streaming no).deref p).bmHint
            = ((dev.priv.video_streaming no).deref p).bmHint)
      ∧ (((dev.priv.video_streaming no).deref p).wKeyFrameRate = 0 →
          ((dev1.priv.video_streaming no).deref p).wKeyFrameRate = src.wKeyFrameRate)
      ∧ (((dev.priv.video_streaming no).deref p).wKeyFrameRate ≠ 0 →
          ((dev1.priv.video_streaming no).deref p).wKeyFrameRate
            = ((dev.priv.video_streaming no).deref p).wKeyFrameRate)
      ∧ (((dev.priv.video_streaming no).deref p).wPFrameRate = 0 →
          ((dev1.priv.video_streaming no).deref p).wPFrameRate = src.wPFrameRate)
      ∧ (((dev.priv.video_streaming no).deref p).wPFrameRate ≠ 0 →
          ((dev1.priv.video_streaming no).deref p).wPFrameRate
            = ((dev.priv.video_streaming no).deref p).wPFrameRate)
      ∧ (((dev.priv.video_streaming no).deref p).wCompQuality = 0 →
          ((dev1.priv.video_streaming no).deref p).wCompQuality = src.wCompQuality)
      ∧ (((dev.priv.video_streaming no).deref p).wCompQuality ≠ 0 →
          ((dev1.priv.video_streaming no).deref p).wCompQuality
            = ((dev.priv.video_streaming no).deref p).wCompQuality)
      ∧ (((dev.priv.video_streaming no).deref p).wCompWindowSize = 0 →
          ((dev1.priv.video_streaming no).deref p).wCompWindowSize = src.wCompWindowSize)
      ∧ (((dev.priv.video_streaming no).deref p).wCompWindowSize ≠ 0 →
          ((dev1.priv.video_streaming no).deref p).wCompWindowSize
            = ((dev.priv.video_streaming no).deref p).wCompWindowSize)
      ∧ (((dev.priv.video_streaming no).deref p).wDelay = 0 →
          ((dev1.priv.video_streaming no).deref p).wDelay = src.wDelay)
      ∧ (((dev.priv.video_streaming no).deref p).wDelay ≠ 0 →
          ((dev1.priv.video_streaming no).deref p).wDelay
            = ((dev.priv.video_streaming no).deref p).wDelay)
      ∧ (((dev.priv.video_streaming no).deref p).dwClockFrequency = 0 →
          ((dev1.priv.video_streaming no).deref p).dwClockFrequency = src.dwClockFrequency)
      ∧ (((dev.priv.video_streaming no).deref p).dwClockFrequency ≠ 0 →
          ((dev1.priv.video_streaming no).deref p).dwClockFrequency
            = ((dev.priv.video_streaming no).deref p).dwClockFrequency)
      ∧ (((dev.priv.video_streaming no).deref p).bmFramingInfo = 0 →
          ((dev1.priv.video_streaming no).deref p).bmFramingInfo = src.bmFramingInfo)
      ∧ (((dev.priv.video_streaming no).deref p).bmFramingInfo ≠ 0 →
          ((dev1.priv.video_streaming no).deref p).bmFramingInfo
            = ((dev.priv.video_streaming no).deref p).bmFramingInfo)
      ∧ (((dev.priv.video_streaming no).deref p).bPreferedVersion = 0 →
          ((dev1.priv.video_streaming no).deref p).bPreferedVersion = src.bPreferedVersion)
      ∧ (((dev.priv.video_streaming no).deref p).bPreferedVersion ≠ 0 →
          ((dev1.priv.video_streaming no).deref p).bPreferedVersion
            = ((dev.priv.video_streaming no).deref p).bPreferedVersion)
      ∧ (((dev.priv.video_streaming no).deref p).bMinVersion = 0 →
          ((dev1.priv.video_streaming no).deref p).bMinVersion = src.bMinVersion)
      ∧ (((dev.priv.video_streaming no).deref p).bMinVersion ≠ 0 →
          ((dev1.priv.video_streaming no).deref p).bMinVersion
            = ((dev.priv.video_streaming no).deref p).bMinVersion)
      ∧ (((dev.priv.video_streaming no).deref p).bMaxVersion = 0 →
          ((dev1.priv.video_streaming no).deref p).bMaxVersion = src.bMaxVersion)
      ∧ (((dev.priv.video_streaming no).deref p).bMaxVersion ≠ 0 →
          ((dev1.priv.video_streaming no).deref p).bMaxVersion
            = ((dev.priv.video_streaming no).deref p).bMaxVersion) := by
  obtain ⟨format, frame, -, -, happ⟩ :=
    apply_streaming_control_of_coerce dev no src k p dst sel hno hcur hco hint
  obtain ⟨format1, frame1, -, -, -, -, e1, e2, e3, e4, e5, e6, -, -, e7, e8, e9, e10, e11⟩ :=
    coerce_streaming_control_inv _ _ _ _ _ hco
  refine ⟨_, happ, ?_⟩
  simp only [emit_priv_video_streaming, set_video_streaming_priv_video_streaming,
    Function.update_same, deref_store]
  rw [e1, e2, e3, e4, e5, e6, e7, e8, e9, e10, e11]
  refine ⟨?_, ?_, ?_, ?_, ?_, ?_, ?_, ?_, ?_, ?_, ?_, ?_, ?_, ?_, ?_, ?_, ?_, ?_, ?_, ?_, ?_, ?_⟩
  · intro hz
    by_cases hs : src.bmHint = 0 <;> simp [hz, hs]
  · intro hz
    simp [hz]
  · intro hz
    by_cases hs : src.wKeyFrameRate = 0 <;> simp [hz, hs]
  · intro hz
    simp [hz]
  · intro hz
    simp [hz]
  · intro hz
    simp [hz]
  · intro hz
    simp [hz]
  · intro hz
    simp [hz]
  · intro hz
    simp [hz]
  · intro hz
    simp [hz]
  · intro hz
    simp [hz]
  · intro hz
    simp [hz]
  · intro hz
    simp [hz]
  · intro hz
    simp [hz]
  · intro hz
    simp [hz]
  · intro hz
    simp [hz]
  · intro hz
    simp [hz]
  · intro hz
    simp [hz]
  · intro hz
    simp [hz]
  · intro hz
    simp [hz]
  · intro hz
    simp [hz]
  · intro hz
    simp [hz]
theorem apply_streaming_control_copies_unset_fields_witness :
    ∃ dev1, apply_streaming_control negotiated_device 0 hinted_payload ioctl_ok = some (if
        ioctl_ok.status = 0 then 0 else -1, dev1)
      ∧ (((negotiated_device.priv.video_streaming 0).deref streaming_ref.probe).bmHint = 0 →
          ((dev1.priv.video_streaming 0).deref streaming_ref.probe).bmHint = hinted_payload.bmHint)
      ∧ (((negotiated_device.priv.video_streaming 0).deref streaming_ref.probe).bmHint ≠ 0 →
          ((dev1.priv.video_streaming 0).deref streaming_ref.probe).bmHint
            = ((negotiated_device.priv.video_streaming 0).deref streaming_ref.probe).bmHint)
      ∧ (((negotiated_device.priv.video_streaming 0).deref streaming_ref.probe).wKeyFrameRate = 0 →
          ((dev1.priv.video_streaming 0).deref streaming_ref.probe).wKeyFrameRate =
              hinted_payload.wKeyFrameRate)
      ∧ (((negotiated_device.priv.video_streaming 0).deref streaming_ref.probe).wKeyFrameRate ≠ 0 →
          ((dev1.priv.video_streaming 0).deref streaming_ref.probe).wKeyFrameRate
            = ((negotiated_device.priv.video_streaming 0).deref streaming_ref.probe).wKeyFrameRate)
      ∧ (((negotiated_device.priv.video_streaming 0).deref streaming_ref.probe).wPFrameRate = 0 →
          ((dev1.priv.video_streaming 0).deref streaming_ref.probe).wPFrameRate =
              hinted_payload.wPFrameRate)
      ∧ (((negotiated_device.priv.video_streaming 0).deref streaming_ref.probe).wPFrameRate ≠ 0 →
          ((dev1.priv.video_streaming 0).deref streaming_ref.probe).wPFrameRate
            = ((negotiated_device.priv.video_streaming 0).deref streaming_ref.probe).wPFrameRate)
      ∧ (((negotiated_device.priv.video_streaming 0).deref streaming_ref.probe).wCompQuality = 0 →
          ((dev1.priv.video_streaming 0).deref streaming_ref.probe).wCompQuality =
              hinted_payload.wCompQuality)
      ∧ (((negotiated_device.priv.video_streaming 0).deref streaming_ref.probe).wCompQuality ≠ 0 →
          ((dev1.priv.video_streaming 0).deref streaming_ref.probe).wCompQuality
            = ((negotiated_device.priv.video_streaming 0).deref streaming_ref.probe).wCompQuality)
      ∧ (((negotiated_device.priv.video_streaming 0).deref streaming_ref.probe).wCompWindowSize = 0
          →
          ((dev1.priv.video_streaming 0).deref streaming_ref.probe).wCompWindowSize =
              hinted_payload.wCompWindowSize)
      ∧ (((negotiated_device.priv.video_streaming 0).deref streaming_ref.probe).wCompWindowSize ≠ 0
          →
          ((dev1.priv.video_streaming 0).deref streaming_ref.probe).wCompWindowSize
            = ((negotiated_device.priv.video_streaming 0).deref
                streaming_ref.probe).wCompWindowSize)
      ∧ (((negotiated_device.priv.video_streaming 0).deref streaming_ref.probe).wDelay = 0 →
          ((dev1.priv.video_streaming 0).deref streaming_ref.probe).wDelay = hinted_payload.wDelay)
      ∧ (((negotiated_device.priv.video_streaming 0).deref streaming_ref.probe).wDelay ≠ 0 →
          ((dev1.priv.video_streaming 0).deref streaming_ref.probe).wDelay
            = ((negotiated_device.priv.video_streaming 0).deref streaming_ref.probe).wDelay)
      ∧ (((negotiated_device.priv.video_streaming 0).deref streaming_ref.probe).dwClockFrequency =
          0 →
          ((dev1.priv.video_streaming 0).deref streaming_ref.probe).dwClockFrequency =
              hinted_payload.dwClockFrequency)
      ∧ (((negotiated_device.priv.video_streaming 0).deref streaming_ref.probe).dwClockFrequency ≠
          0 →
          ((dev1.priv.video_streaming 0).deref streaming_ref.probe).dwClockFrequency
            = ((negotiated_device.priv.video_streaming 0).deref
                streaming_ref.probe).dwClockFrequency)
      ∧ (((negotiated_device.priv.video_streaming 0).deref streaming_ref.probe).bmFramingInfo = 0 →
          ((dev1.priv.video_streaming 0).deref streaming_ref.probe).bmFramingInfo =
              hinted_payload.bmFramingInfo)
      ∧ (((negotiated_device.priv.video_streaming 0).deref streaming_ref.probe).bmFramingInfo ≠ 0 →
          ((dev1.priv.video_streaming 0).deref streaming_ref.probe).bmFramingInfo
            = ((negotiated_device.priv.video_streaming 0).deref streaming_ref.probe).bmFramingInfo)
      ∧ (((negotiated_device.priv.video_streaming 0).deref streaming_ref.probe).bPreferedVersion =
          0 →
          ((dev1.priv.video_streaming 0).deref streaming_ref.probe).bPreferedVersion =
              hinted_payload.bPreferedVersion)
      ∧ (((negotiated_device.priv.video_streaming 0).deref streaming_ref.probe).bPreferedVersion ≠
          0 →
          ((dev1.priv.video_streaming 0).deref streaming_ref.probe).bPreferedVersion
            = ((negotiated_device.priv.video_streaming 0).deref
                streaming_ref.probe).bPreferedVersion)
      ∧ (((negotiated_device.priv.video_streaming 0).deref streaming_ref.probe).bMinVersion = 0 →
          ((dev1.priv.video_streaming 0).deref streaming_ref.probe).bMinVersion =
              hinted_payload.bMinVersion)
      ∧ (((negotiated_device.priv.video_streaming 0).deref streaming_ref.probe).bMinVersion ≠ 0 →
          ((dev1.priv.video_streaming 0).deref streaming_ref.probe).bMinVersion
            = ((negotiated_device.priv.video_streaming 0).deref streaming_ref.probe).bMinVersion)
      ∧ (((negotiated_device.priv.video_streaming 0).deref streaming_ref.probe).bMaxVersion = 0 →
          ((dev1.priv.video_streaming 0).deref streaming_ref.probe).bMaxVersion =
              hinted_payload.bMaxVersion)
      ∧ (((negotiated_device.priv.video_streaming 0).deref streaming_ref.probe).bMaxVersion ≠ 0 →
          ((dev1.priv.video_streaming 0).deref streaming_ref.probe).bMaxVersion
            = ((negotiated_device.priv.video_streaming 0).deref streaming_ref.probe).bMaxVersion) :=
  apply_streaming_control_copies_unset_fields negotiated_device 0 hinted_payload ioctl_ok
    streaming_ref.probe
    { negotiation_payload FRAME_INTERVAL_5fps with wDelay := 7 }
    { format_no := 0, frame_no := 0, interval_no := 1 } (by decide) rfl rfl (by decide)
/-- C18: whenever the coercion of `apply_streaming_control` completes with a
selected interval, the call returns and, for the current control:
`dwMaxVideoFrameSize` and `dwMaxPayloadTransferSize` hold the source value
if the field was zero before the call; a `dwMaxVideoFrameSize` that was
non-zero is set to `calc_max_video_frame_size` of the format and frame the
coercion leaves selected, whatever the source carries; a
`dwMaxPayloadTransferSize` that was non-zero keeps its value. -/
theorem apply_streaming_control_frame_size_rule (dev : uvc_device_t) (no : Nat)
    (src : uvc_streaming_control) (k : ioctl_result) (p : streaming_ref)
    (dst : uvc_streaming_control) (sel : uvc_selection)
    (hno : no < UVC_DEV_MAX_NUM) (hcur : (dev.priv.video_streaming no).curr = some p)
    (hco : coerce_streaming_control dev.priv.config ((dev.priv.video_streaming no).deref p) src
      = some (dst, sel))
    (hint : sel.interval_no ≠ -1) :
    ∃ dev1 format frame,
      apply_streaming_control dev no src k = some (if k.status = 0 then 0 else -1, dev1)
      ∧ array_at dev1.priv.config.format dev1.priv.config.curr.format_no = some format
      ∧ array_at format.frame dev1.priv.config.curr.frame_no = some frame
      ∧ (((dev.priv.video_streaming no).deref p).dwMaxVideoFrameSize = 0 →
          ((dev1.priv.video_streaming no).deref p).dwMaxVideoFrameSize
            = src.dwMaxVideoFrameSize)
      ∧ (((dev.priv.video_streaming no).deref p).dwMaxPayloadTransferSize = 0 →
          ((dev1.priv.video_streaming no).deref p).dwMaxPayloadTransferSize
            = src.dwMaxPayloadTransferSize)
      ∧ (((dev.priv.video_streaming no).deref p).dwMaxVideoFrameSize ≠ 0 →
          ((dev1.priv.video_streaming no).deref p).dwMaxVideoFrameSize
            = calc_max_video_frame_size format frame)
      ∧ (((dev.priv.video_streaming no).deref p).dwMaxPayloadTransferSize ≠ 0 →
          ((dev1.priv.video_streaming no).deref p).dwMaxPayloadTransferSize
            = ((dev.priv.video_streaming no).deref p).dwMaxPayloadTransferSize) := by
  obtain ⟨format, frame, -, hformat, -, hframe, -, -, -, -, -, -, e1, e2, -⟩ :=
    coerce_streaming_control_inv _ _ _ _ _ hco
  obtain ⟨format1, frame1, hformat1, hframe1, happ⟩ :=
    apply_streaming_control_of_coerce dev no src k p dst sel hno hcur hco hint
  rw [hformat] at hformat1
  cases hformat1
  rw [hframe] at hframe1
  cases hframe1
  refine ⟨_, format, frame, happ, ?_⟩
  simp only [emit_priv_video_streaming, set_video_streaming_priv_video_streaming,
    Function.update_same, deref_store, emit_priv_config_format, emit_priv_config_curr,
    set_video_streaming_priv_config_format, set_video_streaming_priv_config_curr,
    set_selection_priv_config_format, set_selection_priv_config_curr]
  rw [e1, e2]
  refine ⟨hformat, hframe, ?_, ?_, ?_, ?_⟩
  · intro hz
    simp [hz]
  · intro hz
    simp [hz]
  · intro hz
    simp [hz]
  · intro hz
    simp [hz]

theorem apply_streaming_control_frame_size_rule_witness :
    ∃ dev1 format frame,
      apply_streaming_control (committed_device (sized_payload 1 3110400)) 0 (sized_payload 2 77)
          ioctl_ok = some (if ioctl_ok.status = 0 then 0 else -1, dev1)
      ∧ array_at dev1.priv.config.format dev1.priv.config.curr.format_no = some format
      ∧ array_at format.frame dev1.priv.config.curr.frame_no = some frame
      ∧ ((((committed_device (sized_payload 1 3110400)).priv.video_streaming 0).deref
          streaming_ref.commit).dwMaxVideoFrameSize = 0 →
          ((dev1.priv.video_streaming 0).deref streaming_ref.commit).dwMaxVideoFrameSize
            = (sized_payload 2 77).dwMaxVideoFrameSize)
      ∧ ((((committed_device (sized_payload 1 3110400)).priv.video_streaming 0).deref
          streaming_ref.commit).dwMaxPayloadTransferSize = 0 →
          ((dev1.priv.video_streaming 0).deref streaming_ref.commit).dwMaxPayloadTransferSize
            = (sized_payload 2 77).dwMaxPayloadTransferSize)
      ∧ ((((committed_device (sized_payload 1 3110400)).priv.video_streaming 0).deref
          streaming_ref.commit).dwMaxVideoFrameSize ≠ 0 →
          ((dev1.priv.video_streaming 0).deref streaming_ref.commit).dwMaxVideoFrameSize
            = calc_max_video_frame_size format frame)
      ∧ ((((committed_device (sized_payload 1 3110400)).priv.video_streaming 0).deref
          streaming_ref.commit).dwMaxPayloadTransferSize ≠ 0 →
          ((dev1.priv.video_streaming 0).deref streaming_ref.commit).dwMaxPayloadTransferSize
            = (((committed_device (sized_payload 1 3110400)).priv.video_streaming 0).deref
                streaming_ref.commit).dwMaxPayloadTransferSize) :=
  apply_streaming_control_frame_size_rule (committed_device (sized_payload 1 3110400)) 0
    (sized_payload 2 77) ioctl_ok streaming_ref.commit (sized_payload 2 4147200)
    { format_no := 1, frame_no := 0, interval_no := 0 } (by decide) rfl rfl (by decide)
/-- C19: on the device that awaits the Probe payload, the payload for
format 1, frame 1 and the interval 333333 leaves format 0 and frame 0
selected and no interval; `apply_streaming_control` then does not return
(the assertion on `interval_no` in `set_format` fails) and no `S_FMT` is
issued. -/
theorem format_and_frame_selected_without_S_FMT :
    (probing_device.priv.video_streaming 0).curr = some streaming_ref.probe
    ∧ (coerce_streaming_control probing_device.priv.config
          ((probing_device.priv.video_streaming 0).deref streaming_ref.probe)
          (negotiation_payload FRAME_INTERVAL_30fps)).map (fun r => r.2)
        = some { format_no := 0, frame_no := 0, interval_no := -1 }
    ∧ apply_streaming_control probing_device 0 (negotiation_payload FRAME_INTERVAL_30fps)
        ioctl_ok = none :=
  ⟨by decide, by decide, rfl⟩

/-- The `S_FMT` of `apply_streaming_control`: whenever the coercion
completes with a selected interval, the call returns having appended exactly
one `S_FMT` to the record: buffer type `VIDEO_OUTPUT`, width and height of
the frame the coercion leaves selected, the FourCC of the selected format,
field `NONE` and `sizeimage = calc_max_video_frame_size` of that format and
frame; the return value is 0 if the ioctl succeeded and -1 otherwise. -/
theorem apply_streaming_control_programs_format (dev : uvc_device_t) (no : Nat)
    (src : uvc_streaming_control) (k : ioctl_result) (p : streaming_ref)
    (dst : uvc_streaming_control) (sel : uvc_selection)
    (hno : no < UVC_DEV_MAX_NUM) (hcur : (dev.priv.video_streaming no).curr = some p)
    (hco : coerce_streaming_control dev.priv.config ((dev.priv.video_streaming no).deref p) src
      = some (dst, sel))
    (hint : sel.interval_no ≠ -1) :
    ∃ st dev1 format frame,
      apply_streaming_control dev no src k = some (st, dev1)
      ∧ array_at dev1.priv.config.format dev1.priv.config.curr.format_no = some format
      ∧ array_at format.frame dev1.priv.config.curr.frame_no = some frame
      ∧ dev1.calls = dev.calls ++
          [call.S_FMT no
            { type := V4L2_BUF_TYPE_VIDEO_OUTPUT
              width := frame.wWidth
              height := frame.wHeight
              pixelformat := format.fcc
              field := V4L2_FIELD_NONE
              sizeimage := calc_max_video_frame_size format frame }]
      ∧ count_S_FMT dev1.calls = count_S_FMT dev.calls + 1
      ∧ (st = 0 ↔ k.status = 0) ∧ (st = -1 ↔ k.status ≠ 0) := by
  obtain ⟨format, frame, hformat, hframe, happ⟩ :=
    apply_streaming_control_of_coerce dev no src k p dst sel hno hcur hco hint
  refine ⟨_, _, format, frame, happ, ?_⟩
  simp only [emit_priv_config_format, emit_priv_config_curr, emit_calls,
    set_video_streaming_priv_config_format, set_video_streaming_priv_config_curr,
    set_video_streaming_calls, set_selection_priv_config_format,
    set_selection_priv_config_curr, set_selection_calls]
  refine ⟨hformat, hframe, trivial, ?_, ?_, ?_⟩
  · simp [count_S_FMT_append_list, count_S_FMT]
  · by_cases h : k.status = 0 <;> simp [h]
  · by_cases h : k.status = 0 <;> simp [h]

theorem apply_streaming_control_programs_format_witness :
    ∃ st dev1 format frame,
      apply_streaming_control probing_device 0 (negotiation_payload FRAME_INTERVAL_1fps)
        ioctl_ok = some (st, dev1)
      ∧ array_at dev1.priv.config.format dev1.priv.config.curr.format_no = some format
      ∧ array_at format.frame dev1.priv.config.curr.frame_no = some frame
      ∧ dev1.calls = probing_device.calls ++
          [call.S_FMT 0
            { type := V4L2_BUF_TYPE_VIDEO_OUTPUT
              width := frame.wWidth
              height := frame.wHeight
              pixelformat := format.fcc
              field := V4L2_FIELD_NONE
              sizeimage := calc_max_video_frame_size format frame }]
      ∧ count_S_FMT dev1.calls = count_S_FMT probing_device.calls + 1
      ∧ (st = 0 ↔ ioctl_ok.status = 0) ∧ (st = -1 ↔ ioctl_ok.status ≠ 0) :=
  apply_streaming_control_programs_format probing_device 0
    (negotiation_payload FRAME_INTERVAL_1fps) ioctl_ok streaming_ref.probe
    (negotiation_payload FRAME_INTERVAL_1fps)
    { format_no := 0, frame_no := 0, interval_no := 0 } (by decide) rfl rfl (by decide)

/-- C20: `handle_control` on a valid endpoint.  Entity 1 with the
Auto-Exposure Mode selector: `GET_CUR`, `GET_RES` and `GET_DEF` reply the
byte 0x02, `GET_INFO` replies the byte 0x04, every other request stalls and
latches `INVALID_REQUEST`.  Entity 2 with the Brightness selector:
`GET_MIN`, `GET_MAX`, `GET_CUR`, `GET_DEF` and `GET_RES` reply the two
little-endian bytes of 0, 255, 127, 127 and 1, `GET_INFO` replies the byte
0x04, every other request stalls and latches `INVALID_REQUEST`.  For both
entities every other selector stalls and latches `INVALID_CONTROL`. -/
theorem handle_control_unit_replies (dev : uvc_device_t) (no : Nat) (ctrl : usb_ctrlrequest)
    (k : ioctl_result) (hno : no < UVC_DEV_MAX_NUM) :
    (ctrl.wIndex / 256 % 256 = ENTITY_INPUT_TERMINAL →
        (ctrl.wValue / 256 % 256 = UVC_CT_AE_MODE_CONTROL →
          (ctrl.bRequest % 256 = UVC_GET_CUR ∨ ctrl.bRequest % 256 = UVC_GET_RES
              ∨ ctrl.bRequest % 256 = UVC_GET_DEF →
            handle_control dev no ctrl k = some (k.status,
              dev.emit (call.SEND_RESPONSE no
                { length := 1, data := 0x02 :: List.replicate 59 0 })))
          ∧ (ctrl.bRequest % 256 = UVC_GET_INFO →
            handle_control dev no ctrl k = some (k.status,
              dev.emit (call.SEND_RESPONSE no
                { length := 1, data := 0x04 :: List.replicate 59 0 })))
          ∧ (ctrl.bRequest % 256 ≠ UVC_GET_CUR → ctrl.bRequest % 256 ≠ UVC_GET_RES →
              ctrl.bRequest % 256 ≠ UVC_GET_DEF → ctrl.bRequest % 256 ≠ UVC_GET_INFO →
            handle_control dev no ctrl k = some (k.status,
              (dev.latch ERR_CODE_CTRL_INVALID_REQUEST).emit (call.SEND_RESPONSE no
                { length := -EL2HLT, data := zero_data }))))
        ∧ (ctrl.wValue / 256 % 256 ≠ UVC_CT_AE_MODE_CONTROL →
          handle_control dev no ctrl k = some (k.status,
            (dev.latch ERR_CODE_CTRL_INVALID_CONTROL).emit (call.SEND_RESPONSE no
              { length := -EL2HLT, data := zero_data }))))
    ∧ (ctrl.wIndex / 256 % 256 = ENTITY_PROCESSING_UNIT →
        (ctrl.wValue / 256 % 256 = UVC_PU_BRIGHTNESS_CONTROL →
          (ctrl.bRequest % 256 = UVC_GET_MIN →
            handle_control dev no ctrl k = some (k.status,
              dev.emit (call.SEND_RESPONSE no
                { length := 2, data := le16 0 ++ List.replicate 58 0 })))
          ∧ (ctrl.bRequest % 256 = UVC_GET_MAX →
            handle_control dev no ctrl k = some (k.status,
              dev.emit (call.SEND_RESPONSE no
                { length := 2, data := le16 255 ++ List.replicate 58 0 })))
          ∧ (ctrl.bRequest % 256 = UVC_GET_CUR ∨ ctrl.bRequest % 256 = UVC_GET_DEF →
            handle_control dev no ctrl k = some (k.status,
              dev.emit (call.SEND_RESPONSE no
                { length := 2, data := le16 127 ++ List.replicate 58 0 })))
          ∧ (ctrl.bRequest % 256 = UVC_GET_RES →
            handle_control dev no ctrl k = some (k.status,
              dev.emit (call.SEND_RESPONSE no
                { length := 2, data := le16 1 ++ List.replicate 58 0 })))
          ∧ (ctrl.bRequest % 256 = UVC_GET_INFO →
            handle_control dev no ctrl k = some (k.status,
              dev.emit (call.SEND_RESPONSE no
                { length := 1, data := 0x04 :: List.replicate 59 0 })))
          ∧ (ctrl.bRequest % 256 ≠ UVC_GET_MIN → ctrl.bRequest % 256 ≠ UVC_GET_MAX →
              ctrl.bRequest % 256 ≠ UVC_GET_CUR → ctrl.bRequest % 256 ≠ UVC_GET_DEF →
              ctrl.bRequest % 256 ≠ UVC_GET_RES → ctrl.bRequest % 256 ≠ UVC_GET_INFO →
            handle_control dev no ctrl k = some (k.status,
              (dev.latch ERR_CODE_CTRL_INVALID_REQUEST).emit (call.SEND_RESPONSE no
                { length := -EL2HLT, data := zero_data }))))
        ∧ (ctrl.wValue / 256 % 256 ≠ UVC_PU_BRIGHTNESS_CONTROL →
          handle_control dev no ctrl k = some (k.status,
            (dev.latch ERR_CODE_CTRL_INVALID_CONTROL).emit (call.SEND_RESPONSE no
              { length := -EL2HLT, data := zero_data })))) := by
  have e1 : ¬ ENTITY_INPUT_TERMINAL = 0 := by decide
  have e2 : ¬ ENTITY_PROCESSING_UNIT = 0 := by decide
  have e3 : ¬ ENTITY_PROCESSING_UNIT = ENTITY_INPUT_TERMINAL := by decide
  have b1 : ¬ UVC_GET_INFO = UVC_GET_CUR := by decide
  have b2 : ¬ UVC_GET_INFO = UVC_GET_RES := by decide
  have b3 : ¬ UVC_GET_INFO = UVC_GET_DEF := by decide
  have b4 : ¬ UVC_GET_INFO = UVC_GET_MIN := by decide
  have b5 : ¬ UVC_GET_INFO = UVC_GET_MAX := by decide
  have b6 : ¬ UVC_GET_MAX = UVC_GET_MIN := by decide
  have b7 : ¬ UVC_GET_CUR = UVC_GET_MIN := by decide
  have b8 : ¬ UVC_GET_CUR = UVC_GET_MAX := by decide
  have b9 : ¬ UVC_GET_CUR = UVC_GET_INFO := by decide
  have b10 : ¬ UVC_GET_DEF = UVC_GET_MIN := by decide
  have b11 : ¬ UVC_GET_DEF = UVC_GET_MAX := by decide
  have b12 : ¬ UVC_GET_DEF = UVC_GET_INFO := by decide
  have b13 : ¬ UVC_GET_RES = UVC_GET_MIN := by decide
  have b14 : ¬ UVC_GET_RES = UVC_GET_MAX := by decide
  have b15 : ¬ UVC_GET_RES = UVC_GET_INFO := by decide
  have b16 : ¬ UVC_GET_RES = UVC_GET_CUR := by decide
  have b17 : ¬ UVC_GET_RES = UVC_GET_DEF := by decide
  refine ⟨?_, ?_⟩
  · intro hent
    have hc : handle_control dev no ctrl k = handle_IT_ctrl dev no ctrl k := by
      unfold handle_control
      simp only [hent, if_neg e1, if_true]
    rw [hc]
    unfold handle_IT_ctrl
    refine ⟨?_, ?_⟩
    · intro hcs
      rw [if_pos hcs.symm]
      refine ⟨?_, ?_, ?_⟩
      · intro hr
        rw [if_pos hr, send_reply_eq _ _ _ _ hno]
        rfl
      · intro hr
        simp only [hr, b1, b2, b3, or_self, if_false, if_true]
        rw [send_reply_eq _ _ _ _ hno]
        rfl
      · intro h1 h2 h3 h4
        simp only [h1, h2, h3, h4, or_self, if_false]
        rw [send_reply_eq _ _ _ _ hno]
        rfl
    · intro hcs
      rw [if_neg (fun e => hcs e.symm), send_reply_eq _ _ _ _ hno]
      rfl
  · intro hent
    have hc : handle_control dev no ctrl k = handle_PU_ctrl dev no ctrl k := by
      unfold handle_control
      simp only [hent, if_neg e2, if_neg e3, if_true]
    rw [hc]
    unfold handle_PU_ctrl
    refine ⟨?_, ?_⟩
    · intro hcs
      rw [if_pos hcs.symm]
      refine ⟨?_, ?_, ?_, ?_, ?_, ?_⟩
      · intro hr
        simp only [hr, if_true]
        rw [send_reply_eq _ _ _ _ hno]
        rfl
      · intro hr
        simp only [hr, b6, if_false, if_true]
        rw [send_reply_eq _ _ _ _ hno]
        rfl
      · intro hr
        rcases hr with hr | hr
        · simp only [hr, b7, b8, b9, if_false, true_or, if_true]
          rw [send_reply_eq _ _ _ _ hno]
          rfl
        · simp only [hr, b10, b11, b12, if_false, or_true, if_true]
          rw [send_reply_eq _ _ _ _ hno]
          rfl
      · intro hr
        simp only [hr, b13, b14, b15, b16, b17, or_self, if_false, if_true]
        rw [send_reply_eq _ _ _ _ hno]
        rfl
      · intro hr
        simp only [hr, b4, b5, if_false, if_true]
        rw [send_reply_eq _ _ _ _ hno]
        rfl
      · intro h1 h2 h3 h4 h5 h6
        simp only [h1, h2, h3, h4, h5, h6, or_self, if_false]
        rw [send_reply_eq _ _ _ _ hno]
        rfl
    · intro hcs
      rw [if_neg (fun e => hcs e.symm), send_reply_eq _ _ _ _ hno]
      rfl

theorem handle_control_unit_replies_witness :
    handle_control (opened_device 3) 0 brightness_max_request ioctl_ok
        = some (ioctl_ok.status,
            (opened_device 3).emit (call.SEND_RESPONSE 0
              { length := 2, data := le16 255 ++ List.replicate 58 0 }))
    ∧ handle_control (opened_device 3) 0 exposure_set_request ioctl_ok
        = some (ioctl_ok.status,
            ((opened_device 3).latch ERR_CODE_CTRL_INVALID_REQUEST).emit
              (call.SEND_RESPONSE 0 { length := -EL2HLT, data := zero_data })) :=
  ⟨(((handle_control_unit_replies (opened_device 3) 0 brightness_max_request ioctl_ok
      (by decide)).2 (by decide)).1 (by decide)).2.1 (by decide),
   (((handle_control_unit_replies (opened_device 3) 0 exposure_set_request ioctl_ok
      (by decide)).1 (by decide)).1 (by decide)).2.2 (by decide) (by decide) (by decide)
      (by decide)⟩

/-- C21: a class request to the VideoStreaming interface on the Stream Error
Code selector is routed to `handle_video_streaming_error_code`, whose body
is `assert(0)`: whatever the device state, the request code and the kernel's
answer, `handle_setup` does not return, and no stall reply is sent. -/
theorem stream_error_code_request_not_answered (dev : uvc_device_t) (bRequest : Nat)
    (k : ioctl_result) :
    handle_setup dev 0 (get_request bRequest UVC_VS_STREAM_ERROR_CODE_CONTROL) k = none := by
  have hclass : (get_request bRequest UVC_VS_STREAM_ERROR_CODE_CONTROL).bRequestType % 256
      &&& USB_TYPE_MASK = USB_TYPE_CLASS := by
    show 0xA1 % 256 &&& USB_TYPE_MASK = USB_TYPE_CLASS
    decide
  have hrecip : (get_request bRequest UVC_VS_STREAM_ERROR_CODE_CONTROL).bRequestType % 256
      &&& USB_RECIP_MASK = USB_RECIP_INTERFACE := by
    show 0xA1 % 256 &&& USB_RECIP_MASK = USB_RECIP_INTERFACE
    decide
  have hiface : interface_no (get_request bRequest UVC_VS_STREAM_ERROR_CODE_CONTROL) 0
      = STREAMING_INTERFACE := by
    show ((((1 % 65536 &&& 0x00FF : Nat) : Int) - ((0 * INTERFACE_NUM : Nat) : Int)) % 256).toNat
      = STREAMING_INTERFACE
    decide
  rw [handle_setup_streaming dev 0 (get_request bRequest UVC_VS_STREAM_ERROR_CODE_CONTROL) k
    hclass hrecip hiface]
  unfold handle_streaming
  have hw : (get_request bRequest UVC_VS_STREAM_ERROR_CODE_CONTROL).wValue
      = UVC_VS_STREAM_ERROR_CODE_CONTROL * 256 := rfl
  simp only [hw]
  rw [if_pos (by decide), if_pos (by decide)]
  rfl

/-- C22: failure paths of `acquire_bufs_mmap`, asked for 2 slots on
descriptor 3.  (1) `VIDIOC_REQBUFS` fails: the status returned is that of
`release_bufs_mmap`, 0 when the release request succeeds.  (2) The driver
grants 0 buffers: 0 again.  (3) `VIDIOC_QUERYBUF` fails for slot 1:
`map_bufs` returns the status of `unmap_bufs`, 0, so the acquire returns 0
with a non-null handle array of 2 unmapped slots.  (4) `mmap` fails for
slot 1: the same.  (5) `mmap` fails for slot 1 and unmapping slot 0 fails:
the array is freed and `release_bufs_mmap` runs `unmap_bufs` on the null
array with slot count 2, which does not return.  On the opened device,
`handle_streamon` does not return in case (1) (the assertion on the handle
in `acquire_bufs`) and returns 0 in case (3), leaving a pool of 2 unmapped
slots. -/
theorem acquire_failure_paths_evaluated :
    acquire_bufs_mmap 3 none 2 { granting_kernel 4096 with reqbufs := -1 } = some (0, none, 0)
    ∧ acquire_bufs_mmap 3 none 2 { granting_kernel 4096 with count := 0 } = some (0, none, 0)
    ∧ acquire_bufs_mmap 3 none 2
        { granting_kernel 4096 with querybuf := fun i => if i = 1 then -1 else 0 }
      = some (0, some [{ begin := 0, size := 0 }, { begin := 0, size := 0 }], 2)
    ∧ acquire_bufs_mmap 3 none 2
        { granting_kernel 4096 with mmap := fun i => if i = 1 then none else some 4096 }
      = some (0, some [{ begin := 0, size := 0 }, { begin := 0, size := 0 }], 2)
    ∧ acquire_bufs_mmap 3 none 2
        { granting_kernel 4096 with
          mmap := fun i => if i = 1 then none else some 4096, munmap := fun _ => -1 }
      = none
    ∧ handle_streamon (opened_device 3) 0 { granting_kernel 4096 with reqbufs := -1 } 0 = none
    ∧ (handle_streamon (opened_device 3) 0
        { granting_kernel 4096 with querybuf := fun i => if i = 1 then -1 else 0 } 0).map
        (fun x => (x.1, x.2.priv.buf 0))
      = some (0, { handle := some [{ begin := 0, size := 0 }, { begin := 0, size := 0 }]
                   num := 2, curr_no := 0, type := V4L2_MEMORY_MMAP }) := by
  refine ⟨rfl, rfl, rfl, rfl, rfl, rfl, rfl⟩

theorem uvc_handle_data_drop_pump (dev : uvc_device_t) (no : Nat) (user_data : uvc_user_data_t)
    (r : Int) (d : uvc_device_t) (h : uvc_handle_data_drop dev no user_data = some (r, d)) :
    r = 1 ∧ d.priv.buf = dev.priv.buf
      ∧ (d.priv.stats no).qbuf_no = (dev.priv.stats no).qbuf_no
      ∧ (d.priv.stats no).dqbuf_no = (dev.priv.stats no).dqbuf_no
      ∧ (d.priv.stats no).data_no = (dev.priv.stats no).data_no := by
  obtain ⟨e1, e2⟩ := uvc_handle_data_drop_returned dev no user_data r d h
  subst e1 e2
  simp

theorem qbuf_pump (dev : uvc_device_t) (no : Nat) (user_data : uvc_user_data_t)
    (buf : v4l2_buffer) (k : ioctl_result) (r : Int) (d : uvc_device_t)
    (h : qbuf dev no user_data buf k = some (r, d)) :
    d.priv.buf = dev.priv.buf
      ∧ (d.priv.stats no).qbuf_no = (dev.priv.stats no).qbuf_no + (if r = 0 then 1 else 0)
      ∧ (d.priv.stats no).dqbuf_no = (dev.priv.stats no).dqbuf_no
      ∧ (d.priv.stats no).data_no = (dev.priv.stats no).data_no := by
  unfold qbuf at h
  split at h
  · split at h
    · cases h
    · split at h
      · cases h
      · split at h
        · cases h
        · split at h
          · cases h
          · split at h
            · cases h; simp
            · split at h
              · cases h
              · split at h
                · cases h; simp
                · split at h
                  · cases h; simp
                  · cases h; simp
  · cases h

theorem uvc_handle_data_queue_pump (dev : uvc_device_t) (no : Nat)
    (user_data : uvc_user_data_t) (buf : v4l2_buffer) (k : ioctl_result) (r : Int)
    (d : uvc_device_t) (h : uvc_handle_data_queue dev no user_data buf k = some (r, d)) :
    (d.priv.buf no).curr_no = (dev.priv.buf no).curr_no + (if r = 0 then 1 else 0)
      ∧ (d.priv.stats no).qbuf_no = (dev.priv.stats no).qbuf_no + (if r = 0 then 1 else 0)
      ∧ (d.priv.stats no).dqbuf_no = (dev.priv.stats no).dqbuf_no
      ∧ (d.priv.stats no).data_no = (dev.priv.stats no).data_no := by
  unfold uvc_handle_data_queue at h
  cases hq : qbuf dev no user_data buf k with
  | none => rw [hq] at h; cases h
  | some x =>
    obtain ⟨st, d1⟩ := x
    obtain ⟨e1, e2, e3, e4⟩ := qbuf_pump dev no user_data buf k st d1 hq
    rw [hq] at h
    simp only [] at h
    by_cases c1 : 0 < st
    · rw [if_pos c1] at h
      obtain ⟨f0, f1, f2, f3, f4⟩ := uvc_handle_data_drop_pump d1 no user_data r d h
      have hst : ¬ st = 0 := by omega
      rw [if_neg hst] at e2
      subst f0
      simp only [f1, f2, f3, f4, e1, e2, e3, e4]
      simp
    · rw [if_neg c1] at h
      by_cases c2 : st ≠ 0
      · rw [if_pos c2] at h
        cases h
        rw [if_neg c2] at e2
        simp only [e1, e2, e3, e4]
        simp
      · rw [if_neg c2] at h
        cases h
        have hst : st = 0 := not_not.mp c2
        rw [if_pos hst] at e2
        simp [e1, e2, e3, e4]

theorem dqbuf_pump (dev : uvc_device_t) (no : Nat) (buf : v4l2_buffer) (k : ioctl_result)
    (r : Int) (d : uvc_device_t) (b : v4l2_buffer)
    (h : dqbuf dev no buf k = some (r, d, b)) :
    d.priv.buf = dev.priv.buf
      ∧ (d.priv.stats no).qbuf_no = (dev.priv.stats no).qbuf_no
      ∧ (dev.priv.stats no).dqbuf_no ≤ (d.priv.stats no).dqbuf_no
      ∧ (d.priv.stats no).dqbuf_no ≤ (dev.priv.stats no).dqbuf_no + 1
      ∧ (d.priv.stats no).data_no = (dev.priv.stats no).data_no := by
  unfold dqbuf at h
  split at h
  · split at h
    · cases h; simp
    · split at h
      · cases h; simp
      · cases h; simp
  · cases h

theorem uvc_handle_data_queried_pump (dev : uvc_device_t) (no : Nat)
    (user_data : uvc_user_data_t) (buf : v4l2_buffer) (kdq kqb : ioctl_result) (r : Int)
    (d : uvc_device_t)
    (h : uvc_handle_data_queried dev no user_data buf kdq kqb = some (r, d)) :
    (d.priv.buf no).curr_no = (dev.priv.buf no).curr_no + (if r = 0 then 1 else 0)
      ∧ (d.priv.stats no).qbuf_no = (dev.priv.stats no).qbuf_no + (if r = 0 then 1 else 0)
      ∧ (dev.priv.stats no).dqbuf_no ≤ (d.priv.stats no).dqbuf_no
      ∧ (d.priv.stats no).dqbuf_no ≤ (dev.priv.stats no).dqbuf_no + 1
      ∧ (d.priv.stats no).data_no = (dev.priv.stats no).data_no := by
  unfold uvc_handle_data_queried at h
  by_cases c0 : V4L2_BUF_FLAG_QUEUED &&& buf.flags ≠ 0
  · rw [if_pos c0] at h
    obtain ⟨f0, f1, f2, f3, f4⟩ := uvc_handle_data_drop_pump dev no user_data r d h
    subst f0
    simp [f1, f2, f3, f4]
  · rw [if_neg c0] at h
    cases hq : dqbuf dev no buf kdq with
    | none => rw [hq] at h; cases h
    | some x =>
      obtain ⟨st, d1, b1⟩ := x
      obtain ⟨e1, e2, e3, e4, e5⟩ := dqbuf_pump dev no buf kdq st d1 b1 hq
      rw [hq] at h
      simp only [] at h
      by_cases c1 : st ≠ 0
      · rw [if_pos c1] at h
        cases h
        simp [e1, e2, e3, e4, e5]
      · rw [if_neg c1] at h
        obtain ⟨f1, f2, f3, f4⟩ := uvc_handle_data_queue_pump d1 no user_data b1 kqb r d h
        rw [f1, f2, f3, f4, e1, e2, e5]
        exact ⟨rfl, rfl, e3, e4, rfl⟩

theorem query_buf_pump (dev : uvc_device_t) (no : Nat) (buf : v4l2_buffer) (k : ioctl_result)
    (flags : Nat) (r : Int) (d : uvc_device_t) (b : v4l2_buffer)
    (h : query_buf dev no buf k flags = some (r, d, b)) :
    d.priv.buf = dev.priv.buf ∧ d.priv.stats = dev.priv.stats := by
  unfold query_buf at h
  split at h
  · split at h
    · cases h; simp
    · cases h; simp
  · cases h

theorem uvc_handle_data_pump (dev : uvc_device_t) (no : Nat) (user_data : uvc_user_data_t)
    (kq : ioctl_result) (flags : Nat) (kdq kqb : ioctl_result) (r : Int) (d : uvc_device_t)
    (h : uvc_handle_data dev no user_data kq flags kdq kqb = some (r, d)) :
    (d.priv.buf no).curr_no = (dev.priv.buf no).curr_no + (if r = 0 then 1 else 0)
      ∧ (d.priv.stats no).qbuf_no = (dev.priv.stats no).qbuf_no + (if r = 0 then 1 else 0)
      ∧ (dev.priv.stats no).dqbuf_no ≤ (d.priv.stats no).dqbuf_no
      ∧ (d.priv.stats no).dqbuf_no ≤ (dev.priv.stats no).dqbuf_no + 1
      ∧ (d.priv.stats no).data_no = (dev.priv.stats no).data_no + 1 := by
  unfold uvc_handle_data at h
  split at h
  · simp only [] at h
    split at h
    · obtain ⟨f0, f1, f2, f3, f4⟩ := uvc_handle_data_drop_pump _ no user_data r d h
      subst f0
      simp [f1, f2, f3, f4]
    · split at h
      · cases h
      · split at h
        · cases h
        · rename_i st d2 b hq
          obtain ⟨e1, e2⟩ := query_buf_pump _ _ _ _ _ _ _ _ hq
          split at h
          · rename_i hst
            cases h
            have hr : ¬ st = 0 := hst
            simp [e1, e2, hr]
          · obtain ⟨f1, f2, f3, f4, f5⟩ :=
              uvc_handle_data_queried_pump d2 no user_data b kdq kqb r d h
            rw [f1, f2, f5, e1, e2]
            rw [e2] at f3 f4
            simp at f3 f4 ⊢
            exact ⟨f3, f4⟩
  · cases h

theorem acquire_bufs_pump (dev : uvc_device_t) (no : Nat) (num : Int) (type : Nat)
    (k : buffer_kernel) (r : Int) (d : uvc_device_t)
    (h : acquire_bufs dev no num type k = some (r, d)) :
    d.priv.stats = dev.priv.stats ∧ (d.priv.buf no).curr_no = (dev.priv.buf no).curr_no := by
  unfold acquire_bufs at h
  simp only [] at h
  split at h
  · split at h
    · split at h
      · cases h
      · split at h
        · cases h; simp
        · split at h
          · cases h; simp
          · cases h
    · cases h; exact ⟨rfl, rfl⟩
  · cases h

theorem release_bufs_pump (dev : uvc_device_t) (no : Nat) (k : buffer_kernel) (r : Int)
    (d : uvc_device_t) (h : release_bufs dev no k = some (r, d)) :
    d.priv.stats = dev.priv.stats ∧ (d.priv.buf no).curr_no = (dev.priv.buf no).curr_no := by
  unfold release_bufs at h
  simp only [] at h
  split at h
  · split at h
    · cases h; exact ⟨rfl, rfl⟩
    · split at h
      · cases h; exact ⟨rfl, rfl⟩
      · split at h
        · split at h
          · cases h
          · cases h; simp
        · cases h; exact ⟨rfl, rfl⟩
  · cases h

theorem handle_streamon_pump (dev : uvc_device_t) (no : Nat) (k : buffer_kernel)
    (streamon : Int) (r : Int) (d : uvc_device_t)
    (h : handle_streamon dev no k streamon = some (r, d)) :
    d.priv.stats = dev.priv.stats ∧ (d.priv.buf no).curr_no = (dev.priv.buf no).curr_no := by
  unfold handle_streamon at h
  split at h
  · split at h
    · cases h
    · rename_i st d1 ha
      have e := acquire_bufs_pump dev no 2 V4L2_MEMORY_MMAP k st d1 ha
      split at h
      · cases h; exact e
      · split at h
        · cases h; exact e
        · cases h; exact e
  · cases h

theorem handle_streamoff_pump (dev : uvc_device_t) (no : Nat) (streamoff : Int)
    (k : buffer_kernel) (r : Int) (d : uvc_device_t)
    (h : handle_streamoff dev no streamoff k = some (r, d)) :
    d.priv.stats = dev.priv.stats ∧ (d.priv.buf no).curr_no = (dev.priv.buf no).curr_no := by
  unfold handle_streamoff at h
  split at h
  · split at h
    · cases h; exact ⟨rfl, rfl⟩
    · split at h
      · cases h
      · rename_i st d1 ha
        have e := release_bufs_pump dev no k st d1 ha
        split at h
        · cases h; exact e
        · cases h; exact e
  · cases h
theorem handle_stream_event_pump (dev : uvc_device_t) (no : Nat) (ev : stream_event) (r : Int)
    (d : uvc_device_t) (h : handle_stream_event dev no ev = some (r, d)) :
    (dev.priv.stats no).qbuf_no ≤ (d.priv.stats no).qbuf_no
      ∧ (d.priv.stats no).qbuf_no ≤ (dev.priv.stats no).qbuf_no + frame_count [ev]
      ∧ (dev.priv.stats no).dqbuf_no ≤ (d.priv.stats no).dqbuf_no
      ∧ (d.priv.stats no).dqbuf_no ≤ (dev.priv.stats no).dqbuf_no + frame_count [ev]
      ∧ (d.priv.stats no).qbuf_no + (dev.priv.buf no).curr_no
          = (dev.priv.stats no).qbuf_no + (d.priv.buf no).curr_no
      ∧ (d.priv.stats no).data_no = (dev.priv.stats no).data_no + frame_count [ev] := by
  cases ev with
  | streamon k status =>
    obtain ⟨e1, e2⟩ := handle_streamon_pump dev no k status r d h
    simp [frame_count, e1, e2]
  | streamoff status k =>
    obtain ⟨e1, e2⟩ := handle_streamoff_pump dev no status k r d h
    simp [frame_count, e1, e2]
  | frame user_data kq flags kdq kqb =>
    obtain ⟨e1, e2, e3, e4, e5⟩ := uvc_handle_data_pump dev no user_data kq flags kdq kqb r d h
    simp only [frame_count]
    refine ⟨by omega, ?_, e3, by omega, by omega, by omega⟩
    rw [e2]
    split <;> omega

theorem count_DQBUF_append (no : Nat) (l1 l2 : List call) :
    count_DQBUF no (l1 ++ l2) = count_DQBUF no l1 + count_DQBUF no l2 := by
  induction l1 with
  | nil => simp [count_DQBUF]
  | cons c rest ih =>
    cases c <;> simp [count_DQBUF, ih]
    omega

theorem count_QBUF_append (no : Nat) (l1 l2 : List call) :
    count_QBUF no (l1 ++ l2) = count_QBUF no l1 + count_QBUF no l2 := by
  induction l1 with
  | nil => simp [count_QBUF]
  | cons c rest ih =>
    cases c <;> simp [count_QBUF, ih]
    omega

/-- What a returning call leaves in the record and in the counters: the calls
`made`, with `dqbuf_no` up by the `VIDIOC_DQBUF` ioctls made when `kdq` is
success and `qbuf_no` up by the `VIDIOC_QBUF` ioctls made when `kqb` is. -/
theorem qbuf_account (dev : uvc_device_t) (no : Nat) (user_data : uvc_user_data_t)
    (buf : v4l2_buffer) (k : ioctl_result) (r : Int) (d : uvc_device_t)
    (h : qbuf dev no user_data buf k = some (r, d)) :
    ∃ made, d.calls = dev.calls ++ made ∧ count_DQBUF no made = 0
      ∧ (d.priv.stats no).dqbuf_no = (dev.priv.stats no).dqbuf_no
      ∧ (d.priv.stats no).qbuf_no
          = (dev.priv.stats no).qbuf_no + (if k.status = 0 then count_QBUF no made else 0) := by
  unfold qbuf at h
  split at h
  · split at h
    · cases h
    · split at h
      · cases h
      · split at h
        · cases h
        · split at h
          · cases h
          · split at h
            · cases h
              exact ⟨[], by simp, rfl, rfl, by simp [count_QBUF]⟩
            · split at h
              · cases h
              · split at h
                · rename_i hk
                  cases h
                  refine ⟨[_], rfl, rfl, rfl, ?_⟩
                  simp [hk.1]
                · split at h
                  · rename_i hk
                    cases h
                    refine ⟨[_], rfl, rfl, rfl, ?_⟩
                    simp [hk]
                  · rename_i hk
                    cases h
                    refine ⟨[_], rfl, rfl, by simp, ?_⟩
                    simp [not_not.mp hk, count_QBUF]
  · cases h

theorem uvc_handle_data_drop_account (dev : uvc_device_t) (no : Nat)
    (user_data : uvc_user_data_t) (r : Int) (d : uvc_device_t)
    (h : uvc_handle_data_drop dev no user_data = some (r, d)) :
    ∃ made, d.calls = dev.calls ++ made ∧ count_DQBUF no made = 0 ∧ count_QBUF no made = 0
      ∧ (d.priv.stats no).dqbuf_no = (dev.priv.stats no).dqbuf_no
      ∧ (d.priv.stats no).qbuf_no = (dev.priv.stats no).qbuf_no := by
  obtain ⟨_, e⟩ := uvc_handle_data_drop_returned dev no user_data r d h
  subst e
  exact ⟨[_], rfl, rfl, rfl, by simp, by simp⟩

theorem uvc_handle_data_queue_account (dev : uvc_device_t) (no : Nat)
    (user_data : uvc_user_data_t) (buf : v4l2_buffer) (k : ioctl_result) (r : Int)
    (d : uvc_device_t) (h : uvc_handle_data_queue dev no user_data buf k = some (r, d)) :
    ∃ made, d.calls = dev.calls ++ made ∧ count_DQBUF no made = 0
      ∧ (d.priv.stats no).dqbuf_no = (dev.priv.stats no).dqbuf_no
      ∧ (d.priv.stats no).qbuf_no
          = (dev.priv.stats no).qbuf_no + (if k.status = 0 then count_QBUF no made else 0) := by
  unfold uvc_handle_data_queue at h
  cases hq : qbuf dev no user_data buf k with
  | none => rw [hq] at h; cases h
  | some x =>
    obtain ⟨st, d1⟩ := x
    obtain ⟨made, e1, e2, e3, e4⟩ := qbuf_account dev no user_data buf k st d1 hq
    rw [hq] at h
    simp only [] at h
    split at h
    · obtain ⟨made2, f1, f2, f3, f4, f5⟩ := uvc_handle_data_drop_account d1 no user_data r d h
      refine ⟨made ++ made2, by rw [f1, e1, List.append_assoc], ?_, by rw [f4, e3], ?_⟩
      · rw [count_DQBUF_append, e2, f2]
      · rw [f5, e4, count_QBUF_append, f3, Nat.add_zero]
    · split at h
      · cases h
        exact ⟨made, e1, e2, e3, e4⟩
      · cases h
        exact ⟨made, e1, e2, by simpa using e3, by simpa using e4⟩

theorem dqbuf_account (dev : uvc_device_t) (no : Nat) (buf : v4l2_buffer) (k : ioctl_result)
    (r : Int) (d : uvc_device_t) (b : v4l2_buffer)
    (h : dqbuf dev no buf k = some (r, d, b)) :
    ∃ made, d.calls = dev.calls ++ made ∧ count_QBUF no made = 0
      ∧ (d.priv.stats no).dqbuf_no
          = (dev.priv.stats no).dqbuf_no + (if k.status = 0 then count_DQBUF no made else 0)
      ∧ (d.priv.stats no).qbuf_no = (dev.priv.stats no).qbuf_no := by
  unfold dqbuf at h
  split at h
  · split at h
    · rename_i hk
      cases h
      refine ⟨[_], rfl, rfl, ?_, rfl⟩
      have : ¬ k.status = 0 := by rw [hk.1]; decide
      simp [this]
    · split at h
      · rename_i hk
        cases h
        refine ⟨[_], rfl, rfl, ?_, rfl⟩
        simp [hk]
      · rename_i hk
        cases h
        refine ⟨[_], rfl, rfl, ?_, by simp⟩
        simp [not_not.mp hk, count_DQBUF]
  · cases h

theorem uvc_handle_data_queried_account (dev : uvc_device_t) (no : Nat)
    (user_data : uvc_user_data_t) (buf : v4l2_buffer) (kdq kqb : ioctl_result) (r : Int)
    (d : uvc_device_t)
    (h : uvc_handle_data_queried dev no user_data buf kdq kqb = some (r, d)) :
    ∃ made, d.calls = dev.calls ++ made
      ∧ (d.priv.stats no).dqbuf_no
          = (dev.priv.stats no).dqbuf_no + (if kdq.status = 0 then count_DQBUF no made else 0)
      ∧ (d.priv.stats no).qbuf_no
          = (dev.priv.stats no).qbuf_no + (if kqb.status = 0 then count_QBUF no made else 0) := by
  unfold uvc_handle_data_queried at h
  split at h
  · obtain ⟨made, f1, f2, f3, f4, f5⟩ := uvc_handle_data_drop_account dev no user_data r d h
    exact ⟨made, f1, by rw [f4, f2]; simp, by rw [f5, f3]; simp⟩
  · cases hq : dqbuf dev no buf kdq with
    | none => rw [hq] at h; cases h
    | some x =>
      obtain ⟨st, d1, b1⟩ := x
      obtain ⟨made, e1, e2, e3, e4⟩ := dqbuf_account dev no buf kdq st d1 b1 hq
      rw [hq] at h
      simp only [] at h
      split at h
      · cases h
        exact ⟨made, e1, e3, by rw [e4, e2]; simp⟩
      · obtain ⟨made2, f1, f2, f3, f4⟩ :=
          uvc_handle_data_queue_account d1 no user_data b1 kqb r d h
        refine ⟨made ++ made2, by rw [f1, e1, List.append_assoc], ?_, ?_⟩
        · rw [f3, e3, count_DQBUF_append, f2, Nat.add_zero]
        · rw [f4, e4, count_QBUF_append, e2, Nat.zero_add]

theorem query_buf_account (dev : uvc_device_t) (no : Nat) (buf : v4l2_buffer)
    (k : ioctl_result) (flags : Nat) (r : Int) (d : uvc_device_t) (b : v4l2_buffer)
    (h : query_buf dev no buf k flags = some (r, d, b)) :
    ∃ made, d.calls = dev.calls ++ made ∧ count_DQBUF no made = 0 ∧ count_QBUF no made = 0
      ∧ d.priv.stats = dev.priv.stats := by
  unfold query_buf at h
  split at h
  · split at h
    · cases h
      exact ⟨[_], rfl, rfl, rfl, rfl⟩
    · cases h
      exact ⟨[_], rfl, rfl, rfl, rfl⟩
  · cases h

/-- A call of `uvc_handle_data` that returns has raised `dqbuf_no` by the
successful `VIDIOC_DQBUF` ioctls it made and `qbuf_no` by the successful
`VIDIOC_QBUF` ioctls it made. -/
theorem uvc_handle_data_account (dev : uvc_device_t) (no : Nat) (user_data : uvc_user_data_t)
    (kq : ioctl_result) (flags : Nat) (kdq kqb : ioctl_result) (r : Int) (d : uvc_device_t)
    (h : uvc_handle_data dev no user_data kq flags kdq kqb = some (r, d)) :
    (d.priv.stats no).dqbuf_no = (dev.priv.stats no).dqbuf_no + dequeued_count dev no kdq d
      ∧ (d.priv.stats no).qbuf_no = (dev.priv.stats no).qbuf_no + enqueued_count dev no kqb d := by
  have key : ∃ made, d.calls = dev.calls ++ made
      ∧ (d.priv.stats no).dqbuf_no
          = (dev.priv.stats no).dqbuf_no + (if kdq.status = 0 then count_DQBUF no made else 0)
      ∧ (d.priv.stats no).qbuf_no
          = (dev.priv.stats no).qbuf_no
            + (if kqb.status = 0 then count_QBUF no made else 0) := by
    unfold uvc_handle_data at h
    split at h
    · simp only [] at h
      split at h
      · obtain ⟨made, f1, f2, f3, f4, f5⟩ := uvc_handle_data_drop_account _ no user_data r d h
        refine ⟨made, by simpa using f1, ?_, ?_⟩
        · rw [f4, f2]; simp
        · rw [f5, f3]; simp
      · split at h
        · cases h
        · split at h
          · cases h
          · rename_i st d2 b hq
            obtain ⟨made, e1, e2, e3, e4⟩ := query_buf_account _ _ _ _ _ _ _ _ hq
            split at h
            · cases h
              refine ⟨made, by simpa using e1, ?_, ?_⟩
              · rw [e4, e2]; simp
              · rw [e4, e3]; simp
            · obtain ⟨made2, f1, f2, f3⟩ :=
                uvc_handle_data_queried_account d2 no user_data b kdq kqb r d h
              refine ⟨made ++ made2, ?_, ?_, ?_⟩
              · rw [f1, e1, List.append_assoc]; simp
              · rw [f2, e4, count_DQBUF_append, e2]; simp
              · rw [f3, e4, count_QBUF_append, e3]; simp
    · cases h
  obtain ⟨made, e1, e2, e3⟩ := key
  unfold dequeued_count enqueued_count
  rw [e1, List.drop_left]
  exact ⟨e2, e3⟩

/-- C23 counterexample: after a Commit, a `STREAMON` event, one queued
frame and a `STREAMOFF` event, `qbuf_no - dqbuf_no` is 1 while the pool is
released (slot count 0); a further `STREAMON` and two queued frames give
`qbuf_no - dqbuf_no = 3` over a pool of 2 slots.  The kernel dequeues
nothing in this run, and the counters are not reset by either event. -/
theorem pump_counters_exceed_slot_count :
    (run_stream_events (committed_device (sized_payload 1 3110400)) 0
        [stream_event.streamon (granting_kernel 3110400) 0, queued_frame 100000,
         stream_event.streamoff 0 (granting_kernel 3110400)]).map
        (fun d => ((d.priv.stats 0).qbuf_no, (d.priv.stats 0).dqbuf_no, (d.priv.buf 0).num))
      = some (1, 0, 0)
    ∧ (run_stream_events (committed_device (sized_payload 1 3110400)) 0
        [stream_event.streamon (granting_kernel 3110400) 0, queued_frame 100000,
         stream_event.streamoff 0 (granting_kernel 3110400),
         stream_event.streamon (granting_kernel 3110400) 0, queued_frame 100000,
         queued_frame 100000]).map
        (fun d => ((d.priv.stats 0).qbuf_no, (d.priv.stats 0).dqbuf_no, (d.priv.buf 0).num))
      = some (3, 0, 2) :=
  ⟨rfl, rfl⟩

theorem handle_stream_event_account (dev : uvc_device_t) (no : Nat) (ev : stream_event)
    (q : driver_queue) (r : Int) (d : uvc_device_t)
    (h : handle_stream_event dev no ev = some (r, d))
    (hcons : driver_consistent dev no q [ev] = true)
    (hbal : (dev.priv.stats no).qbuf_no
        = (dev.priv.stats no).dqbuf_no + q.queued + q.discarded) :
    (d.priv.stats no).qbuf_no
      = (d.priv.stats no).dqbuf_no + (q.after dev no ev d).queued
        + (q.after dev no ev d).discarded := by
  cases ev with
  | streamon k status =>
    obtain ⟨e1, _⟩ := handle_streamon_pump dev no k status r d h
    rw [e1]
    exact hbal
  | streamoff status k =>
    obtain ⟨e1, _⟩ := handle_streamoff_pump dev no status k r d h
    rw [e1, hbal]
    unfold driver_queue.after
    by_cases hs : status = 0
    · simp only [hs, if_true]
      omega
    · simp only [hs, if_false]
  | frame user_data kq flags kdq kqb =>
    obtain ⟨e1, e2⟩ := uvc_handle_data_account dev no user_data kq flags kdq kqb r d h
    unfold driver_consistent at hcons
    rw [h] at hcons
    simp only [driver_consistent, Bool.and_true, decide_eq_true_eq] at hcons
    unfold driver_queue.after
    simp only []
    omega

/-- C23 amended: the pump counters are never reset, and `STREAMOFF` empties
the driver's queue without a dequeue.  Take a run of `STREAMON` and
`STREAMOFF` events and producer frames on an endpoint in which every handler
returns, starting where `qbuf_no` is `dqbuf_no` plus the buffers the driver
holds plus those it discarded, with a driver that never dequeues more
buffers than it holds.  Then at the end `qbuf_no - dqbuf_no` is again the
number of buffers the driver holds plus the number discarded by `STREAMOFF`,
so `dqbuf_no` is at most `qbuf_no`; `qbuf_no` and `dqbuf_no` did not
decrease; each grew by at most the number of frames of the run; `qbuf_no`
grew exactly as `curr_no` did; and `data_no` grew by the number of frames. -/
theorem pump_counters_along_run (events : List stream_event) (dev : uvc_device_t) (no : Nat)
    (q : driver_queue) (dev1 : uvc_device_t)
    (h : run_stream_events dev no events = some dev1)
    (hcons : driver_consistent dev no q events = true)
    (hbal : (dev.priv.stats no).qbuf_no
        = (dev.priv.stats no).dqbuf_no + q.queued + q.discarded) :
    (dev1.priv.stats no).qbuf_no
        = (dev1.priv.stats no).dqbuf_no + (driver_queue_run dev no q events).queued
          + (driver_queue_run dev no q events).discarded
      ∧ (dev1.priv.stats no).dqbuf_no ≤ (dev1.priv.stats no).qbuf_no
      ∧ (dev.priv.stats no).qbuf_no ≤ (dev1.priv.stats no).qbuf_no
      ∧ (dev1.priv.stats no).qbuf_no ≤ (dev.priv.stats no).qbuf_no + frame_count events
      ∧ (dev.priv.stats no).dqbuf_no ≤ (dev1.priv.stats no).dqbuf_no
      ∧ (dev1.priv.stats no).dqbuf_no ≤ (dev.priv.stats no).dqbuf_no + frame_count events
      ∧ (dev1.priv.stats no).qbuf_no + (dev.priv.buf no).curr_no
          = (dev.priv.stats no).qbuf_no + (dev1.priv.buf no).curr_no
      ∧ (dev1.priv.stats no).data_no = (dev.priv.stats no).data_no + frame_count events := by
  induction events generalizing dev q with
  | nil =>
    unfold run_stream_events at h
    cases h
    simp only [driver_queue_run, frame_count]
    refine ⟨hbal, ?_, ?_, ?_, ?_, ?_, ?_, ?_⟩
    · rw [hbal, Nat.add_assoc]
      exact Nat.le_add_right _ _
    all_goals trivial
  | cons ev rest ih =>
    unfold run_stream_events at h
    cases he : handle_stream_event dev no ev with
    | none => rw [he] at h; cases h
    | some x =>
      obtain ⟨r, d⟩ := x
      rw [he] at h
      simp only [] at h
      have hc1 : driver_consistent dev no q [ev] = true := by
        unfold driver_consistent at hcons ⊢
        rw [he] at hcons ⊢
        simp only [driver_consistent, Bool.and_true]
        simp only [Bool.and_eq_true] at hcons
        exact hcons.1
      have hc2 : driver_consistent d no (q.after dev no ev d) rest = true := by
        unfold driver_consistent at hcons
        rw [he] at hcons
        simp only [Bool.and_eq_true] at hcons
        exact hcons.2
      have hb1 := handle_stream_event_account dev no ev q r d he hc1 hbal
      obtain ⟨a1, a2, a3, a4, a5, a6⟩ := handle_stream_event_pump dev no ev r d he
      obtain ⟨b0, _, b1, b2, b3, b4, b5, b6⟩ := ih d (q.after dev no ev d) h hc2 hb1
      have hc : frame_count (ev :: rest) = frame_count [ev] + frame_count rest := by
        cases ev <;> simp [frame_count]
        omega
      have hq : driver_queue_run dev no q (ev :: rest)
          = driver_queue_run d no (q.after dev no ev d) rest := by
        rw [driver_queue_run, he]
      rw [hc, hq]
      refine ⟨b0, ?_, ?_, ?_, ?_, ?_, ?_, ?_⟩ <;> omega

theorem pump_counters_along_run_witness :
    ∃ dev1,
      run_stream_events (committed_device (sized_payload 1 3110400)) 0
        [stream_event.streamon (granting_kernel 3110400) 0, queued_frame 100000,
         stream_event.frame (produced_frame 100000) ioctl_ok 0 (dequeued 0) ioctl_ok,
         stream_event.streamoff 0 (granting_kernel 3110400)] = some dev1
      ∧ driver_consistent (committed_device (sized_payload 1 3110400)) 0
          { queued := 0, discarded := 0 }
          [stream_event.streamon (granting_kernel 3110400) 0, queued_frame 100000,
           stream_event.frame (produced_frame 100000) ioctl_ok 0 (dequeued 0) ioctl_ok,
           stream_event.streamoff 0 (granting_kernel 3110400)] = true
      ∧ driver_queue_run (committed_device (sized_payload 1 3110400)) 0
          { queued := 0, discarded := 0 }
          [stream_event.streamon (granting_kernel 3110400) 0, queued_frame 100000,
           stream_event.frame (produced_frame 100000) ioctl_ok 0 (dequeued 0) ioctl_ok,
           stream_event.streamoff 0 (granting_kernel 3110400)]
          = { queued := 0, discarded := 1 }
      ∧ ((dev1.priv.stats 0).qbuf_no, (dev1.priv.stats 0).dqbuf_no, (dev1.priv.buf 0).curr_no,
          (dev1.priv.stats 0).data_no) = (2, 1, 2, 2)
      ∧ (dev1.priv.stats 0).qbuf_no
          = (dev1.priv.stats 0).dqbuf_no
            + (driver_queue_run (committed_device (sized_payload 1 3110400)) 0
                { queued := 0, discarded := 0 }
                [stream_event.streamon (granting_kernel 3110400) 0, queued_frame 100000,
                 stream_event.frame (produced_frame 100000) ioctl_ok 0 (dequeued 0) ioctl_ok,
                 stream_event.streamoff 0 (granting_kernel 3110400)]).queued
            + (driver_queue_run (committed_device (sized_payload 1 3110400)) 0
                { queued := 0, discarded := 0 }
                [stream_event.streamon (granting_kernel 3110400) 0, queued_frame 100000,
                 stream_event.frame (produced_frame 100000) ioctl_ok 0 (dequeued 0) ioctl_ok,
                 stream_event.streamoff 0 (granting_kernel 3110400)]).discarded
      ∧ (dev1.priv.stats 0).dqbuf_no ≤ (dev1.priv.stats 0).qbuf_no :=
  ⟨((run_stream_events (committed_device (sized_payload 1 3110400)) 0
        [stream_event.streamon (granting_kernel 3110400) 0, queued_frame 100000,
         stream_event.frame (produced_frame 100000) ioctl_ok 0 (dequeued 0) ioctl_ok,
         stream_event.streamoff 0 (granting_kernel 3110400)]).getD (opened_device 3)),
    rfl, rfl, rfl, rfl,
    (pump_counters_along_run
      [stream_event.streamon (granting_kernel 3110400) 0, queued_frame 100000,
       stream_event.frame (produced_frame 100000) ioctl_ok 0 (dequeued 0) ioctl_ok,
       stream_event.streamoff 0 (granting_kernel 3110400)]
      (committed_device (sized_payload 1 3110400)) 0 { queued := 0, discarded := 0 } _
      rfl rfl rfl).1,
    (pump_counters_along_run
      [stream_event.streamon (granting_kernel 3110400) 0, queued_frame 100000,
       stream_event.frame (produced_frame 100000) ioctl_ok 0 (dequeued 0) ioctl_ok,
       stream_event.streamoff 0 (granting_kernel 3110400)]
      (committed_device (sized_payload 1 3110400)) 0 { queued := 0, discarded := 0 } _
      rfl rfl rfl).2.1⟩

/-- C24 counterexample: on the streaming device `curr_no` is 0 and the pool
has 2 slots; when `VIDIOC_DQBUF` succeeds and reports slot 1, the buffer
`uvc_handle_data` queues has index 1, not `0 mod 2`. -/
theorem queued_index_follows_dequeue :
    ((streaming_device (sized_payload 1 3110400) 3110400).priv.buf 0).curr_no = 0
    ∧ ((streaming_device (sized_payload 1 3110400) 3110400).priv.buf 0).num = 2
    ∧ (uvc_handle_data (streaming_device (sized_payload 1 3110400) 3110400) 0
        (produced_frame 100000) ioctl_ok 0 (dequeued 1) ioctl_ok).map
        (fun x => (x.1, x.2.calls.drop
          (streaming_device (sized_payload 1 3110400) 3110400).calls.length))
      = some (0, [call.QUERYBUF 0 0, call.DQBUF 0 0,
          call.QBUF 0 { index := 1, type := V4L2_BUF_TYPE_VIDEO_OUTPUT
                        memory := V4L2_MEMORY_MMAP, flags := 0, bytesused := 3110400
                        tv_sec := 0, tv_usec := 0 }]) :=
  ⟨rfl, rfl, rfl⟩

/-- C24 amended: on a ready data plane, with a kernel whose `VIDIOC_DQBUF`
reports a slot of the pool, every call of `uvc_handle_data` that returns has,
when a pool is allocated, queried the slot `curr_no mod slot_count` (with
`curr_no` taken before the call) and no other, and has queued only buffers
that name a slot of the pool: that same slot when `VIDIOC_DQBUF` dequeued
nothing, and the slot `VIDIOC_DQBUF` reported when it dequeued one; an
accepted frame has queued a buffer; with no debug directory set the call
returns. -/
theorem queued_index_rule (dev : uvc_device_t) (no : Nat)
    (user_data : uvc_user_data_t) (kq : ioctl_result) (flags : Nat) (kdq kqb : ioctl_result)
    (hno : no < UVC_DEV_MAX_NUM) (hsrc : user_data.data ≠ none)
    (hready : data_plane_ready dev no) (hdq : dequeued_slot_valid dev no kdq) :
    (dev.dbgpath = none →
        ∃ r dev1, uvc_handle_data dev no user_data kq flags kdq kqb = some (r, dev1))
    ∧ ∀ r dev1, uvc_handle_data dev no user_data kq flags kdq kqb = some (r, dev1) →
        ∃ extra, dev1.calls = dev.calls ++ extra
          ∧ (∀ handle, (dev.priv.buf no).handle = some handle →
              (dev.priv.buf no).num = handle.length
              ∧ call.QUERYBUF no ((dev.priv.buf no).curr_no % handle.length) ∈ extra)
          ∧ (∀ n i, call.QUERYBUF n i ∈ extra → n = no ∧ ∃ handle,
              (dev.priv.buf no).handle = some handle
              ∧ i = (dev.priv.buf no).curr_no % handle.length)
          ∧ (∀ n b, call.QBUF n b ∈ extra → n = no ∧ ∃ handle,
              (dev.priv.buf no).handle = some handle
              ∧ (dev.priv.buf no).num = handle.length
              ∧ b.index = (if kdq.status = 0 then kdq.index
                  else (dev.priv.buf no).curr_no % handle.length)
              ∧ b.index < handle.length)
          ∧ (r = 0 → ∃ b, call.QBUF no b ∈ extra) := by
  cases hs : user_data.data with
  | none => exact absurd hs hsrc
  | some src =>
    refine ⟨?_, ?_⟩
    · intro hdbg
      obtain ⟨r, dev1, _, h, _⟩ :=
        uvc_handle_data_effect dev no user_data kq flags kdq kqb src hno hs hready hdq hdbg
      exact ⟨r, dev1, h⟩
    · intro r dev1 h
      obtain ⟨extra, _, _, _, _, _, e5, _, e7, e8, e9, e10⟩ :=
        uvc_handle_data_effect_returned dev no user_data kq flags kdq kqb src hno hs hready
          hdq r dev1 h
      refine ⟨extra, e5, ?_, e9, ?_, e8⟩
      · intro handle hp
        obtain ⟨_, _, hnum, _⟩ := hready handle hp
        exact ⟨hnum, e10 handle hp⟩
      · intro n b hb
        obtain ⟨hn, handle, dst, format, p, hp, hbi, hdst, _⟩ := e7 n b hb
        obtain ⟨_, _, hnum, _⟩ := hready handle hp
        exact ⟨hn, handle, hp, hnum, hbi, (List.getElem?_eq_some.mp hdst).1⟩

theorem queued_index_rule_witness :
    ∃ r dev1 extra,
      uvc_handle_data (streaming_device (sized_payload 1 3110400) 3110400) 0
        (produced_frame 100000) ioctl_ok 0 ioctl_again ioctl_ok = some (r, dev1)
      ∧ dev1.calls = (streaming_device (sized_payload 1 3110400) 3110400).calls ++ extra
      ∧ (∀ handle,
          ((streaming_device (sized_payload 1 3110400) 3110400).priv.buf 0).handle = some handle →
          ((streaming_device (sized_payload 1 3110400) 3110400).priv.buf 0).num = handle.length
          ∧ call.QUERYBUF 0
              (((streaming_device (sized_payload 1 3110400) 3110400).priv.buf 0).curr_no
                % handle.length) ∈ extra)
      ∧ (∀ n i, call.QUERYBUF n i ∈ extra → n = 0 ∧ ∃ handle,
          ((streaming_device (sized_payload 1 3110400) 3110400).priv.buf 0).handle = some handle
          ∧ i = ((streaming_device (sized_payload 1 3110400) 3110400).priv.buf 0).curr_no
              % handle.length)
      ∧ (∀ n b, call.QBUF n b ∈ extra → n = 0 ∧ ∃ handle,
          ((streaming_device (sized_payload 1 3110400) 3110400).priv.buf 0).handle = some handle
          ∧ ((streaming_device (sized_payload 1 3110400) 3110400).priv.buf 0).num
              = handle.length
          ∧ b.index = (if ioctl_again.status = 0 then ioctl_again.index
              else ((streaming_device (sized_payload 1 3110400) 3110400).priv.buf 0).curr_no
                % handle.length)
          ∧ b.index < handle.length)
      ∧ (r = 0 → ∃ b, call.QBUF 0 b ∈ extra) :=
  match (queued_index_rule (streaming_device (sized_payload 1 3110400) 3110400) 0
      (produced_frame 100000) ioctl_ok 0 ioctl_again ioctl_ok (by decide)
      (by simp [produced_frame]) streaming_nv12_ready
      (dequeued_slot_valid_of _ 0 ioctl_again
        [{ begin := 3110400, size := 3110400 }, { begin := 6220800, size := 3110400 }] rfl
        (by decide))).1 rfl with
  | ⟨r, dev1, h⟩ =>
    match (queued_index_rule (streaming_device (sized_payload 1 3110400) 3110400) 0
        (produced_frame 100000) ioctl_ok 0 ioctl_again ioctl_ok (by decide)
        (by simp [produced_frame]) streaming_nv12_ready
        (dequeued_slot_valid_of _ 0 ioctl_again
          [{ begin := 3110400, size := 3110400 }, { begin := 6220800, size := 3110400 }] rfl
          (by decide))).2 r dev1 h with
    | ⟨extra, a, b, c, d, e⟩ => ⟨r, dev1, extra, h, a, b, c, d, e⟩

theorem comma_list_cons (p : List Char) (rest : List (List Char)) :
    comma_list (p :: rest) = p ++ (if rest = [] then [] else ',' :: comma_list rest) := by
  cases rest with
  | nil => simp [comma_list]
  | cons q r => simp [comma_list]

theorem strchrnul_path (p tail : List Char) (hp : device_path p)
    (ht : tail = [] ∨ ∃ t, tail = ',' :: t) :
    strchrnul (p ++ tail) ',' = p.length := by
  unfold strchrnul
  have h1 : ∀ a ∈ p, (a != ',' && a != Char.ofNat 0) = true := by
    intro a ha
    have h2 : a ≠ ',' := fun h => hp.2.1 (h ▸ ha)
    have h3 : a ≠ Char.ofNat 0 := fun h => hp.2.2 (h ▸ ha)
    simp [h2, h3]
  rw [List.takeWhile_append_of_pos h1]
  rcases ht with ht | ⟨t, ht⟩
  · subst ht; simp
  · subst ht; simp

theorem parse_device_list_comma_list (fuel : Nat) :
    ∀ (i : Nat) (paths : List (List Char)) (path : Nat → Option (List Char)),
      (∀ p ∈ paths, device_path p) → UVC_DEV_MAX_NUM ≤ i + fuel →
      parse_device_list fuel i (comma_list paths) path
        = fun j => if i ≤ j ∧ j < UVC_DEV_MAX_NUM ∧ j - i < paths.length then paths[j - i]?
            else path j := by
  induction fuel with
  | zero =>
    intro i paths path _ hi
    funext j
    have : ¬ (i ≤ j ∧ j < UVC_DEV_MAX_NUM ∧ j - i < paths.length) := by omega
    simp only [parse_device_list, if_neg this]
  | succ fuel ih =>
    intro i paths path hp hi
    unfold parse_device_list
    by_cases h32 : i < UVC_DEV_MAX_NUM
    · rw [if_pos h32]
      cases paths with
      | nil =>
        funext j
        simp [comma_list, strchrnul]
      | cons p rest =>
        have hpp : device_path p := hp p (List.mem_cons_self _ _)
        have hrest : ∀ q ∈ rest, device_path q := fun q hq => hp q (List.mem_cons_of_mem _ hq)
        have hlen : 0 < p.length := List.length_pos.mpr hpp.1
        have hs : strchrnul (comma_list (p :: rest)) ',' = p.length := by
          rw [comma_list_cons]
          apply strchrnul_path p _ hpp
          by_cases hr : rest = []
          · left; simp [hr]
          · right; exact ⟨comma_list rest, by simp [hr]⟩
        simp only [hs]
        rw [if_neg (by omega)]
        have hnext : (if (comma_list (p :: rest))[p.length]? = some ','
            then (comma_list (p :: rest)).drop (p.length + 1)
            else (comma_list (p :: rest)).drop p.length) = comma_list rest := by
          rw [comma_list_cons]
          by_cases hr : rest = []
          · subst hr
            simp [comma_list]
          · have hg : (p ++ ',' :: comma_list rest)[p.length]? = some ',' := by
              rw [List.getElem?_append_right (le_refl _)]
              simp
            simp only [hr, if_false, hg, if_true]
            simp
        have htake : (comma_list (p :: rest)).take p.length = p := by
          rw [comma_list_cons]; simp
        rw [hnext, htake, ih (i + 1) rest _ hrest (by omega)]
        funext j
        by_cases hj : j = i
        · subst hj
          simp [h32]
        · by_cases hc : i ≤ j ∧ j < UVC_DEV_MAX_NUM ∧ j - i < (p :: rest).length
          · obtain ⟨c1, c2, c3⟩ := hc
            have c4 : i + 1 ≤ j := by omega
            have c5 : j - (i + 1) < rest.length := by simp at c3; omega
            have c6 : j - i = (j - (i + 1)) + 1 := by omega
            rw [if_pos ⟨c4, c2, c5⟩, if_pos ⟨c1, c2, c3⟩, c6, List.getElem?_cons_succ]
          · have hc2 : ¬ (i + 1 ≤ j ∧ j < UVC_DEV_MAX_NUM ∧ j - (i + 1) < rest.length) := by
              intro ⟨c1, c2, c3⟩
              apply hc
              refine ⟨by omega, c2, ?_⟩
              simp; omega
            rw [if_neg hc2, if_neg hc, if_neg hj]
    · rw [if_neg h32]
      funext j
      have : ¬ (i ≤ j ∧ j < UVC_DEV_MAX_NUM ∧ j - i < paths.length) := by omega
      rw [if_neg this]

/-- C26: for every list of non-empty paths without comma (and without NUL),
joined by single commas into `UVC_DEVICE`, the loop of `uvc_device_create`
leaves `sys[i].path` equal to the `i`-th path for every `i` below both the
number of paths and 32, and null at every other index; when there is at least
one path the assertion on `sys[0].path` holds and creation goes on with
these entries. -/
theorem device_list_parsed (paths : List (List Char)) (hp : ∀ p ∈ paths, device_path p) :
    (∀ i, parse_device_list UVC_DEV_MAX_NUM 0 (comma_list paths) (fun _ => none) i
        = if i < min paths.length UVC_DEV_MAX_NUM then paths[i]? else none)
    ∧ (∀ i (h : i < paths.length), i < UVC_DEV_MAX_NUM →
        parse_device_list UVC_DEV_MAX_NUM 0 (comma_list paths) (fun _ => none) i
          = some (paths.get ⟨i, h⟩))
    ∧ (paths ≠ [] → uvc_device_create_paths (comma_list paths)
        = some (parse_device_list UVC_DEV_MAX_NUM 0 (comma_list paths) (fun _ => none))) := by
  have key := parse_device_list_comma_list UVC_DEV_MAX_NUM 0 paths (fun _ => none) hp
    (by omega)
  have h1 : ∀ i, parse_device_list UVC_DEV_MAX_NUM 0 (comma_list paths) (fun _ => none) i
        = if i < min paths.length UVC_DEV_MAX_NUM then paths[i]? else none := by
    intro i
    rw [key]
    simp only [Nat.sub_zero]
    by_cases h : i < min paths.length UVC_DEV_MAX_NUM
    · have h2 : 0 ≤ i ∧ i < UVC_DEV_MAX_NUM ∧ i < paths.length := by
        refine ⟨Nat.zero_le _, ?_, ?_⟩ <;> omega
      rw [if_pos h, if_pos h2]
    · have h2 : ¬ (0 ≤ i ∧ i < UVC_DEV_MAX_NUM ∧ i < paths.length) := by
        intro ⟨_, a, b⟩
        apply h
        omega
      rw [if_neg h, if_neg h2]
  have h2 : ∀ i (h : i < paths.length), i < UVC_DEV_MAX_NUM →
        parse_device_list UVC_DEV_MAX_NUM 0 (comma_list paths) (fun _ => none) i
          = some (paths.get ⟨i, h⟩) := by
    intro i h h32
    rw [h1 i, if_pos (by omega), List.getElem?_eq_getElem h]
    rfl
  refine ⟨h1, h2, ?_⟩
  intro hne
  unfold uvc_device_create_paths
  have h0 : 0 < paths.length := List.length_pos.mpr hne
  have := h2 0 h0 (by decide)
  simp only [this]
  rfl

theorem device_list_parsed_witness :
    (∀ p ∈ ["/dev/video0".toList, "/dev/video2".toList], device_path p)
    ∧ (∀ i, parse_device_list UVC_DEV_MAX_NUM 0
          (comma_list ["/dev/video0".toList, "/dev/video2".toList]) (fun _ => none) i
        = if i < min ["/dev/video0".toList, "/dev/video2".toList].length UVC_DEV_MAX_NUM
          then ["/dev/video0".toList, "/dev/video2".toList][i]? else none)
    ∧ comma_list ["/dev/video0".toList, "/dev/video2".toList]
        = "/dev/video0,/dev/video2".toList :=
  ⟨by decide, (device_list_parsed ["/dev/video0".toList, "/dev/video2".toList]
      (by decide)).1, by decide⟩

/-- C27: on the freshly opened device `config->curr.format_no` is -1.  A
`STREAMON` event that acquires its two buffers returns 0 and leaves the
selection untouched; the first producer frame that follows reaches `qbuf`,
which reads `format[curr.format_no]` at index -1: no entry of the catalog,
and `uvc_handle_data` does not return. -/
theorem frame_before_commit_evaluated :
    (opened_device 3).priv.config.curr.format_no = -1
    ∧ (handle_streamon (opened_device 3) 0 (granting_kernel 3110400) 0).map
        (fun x => (x.1, x.2.priv.buf 0, x.2.priv.config.curr.format_no))
      = some (0, { handle := some [{ begin := 3110400, size := 3110400 },
                                   { begin := 6220800, size := 3110400 }]
                   num := 2, curr_no := 0, type := V4L2_MEMORY_MMAP }, -1)
    ∧ array_at (opened_device 3).priv.config.format (-1) = none
    ∧ (∀ dev1, handle_streamon (opened_device 3) 0 (granting_kernel 3110400) 0 = some (0, dev1) →
        qbuf dev1 0 (produced_frame 100000)
            { index := 0, type := V4L2_BUF_TYPE_VIDEO_OUTPUT, memory := V4L2_MEMORY_MMAP
              flags := 0, bytesused := 0, tv_sec := 0, tv_usec := 0 } ioctl_ok = none
        ∧ uvc_handle_data dev1 0 (produced_frame 100000) ioctl_ok 0 ioctl_again ioctl_ok = none)
    ∧ run_stream_events (opened_device 3) 0
        [stream_event.streamon (granting_kernel 3110400) 0, queued_frame 100000] = none := by
  refine ⟨rfl, rfl, rfl, ?_, rfl⟩
  intro dev1 h
  have h0 : handle_streamon (opened_device 3) 0 (granting_kernel 3110400) 0
      = some (0, (opened_device 3).set_buf 0
          { handle := some [{ begin := 3110400, size := 3110400 },
                            { begin := 6220800, size := 3110400 }]
            num := 2, curr_no := 0, type := V4L2_MEMORY_MMAP }) := rfl
  rw [h0] at h
  cases h
  exact ⟨rfl, rfl⟩

/-- C28: `SET_CUR(Probe)` announcing `wLength = 60` is accepted on the opened
device: the reply has length 60 and `expected_len` becomes 60, more than the
34 bytes of the streaming control; the DATA event of 60 bytes that follows
fails the assertion `sizeof(ctrl) >= expected_len` of `handle_data`, which
does not return. -/
theorem oversized_set_cur_evaluated :
    (handle_setup (opened_device 3) 0 (set_cur_request UVC_VS_PROBE_CONTROL 60) ioctl_ok).map
        (fun x => (x.1, (x.2.priv.video_streaming 0).expected_len,
          (x.2.priv.video_streaming 0).curr, x.2.calls))
      = some (0, 60, some streaming_ref.probe,
          [call.SEND_RESPONSE 0 { length := 60, data := zero_data }])
    ∧ (sizeof_streaming_control : Int) < 60
    ∧ (∀ dev1, handle_setup (opened_device 3) 0
          (set_cur_request UVC_VS_PROBE_CONTROL 60) ioctl_ok = some (0, dev1) →
        handle_data dev1 0 (data_event (negotiation_payload FRAME_INTERVAL_1fps) 60) ioctl_ok
          = none)
    ∧ run_control_events (opened_device 3)
        [(0, control_event.setup (set_cur_request UVC_VS_PROBE_CONTROL 60), ioctl_ok),
         (0, control_event.data (data_event (negotiation_payload FRAME_INTERVAL_1fps) 60),
           ioctl_ok)] = none := by
  refine ⟨rfl, by decide, ?_, rfl⟩
  intro dev1 h
  have h0 : handle_setup (opened_device 3) 0 (set_cur_request UVC_VS_PROBE_CONTROL 60) ioctl_ok
      = some (0, ((opened_device 3).set_video_streaming 0
          { (opened_device 3).priv.video_streaming 0 with expected_len := 0 }).set_video_streaming
            0 { probe := uvc_streaming_control.zero, commit := uvc_streaming_control.zero
                curr := some streaming_ref.probe, expected_len := 60 } |>.emit
              (call.SEND_RESPONSE 0 { length := 60, data := zero_data })) := rfl
  rw [h0] at h
  cases h
  rfl

/-- C29: for a frame with presentation time 2.5 s on the streaming device,
`uvc_device_fill_v4l2_buffer` stores `tv_sec = 2` and `tv_usec = 2500000`:
the microseconds are reduced modulo `GST_SECOND` (10^9), not modulo 10^6, so
`tv_usec` is not below 1000000 and `tv_sec * 10^6 + tv_usec` is 4500000, not
`pts / 1000 = 2500000`. -/
theorem fill_timestamp_evaluated :
    (uvc_device_fill_v4l2_buffer (streaming_device (sized_payload 1 3110400) 3110400) 0
        { index := 0, type := V4L2_BUF_TYPE_VIDEO_OUTPUT, memory := V4L2_MEMORY_MMAP
          flags := 0, bytesused := 0, tv_sec := 0, tv_usec := 0 }
        { begin := 3110400, size := 3110400 }
        { data := some { size := 3110400, pts := 2500000000 } }).map
        (fun x => (x.1, x.2.tv_sec, x.2.tv_usec, x.2.tv_sec * 1000000 + x.2.tv_usec))
      = some (0, 2, 2500000, 4500000)
    ∧ 2500000000 / 1000 = 2500000 :=
  ⟨rfl, rfl⟩

/-- C30: `setup` accepts a reply announcing 0 slots and one announcing 3
slots, storing the count as received while `memfd_mmap` maps the 2 entries
of the address table.  With 0 slots the first frame computes
`curr_no % 0` and `uvc_connection_sink_data` does not return; with 3 slots
two frames pass and the third reads `addr[2]`, outside the table. -/
theorem connection_slot_count_evaluated :
    (setup (created_connection 5 0) 32 64 { fd := 7, num := 0, size := 4096 }
        mapping_kernel).map (fun x => (x.1, x.2.mem.num, x.2.mem.addr))
      = some (0, 0, [4096, 8192])
    ∧ uvc_connection_sink_data (connected_connection 0)
        { data := some { size := 1000, pts := 5000 } } 64 = none
    ∧ (setup (created_connection 5 0) 32 64 { fd := 7, num := 3, size := 4096 }
        mapping_kernel).map (fun x => (x.1, x.2.mem.num, x.2.mem.addr))
      = some (0, 3, [4096, 8192])
    ∧ (run_connection_sink_data (connected_connection 3)
        [({ data := some { size := 1000, pts := 5000 } }, 64),
         ({ data := some { size := 1000, pts := 6000 } }, 64)]).map
        (fun x => (x.mem.curr_no, x.mem.num, x.mem.addr.length))
      = some (2, 3, 2)
    ∧ run_connection_sink_data (connected_connection 3)
        [({ data := some { size := 1000, pts := 5000 } }, 64),
         ({ data := some { size := 1000, pts := 6000 } }, 64),
         ({ data := some { size := 1000, pts := 7000 } }, 64)] = none :=
  ⟨rfl, rfl, rfl, rfl, rfl⟩

end Uvc
